import Mathlib

/-!
# UFS (NOR-flash file system) and LiteLink of OTA_STM32F4: shallow embedding and verification

The definitions below embed `src/Middle/ufs/ufs.c` (with the types of
`src/Middle/ufs/ufs_types.h`) and, further down, `src/Middle/llnet/llnet.c` and
`src/Middle/llnet/llnet_helper.c` (with the types of `llnet_types.h`).
Conventions of the embedding:

* a byte buffer (`uint8_t buf[]`, a sector buffer, the 32 raw bytes of an item
  record) is a function `Nat → Nat` from index to byte value;
* the flash is a function sector → offset → byte;
* machine integers are `Nat` (or `Int` where C computes on promoted `int`
  values that may be negative), with an explicit `% 2^w` wherever C narrows a
  value to a `w`-bit unsigned type;
* every C function becomes a function from the state it reads (the `UFS`
  object, the flash, the item handle) to the state it leaves and its return
  value;
* `do { } while` searches whose termination depends on the data take a fuel
  argument and return `none` when it runs out.

C leaves division by zero undefined; on the Cortex-M4 target `UDIV` and `SDIV`
return 0 for a zero divisor (and the remainder, computed from the quotient, is
the dividend), which is also what `/` and `%` give on `Nat` and `Int.tdiv` on
`Int`, so the embedding uses them as they are.  Heap allocation (`malloc`,
`realloc`, `calloc`) is taken to succeed.
-/

namespace Ufs

/-! ## Constants of `ufs.c`, `ufs_types.h`, `ufs_conf.h` -/

/-- Sector index of the boot sector (`BOOT_SECTOR_ID`). -/
def BOOT_SECTOR_ID : Nat := 0x00

/-- Byte used to encode and decode (`BYTE_CODEC_DEFAULT`). -/
def BYTE_CODEC_DEFAULT : Nat := 0xAA

/-- Maximum length of an item name (`MAX_NAME_LENGTH`). -/
def MAX_NAME_LENGTH : Nat := 16

/-- Size in bytes of `ufs_ItemInfo_Type` (16 + 3 + 1 + 4 + 2 + 2 + 4). -/
def sizeof_ItemInfo : Nat := 32

def UFS_OK : Nat := 0x00
def UFS_NOT_OK : Nat := 0x01

def UFS_BYTE_VALUE_AFTER_ERASE : Nat := 0xFF

def CHECKSUM_DISABLE : Nat := 0x00
def CHECKSUM_ENABLE : Nat := 0x01

def UFS_ENCODE_DISABLE : Nat := 0x00
def UFS_ENCODE_ENABLE : Nat := 0x01

def UFS_ITEM_FREE : Nat := 0x00
def UFS_FILE_EXIST : Nat := 0x02
def UFS_FOLDER_EXIST : Nat := 0x04

def UFS_CLUSTER_FREE : Nat := 0xFFFF
def UFS_CLUSTER_BAD : Nat := 0xFFFE
def UFS_CLUSTER_END : Nat := 0xFFFD

def UFS_ERROR_NONE : Nat := 0x00
def UFS_ERROR_FULL_MEM : Nat := 0x01
def UFS_ERROR_NOT_EXISTED : Nat := 0x05
def UFS_ERROR_ALLOCATE_MEM : Nat := 0x06
def UFS_ERROR_MEM_SECTOR_BAD : Nat := 0x08
def UFS_ERROR_FULL_FILE : Nat := 0x09
def UFS_ERROR_FULL_CLUSTER : Nat := 0x0A
def UFS_ERROR_INVALID_SECTOR : Nat := 0x0B
def UFS_ERROR_SUM_SECTOR_FAIL : Nat := 0x0C
def UFS_ERROR_ITEM_NOT_FILE : Nat := 0x0D

/-! ## Machine integers and buffers -/

/-- Narrowing to `uint8_t`. -/
def u8 (x : Nat) : Nat := x % 256

/-- Narrowing to `uint16_t`. -/
def u16 (x : Nat) : Nat := x % 65536

/-- Narrowing to `uint32_t`. -/
def u32 (x : Nat) : Nat := x % 4294967296

/-- Narrowing of an `int` value to `uint16_t`. -/
def u16i (x : Int) : Nat := (x % 65536).toNat

/-- Narrowing to `int16_t` (two's complement, as the ARM GCC target does). -/
def i16 (x : Nat) : Int := if x % 65536 < 32768 then ((x % 65536 : Nat) : Int) else ((x % 65536 : Nat) : Int) - 65536

/-- A byte buffer, index to byte. -/
abbrev Buf := Nat → Nat

/-- A buffer read as a C array of `n` bytes. -/
def bufList (b : Buf) (n : Nat) : List Nat := (List.range n).map b

/-- Assignment `b[i] = v`. -/
def setByte (b : Buf) (i v : Nat) : Buf := fun j => if j = i then v else b j

/-- Library `memset(dst, v, n)`. -/
def memset (dst : Buf) (v n : Nat) : Buf := fun j => if j < n then v else dst j

/-- Library `memcpy(&dst[doff], src, n)`. -/
def memcpy (dst : Buf) (doff : Nat) (src : Buf) (n : Nat) : Buf :=
  fun j => if doff ≤ j ∧ j < doff + n then src (j - doff) else dst j

/-- The buffer starting at `&b[off]`. -/
def bufAt (b : Buf) (off : Nat) : Buf := fun j => b (off + j)

/-- Read through `(uint16_t *)&b[off]` on the little-endian target. -/
def rd16 (b : Buf) (off : Nat) : Nat := b off + 256 * b (off + 1)

/-- Write through `(uint16_t *)&b[off]` on the little-endian target. -/
def wr16 (b : Buf) (off v : Nat) : Buf :=
  fun j => if j = off then v % 256 else if j = off + 1 then v / 256 % 256 else b j

/-- Read of a `uint32_t` stored at `&b[off]` on the little-endian target. -/
def rd32 (b : Buf) (off : Nat) : Nat :=
  b off + 256 * b (off + 1) + 65536 * b (off + 2) + 16777216 * b (off + 3)

/-- Write of a `uint32_t` at `&b[off]` on the little-endian target. -/
def wr32 (b : Buf) (off v : Nat) : Buf :=
  fun j => if j = off then v % 256 else if j = off + 1 then v / 256 % 256
    else if j = off + 2 then v / 65536 % 256 else if j = off + 3 then v / 16777216 % 256 else b j

/-! ## Types of `ufs_types.h` -/

/-- Geometry constants of `ufs_Api_Type` (the function pointers are the block
device modelled below). -/
structure ufs_Api_Type where
  u16numberByteOfSector : Nat
  u16numberSectorOfBlock : Nat
  u32numberSectorOfDevice : Nat

/-- Configuration `ufs_Cfg_Type`; each entry of the extension list is the three
bytes of one extension. -/
structure ufs_Cfg_Type where
  api : ufs_Api_Type
  u8NumberEncodeFileExtension : Nat
  u8NumberFileMaxOfDevice : Nat
  pExtensionEncodeFileList : List Buf

/-- Location `ufs_Location_Type`. -/
structure ufs_Location_Type where
  sector_id : Nat
  position : Nat

/-- The file-system object `UFS` (the path name string is not used by the
functions embedded here and is left out). -/
structure UFS where
  ItemZoneFirstSector : Nat
  ClusterMappingZoneFirstSector : Nat
  ClusterDataZoneFirstSector : Nat
  NumberSectorOfCluster : Nat
  DeviceId : Buf
  UsedSize : Int
  conf : ufs_Cfg_Type
  latest_cluster : ufs_Location_Type
  path_id : Nat

/-- The item handle `ufs_Item_Type`.  `info` is the union `ufs_ItemInfo_Type`
seen as its 32 raw bytes; `ufs` tells whether the back pointer is non-NULL. -/
structure ufs_Item_Type where
  location : ufs_Location_Type
  clusters_value : Nat → Nat
  clusters_length : Nat
  info : Buf
  status : Nat
  err : Nat
  ufs : Bool
  EncodeEnable : Nat

/-! ### Member assignments

One function per assigned member, so that a C assignment `item->err = e` reads
`item.withErr e`. -/

def ufs_Item_Type.withLocation (item : ufs_Item_Type) (sector_id position : Nat) : ufs_Item_Type :=
  { item with location := { sector_id := sector_id, position := position } }

def ufs_Item_Type.withClusters (item : ufs_Item_Type) (value : Nat → Nat) (length : Nat) :
    ufs_Item_Type :=
  { item with clusters_value := value, clusters_length := length }

def ufs_Item_Type.withInfo (item : ufs_Item_Type) (info : Buf) : ufs_Item_Type :=
  { item with info := info }

def ufs_Item_Type.withStatus (item : ufs_Item_Type) (status : Nat) : ufs_Item_Type :=
  { item with status := status }

def ufs_Item_Type.withErr (item : ufs_Item_Type) (err : Nat) : ufs_Item_Type :=
  { item with err := err }

def ufs_Item_Type.withUfs (item : ufs_Item_Type) (ufs : Bool) : ufs_Item_Type :=
  { item with ufs := ufs }

def ufs_Item_Type.withEncodeEnable (item : ufs_Item_Type) (e : Nat) : ufs_Item_Type :=
  { item with EncodeEnable := e }

def UFS.withUsedSize (ufs : UFS) (UsedSize : Int) : UFS :=
  { ufs with UsedSize := UsedSize }

def UFS.withLatest (ufs : UFS) (sector_id position : Nat) : UFS :=
  { ufs with latest_cluster := { sector_id := sector_id, position := position } }

def UFS.withPathId (ufs : UFS) (path_id : Nat) : UFS :=
  { ufs with path_id := path_id }

/-! ### Views of the union `ufs_ItemInfo_Type`

`comp.name.head` is bytes 0..15, `comp.name.extention` bytes 16..18,
`comp.name.length` byte 19, `comp.first_cluster.sector_id` bytes 20..21,
`comp.first_cluster.position` bytes 22..23, `comp.parent` bytes 24..25,
`comp.revert` bytes 26..27 and `comp.size` bytes 28..31. -/

def info_head (info : Buf) : Buf := bufAt info 0
def info_extention (info : Buf) : Buf := bufAt info 16
def info_length (info : Buf) : Nat := info 19
def info_first_sector_id (info : Buf) : Nat := rd16 info 20
def info_first_position (info : Buf) : Nat := rd16 info 22
def info_parent (info : Buf) : Nat := rd16 info 24
def info_size (info : Buf) : Nat := rd32 info 28

def set_info_length (info : Buf) (v : Nat) : Buf := setByte info 19 (u8 v)
def set_info_first_sector_id (info : Buf) (v : Nat) : Buf := wr16 info 20 v
def set_info_first_position (info : Buf) (v : Nat) : Buf := wr16 info 22 v
def set_info_parent (info : Buf) (v : Nat) : Buf := wr16 info 24 v
def set_info_size (info : Buf) (v : Nat) : Buf := wr32 info 28 v

/-! ## The block device

The driver behind `ufs_Api_Type` (`W25qxx_*`) is not part of the sources. -/

/-- The flash array: sector, offset in the sector, byte. -/
abbrev Flash := Nat → Nat → Nat

/-- Modelled from the spec: the block-device hook `ReadSector(sector, buf, len)`
(the W25Qxx driver is missing); it copies the first `len` bytes of the sector
into the buffer. -/
def ReadSector (fl : Flash) (sector : Nat) (buf : Buf) (len : Nat) : Buf :=
  fun i => if i < len then fl sector i else buf i

/-- Modelled from the spec: the block-device hook `WriteSector(sector, buf, len)`
(the W25Qxx driver is missing); a write may only turn bits from 1 to 0, so each
byte becomes the bitwise AND of its old value and the written one. -/
def WriteSector (fl : Flash) (sector : Nat) (buf : Buf) (len : Nat) : Flash :=
  fun s i => if s = sector ∧ i < len then fl s i &&& buf i else fl s i

/-- Modelled from the spec: the block-device hook `EraseSector(sector)` (the
W25Qxx driver is missing); erase yields `0xFF` bytes. -/
def EraseSector (fl : Flash) (sector : Nat) : Flash :=
  fun s i => if s = sector then 0xFF else fl s i

/-- Modelled from the spec: the block-device hook `EraseBlock(block)` (the
W25Qxx driver is missing); it erases the `Sblk` sectors of the block. -/
def EraseBlock (api : ufs_Api_Type) (fl : Flash) (block : Nat) : Flash :=
  fun s i => if block * api.u16numberSectorOfBlock ≤ s ∧ s < (block + 1) * api.u16numberSectorOfBlock
    then 0xFF else fl s i

/-! ## `ufs_BytesCmp`, `ufs_CheckSum` and the item-zone codec -/

/-- Function `ufs_BytesCmp`: `UFS_OK` iff the first `u16NumbOfByte` bytes agree. -/
def ufs_BytesCmp (pSrcData pDesData : Buf) (u16NumbOfByte : Nat) : Nat :=
  if (List.range u16NumbOfByte).all (fun countByte => pSrcData countByte == pDesData countByte)
  then UFS_OK else UFS_NOT_OK

/-- Function `ufs_CheckSum`: the `uint8_t` accumulator adds each byte, then is XORed
with `BYTE_CODEC_DEFAULT`. -/
def ufs_CheckSum (data : Buf) (len : Nat) : Nat :=
  ((List.range len).foldl (fun checksum i => u8 (checksum + data i)) 0) ^^^ BYTE_CODEC_DEFAULT

/-- One step of the header codec loops of `ufs.c`:
`if (b != 0x00) b ^= BYTE_CODEC_DEFAULT`. -/
def codecByte (b : Nat) : Nat := if b ≠ 0x00 then b ^^^ BYTE_CODEC_DEFAULT else b

/-- The header codec loop over the `u16numberByteOfSector` bytes of a sector
buffer (used both to decode after a read and to encode before a write). -/
def codecSector (data_sector : Buf) (nByte : Nat) : Buf :=
  fun countByte => if countByte < nByte then codecByte (data_sector countByte) else data_sector countByte

/-! ## `ufs_RemoveSpecialChars` and `ufs_ParseNameFile`

A C string is the list of its bytes before the terminating NUL. -/

/-- Library `isalnum` in the C locale. -/
def isalnum (c : Nat) : Bool :=
  (48 ≤ c && c ≤ 57) || (65 ≤ c && c ≤ 90) || (97 ≤ c && c ≤ 122)

/-- Function `ufs_RemoveSpecialChars`: keeps the alphanumeric characters and the dots. -/
def ufs_RemoveSpecialChars (str : List Nat) : List Nat :=
  str.filter (fun c => isalnum c || c == 46)

/-- Library `strtok_r(s, ".", &saveptr)` as newlib implements it: leading dots
are skipped; without a token the result is `none`; otherwise the token and the
new `saveptr`, which is the index after the dot that ended the token, or `none`
(NULL) when the token ran to the end of the string. -/
def strtok_r (s : List Nat) (start : Nat) : Option (List Nat × Option Nat) :=
  let k := start + ((s.drop start).takeWhile (fun c => c == 46)).length
  let tok := (s.drop k).takeWhile (fun c => c != 46)
  if tok.length = 0 then none
  else if k + tok.length < s.length then some (tok, some (k + tok.length + 1))
  else some (tok, none)

/-- Library `strncpy(&dst[0], src, n)`: exactly `n` bytes are written, the
characters of `src` and then zeros. -/
def strncpy (dst : Buf) (doff : Nat) (src : List Nat) (n : Nat) : Buf :=
  fun j => if doff ≤ j ∧ j < doff + n then src.getD (j - doff) 0 else dst j

/-- Library `strlen` on a buffer: the index of the first zero byte (searched
among the first 256 bytes, the result being narrowed to `uint8_t` by the caller). -/
def strlen (b : Buf) : Nat :=
  ((List.range 256).find? (fun i => b i == 0)).getD 256

/-- Function `ufs_ParseNameFile`, writing the `name` member (bytes 0..19) of the
item record `info`. -/
def ufs_ParseNameFile (name : List Nat) (info : Buf) : Buf :=
  let name := ufs_RemoveSpecialChars name
  let info := memset info 0x00 MAX_NAME_LENGTH
  let info := memcpy info 16 (fun _ => 0x00) 3
  let info := set_info_length info 0
  match strtok_r name 0 with
  | none => info
  | some (token, some saveptr) =>
    let info := set_info_length info (saveptr - 1)
    let info := strncpy info 0 token (info_length info)
    match strtok_r name saveptr with
    | none => info
    | some (token2, _) => strncpy info 16 token2 3
  | some (token, none) =>
    let info := strncpy info 0 token name.length
    set_info_length info (strlen info)

/-! ## Cluster map access -/

/-- Result of a function that returns a status and may change the `UFS` object,
the flash and a cluster vector. -/
structure ClusterResult where
  ufs : UFS
  fl : Flash
  clusters : Nat → Nat
  ret : Nat

/-- Result of a function working on an item handle. -/
structure ItemResult where
  ufs : UFS
  fl : Flash
  item : ufs_Item_Type
  ret : Nat

/-- Number of 16-bit map entries in one sector, `u16numberByteOfSector / 2`. -/
def halfSector (ufs : UFS) : Nat := ufs.conf.api.u16numberByteOfSector / 2

/-- The sector read `ReadSector(ClusterMappingZoneFirstSector + idSector, data_sector, Ssec)`. -/
def readMapSector (ufs : UFS) (fl : Flash) (idSector : Nat) (data_sector : Buf) : Buf :=
  ReadSector fl (u16 (ufs.ClusterMappingZoneFirstSector + idSector)) data_sector
    ufs.conf.api.u16numberByteOfSector

/-- The pair `EraseSector(ClusterMappingZoneFirstSector + idSector)`,
`WriteSector(ClusterMappingZoneFirstSector + idSector, data_sector, Ssec)`. -/
def flushMapSector (ufs : UFS) (fl : Flash) (idSector : Nat) (data_sector : Buf) : Flash :=
  WriteSector (EraseSector fl (u16 (ufs.ClusterMappingZoneFirstSector + idSector)))
    (u16 (ufs.ClusterMappingZoneFirstSector + idSector)) data_sector
    ufs.conf.api.u16numberByteOfSector

/-- The cluster size expression `u16numberByteOfSector * NumberSectorOfCluster`. -/
def clusterBytes (ufs : UFS) : Nat :=
  ufs.conf.api.u16numberByteOfSector * ufs.NumberSectorOfCluster

/-- The expression `(u32numberSectorOfDevice - ClusterDataZoneFirstSector) / NumberSectorOfCluster`
(unsigned 32-bit arithmetic). -/
def clusterLimit (ufs : UFS) : Nat :=
  u32 (ufs.conf.api.u32numberSectorOfDevice + 4294967296 - ufs.ClusterDataZoneFirstSector)
    / ufs.NumberSectorOfCluster

/-- Assignment `v[i] = x` on a cluster vector. -/
def setSlot (v : Nat → Nat) (i x : Nat) : Nat → Nat := fun j => if j = i then x else v j

/-- Result of `ufs_CleanClusters`: it may change `UsedSize` and the flash. -/
structure CleanResult where
  ufs : UFS
  fl : Flash
  ret : Nat

/-! ## `ufs_GetListCluster` -/

/-- The expression `(size + cluster_size - 1) / cluster_size + 1` in unsigned
32-bit arithmetic, used by `ufs_GetListCluster` and `ufs_WriteFile`. -/
def numberClusters (ufs : UFS) (size : Nat) : Nat :=
  u32 (u32 (size + u32 (clusterBytes ufs) + 4294967295) / u32 (clusterBytes ufs) + 1)

/-- The value given to `clusters.length` by `ufs_GetListCluster` (one more for
an empty file), a `uint16_t`. -/
def ufs_GetListCluster_length (ufs : UFS) (info : Buf) : Nat :=
  if info_size info = 0 then u16 (u16 (numberClusters ufs (info_size info)) + 1)
  else u16 (numberClusters ufs (info_size info))

/-- The value given to `clusters.value[0]` by `ufs_GetListCluster`. -/
def ufs_GetListCluster_first (ufs : UFS) (info : Buf) : Nat :=
  u16 (info_first_sector_id info * halfSector ufs + info_first_position info)

/-- The cluster vector of `ufs_GetListCluster` before its loop: `memset` to
`0xFF`, then entry 0. -/
def ufs_GetListCluster_init (ufs : UFS) (item : ufs_Item_Type) : Nat → Nat :=
  setSlot (fun i => if i < ufs_GetListCluster_length ufs item.info then 0xFFFF
    else item.clusters_value i) 0 (ufs_GetListCluster_first ufs item.info)

/-- The `for (countSlot = 1; countSlot < length; countSlot++)` loop of
`ufs_GetListCluster`; the first argument counts the iterations left.  The
second component of the result is the value of an early `return`
(`UFS_NOT_OK` for a bad cluster), `none` when the loop ran to its end. -/
def ufs_GetListCluster_loop (ufs : UFS) (fl : Flash) :
    Nat → Nat → (Nat → Nat) → Nat → Buf → (Nat → Nat) × Option Nat
  | 0, _, value, _, _ => (value, none)
  | n + 1, countSlot, value, idSector_old, data_sector =>
    let idSector := value (countSlot - 1) / halfSector ufs
    let position := value (countSlot - 1) % halfSector ufs
    let data_sector := if idSector_old ≠ idSector
      then readMapSector ufs fl idSector data_sector else data_sector
    let next := rd16 data_sector (position * 2)
    if next = UFS_CLUSTER_END then (setSlot value countSlot next, some UFS_OK)
    else if next = UFS_CLUSTER_FREE then (setSlot value countSlot UFS_CLUSTER_END, some UFS_OK)
    else if next = UFS_CLUSTER_BAD then (setSlot value countSlot next, some UFS_NOT_OK)
    else ufs_GetListCluster_loop ufs fl n (countSlot + 1) (setSlot value countSlot next)
      idSector data_sector

/-- The end of `ufs_GetListCluster`, from the outcome of its loop. -/
def ufs_GetListCluster_done (item : ufs_Item_Type) (length : Nat) (r : (Nat → Nat) × Option Nat) :
    ufs_Item_Type × Nat :=
  match r.2 with
  | some ret =>
    ((item.withClusters r.1 length).withErr
      (if ret = UFS_NOT_OK then UFS_ERROR_MEM_SECTOR_BAD else item.err), ret)
  | none => (item.withClusters (setSlot r.1 (length - 1) UFS_CLUSTER_END) length, UFS_OK)

/-- Function `ufs_GetListCluster`; returns the updated handle and the status. -/
def ufs_GetListCluster (ufs : UFS) (fl : Flash) (item : ufs_Item_Type) : ufs_Item_Type × Nat :=
  ufs_GetListCluster_done item (ufs_GetListCluster_length ufs item.info)
    (ufs_GetListCluster_loop ufs fl (ufs_GetListCluster_length ufs item.info - 1) 1
      (ufs_GetListCluster_init ufs item)
      (ufs_GetListCluster_first ufs item.info / halfSector ufs)
      (readMapSector ufs fl (ufs_GetListCluster_first ufs item.info / halfSector ufs) (fun _ => 0)))

/-! ## `ufs_CleanClusters` -/

/-- Loop state of `ufs_CleanClusters`: flash, sector buffer, `idSector_old`
(equal to `idSector` after every iteration) and `UsedSize`. -/
structure CleanState where
  fl : Flash
  data_sector : Buf
  idSector : Nat
  UsedSize : Int

/-- The statement `if (*valueSlot != UFS_CLUSTER_BAD) *valueSlot = UFS_CLUSTER_FREE`
on the slot at `position` of the sector buffer. -/
def freeUnlessBad (data_sector : Buf) (position : Nat) : Buf :=
  if rd16 data_sector (position * 2) ≠ UFS_CLUSTER_BAD
  then wr16 data_sector (position * 2) UFS_CLUSTER_FREE else data_sector

/-- The statement `UsedSize -= Ssec * NSC; if (UsedSize < 0) UsedSize = 0`. -/
def usedSizeSub (ufs : UFS) (UsedSize : Int) : Int :=
  if UsedSize - (clusterBytes ufs : Int) < 0 then 0 else UsedSize - (clusterBytes ufs : Int)

/-- The body of the loop of `ufs_CleanClusters` for the vector entry `cluster`
(`clusters[countSlot - 1]`). -/
def ufs_CleanClusters_step (ufs : UFS) (cluster : Nat) (st : CleanState) : CleanState :=
  if st.idSector ≠ cluster / halfSector ufs then
    { fl := flushMapSector ufs st.fl st.idSector st.data_sector
      data_sector := freeUnlessBad
        (readMapSector ufs (flushMapSector ufs st.fl st.idSector st.data_sector)
          (cluster / halfSector ufs) st.data_sector) (cluster % halfSector ufs)
      idSector := cluster / halfSector ufs
      UsedSize := usedSizeSub ufs st.UsedSize }
  else
    { fl := st.fl
      data_sector := freeUnlessBad st.data_sector (cluster % halfSector ufs)
      idSector := cluster / halfSector ufs
      UsedSize := usedSizeSub ufs st.UsedSize }

/-- The `for (int16_t countSlot = length - 1; countSlot > 0; countSlot--)` loop
of `ufs_CleanClusters`; the first argument is `countSlot`. -/
def ufs_CleanClusters_loop (ufs : UFS) (clusters : Nat → Nat) : Nat → CleanState → CleanState
  | 0, st => st
  | countSlot + 1, st =>
    ufs_CleanClusters_loop ufs clusters countSlot (ufs_CleanClusters_step ufs (clusters countSlot) st)

/-- The state of `ufs_CleanClusters` before its loop: the sector of
`clusters[length - 2]` is read. -/
def ufs_CleanClusters_start (ufs : UFS) (fl : Flash) (clusters : Nat → Nat) (length : Nat) :
    CleanState :=
  { fl := fl
    data_sector := readMapSector ufs fl (clusters (length - 2) / halfSector ufs) (fun _ => 0)
    idSector := clusters (length - 2) / halfSector ufs
    UsedSize := ufs.UsedSize }

/-- The end of `ufs_CleanClusters`: the sector buffer is written back and
`UsedSize` stored. -/
def ufs_CleanClusters_finish (ufs : UFS) (st : CleanState) : CleanResult :=
  { ufs := ufs.withUsedSize st.UsedSize
    fl := flushMapSector ufs st.fl st.idSector st.data_sector
    ret := UFS_OK }

/-- Function `ufs_CleanClusters`.  The loop counter is an `int16_t` initialised
with `length - 1`. -/
def ufs_CleanClusters (ufs : UFS) (fl : Flash) (clusters : Nat → Nat) (length : Nat) : CleanResult :=
  if length < 2 then { ufs := ufs, fl := fl, ret := UFS_NOT_OK }
  else ufs_CleanClusters_finish ufs
    (ufs_CleanClusters_loop ufs clusters (i16 (length - 1)).toNat
      (ufs_CleanClusters_start ufs fl clusters length))

/-! ## The free cluster search and `ufs_OrderClusters` -/

/-- The first wrap test of the inner search loop,
`if (countSegment >= Ssec / 2) countSegment = 0`. -/
def wrapHalf (ufs : UFS) (countSegment : Nat) : Nat :=
  if countSegment ≥ halfSector ufs then 0x00 else countSegment

/-- The second wrap test of the inner search loop,
`if (countSegment >= (Ndev - DataFirst) / NSC) countSegment = 0`. -/
def wrapLimit (ufs : UFS) (countSegment : Nat) : Nat :=
  if countSegment ≥ clusterLimit ufs then 0 else countSegment

/-- The head of the inner search loop: `++countSegment` with its two wrap tests. -/
def nextSegment (ufs : UFS) (countSegment : Nat) : Nat :=
  wrapLimit ufs (wrapHalf ufs (u16 (countSegment + 1)))

/-- The first wrap test of the outer search loop,
`if (countSector >= DataFirst - MapFirst) countSector = 0` (a comparison of `int` values). -/
def wrapZone (ufs : UFS) (countSector : Nat) : Nat :=
  if (countSector : Int) ≥
      (ufs.ClusterDataZoneFirstSector : Int) - (ufs.ClusterMappingZoneFirstSector : Int)
  then 0x00 else countSector

/-- The second wrap test of the outer search loop.  The search is written twice
in `ufs.c`: in `ufs_OrderClusters` the test is
`countSector * (Ssec / 2) >= (Ndev - DataFirst) / NSC` (`strict = false`), in
`ufs_OpenItem` it is `countSector * (Ssec / 2) > (Ndev - DataFirst) / NSC`
(`strict = true`). -/
def wrapSector (strict : Bool) (ufs : UFS) (countSector : Nat) : Nat :=
  if (if strict then countSector * halfSector ufs > clusterLimit ufs
      else countSector * halfSector ufs ≥ clusterLimit ufs)
  then 0 else countSector

/-- The head of the outer search loop: `++countSector` with its two wrap tests. -/
def nextSector (strict : Bool) (ufs : UFS) (countSector : Nat) : Nat :=
  wrapSector strict ufs (wrapZone ufs (u16 (countSector + 1)))

/-- Inner `do { } while (countSegment != latest_cluster.position)` of the free
cluster search.  Result: `none` when the fuel runs out, `some none` when the
loop ends without a free slot, `some (some s)` when slot `s` of the sector
buffer is free. -/
def searchSegment (ufs : UFS) (data_sector : Buf) : Nat → Nat → Option (Option Nat)
  | 0, _ => none
  | fuel + 1, countSegment =>
    if rd16 data_sector (nextSegment ufs countSegment * 2) = UFS_CLUSTER_FREE
    then some (some (nextSegment ufs countSegment))
    else if nextSegment ufs countSegment ≠ ufs.latest_cluster.position
    then searchSegment ufs data_sector fuel (nextSegment ufs countSegment)
    else some none

/-- Outcome of a free cluster search: the final `countSector`, the sector
buffer, and the free segment found there if any. -/
structure SearchResult where
  countSector : Nat
  data_sector : Buf
  found : Option Nat

/-- Outer `do { } while (countSector != latest_cluster.sector_id)` of the free
cluster search; `segFuel` is the fuel of each inner loop.  Result `none` when
the fuel runs out. -/
def searchSector (strict : Bool) (ufs : UFS) (fl : Flash) (segFuel : Nat) :
    Nat → Nat → Buf → Option SearchResult
  | 0, _, _ => none
  | fuel + 1, countSector, data_sector =>
    match searchSegment ufs (readMapSector ufs fl (nextSector strict ufs countSector) data_sector)
        segFuel ufs.latest_cluster.position with
    | none => none
    | some (some countSegment) =>
      some { countSector := nextSector strict ufs countSector
             data_sector := readMapSector ufs fl (nextSector strict ufs countSector) data_sector
             found := some countSegment }
    | some none =>
      if nextSector strict ufs countSector ≠ ufs.latest_cluster.sector_id
      then searchSector strict ufs fl segFuel fuel (nextSector strict ufs countSector)
        (readMapSector ufs fl (nextSector strict ufs countSector) data_sector)
      else some { countSector := nextSector strict ufs countSector
                  data_sector := readMapSector ufs fl (nextSector strict ufs countSector) data_sector
                  found := none }

/-- State of the allocation loop of `ufs_OrderClusters`. -/
structure OrderState where
  ufs : UFS
  fl : Flash
  clusters : Nat → Nat
  countSector : Nat
  data_sector : Buf

/-- The statements of `ufs_OrderClusters` executed when the search finds the
free slot `countSegment` of map sector `countSector`: the cluster number is
stored, the cursor moved, and the block of the cluster erased when a cluster is
one block. -/
def ufs_OrderClusters_take (st : OrderState) (count_cluster : Nat) (r : SearchResult)
    (countSegment : Nat) : OrderState :=
  { ufs := st.ufs.withLatest r.countSector countSegment
    fl := if st.ufs.NumberSectorOfCluster = st.ufs.conf.api.u16numberSectorOfBlock
      then EraseBlock st.ufs.conf.api st.fl
        (u16 (u16 (st.ufs.ClusterDataZoneFirstSector +
            u16 (r.countSector * halfSector st.ufs + countSegment) * st.ufs.NumberSectorOfCluster)
          / st.ufs.NumberSectorOfCluster))
      else st.fl
    clusters := setSlot st.clusters count_cluster
      (u16 (r.countSector * halfSector st.ufs + countSegment))
    countSector := r.countSector
    data_sector := r.data_sector }

/-- The state of `ufs_OrderClusters` after one search, found or not. -/
def ufs_OrderClusters_after (st : OrderState) (count_cluster : Nat) (r : SearchResult) :
    OrderState :=
  match r.found with
  | none => { ufs := st.ufs, fl := st.fl, clusters := setSlot st.clusters count_cluster 0xFFFF
              countSector := r.countSector, data_sector := r.data_sector }
  | some countSegment => ufs_OrderClusters_take st count_cluster r countSegment

/-- The first `for (count_cluster = 0; count_cluster < length - 1; count_cluster++)`
loop of `ufs_OrderClusters`; the second argument counts the iterations left.
Result: `none` when a search runs out of fuel, otherwise the state and whether
the loop ended by `return UFS_NOT_OK`. -/
def ufs_OrderClusters_alloc (fuel : Nat) : Nat → Nat → OrderState → Option (OrderState × Bool)
  | 0, _, st => some (st, false)
  | n + 1, count_cluster, st =>
    match searchSector false st.ufs st.fl fuel fuel st.countSector st.data_sector with
    | none => none
    | some r =>
      if (ufs_OrderClusters_after st count_cluster r).clusters count_cluster = 0xFFFF
      then some (ufs_OrderClusters_after st count_cluster r, true)
      else ufs_OrderClusters_alloc fuel n (count_cluster + 1)
        (ufs_OrderClusters_after st count_cluster r)

/-- State of the linking loop of `ufs_OrderClusters`. -/
structure LinkState where
  fl : Flash
  data_sector : Buf
  sector_old : Nat
  UsedSize : Int

/-- The body of the second loop of `ufs_OrderClusters`: the map slot of
`cluster` receives `next`. -/
def ufs_OrderClusters_linkStep (ufs : UFS) (cluster next : Nat) (st : LinkState) : LinkState :=
  if st.sector_old ≠ cluster / halfSector ufs then
    { fl := flushMapSector ufs st.fl st.sector_old st.data_sector
      data_sector := wr16
        (readMapSector ufs (flushMapSector ufs st.fl st.sector_old st.data_sector)
          (cluster / halfSector ufs) st.data_sector) (cluster % halfSector ufs * 2) next
      sector_old := cluster / halfSector ufs
      UsedSize := st.UsedSize + (clusterBytes ufs : Int) }
  else
    { fl := st.fl
      data_sector := wr16 st.data_sector (cluster % halfSector ufs * 2) next
      sector_old := cluster / halfSector ufs
      UsedSize := st.UsedSize + (clusterBytes ufs : Int) }

/-- The second `for` loop of `ufs_OrderClusters` (link every cluster to the
next); the second argument counts the iterations left. -/
def ufs_OrderClusters_link (ufs : UFS) (clusters : Nat → Nat) : Nat → Nat → LinkState → LinkState
  | 0, _, st => st
  | n + 1, count_cluster, st =>
    ufs_OrderClusters_link ufs clusters n (count_cluster + 1)
      (ufs_OrderClusters_linkStep ufs (clusters count_cluster) (clusters (count_cluster + 1)) st)

/-- The second half of `ufs_OrderClusters` (lines 398..431), once every cluster
is allocated. -/
def ufs_OrderClusters_finish (st : OrderState) (length : Nat) (ln : LinkState) : ClusterResult :=
  { ufs := st.ufs.withUsedSize ln.UsedSize
    fl := flushMapSector st.ufs ln.fl ln.sector_old ln.data_sector
    clusters := setSlot st.clusters (length - 1) UFS_CLUSTER_END
    ret := UFS_OK }

/-- The state of the linking loop at its start: the sector of `clusters[0]` is read. -/
def ufs_OrderClusters_linkStart (st : OrderState) (length : Nat) : LinkState :=
  { fl := st.fl
    data_sector := readMapSector st.ufs st.fl
      (setSlot st.clusters (length - 1) UFS_CLUSTER_END 0 / halfSector st.ufs) st.data_sector
    sector_old := setSlot st.clusters (length - 1) UFS_CLUSTER_END 0 / halfSector st.ufs
    UsedSize := st.ufs.UsedSize }

/-- Function `ufs_OrderClusters`; `none` when a search runs out of fuel. -/
def ufs_OrderClusters (fuel : Nat) (ufs : UFS) (fl : Flash) (clusters : Nat → Nat) (length : Nat) :
    Option ClusterResult :=
  if length < 2 then some { ufs := ufs, fl := fl, clusters := clusters, ret := UFS_NOT_OK }
  else
    match ufs_OrderClusters_alloc fuel (length - 1) 0
      { ufs := ufs, fl := fl, clusters := clusters,
        countSector := ufs.latest_cluster.sector_id, data_sector := fun _ => 0 } with
    | none => none
    | some (st, true) =>
      some { ufs := st.ufs, fl := st.fl, clusters := st.clusters, ret := UFS_NOT_OK }
    | some (st, false) =>
      some (ufs_OrderClusters_finish st length
        (ufs_OrderClusters_link st.ufs (setSlot st.clusters (length - 1) UFS_CLUSTER_END)
          (length - 1) 0 (ufs_OrderClusters_linkStart st length)))

/-! ## `ufs_SetClusterMap` and `ufs_UpdateItemInfo` -/

/-- Function `ufs_SetClusterMap` (it always returns `UFS_OK`); the result is the flash. -/
def ufs_SetClusterMap (ufs : UFS) (fl : Flash) (cluster_index value : Nat) : Flash :=
  flushMapSector ufs fl (cluster_index / halfSector ufs)
    (wr16 (readMapSector ufs fl (cluster_index / halfSector ufs) (fun _ => 0))
      (cluster_index % halfSector ufs * 2) value)

/-- The six statements that store an item record, written in
`ufs_UpdateItemInfo` and again in `ufs_OpenItem`: the sector of the item zone is
read and decoded, the 32 bytes of `info` copied at `position`, the buffer
encoded, the sector erased and written. -/
def writeItemRecord (ufs : UFS) (fl : Flash) (sector_id position : Nat) (info : Buf)
    (data_sector : Buf) : Flash :=
  WriteSector (EraseSector fl (u16 (ufs.ItemZoneFirstSector + sector_id)))
    (u16 (ufs.ItemZoneFirstSector + sector_id))
    (codecSector
      (memcpy
        (codecSector
          (ReadSector fl (u16 (ufs.ItemZoneFirstSector + sector_id)) data_sector
            ufs.conf.api.u16numberByteOfSector)
          ufs.conf.api.u16numberByteOfSector)
        (position * sizeof_ItemInfo) info sizeof_ItemInfo)
      ufs.conf.api.u16numberByteOfSector)
    ufs.conf.api.u16numberByteOfSector

/-- Function `ufs_UpdateItemInfo`; returns the flash, the handle and the status. -/
def ufs_UpdateItemInfo (ufs : UFS) (fl : Flash) (item : ufs_Item_Type) :
    Flash × ufs_Item_Type × Nat :=
  if item.err ≠ UFS_ERROR_NONE ∨ item.location.sector_id = 0xFFFF then
    (fl, item.withErr UFS_ERROR_INVALID_SECTOR, UFS_NOT_OK)
  else
    (writeItemRecord ufs fl item.location.sector_id item.location.position item.info (fun _ => 0),
      item, UFS_OK)

/-! ## `ufs_FastFormat` -/

/-- Value of `ClusterMappingZoneFirstSector` computed by `ufs_FastFormat`. -/
def format_ClusterMappingZoneFirstSector (conf : ufs_Cfg_Type) : Nat :=
  u16 ((sizeof_ItemInfo * conf.u8NumberFileMaxOfDevice) / u16 conf.api.u16numberByteOfSector + 0x01 + 1)

/-- Value of `numberSectorForClusterMapping` computed by `ufs_FastFormat`; the
subtraction is made on `int` values. -/
def format_numberSectorForClusterMapping (conf : ufs_Cfg_Type) : Nat :=
  u16i (Int.tdiv
    (((u16 conf.api.u32numberSectorOfDevice : Nat) : Int) -
      ((format_ClusterMappingZoneFirstSector conf : Int) + 1))
    ((u16 (u16 conf.api.u16numberByteOfSector / 2) : Nat) : Int) + 1)

/-- Value of `numberSectorMaxForClusterMapping` computed by `ufs_FastFormat`. -/
def format_numberSectorMaxForClusterMapping (conf : ufs_Cfg_Type) : Nat :=
  u16 (u16 conf.api.u32numberSectorOfDevice / 50)

/-- Value of `NumberSectorOfCluster` computed by `ufs_FastFormat`. -/
def format_NumberSectorOfCluster (conf : ufs_Cfg_Type) : Nat :=
  if conf.api.u16numberSectorOfBlock ≠ 0 ∧
      u16 (format_numberSectorForClusterMapping conf / format_numberSectorMaxForClusterMapping conf + 1)
        < conf.api.u16numberSectorOfBlock
  then conf.api.u16numberSectorOfBlock
  else u16 (format_numberSectorForClusterMapping conf / format_numberSectorMaxForClusterMapping conf + 1)

/-- Value of `ClusterDataZoneFirstSector` computed by `ufs_FastFormat`, rounded
up to a multiple of 16 by `(x + 0x0F) & ~0x0F`. -/
def format_ClusterDataZoneFirstSector (conf : ufs_Cfg_Type) : Nat :=
  u16 ((u16 (format_ClusterMappingZoneFirstSector conf +
      (if format_NumberSectorOfCluster conf ≠ 1 then format_numberSectorMaxForClusterMapping conf
       else format_numberSectorForClusterMapping conf) + 1) + 0x0F) &&& 0xFFFFFFF0)

/-- The `UFS` object after the zone computation of `ufs_FastFormat` (lines
552..581).  `uid` is the eight bytes that the `ReadUniqueID` hook leaves in
`DeviceId`. -/
def ufs_FastFormat_geometry (ufs : UFS) (uid : Buf) : UFS :=
  { ufs with
    ItemZoneFirstSector := 0x01
    ClusterMappingZoneFirstSector := format_ClusterMappingZoneFirstSector ufs.conf
    NumberSectorOfCluster := format_NumberSectorOfCluster ufs.conf
    ClusterDataZoneFirstSector := format_ClusterDataZoneFirstSector ufs.conf
    DeviceId := memcpy ufs.DeviceId 0 uid 8 }

/-- The boot sector buffer of `ufs_FastFormat` before its three last bytes are
set (lines 584..598). -/
def ufs_FastFormat_bootHead (ufs : UFS) (sector_size : Nat) : Buf :=
  memcpy
    (setByte (setByte (setByte (setByte (setByte (setByte (setByte (setByte
      (setByte (setByte (setByte (memset (fun _ => 0) 0x00 sector_size)
        0 0x55) 1 0x46) 2 0x53)
        4 ((ufs.ItemZoneFirstSector >>> 8) &&& 0xFF)) 5 (ufs.ItemZoneFirstSector &&& 0xFF))
        6 ((ufs.ClusterMappingZoneFirstSector >>> 8) &&& 0xFF))
        7 (ufs.ClusterMappingZoneFirstSector &&& 0xFF))
        8 ((ufs.ClusterDataZoneFirstSector >>> 8) &&& 0xFF))
        9 (ufs.ClusterDataZoneFirstSector &&& 0xFF))
        10 ((ufs.NumberSectorOfCluster >>> 8) &&& 0xFF))
        11 (ufs.NumberSectorOfCluster &&& 0xFF))
    12 ufs.DeviceId 8

/-- The boot sector buffer of `ufs_FastFormat` before the checksum byte is set:
the end markers are in place (lines 601..602). -/
def ufs_FastFormat_bootMarked (ufs : UFS) (sector_size : Nat) : Buf :=
  setByte (setByte (ufs_FastFormat_bootHead ufs sector_size) (sector_size - 3) 0x0D)
    (sector_size - 2) 0x0A

/-- The boot sector buffer that `ufs_FastFormat` writes (line 603 sets the checksum). -/
def ufs_FastFormat_boot (ufs : UFS) (sector_size : Nat) : Buf :=
  setByte (ufs_FastFormat_bootMarked ufs sector_size) (sector_size - 1)
    (ufs_CheckSum (ufs_FastFormat_bootMarked ufs sector_size) (sector_size - 1))

/-- One iteration of the item-zone loop of `ufs_FastFormat` on the pair (flash,
buffer): the buffer gets `'/' ^ 0xAA` in its first byte when `countSector == 0`,
then the sector is written. -/
def ufs_FastFormat_itemStep (ufs : UFS) (sector_size : Nat) (st : Flash × Buf) (countSector : Nat) :
    Flash × Buf :=
  (WriteSector st.1 (u16 (ufs.ItemZoneFirstSector + countSector))
      (if countSector = 0 then setByte st.2 0 (0x2F ^^^ BYTE_CODEC_DEFAULT) else st.2) sector_size,
    if countSector = 0 then setByte st.2 0 (0x2F ^^^ BYTE_CODEC_DEFAULT) else st.2)

/-- The item-zone loop of `ufs_FastFormat`. -/
def ufs_FastFormat_items (ufs : UFS) (sector_size : Nat) (fl : Flash) (data_sector : Buf) :
    Flash × Buf :=
  (List.range (ufs.ClusterMappingZoneFirstSector - ufs.ItemZoneFirstSector)).foldl
    (ufs_FastFormat_itemStep ufs sector_size) (fl, data_sector)

/-- One iteration of the cluster-map loop of `ufs_FastFormat`: the buffer gets
`0xFF ^ 0xAA`, `0xFD ^ 0xAA` in its first two bytes when `countSector == 0`,
then the sector is written. -/
def ufs_FastFormat_mapStep (ufs : UFS) (sector_size : Nat) (st : Flash × Buf) (countSector : Nat) :
    Flash × Buf :=
  (WriteSector st.1 (u16 (ufs.ClusterMappingZoneFirstSector + countSector))
      (if countSector = 0
        then setByte (setByte st.2 0 (0xFF ^^^ BYTE_CODEC_DEFAULT)) 1 (0xFD ^^^ BYTE_CODEC_DEFAULT)
        else st.2) sector_size,
    if countSector = 0
      then setByte (setByte st.2 0 (0xFF ^^^ BYTE_CODEC_DEFAULT)) 1 (0xFD ^^^ BYTE_CODEC_DEFAULT)
      else st.2)

/-- The cluster-map loop of `ufs_FastFormat`. -/
def ufs_FastFormat_map (ufs : UFS) (sector_size : Nat) (fl : Flash) (data_sector : Buf) :
    Flash × Buf :=
  (List.range (ufs.ClusterDataZoneFirstSector - ufs.ClusterMappingZoneFirstSector)).foldl
    (ufs_FastFormat_mapStep ufs sector_size) (fl, data_sector)

/-- The flash after the two block erases and the boot sector write of
`ufs_FastFormat` (lines 548..606); `ufs` already holds the new geometry. -/
def ufs_FastFormat_bootWritten (ufs : UFS) (fl : Flash) : Flash :=
  WriteSector
    (EraseBlock ufs.conf.api (EraseBlock ufs.conf.api fl BOOT_SECTOR_ID) (BOOT_SECTOR_ID + 1))
    BOOT_SECTOR_ID (ufs_FastFormat_boot ufs (u16 ufs.conf.api.u16numberByteOfSector))
    (u16 ufs.conf.api.u16numberByteOfSector)

/-- The flash after the item-zone loop of `ufs_FastFormat` (lines 609..619),
with the buffer it leaves. -/
def ufs_FastFormat_itemsWritten (ufs : UFS) (fl : Flash) : Flash × Buf :=
  ufs_FastFormat_items ufs (u16 ufs.conf.api.u16numberByteOfSector)
    (ufs_FastFormat_bootWritten ufs fl)
    (memset (ufs_FastFormat_boot ufs (u16 ufs.conf.api.u16numberByteOfSector)) 0x00
      (u16 ufs.conf.api.u16numberByteOfSector))

/-- The flash that `ufs_FastFormat` leaves; `ufs` already holds the new geometry. -/
def ufs_FastFormat_flash (ufs : UFS) (fl : Flash) : Flash :=
  (ufs_FastFormat_map ufs (u16 ufs.conf.api.u16numberByteOfSector)
    (ufs_FastFormat_itemsWritten ufs fl).1
    (memset (ufs_FastFormat_itemsWritten ufs fl).2 0xFF (u16 ufs.conf.api.u16numberByteOfSector))).1

/-- Function `ufs_FastFormat` (it always returns `UFS_OK`); `uid` is the eight
bytes that the `ReadUniqueID` hook leaves in `DeviceId`.  The member
`latest_cluster` is not assigned. -/
def ufs_FastFormat (ufs : UFS) (fl : Flash) (uid : Buf) : UFS × Flash :=
  (((ufs_FastFormat_geometry ufs uid).withPathId 0).withUsedSize 0,
    ufs_FastFormat_flash (ufs_FastFormat_geometry ufs uid) fl)

/-! ## `ufs_CountItem`, `ufs_GetListItem`, `ufs_GetUsedSize` -/

/-- The item-zone sector `ItemZoneFirstSector + sector` read and decoded, as the
scanning functions do at the head of their sector loop. -/
def readItemSector (ufs : UFS) (fl : Flash) (sector : Nat) : Buf :=
  codecSector (ReadSector fl (u16 (ufs.ItemZoneFirstSector + sector)) (fun _ => 0)
    ufs.conf.api.u16numberByteOfSector) ufs.conf.api.u16numberByteOfSector

/-- The pairs (sector, segment) in the order in which the loops of
`ufs_CountItem` and `ufs_GetListItem` visit them (`totalSectors` and
`itemsPerSector` are `uint16_t` variables). -/
def itemSlots (ufs : UFS) : List (Nat × Nat) :=
  (List.range (u16i ((ufs.ClusterMappingZoneFirstSector : Int) - (ufs.ItemZoneFirstSector : Int)))).flatMap
    (fun sector => (List.range (u16 (ufs.conf.api.u16numberByteOfSector / sizeof_ItemInfo))).map
      (fun segment => (sector, segment)))

/-- The test `itemStatus != UFS_ITEM_FREE && parent == ufs->path.id` of
`ufs_CountItem` and `ufs_GetListItem`; `parent` is read from one byte. -/
def itemListed (ufs : UFS) (fl : Flash) (slot : Nat × Nat) : Bool :=
  readItemSector ufs fl slot.1 (slot.2 * sizeof_ItemInfo) != UFS_ITEM_FREE &&
    readItemSector ufs fl slot.1 (slot.2 * sizeof_ItemInfo + 24) == ufs.path_id

/-- Function `ufs_CountItem`; the counter is a `uint16_t`. -/
def ufs_CountItem (ufs : UFS) (fl : Flash) : Nat :=
  (itemSlots ufs).foldl (fun count slot => if itemListed ufs fl slot then u16 (count + 1) else count) 0

/-- The record copied by `ufs_GetListItem` from a slot. -/
def itemRecord (ufs : UFS) (fl : Flash) (slot : Nat × Nat) : Buf :=
  memcpy (fun _ => 0) 0 (bufAt (readItemSector ufs fl slot.1) (slot.2 * sizeof_ItemInfo))
    sizeof_ItemInfo

/-- The two nested loops of `ufs_GetListItem` over the slots left to visit:
the records copied so far, `item_read`, and the result. -/
def ufs_GetListItem_loop (ufs : UFS) (fl : Flash) (length : Nat) :
    List (Nat × Nat) → Nat → List Buf → List Buf × Nat
  | [], item_read, item_info => (item_info, item_read)
  | slot :: rest, item_read, item_info =>
    if itemListed ufs fl slot then
      if u16 (item_read + 1) = length then (item_info ++ [itemRecord ufs fl slot], length)
      else ufs_GetListItem_loop ufs fl length rest (u16 (item_read + 1))
        (item_info ++ [itemRecord ufs fl slot])
    else ufs_GetListItem_loop ufs fl length rest item_read item_info

/-- Function `ufs_GetListItem`: the records copied, in order, and the count returned. -/
def ufs_GetListItem (ufs : UFS) (fl : Flash) (length : Nat) : List Buf × Nat :=
  ufs_GetListItem_loop ufs fl length (itemSlots ufs) 0 []

/-- Conversion of a `uint32_t` value to `int32_t`. -/
def i32 (x : Nat) : Int :=
  if x % 4294967296 < 2147483648 then ((x % 4294967296 : Nat) : Int)
  else ((x % 4294967296 : Nat) : Int) - 4294967296

/-- The sum computed by `ufs_GetUsedSize` over the `numberItem` records of
`items_info`, in `uint32_t` arithmetic. -/
def ufs_GetUsedSize_sum (ufs : UFS) (items_info : List Buf) (numberItem : Nat) : Nat :=
  (List.range numberItem).foldl
    (fun used_size countItem =>
      u32 (used_size + u32 (u32 (info_size (items_info.getD countItem (fun _ => 0))
        / ufs.conf.api.u16numberByteOfSector + 1) * ufs.conf.api.u16numberByteOfSector))) 0

/-- Function `ufs_GetUsedSize`: the `UFS` object with `UsedSize` set, and the
value returned. -/
def ufs_GetUsedSize (ufs : UFS) (fl : Flash) : UFS × Nat :=
  (ufs.withUsedSize (i32 (ufs_GetUsedSize_sum ufs
      (ufs_GetListItem ufs fl (ufs_CountItem ufs fl)).1 (ufs_CountItem ufs fl))),
    ufs_GetUsedSize_sum ufs (ufs_GetListItem ufs fl (ufs_CountItem ufs fl)).1 (ufs_CountItem ufs fl))

/-! ## `newUFS` -/

/-- The validity test of `newUFS` on the boot sector buffer (the negation of
the condition of its `if`). -/
def bootSectorValid (data_sector : Buf) (nByte : Nat) : Bool :=
  !(UFS_OK != ufs_BytesCmp data_sector (fun i => [0x55, 0x46, 0x53].getD i 0) 3 ||
    UFS_OK != ufs_BytesCmp (bufAt data_sector (nByte - 3)) (fun i => [0x0D, 0x0A].getD i 0) 2 ||
    data_sector (nByte - 1) != ufs_CheckSum data_sector (nByte - 1))

/-- Result of `newUFS`: the object, the flash, and whether `ufs_FastFormat` was called. -/
structure NewResult where
  ufs : UFS
  fl : Flash
  formatted : Bool

/-- The `UFS` object that `newUFS` fills from a valid boot sector buffer (lines
693..702). -/
def newUFS_load (ufs : UFS) (data_sector : Buf) : UFS :=
  { ufs with
    latest_cluster := { sector_id := 0x00, position := 0x00 }
    ItemZoneFirstSector := u16 ((data_sector 4 <<< 8) ||| data_sector 5)
    ClusterMappingZoneFirstSector := u16 ((data_sector 6 <<< 8) ||| data_sector 7)
    ClusterDataZoneFirstSector := u16 ((data_sector 8 <<< 8) ||| data_sector 9)
    NumberSectorOfCluster := u16 ((data_sector 10 <<< 8) ||| data_sector 11)
    DeviceId := memcpy ufs.DeviceId 0 (bufAt data_sector 12) 8 }

/-- Function `newUFS` with all hooks present.  `ufs0` is the content of the
memory that `malloc` returns (its `conf` member is overwritten), `uid` the bytes
that `ReadUniqueID` leaves in `DeviceId`. -/
def newUFS (pUfsCfg : ufs_Cfg_Type) (ufs0 : UFS) (fl : Flash) (uid : Buf) : NewResult :=
  if !bootSectorValid
      (ReadSector fl BOOT_SECTOR_ID (fun _ => 0) pUfsCfg.api.u16numberByteOfSector)
      pUfsCfg.api.u16numberByteOfSector then
    { ufs := (ufs_FastFormat { ufs0 with conf := pUfsCfg } fl uid).1
      fl := (ufs_FastFormat { ufs0 with conf := pUfsCfg } fl uid).2
      formatted := true }
  else
    { ufs := (ufs_GetUsedSize
        (newUFS_load { ufs0 with conf := pUfsCfg }
          (ReadSector fl BOOT_SECTOR_ID (fun _ => 0) pUfsCfg.api.u16numberByteOfSector)) fl).1.withPathId 0x00
      fl := fl
      formatted := false }

/-! ## `ufs_OpenItem`, `ufs_CloseItem`, `ufs_DeleteItem` -/

/-- The four-part match test of the scan of `ufs_OpenItem` (and of
`ufs_CheckExistence`) on segment `countSegment` of the decoded sector buffer. -/
def itemMatches (ufs : UFS) (info : Buf) (data_sector : Buf) (countSegment : Nat) : Bool :=
  UFS_OK == ufs_BytesCmp (info_head info) (bufAt data_sector (countSegment * sizeof_ItemInfo))
      (info_length info) &&
    UFS_OK == ufs_BytesCmp (info_extention info)
      (bufAt data_sector (countSegment * sizeof_ItemInfo + MAX_NAME_LENGTH)) 3 &&
    ufs.path_id == rd16 data_sector (countSegment * sizeof_ItemInfo + 24) &&
    info_length info == data_sector (countSegment * sizeof_ItemInfo + MAX_NAME_LENGTH + 3)

/-- State of the scan of `ufs_OpenItem`: the handle and the free slot noted. -/
structure ScanState where
  item : ufs_Item_Type
  slotItem : ufs_Location_Type

/-- The handle after the statements that `ufs_OpenItem` executes on a match
(lines 782..784): location set, record copied. -/
def ufs_OpenItem_load (item : ufs_Item_Type) (data_sector : Buf) (countSector countSegment : Nat) :
    ufs_Item_Type :=
  (item.withLocation countSector countSegment).withInfo
    (memcpy item.info 0 (bufAt data_sector (countSegment * sizeof_ItemInfo)) sizeof_ItemInfo)

/-- The handle after a match of the scan of `ufs_OpenItem` (lines 782..788):
the cluster list is loaded for a file. -/
def ufs_OpenItem_found (ufs : UFS) (fl : Flash) (item : ufs_Item_Type) (data_sector : Buf)
    (countSector countSegment : Nat) : ufs_Item_Type :=
  if info_extention (ufs_OpenItem_load item data_sector countSector countSegment).info 0 ≠ 0x00
  then (ufs_GetListCluster ufs fl (ufs_OpenItem_load item data_sector countSector countSegment)).1
  else ufs_OpenItem_load item data_sector countSector countSegment

/-- The statement of the scan of `ufs_OpenItem` that notes a free slot (lines 794..798). -/
def ufs_OpenItem_note (st : ScanState) (data_sector : Buf) (countSector countSegment : Nat) :
    ScanState :=
  if data_sector (countSegment * sizeof_ItemInfo) = UFS_ITEM_FREE
  then { item := st.item, slotItem := { sector_id := countSector, position := countSegment } }
  else st

/-- The segment loop of the scan of `ufs_OpenItem` in sector `countSector`; the
first argument counts the iterations left.  A match ends the loop. -/
def ufs_OpenItem_segments (ufs : UFS) (fl : Flash) (data_sector : Buf) (countSector : Nat) :
    Nat → Nat → ScanState → ScanState
  | 0, _, st => st
  | n + 1, countSegment, st =>
    if itemMatches ufs st.item.info data_sector countSegment then
      { item := ufs_OpenItem_found ufs fl st.item data_sector countSector countSegment
        slotItem := st.slotItem }
    else
      ufs_OpenItem_segments ufs fl data_sector countSector n (countSegment + 1)
        (ufs_OpenItem_note st data_sector countSector countSegment)

/-- The sector loop of the scan of `ufs_OpenItem`; the first argument counts the
iterations left.  It ends as soon as `location.sector_id != 0xFFFF`. -/
def ufs_OpenItem_sectors (ufs : UFS) (fl : Flash) : Nat → Nat → ScanState → ScanState
  | 0, _, st => st
  | n + 1, countSector, st =>
    if (ufs_OpenItem_segments ufs fl (readItemSector ufs fl countSector) countSector
        (u16 (ufs.conf.api.u16numberByteOfSector / sizeof_ItemInfo)) 0 st).item.location.sector_id
        ≠ 0xFFFF
    then ufs_OpenItem_segments ufs fl (readItemSector ufs fl countSector) countSector
        (u16 (ufs.conf.api.u16numberByteOfSector / sizeof_ItemInfo)) 0 st
    else ufs_OpenItem_sectors ufs fl n (countSector + 1)
      (ufs_OpenItem_segments ufs fl (readItemSector ufs fl countSector) countSector
        (u16 (ufs.conf.api.u16numberByteOfSector / sizeof_ItemInfo)) 0 st)

/-- The first part of `ufs_OpenItem` (lines 748..806): the handle is reset, the
name parsed and the item zone scanned. -/
def ufs_OpenItem_scan (ufs : UFS) (fl : Flash) (name_file : List Nat) (item : ufs_Item_Type) :
    ScanState :=
  ufs_OpenItem_sectors ufs fl
    ((ufs.ClusterMappingZoneFirstSector : Int) - (ufs.ItemZoneFirstSector : Int)).toNat 0
    { item := ((((item.withLocation 0xFFFF item.location.position).withStatus UFS_ITEM_FREE).withUfs
        false).withInfo (ufs_ParseNameFile name_file item.info))
      slotItem := { sector_id := 0xFFFF, position := 0xFFFF } }

/-- The loop of `ufs_OpenItem` over the configured encoded extensions. -/
def ufs_OpenItem_encode (ufs : UFS) (item : ufs_Item_Type) : ufs_Item_Type :=
  (List.range ufs.conf.u8NumberEncodeFileExtension).foldl
    (fun item count =>
      if UFS_OK == ufs_BytesCmp (ufs.conf.pExtensionEncodeFileList.getD count (fun _ => 0))
          (info_extention item.info) 3
      then item.withEncodeEnable UFS_ENCODE_ENABLE else item)
    item

/-- The common tail of `ufs_OpenItem` (lines 946..971). -/
def ufs_OpenItem_finish (ufs : UFS) (fl : Flash) (item : ufs_Item_Type) : ItemResult :=
  { ufs := ufs, fl := fl
    item := (((ufs_OpenItem_encode ufs item).withUfs true).withErr UFS_ERROR_NONE).withStatus
      (if info_extention item.info 0 ≠ 0x00 then UFS_FILE_EXIST else UFS_FOLDER_EXIST)
    ret := UFS_OK }

/-- The record with which `ufs_OpenItem` starts the creation of a file (lines
818..821): size 0, parent, `first_cluster.sector_id = 0xFFFF`. -/
def ufs_OpenItem_blank (ufs : UFS) (info : Buf) : Buf :=
  set_info_first_sector_id (set_info_parent (set_info_size info 0) ufs.path_id) 0xFFFF

/-- The record of a new file once the search has found the free slot
`countSegment` of map sector `countSector` (lines 858..859). -/
def ufs_OpenItem_assigned (ufs : UFS) (info : Buf) (countSector countSegment : Nat) : Buf :=
  set_info_first_position (set_info_first_sector_id (ufs_OpenItem_blank ufs info) countSector)
    countSegment

/-- The flash after `ufs_OpenItem` has stamped the found map slot with
`UFS_CLUSTER_END` (lines 873..875) and stored the new item record in the free
item slot (lines 878..902). -/
def ufs_OpenItem_stored (ufs : UFS) (fl : Flash) (info : Buf) (slotItem : ufs_Location_Type)
    (r : SearchResult) (countSegment : Nat) : Flash :=
  writeItemRecord ufs
    (flushMapSector ufs fl (info_first_sector_id (ufs_OpenItem_assigned ufs info r.countSector countSegment))
      (wr16 r.data_sector (countSegment * 2) UFS_CLUSTER_END))
    slotItem.sector_id slotItem.position
    (set_info_parent (ufs_OpenItem_assigned ufs info r.countSector countSegment) ufs.path_id)
    (wr16 r.data_sector (countSegment * 2) UFS_CLUSTER_END)

/-- The creation of a file by `ufs_OpenItem` once the search has found the free
slot `countSegment` (lines 858..907 and the tail). -/
def ufs_OpenItem_create (ufs : UFS) (fl : Flash) (item : ufs_Item_Type)
    (slotItem : ufs_Location_Type) (r : SearchResult) (countSegment : Nat) : ItemResult :=
  if info_first_sector_id (ufs_OpenItem_assigned ufs item.info r.countSector countSegment) ≠ 0xFFFF
  then
    ufs_OpenItem_finish
      ((ufs.withLatest r.countSector countSegment).withUsedSize
        (ufs.UsedSize + (clusterBytes ufs : Int)))
      (ufs_OpenItem_stored ufs fl item.info slotItem r countSegment)
      (ufs_GetListCluster (ufs.withLatest r.countSector countSegment)
        (ufs_OpenItem_stored ufs fl item.info slotItem r countSegment)
        ((item.withLocation slotItem.sector_id slotItem.position).withInfo
          (set_info_parent (ufs_OpenItem_assigned ufs item.info r.countSector countSegment)
            ufs.path_id))).1
  else
    { ufs := ufs.withLatest r.countSector countSegment, fl := fl
      item := (item.withInfo (ufs_OpenItem_assigned ufs item.info r.countSector countSegment)).withErr
        UFS_ERROR_FULL_CLUSTER
      ret := UFS_NOT_OK }

/-- The branch of `ufs_OpenItem` that creates a file (lines 811..918); `none`
when the free cluster search runs out of fuel. -/
def ufs_OpenItem_newFile (fuel : Nat) (ufs : UFS) (fl : Flash) (item : ufs_Item_Type)
    (slotItem : ufs_Location_Type) : Option ItemResult :=
  match searchSector true ufs fl fuel fuel ufs.latest_cluster.sector_id (fun _ => 0) with
  | none => none
  | some r =>
    match r.found with
    | some countSegment => some (ufs_OpenItem_create ufs fl item slotItem r countSegment)
    | none =>
      some { ufs := ufs, fl := fl
             item := (item.withInfo (ufs_OpenItem_blank ufs item.info)).withErr UFS_ERROR_FULL_CLUSTER
             ret := UFS_NOT_OK }

/-- The branch of `ufs_OpenItem` that creates a folder (lines 922..930 and the tail). -/
def ufs_OpenItem_newFolder (ufs : UFS) (fl : Flash) (item : ufs_Item_Type)
    (slotItem : ufs_Location_Type) : ItemResult :=
  ufs_OpenItem_finish ufs
    (ufs_UpdateItemInfo ufs fl
      ((((item.withLocation slotItem.sector_id slotItem.position).withClusters item.clusters_value
        0).withInfo (set_info_first_position (set_info_first_sector_id item.info 0x00) 0x00)).withErr
        UFS_ERROR_NONE)).1
    (ufs_UpdateItemInfo ufs fl
      ((((item.withLocation slotItem.sector_id slotItem.position).withClusters item.clusters_value
        0).withInfo (set_info_first_position (set_info_first_sector_id item.info 0x00) 0x00)).withErr
        UFS_ERROR_NONE)).2.1

/-- The second part of `ufs_OpenItem` (lines 808..972), from the state
that the scan leaves. -/
def ufs_OpenItem_act (fuel : Nat) (ufs : UFS) (fl : Flash) (st : ScanState) : Option ItemResult :=
  if st.item.location.sector_id = 0xFFFF ∧ st.slotItem.sector_id ≠ 0xFFFF then
    if info_extention st.item.info 0 ≠ 0x00
    then ufs_OpenItem_newFile fuel ufs fl st.item st.slotItem
    else some (ufs_OpenItem_newFolder ufs fl st.item st.slotItem)
  else if st.item.location.sector_id = 0xFFFF ∧ st.slotItem.sector_id = 0xFFFF then
    some { ufs := ufs, fl := fl, item := st.item.withErr UFS_ERROR_FULL_FILE, ret := UFS_NOT_OK }
  else some (ufs_OpenItem_finish ufs fl st.item)

/-- Function `ufs_OpenItem` for a non-NULL `ufs`; `none` when the free cluster
search runs out of fuel. -/
def ufs_OpenItem (fuel : Nat) (ufs : UFS) (fl : Flash) (name_file : List Nat)
    (item : ufs_Item_Type) : Option ItemResult :=
  ufs_OpenItem_act fuel ufs fl (ufs_OpenItem_scan ufs fl name_file item)

/-- The five assignments that `ufs_CloseItem` and `ufs_DeleteItem` make to the
item record: `data[0] = UFS_ITEM_FREE`, `name.length = 0`, `size = 0`,
`first_cluster.sector_id = 0xFFFF`, `first_cluster.position = 0`. -/
def resetInfo (info : Buf) : Buf :=
  set_info_first_position
    (set_info_first_sector_id (set_info_size (set_info_length (setByte info 0 UFS_ITEM_FREE) 0) 0)
      0xFFFF) 0

/-- The last assignments of `ufs_CloseItem` and `ufs_DeleteItem`: location
reset, status free, back pointer NULL. -/
def detach (item : ufs_Item_Type) : ufs_Item_Type :=
  ((item.withLocation 0xFFFF 0).withStatus UFS_ITEM_FREE).withUfs false

/-- An item handle whose `clusters.value` has been passed to `free`: the
members other than the cluster vector.  The pointer member still holds the
address of the freed block, which may be neither read nor passed to `realloc` or
`free` again; a handle in this state is therefore not an argument of the
functions of this model (`ufs_OpenItem` and `ufs_DeleteItem` pass the pointer to
`realloc`, `ufs_CloseItem` to `free`). -/
structure ClosedItem where
  location : ufs_Location_Type
  clusters_length : Nat
  info : Buf
  status : Nat
  err : Nat
  ufs : Bool
  EncodeEnable : Nat

/-- The statement `free(item->clusters.value)`: what is left of the handle. -/
def ufs_Item_Type.freed (item : ufs_Item_Type) : ClosedItem :=
  { location := item.location, clusters_length := item.clusters_length, info := item.info
    status := item.status, err := item.err, ufs := item.ufs, EncodeEnable := item.EncodeEnable }

/-- Function `ufs_CloseItem` for a non-NULL handle whose `clusters.value` is NULL
or an allocated block (it returns `UFS_OK`).  The vector is freed and the
pointer not reset. -/
def ufs_CloseItem (item : ufs_Item_Type) : ClosedItem :=
  (detach ((item.withClusters item.clusters_value 0).withInfo (resetInfo item.info))).freed

/-- The handle that `ufs_DeleteItem` passes to `ufs_UpdateItemInfo`: cluster
list reloaded then dropped, record reset (lines 1039..1052). -/
def ufs_DeleteItem_reset (ufs : UFS) (fl : Flash) (item : ufs_Item_Type) : ufs_Item_Type :=
  (((ufs_GetListCluster ufs fl item).1.withClusters (ufs_GetListCluster ufs fl item).1.clusters_value
    0).withInfo (resetInfo (ufs_GetListCluster ufs fl item).1.info))

/-- The result of `ufs_CleanClusters` inside `ufs_DeleteItem` (line 1042). -/
def ufs_DeleteItem_cleaned (ufs : UFS) (fl : Flash) (item : ufs_Item_Type) : CleanResult :=
  ufs_CleanClusters ufs fl (ufs_GetListCluster ufs fl item).1.clusters_value
    (ufs_GetListCluster ufs fl item).1.clusters_length

/-- Result of `ufs_DeleteItem`.  `item` is the handle: as it was, but for `err`,
when the call is refused (left), and without its cluster vector when the call
went through `free(item->clusters.value)` (right). -/
structure DeleteResult where
  ufs : UFS
  fl : Flash
  item : ufs_Item_Type ⊕ ClosedItem
  ret : Nat

/-- Function `ufs_DeleteItem` for a non-NULL handle whose `clusters.value` is
NULL or an allocated block.  The vector is freed and the pointer not reset. -/
def ufs_DeleteItem (ufs : UFS) (fl : Flash) (item : ufs_Item_Type) : DeleteResult :=
  if item.ufs = false then
    { ufs := ufs, fl := fl, item := Sum.inl (item.withErr UFS_ERROR_ALLOCATE_MEM)
      ret := UFS_NOT_OK }
  else if item.err ≠ UFS_ERROR_NONE then
    { ufs := ufs, fl := fl, item := Sum.inl (item.withErr UFS_ERROR_NOT_EXISTED)
      ret := UFS_NOT_OK }
  else
    { ufs := (ufs_DeleteItem_cleaned ufs fl item).ufs
      fl := (ufs_UpdateItemInfo (ufs_DeleteItem_cleaned ufs fl item).ufs
        (ufs_DeleteItem_cleaned ufs fl item).fl (ufs_DeleteItem_reset ufs fl item)).1
      item := Sum.inr (detach (ufs_UpdateItemInfo (ufs_DeleteItem_cleaned ufs fl item).ufs
        (ufs_DeleteItem_cleaned ufs fl item).fl (ufs_DeleteItem_reset ufs fl item)).2.1).freed
      ret := UFS_OK }

/-! ## `ufs_ReadFile` -/

/-- The per-byte operation of the payload encoding, `b ^= DeviceId[0] | BYTE_CODEC_DEFAULT`
on a `uint8_t`, applied when `EncodeEnable == UFS_ENCODE_ENABLE`. -/
def payloadCodec (ufs : UFS) (file : ufs_Item_Type) (b : Nat) : Nat :=
  if file.EncodeEnable = UFS_ENCODE_ENABLE then u8 (b ^^^ (ufs.DeviceId 0 ||| BYTE_CODEC_DEFAULT)) else b

/-- State of the loops of `ufs_ReadFile`: the output buffer and `bytes_read`. -/
structure ReadState where
  data : Buf
  bytes_read : Nat

/-- The two statements of the byte loop of `ufs_ReadFile` that store one byte. -/
def ufs_ReadFile_store (ufs : UFS) (file : ufs_Item_Type) (b : Nat) (st : ReadState) : ReadState :=
  { data := setByte st.data st.bytes_read (payloadCodec ufs file b)
    bytes_read := u32 (st.bytes_read + 1) }

/-- The byte loop of `ufs_ReadFile` from `countByte`; the first argument counts
the iterations left.  The flag tells whether the function returned inside the loop. -/
def ufs_ReadFile_bytes (ufs : UFS) (file : ufs_Item_Type) (data_sector : Buf) (length : Nat) :
    Nat → Nat → ReadState → ReadState × Bool
  | 0, _, st => (st, false)
  | n + 1, countByte, st =>
    if (ufs_ReadFile_store ufs file (data_sector countByte) st).bytes_read = length ∨
        (ufs_ReadFile_store ufs file (data_sector countByte) st).bytes_read = info_size file.info
    then (ufs_ReadFile_store ufs file (data_sector countByte) st, true)
    else ufs_ReadFile_bytes ufs file data_sector length n (countByte + 1)
      (ufs_ReadFile_store ufs file (data_sector countByte) st)

/-- The sector `ClusterDataZoneFirstSector + clusters.value[cluster_index] * NSC + sector_in_cluster`
as passed to the sector hooks (a `uint16_t` parameter). -/
def dataSector (ufs : UFS) (file : ufs_Item_Type) (cluster_index sector_in_cluster : Nat) : Nat :=
  u16 (ufs.ClusterDataZoneFirstSector +
    file.clusters_value cluster_index * ufs.NumberSectorOfCluster + sector_in_cluster)

/-- The sector loop of `ufs_ReadFile` from `sector_in_cluster`, the first byte
loop starting at `offset_within_sector`; the first argument counts the iterations left. -/
def ufs_ReadFile_sectors (ufs : UFS) (fl : Flash) (file : ufs_Item_Type) (length cluster_index : Nat) :
    Nat → Nat → Nat → ReadState → ReadState × Bool
  | 0, _, _, st => (st, false)
  | n + 1, sector_in_cluster, offset_within_sector, st =>
    if (ufs_ReadFile_bytes ufs file
        (ReadSector fl (dataSector ufs file cluster_index sector_in_cluster) (fun _ => 0)
          ufs.conf.api.u16numberByteOfSector) length
        (ufs.conf.api.u16numberByteOfSector - offset_within_sector) offset_within_sector st).2
    then ufs_ReadFile_bytes ufs file
        (ReadSector fl (dataSector ufs file cluster_index sector_in_cluster) (fun _ => 0)
          ufs.conf.api.u16numberByteOfSector) length
        (ufs.conf.api.u16numberByteOfSector - offset_within_sector) offset_within_sector st
    else ufs_ReadFile_sectors ufs fl file length cluster_index n (sector_in_cluster + 1) 0
      (ufs_ReadFile_bytes ufs file
        (ReadSector fl (dataSector ufs file cluster_index sector_in_cluster) (fun _ => 0)
          ufs.conf.api.u16numberByteOfSector) length
        (ufs.conf.api.u16numberByteOfSector - offset_within_sector) offset_within_sector st).1

/-- One pass of the body of the `while` loop of `ufs_ReadFile` for the cluster
at `cluster_index`, read from `offset_within_cluster`. -/
def ufs_ReadFile_cluster (ufs : UFS) (fl : Flash) (file : ufs_Item_Type)
    (length cluster_index offset_within_cluster : Nat) (st : ReadState) : ReadState × Bool :=
  ufs_ReadFile_sectors ufs fl file length cluster_index
    (ufs.NumberSectorOfCluster - u16 (offset_within_cluster / ufs.conf.api.u16numberByteOfSector))
    (u16 (offset_within_cluster / ufs.conf.api.u16numberByteOfSector))
    (u16 (offset_within_cluster % ufs.conf.api.u16numberByteOfSector)) st

/-- The `while (bytes_read < length && cluster_index < clusters.length)` loop of
`ufs_ReadFile`; the first argument bounds the iterations left (`cluster_index`
grows by one each time). -/
def ufs_ReadFile_clusters (ufs : UFS) (fl : Flash) (file : ufs_Item_Type) (length : Nat) :
    Nat → Nat → Nat → ReadState → ReadState
  | 0, _, _, st => st
  | n + 1, cluster_index, offset_within_cluster, st =>
    if st.bytes_read < length ∧ cluster_index < file.clusters_length then
      if (ufs_ReadFile_cluster ufs fl file length cluster_index offset_within_cluster st).2
      then (ufs_ReadFile_cluster ufs fl file length cluster_index offset_within_cluster st).1
      else ufs_ReadFile_clusters ufs fl file length n (cluster_index + 1) 0
        (ufs_ReadFile_cluster ufs fl file length cluster_index offset_within_cluster st).1
    else st

/-- Function `ufs_ReadFile`: the handle, the output buffer and the value returned. -/
def ufs_ReadFile (ufs : UFS) (fl : Flash) (file : ufs_Item_Type) (position : Nat) (data : Buf)
    (length : Nat) : ufs_Item_Type × Buf × Nat :=
  if file.ufs = false ∨ file.err ≠ UFS_ERROR_NONE then (file, data, UFS_NOT_OK)
  else if file.status ≠ UFS_FILE_EXIST then
    (file.withErr UFS_ERROR_ITEM_NOT_FILE, data, UFS_NOT_OK)
  else
    (file,
      (ufs_ReadFile_clusters ufs fl file length
        (file.clusters_length - position / u32 (clusterBytes ufs) + 1)
        (position / u32 (clusterBytes ufs)) (position % u32 (clusterBytes ufs))
        { data := data, bytes_read := 0 }).data,
      (ufs_ReadFile_clusters ufs fl file length
        (file.clusters_length - position / u32 (clusterBytes ufs) + 1)
        (position / u32 (clusterBytes ufs)) (position % u32 (clusterBytes ufs))
        { data := data, bytes_read := 0 }).bytes_read)

/-! ## `ufs_WriteFile` -/

/-- State of the loops of `ufs_WriteFile`. -/
structure WriteState where
  fl : Flash
  bytes_written : Nat
  sector_buffer : Buf

/-- One iteration of the byte loop of `ufs_WriteFile` on the pair (buffer,
`bytes_written`). -/
def ufs_WriteFile_fillStep (ufs : UFS) (file : ufs_Item_Type) (data : Buf) (length : Nat)
    (st : Buf × Nat) (byte_in_sector : Nat) : Buf × Nat :=
  if st.2 < length then
    (setByte st.1 byte_in_sector (payloadCodec ufs file (data st.2)), u32 (st.2 + 1))
  else (setByte st.1 byte_in_sector UFS_BYTE_VALUE_AFTER_ERASE, st.2)

/-- The byte loop of `ufs_WriteFile` filling the sector buffer: the buffer and
`bytes_written`. -/
def ufs_WriteFile_fill (ufs : UFS) (file : ufs_Item_Type) (data : Buf) (length : Nat)
    (sector_buffer : Buf) (bytes_written : Nat) : Buf × Nat :=
  (List.range ufs.conf.api.u16numberByteOfSector).foldl
    (ufs_WriteFile_fillStep ufs file data length) (sector_buffer, bytes_written)

/-- The state of `ufs_WriteFile` after one sector is filled and written (lines
1527..1553), and read back when the checksum is enabled (line 1557). -/
def ufs_WriteFile_sector (ufs : UFS) (file : ufs_Item_Type) (data : Buf) (length sumEnable : Nat)
    (cluster_index sector_in_cluster : Nat) (st : WriteState) : WriteState :=
  { fl := WriteSector st.fl (dataSector ufs file cluster_index sector_in_cluster)
      (ufs_WriteFile_fill ufs file data length st.sector_buffer st.bytes_written).1
      ufs.conf.api.u16numberByteOfSector
    bytes_written := (ufs_WriteFile_fill ufs file data length st.sector_buffer st.bytes_written).2
    sector_buffer :=
      if sumEnable = CHECKSUM_ENABLE then
        ReadSector
          (WriteSector st.fl (dataSector ufs file cluster_index sector_in_cluster)
            (ufs_WriteFile_fill ufs file data length st.sector_buffer st.bytes_written).1
            ufs.conf.api.u16numberByteOfSector)
          (dataSector ufs file cluster_index sector_in_cluster)
          (ufs_WriteFile_fill ufs file data length st.sector_buffer st.bytes_written).1
          ufs.conf.api.u16numberByteOfSector
      else (ufs_WriteFile_fill ufs file data length st.sector_buffer st.bytes_written).1 }

/-- The test of `ufs_WriteFile` after the read-back (lines 1555..1558): the
checksum of the buffer as filled differs from the checksum of the buffer read back. -/
def ufs_WriteFile_mismatch (ufs : UFS) (file : ufs_Item_Type) (data : Buf) (length sumEnable : Nat)
    (cluster_index sector_in_cluster : Nat) (st : WriteState) : Bool :=
  sumEnable == CHECKSUM_ENABLE &&
    ufs_CheckSum (ufs_WriteFile_fill ufs file data length st.sector_buffer st.bytes_written).1
        ufs.conf.api.u16numberByteOfSector
      != ufs_CheckSum
        (ufs_WriteFile_sector ufs file data length sumEnable cluster_index sector_in_cluster
          st).sector_buffer
        ufs.conf.api.u16numberByteOfSector

/-- The sector loop of `ufs_WriteFile` for cluster `cluster_index`; the first
argument counts the iterations left.  The outcome is 0 when the loop ran to its
end, 1 when it ended by `break` (`bytes_written == length`), 2 when the
read-back checksum differed. -/
def ufs_WriteFile_sectors (ufs : UFS) (file : ufs_Item_Type) (data : Buf) (length sumEnable : Nat)
    (cluster_index : Nat) : Nat → Nat → WriteState → WriteState × Nat
  | 0, _, st => (st, 0)
  | n + 1, sector_in_cluster, st =>
    if ufs_WriteFile_mismatch ufs file data length sumEnable cluster_index sector_in_cluster st
    then (ufs_WriteFile_sector ufs file data length sumEnable cluster_index sector_in_cluster st, 2)
    else if (ufs_WriteFile_sector ufs file data length sumEnable cluster_index sector_in_cluster
        st).bytes_written = length
    then (ufs_WriteFile_sector ufs file data length sumEnable cluster_index sector_in_cluster st, 1)
    else ufs_WriteFile_sectors ufs file data length sumEnable cluster_index n
      (sector_in_cluster + 1)
      (ufs_WriteFile_sector ufs file data length sumEnable cluster_index sector_in_cluster st)

/-- The cluster loop of `ufs_WriteFile`, `cluster_index` being a `uint16_t`
compared with the 32-bit `number_clusters`; the first argument is the fuel.
Result: `none` when the fuel runs out, else the state and `some cluster_index`
when the read-back checksum differed while writing that cluster. -/
def ufs_WriteFile_clusters (ufs : UFS) (file : ufs_Item_Type) (data : Buf) (length sumEnable : Nat)
    (number_clusters : Nat) : Nat → Nat → WriteState → Option (WriteState × Option Nat)
  | 0, cluster_index, st => if cluster_index < number_clusters then none else some (st, none)
  | n + 1, cluster_index, st =>
    if cluster_index < number_clusters then
      if (ufs_WriteFile_sectors ufs file data length sumEnable cluster_index
          ufs.NumberSectorOfCluster 0 st).2 = 2
      then some ((ufs_WriteFile_sectors ufs file data length sumEnable cluster_index
          ufs.NumberSectorOfCluster 0 st).1, some cluster_index)
      else if (ufs_WriteFile_sectors ufs file data length sumEnable cluster_index
          ufs.NumberSectorOfCluster 0 st).1.bytes_written = length
      then some ((ufs_WriteFile_sectors ufs file data length sumEnable cluster_index
          ufs.NumberSectorOfCluster 0 st).1, none)
      else ufs_WriteFile_clusters ufs file data length sumEnable number_clusters n
        (u16 (cluster_index + 1))
        (ufs_WriteFile_sectors ufs file data length sumEnable cluster_index
          ufs.NumberSectorOfCluster 0 st).1
    else some (st, none)

/-- The end of `ufs_WriteFile` when every sector verified (lines 1586..1600):
size and first cluster stored in the record, the record persisted. -/
def ufs_WriteFile_commit (ufs : UFS) (fl : Flash) (file : ufs_Item_Type) (length : Nat) : ItemResult :=
  { ufs := ufs
    fl := (ufs_UpdateItemInfo ufs fl (file.withInfo
      (set_info_first_position
        (set_info_first_sector_id (set_info_size file.info length)
          (file.clusters_value 0 / halfSector ufs))
        (file.clusters_value 0 % halfSector ufs)))).1
    item := (ufs_UpdateItemInfo ufs fl (file.withInfo
      (set_info_first_position
        (set_info_first_sector_id (set_info_size file.info length)
          (file.clusters_value 0 / halfSector ufs))
        (file.clusters_value 0 % halfSector ufs)))).2.1
    ret := UFS_OK }

/-- The result of `ufs_CleanClusters(&clusters.value[cluster_index], number_clusters - cluster_index)`
in the failure branch of `ufs_WriteFile` (line 1561). -/
def ufs_WriteFile_failClean (ufs : UFS) (fl : Flash) (file : ufs_Item_Type)
    (number_clusters cluster_index : Nat) : CleanResult :=
  ufs_CleanClusters ufs fl (fun i => file.clusters_value (cluster_index + i))
    (u16 (u32 (number_clusters + 4294967296 - cluster_index)))

/-- The end of `ufs_WriteFile` when the read-back checksum of a sector of
cluster `cluster_index` differed (lines 1560..1570). -/
def ufs_WriteFile_fail (ufs : UFS) (fl : Flash) (file : ufs_Item_Type)
    (number_clusters cluster_index bytes_written : Nat) : ItemResult :=
  { ufs := (ufs_WriteFile_failClean ufs fl file number_clusters cluster_index).ufs
    fl := ufs_SetClusterMap (ufs_WriteFile_failClean ufs fl file number_clusters cluster_index).ufs
      (ufs_WriteFile_failClean ufs fl file number_clusters cluster_index).fl
      (file.clusters_value cluster_index) UFS_CLUSTER_BAD
    item := (file.withInfo
      (set_info_size file.info (u32 (info_size file.info + bytes_written)))).withErr
      UFS_ERROR_SUM_SECTOR_FAIL
    ret := UFS_NOT_OK }

/-- The data phase of `ufs_WriteFile` (lines 1523..1600), once the clusters are allocated. -/
def ufs_WriteFile_data (ufs : UFS) (fl : Flash) (file : ufs_Item_Type) (data : Buf)
    (length sumEnable number_clusters : Nat) : Option ItemResult :=
  match ufs_WriteFile_clusters ufs file data length sumEnable number_clusters
      (number_clusters + 1) 0 { fl := fl, bytes_written := 0, sector_buffer := fun _ => 0 } with
  | none => none
  | some (st, some cluster_index) =>
    some (ufs_WriteFile_fail ufs st.fl file number_clusters cluster_index st.bytes_written)
  | some (st, none) => some (ufs_WriteFile_commit ufs st.fl file length)

/-- The allocation phase of `ufs_WriteFile` (lines 1506..1520) and what follows;
`c` is the result of the `ufs_CleanClusters` call before it. -/
def ufs_WriteFile_alloc (fuel : Nat) (c : CleanResult) (file : ufs_Item_Type) (data : Buf)
    (length sumEnable number_clusters : Nat) : Option ItemResult :=
  match ufs_OrderClusters fuel c.ufs c.fl file.clusters_value (u16 number_clusters) with
  | none => none
  | some r =>
    if r.ret ≠ UFS_OK then
      some { ufs := r.ufs, fl := r.fl
             item := (file.withClusters r.clusters (u16 number_clusters)).withErr UFS_ERROR_FULL_MEM
             ret := UFS_NOT_OK }
    else ufs_WriteFile_data r.ufs r.fl (file.withClusters r.clusters (u16 number_clusters)) data
      length sumEnable number_clusters

/-- Function `ufs_WriteFile`; `none` when a loop runs out of fuel. -/
def ufs_WriteFile (fuel : Nat) (ufs : UFS) (fl : Flash) (file : ufs_Item_Type) (data : Buf)
    (length sumEnable : Nat) : Option ItemResult :=
  if file.ufs = false ∨ file.err ≠ UFS_ERROR_NONE then
    some { ufs := ufs, fl := fl, item := file, ret := UFS_NOT_OK }
  else if file.status ≠ UFS_FILE_EXIST then
    some { ufs := ufs, fl := fl, item := file.withErr UFS_ERROR_ITEM_NOT_FILE, ret := UFS_NOT_OK }
  else
    ufs_WriteFile_alloc fuel (ufs_CleanClusters ufs fl file.clusters_value file.clusters_length)
      file data length sumEnable (numberClusters ufs length)


/-! ## Concrete devices used by the closed examples -/

/-- The configuration of `ufs_conf.c`: 4096-byte sectors, 16 sectors per block,
4096 sectors, 20 items, encoded extensions `usr`, `sys`, `bin`. -/
def Ufs_Cfg : ufs_Cfg_Type :=
  { api := { u16numberByteOfSector := 4096, u16numberSectorOfBlock := 16,
             u32numberSectorOfDevice := 4096 }
    u8NumberEncodeFileExtension := 3
    u8NumberFileMaxOfDevice := 20
    pExtensionEncodeFileList :=
      [fun i => [0x75, 0x73, 0x72].getD i 0, fun i => [0x73, 0x79, 0x73].getD i 0,
       fun i => [0x62, 0x69, 0x6E].getD i 0] }

/-- A small device: 64-byte sectors, 2 sectors per block, 64 sectors, 4 items,
encoded extension `bin`.  Formatting it gives `ItemZoneFirstSector = 1`,
`ClusterMappingZoneFirstSector = 4`, `ClusterDataZoneFirstSector = 16` and
`NumberSectorOfCluster = 3`, hence 16 clusters of 192 bytes, all mapped by the
first map sector. -/
def demoCfg : ufs_Cfg_Type :=
  { api := { u16numberByteOfSector := 64, u16numberSectorOfBlock := 2,
             u32numberSectorOfDevice := 64 }
    u8NumberEncodeFileExtension := 1
    u8NumberFileMaxOfDevice := 4
    pExtensionEncodeFileList := [fun i => [0x62, 0x69, 0x6E].getD i 0] }

/-- A `UFS` object with every member zero, standing for the memory `malloc` returns. -/
def blankUfs (conf : ufs_Cfg_Type) : UFS :=
  { ItemZoneFirstSector := 0, ClusterMappingZoneFirstSector := 0, ClusterDataZoneFirstSector := 0
    NumberSectorOfCluster := 0, DeviceId := fun _ => 0, UsedSize := 0, conf := conf
    latest_cluster := { sector_id := 0, position := 0 }, path_id := 0 }

/-- An item handle with every member zero. -/
def blankItem : ufs_Item_Type :=
  { location := { sector_id := 0, position := 0 }, clusters_value := fun _ => 0
    clusters_length := 0, info := fun _ => 0, status := 0, err := 0, ufs := false
    EncodeEnable := 0 }

/-- A flash in the erased state. -/
def erasedFlash : Flash := fun _ _ => 0xFF

/-- A device id, the bytes `0x12, 0x13, ...`. -/
def demoUid : Buf := fun i => 0x12 + i

/-- The small device after `newUFS` on an erased flash (which formats it). -/
def demoMount : NewResult := newUFS demoCfg (blankUfs demoCfg) erasedFlash demoUid

/-- The name `test.txt`. -/
def nameTest : List Nat := [0x74, 0x65, 0x73, 0x74, 0x2E, 0x74, 0x78, 0x74]

/-- The file `test.txt` created on the freshly formatted small device. -/
def demoCreated : Option ItemResult :=
  ufs_OpenItem 64 demoMount.ufs demoMount.fl nameTest blankItem

/-- Some payload bytes: byte `i` is `(7 i + 1) mod 256`. -/
def demoData : Buf := fun i => (i * 7 + 1) % 256

/-- The flash `fl` with every slot of the first cluster-map sector of the small
device (sector 4) set to `UFS_CLUSTER_END`: no cluster is free. -/
def fullMap (fl : Flash) : Flash :=
  fun s i => if s = 4 ∧ i < 64 then (if i % 2 = 0 then 0xFD else 0xFF) else fl s i

/-- The flash `fl` with bit 0 of the first byte of sector 19 (the first data
sector of cluster 1 of the small device) already programmed to 0. -/
def staleBit (fl : Flash) : Flash :=
  fun s i => if s = 19 ∧ i = 0 then 0xFE else fl s i

/-- The small device with no free cluster: `test.txt` has been created on the
fresh device (it owns cluster 1) and every map slot reads `UFS_CLUSTER_END`.
Then 193 bytes, which need two clusters of 192 bytes, are written to the file
without checksum. -/
def fullDeviceWrite : Option ItemResult :=
  demoCreated.bind fun o =>
    ufs_WriteFile 64 o.ufs (fullMap o.fl) o.item demoData 193 CHECKSUM_DISABLE

/-- The same write as `fullDeviceWrite` with the checksum enabled, on a flash
whose first data byte of cluster 1 has one bit already programmed, so that the
sector read back differs in that bit from the sector written. -/
def staleBitWrite : Option ItemResult :=
  demoCreated.bind fun o =>
    ufs_WriteFile 64 o.ufs (staleBit (fullMap o.fl)) o.item demoData 193 CHECKSUM_ENABLE

/-- The file `test.txt` opened with a zeroed handle on the device that the write
of `staleBitWrite` left. -/
def reopenedAfterFailure : Option ItemResult :=
  staleBitWrite.bind fun r => ufs_OpenItem 64 r.ufs r.fl nameTest blankItem

/-- The deletion of the file opened by `reopenedAfterFailure`. -/
def deletedAfterFailure : Option DeleteResult :=
  reopenedAfterFailure.map fun o => ufs_DeleteItem o.ufs o.fl o.item

/-- The value of the map slot of cluster `c` on the flash, read as the code reads
it: 16-bit little-endian at position `c % (Ssec / 2)` of map sector `c / (Ssec / 2)`. -/
def mapSlot (ufs : UFS) (fl : Flash) (c : Nat) : Nat :=
  rd16 (fl (u16 (ufs.ClusterMappingZoneFirstSector + c / halfSector ufs))) (c % halfSector ufs * 2)

/-- The small device whose only free cluster is cluster 5. -/
def oneFreeFlash : Flash :=
  fun s i => if s = 4 ∧ (i = 10 ∨ i = 11) then 0xFF else fullMap demoMount.fl s i

/-- The record of `test.txt` created on the small device with its size member
set to 170 (`0xAA`), as `ufs_WriteFile` sets it for 170 bytes, stored by
`ufs_UpdateItemInfo`; the result is the size member of the record that the
item-zone scan then decodes from the flash at the same location. -/
def size170ReadBack : Option Nat :=
  demoCreated.map fun o =>
    info_size (bufAt
      (readItemSector o.ufs
        (ufs_UpdateItemInfo o.ufs o.fl (o.item.withInfo (set_info_size o.item.info 170))).1
        o.item.location.sector_id)
      (o.item.location.position * sizeof_ItemInfo))

/-- A geometry with 20-byte sectors, 1 sector per block, 100 sectors and 1 item. -/
def tinyCfg : ufs_Cfg_Type :=
  { api := { u16numberByteOfSector := 20, u16numberSectorOfBlock := 1,
             u32numberSectorOfDevice := 100 }
    u8NumberEncodeFileExtension := 0
    u8NumberFileMaxOfDevice := 1
    pExtensionEncodeFileList := [] }

/-- The tiny device formatted from an erased flash. -/
def tinyFormat : UFS × Flash := ufs_FastFormat (blankUfs tinyCfg) erasedFlash demoUid

/-- The flash `fl` with bit 0 of the last byte of the boot sector of the small
device (byte 63 of sector 0) inverted. -/
def corruptLastByte (fl : Flash) : Flash :=
  fun s i => if s = 0 ∧ i = 63 then fl s i ^^^ 0x01 else fl s i

/-- The flash of the small device after `test.txt` has been created on it. -/
def demoFileFlash : Flash := (demoCreated.map fun o => o.fl).getD erasedFlash

/-- The cluster map as `ufs_CleanClusters` sees it during its loop: the sector
buffer stands for the map sector `idSector`, the flash for every other sector. -/
def cleanView (ufs : UFS) (st : CleanState) : Flash :=
  fun s i => if s = u16 (ufs.ClusterMappingZoneFirstSector + st.idSector) then st.data_sector i
    else st.fl s i

/-- The statement `if (*valueSlot != UFS_CLUSTER_BAD) *valueSlot = UFS_CLUSTER_FREE`
applied to the slot of `cluster` directly on the flash content. -/
def freeSlot (ufs : UFS) (fl : Flash) (cluster : Nat) : Flash :=
  fun s i => if s = u16 (ufs.ClusterMappingZoneFirstSector + cluster / halfSector ufs)
    then freeUnlessBad (fl s) (cluster % halfSector ufs) i else fl s i

/-- The statement of `freeSlot` applied to `clusters[countSlot - 1]`, ...,
`clusters[0]` in that order. -/
def freeChain (ufs : UFS) (clusters : Nat → Nat) : Nat → Flash → Flash
  | 0, fl => fl
  | countSlot + 1, fl => freeChain ufs clusters countSlot (freeSlot ufs fl (clusters countSlot))

/-- A device of 65535 sectors of 256 bytes, 1 sector per block, 20 items.
Formatting it gives `ClusterMappingZoneFirstSector = 4`,
`ClusterDataZoneFirstSector = 528` and `NumberSectorOfCluster = 1`, hence 65007
clusters of 256 bytes. -/
def largeCfg : ufs_Cfg_Type :=
  { api := { u16numberByteOfSector := 256, u16numberSectorOfBlock := 1,
             u32numberSectorOfDevice := 65535 }
    u8NumberEncodeFileExtension := 0
    u8NumberFileMaxOfDevice := 20
    pExtensionEncodeFileList := [] }

/-- The `UFS` object of the large device after formatting. -/
def largeUfs : UFS := (ufs_FastFormat (blankUfs largeCfg) erasedFlash demoUid).1

/-- A flash of the large device on which every slot of the cluster map (sectors
4 to 515) reads `UFS_CLUSTER_END`. -/
def largeFullFlash : Flash :=
  fun s i => if 4 ≤ s ∧ s < 516 ∧ i % 2 = 0 then 0xFD else 0xFF

/-- The cluster vector of a file of 32768 clusters: clusters 1 to 32768, then
`UFS_CLUSTER_END`. -/
def longChain : Nat → Nat := fun i => if i < 32768 then i + 1 else UFS_CLUSTER_END

/-- The flash `largeFullFlash` with the slot of cluster 4 (bytes 8 and 9 of
sector 4) reading `UFS_CLUSTER_BAD`. -/
def largeBadFlash : Flash :=
  fun s i => if s = 4 ∧ i = 8 then 0xFE else largeFullFlash s i

/-- The cluster vector of a file of three clusters 3, 200, 4 of the large device
(cluster 200 lies in the second map sector), then `UFS_CLUSTER_END`. -/
def crossChain : Nat → Nat := fun i => [3, 200, 4].getD i UFS_CLUSTER_END

/-- The name `log.bin`. -/
def nameLog : List Nat := [0x6C, 0x6F, 0x67, 0x2E, 0x62, 0x69, 0x6E]

/-- The result of the creation of `test.txt` on the freshly formatted small
device (`demoCreated`, which does not run out of fuel). -/
def demoFirst : ItemResult :=
  demoCreated.getD { ufs := demoMount.ufs, fl := demoMount.fl, item := blankItem, ret := UFS_NOT_OK }

/-- The call of `ufs_OpenItem` for `log.bin` that follows the creation of `test.txt`. -/
def demoSecondCall : Option ItemResult :=
  ufs_OpenItem 64 demoFirst.ufs demoFirst.fl nameLog blankItem

/-- The result of `demoSecondCall` (which does not run out of fuel). -/
def demoSecond : ItemResult :=
  demoSecondCall.getD { ufs := demoFirst.ufs, fl := demoFirst.fl, item := blankItem, ret := UFS_NOT_OK }

/-! ## `LiteLink_CalCrc8` (`llnet_helper.c`) -/

/-- The lookup table `CRC8_J1850_TABLE` of `llnet_helper.c`. -/
def CRC8_J1850_TABLE : List Nat :=
  [
   0x00, 0x1D, 0x3A, 0x27, 0x74, 0x69, 0x4E, 0x53,
   0xE8, 0xF5, 0xD2, 0xCF, 0x9C, 0x81, 0xA6, 0xBB,
   0xCD, 0xD0, 0xF7, 0xEA, 0xB9, 0xA4, 0x83, 0x9E,
   0x25, 0x38, 0x1F, 0x02, 0x51, 0x4C, 0x6B, 0x76,
   0x87, 0x9A, 0xBD, 0xA0, 0xF3, 0xEE, 0xC9, 0xD4,
   0x6F, 0x72, 0x55, 0x48, 0x1B, 0x06, 0x21, 0x3C,
   0x4A, 0x57, 0x70, 0x6D, 0x3E, 0x23, 0x04, 0x19,
   0xA2, 0xBF, 0x98, 0x85, 0xD6, 0xCB, 0xEC, 0xF1,
   0x13, 0x0E, 0x29, 0x34, 0x67, 0x7A, 0x5D, 0x40,
   0xFB, 0xE6, 0xC1, 0xDC, 0x8F, 0x92, 0xB5, 0xA8,
   0xDE, 0xC3, 0xE4, 0xF9, 0xAA, 0xB7, 0x90, 0x8D,
   0x36, 0x2B, 0x0C, 0x11, 0x42, 0x5F, 0x78, 0x65,
   0x94, 0x89, 0xAE, 0xB3, 0xE0, 0xFD, 0xDA, 0xC7,
   0x7C, 0x61, 0x46, 0x5B, 0x08, 0x15, 0x32, 0x2F,
   0x59, 0x44, 0x63, 0x7E, 0x2D, 0x30, 0x17, 0x0A,
   0xB1, 0xAC, 0x8B, 0x96, 0xC5, 0xD8, 0xFF, 0xE2,
   0x26, 0x3B, 0x1C, 0x01, 0x52, 0x4F, 0x68, 0x75,
   0xCE, 0xD3, 0xF4, 0xE9, 0xBA, 0xA7, 0x80, 0x9D,
   0xEB, 0xF6, 0xD1, 0xCC, 0x9F, 0x82, 0xA5, 0xB8,
   0x03, 0x1E, 0x39, 0x24, 0x77, 0x6A, 0x4D, 0x50,
   0xA1, 0xBC, 0x9B, 0x86, 0xD5, 0xC8, 0xEF, 0xF2,
   0x49, 0x54, 0x73, 0x6E, 0x3D, 0x20, 0x07, 0x1A,
   0x6C, 0x71, 0x56, 0x4B, 0x18, 0x05, 0x22, 0x3F,
   0x84, 0x99, 0xBE, 0xA3, 0xF0, 0xED, 0xCA, 0xD7,
   0x35, 0x28, 0x0F, 0x12, 0x41, 0x5C, 0x7B, 0x66,
   0xDD, 0xC0, 0xE7, 0xFA, 0xA9, 0xB4, 0x93, 0x8E,
   0xF8, 0xE5, 0xC2, 0xDF, 0x8C, 0x91, 0xB6, 0xAB,
   0x10, 0x0D, 0x2A, 0x37, 0x64, 0x79, 0x5E, 0x43,
   0xB2, 0xAF, 0x88, 0x95, 0xC6, 0xDB, 0xFC, 0xE1,
   0x5A, 0x47, 0x60, 0x7D, 0x2E, 0x33, 0x14, 0x09,
   0x7F, 0x62, 0x45, 0x58, 0x0B, 0x16, 0x31, 0x2C,
   0x97, 0x8A, 0xAD, 0xB0, 0xE3, 0xFE, 0xD9, 0xC4]

/-- Function `LiteLink_CalCrc8`: `crc` and the data bytes are `uint8_t`, `idx`
and `length` are `uint16_t`; the byte taken at step `idx` is `u8DataPtr[idx & 0xFF]`. -/
def LiteLink_CalCrc8 (InitialValue : Nat) (u8DataPtr : Buf) (length : Nat) : Nat :=
  ((List.range length).foldl
    (fun crc idx => CRC8_J1850_TABLE.getD (crc ^^^ u8DataPtr (idx &&& 0xFF)) 0) InitialValue)
    ^^^ InitialValue

/-- One shift of the bit-serial CRC-8 with polynomial `0x1D`, most significant
bit first, on an 8-bit register. -/
def crc8ShiftBit (crc : Nat) : Nat :=
  if crc &&& 0x80 ≠ 0 then ((crc <<< 1) ^^^ 0x1D) % 256 else (crc <<< 1) % 256

/-- The bit-serial CRC-8 register after one more data byte: the byte is XORed
into the register, which is then shifted eight times. -/
def crc8ShiftByte (crc b : Nat) : Nat :=
  crc8ShiftBit (crc8ShiftBit (crc8ShiftBit (crc8ShiftBit (crc8ShiftBit (crc8ShiftBit
    (crc8ShiftBit (crc8ShiftBit (crc ^^^ b))))))))

/-- The reference of the specification: the bit-serial SAE J1850 CRC-8 of a byte
sequence (polynomial `0x1D`, initial value `0xFF`, most significant bit first, no
reflection, final XOR `0xFF`). -/
def crc8_J1850_bitSerial (data : List Nat) : Nat :=
  (data.foldl crc8ShiftByte 0xFF) ^^^ 0xFF

/-- A frame of 257 bytes, all zero but the last (byte 256), which is 1. -/
def crcLongFrame : Buf := fun i => if i = 256 then 1 else 0

/-- The name `boot.bin`, whose extension is in the encoded list of the small device. -/
def nameBoot : List Nat := [0x62, 0x6F, 0x6F, 0x74, 0x2E, 0x62, 0x69, 0x6E]

/-- The file `boot.bin` created on the freshly formatted small device with a
zeroed handle. -/
def bootOpened : Option ItemResult :=
  ufs_OpenItem 64 demoMount.ufs demoMount.fl nameBoot blankItem

/-- The handle of `bootOpened`, still open, is used to open `test.txt` on the
same device, as `Service_OpenFile` of `file_SQ.c` does with its static handle. -/
def reusedHandle : Option ItemResult :=
  bootOpened.bind fun r => ufs_OpenItem 64 r.ufs r.fl nameTest r.item

/-- The file `test.txt` of the small device after 10 bytes of `demoData` have
been written to it without checksum. -/
def tenByteFile : Option ItemResult :=
  demoCreated.bind fun o => ufs_WriteFile 64 o.ufs o.fl o.item demoData 10 CHECKSUM_DISABLE

/-- The flash `fl` of the small device with the first byte of every item slot
(sectors 1 to 3, offsets 0 and 32) holding the stored form of the letter `x`:
no item slot is free. -/
def fullItemZone (fl : Flash) : Flash :=
  fun s i => if 1 ≤ s ∧ s ≤ 3 ∧ i % 32 = 0 then 0x78 ^^^ 0xAA else fl s i

/-- The flash of the small device holding `test.txt` in which the slot at item
sector 0, position 1 holds a record named `x` whose 16-bit parent field is
`0x0100`. -/
def foreignParentFlash : Flash :=
  writeItemRecord demoMount.ufs demoFileFlash 0 1
    (set_info_parent (set_info_length (setByte (fun _ => 0) 0 0x78) 1) 0x0100) (fun _ => 0)

/-! ## `ufs_RenameItem` -/

def UFS_ERROR_EXISTED : Nat := 0x04
def MAX_PATH_PARTS : Nat := 5

/-- The C string that `ufs_ParseNameFile` leaves in the buffer `name` of its
caller: `ufs_RemoveSpecialChars` cleans it in place, and the first `strtok_r`
writes a NUL over the dot that ends the first token, if there is one. -/
def ufs_ParseNameFile_string (name : List Nat) : List Nat :=
  match strtok_r (ufs_RemoveSpecialChars name) 0 with
  | some (_, some saveptr) => (ufs_RemoveSpecialChars name).take (saveptr - 1)
  | _ => ufs_RemoveSpecialChars name

/-- The three-part test of the scan of `ufs_RenameItem` on segment `countSegment`
of the decoded sector buffer: head over `length` bytes, extension, length. -/
def nameMatches (nameChecker : Buf) (data_sector : Buf) (countSegment : Nat) : Bool :=
  UFS_OK == ufs_BytesCmp (info_head nameChecker) (bufAt data_sector (countSegment * sizeof_ItemInfo))
      (info_length nameChecker) &&
    UFS_OK == ufs_BytesCmp (info_extention nameChecker)
      (bufAt data_sector (countSegment * sizeof_ItemInfo + MAX_NAME_LENGTH)) 3 &&
    info_length nameChecker == data_sector (countSegment * sizeof_ItemInfo + MAX_NAME_LENGTH + 3)

/-- The pairs (sector, segment) in the order in which the scans of
`ufs_RenameItem` and `ufs_CheckExistence` visit them; the sector bound is the
`int` expression `ClusterMappingZoneFirstSector - ItemZoneFirstSector`. -/
def scanSlots (ufs : UFS) : List (Nat × Nat) :=
  (List.range ((ufs.ClusterMappingZoneFirstSector : Int) - (ufs.ItemZoneFirstSector : Int)).toNat).flatMap
    (fun countSector => (List.range (u16 (ufs.conf.api.u16numberByteOfSector / sizeof_ItemInfo))).map
      (fun countSegment => (countSector, countSegment)))

/-- The scan of `ufs_RenameItem` (lines 1921..1948): whether some slot passes
the test, in which case the function returns at once. -/
def ufs_RenameItem_conflict (ufs : UFS) (fl : Flash) (nameChecker : Buf) : Bool :=
  (scanSlots ufs).any (fun slot => nameMatches nameChecker (readItemSector ufs fl slot.1) slot.2)

/-- Function `ufs_RenameItem`.  The parse sets every field of the local
`nameChecker`, here the first 20 bytes of a buffer; the new name is parsed a
second time from the string that the first parse left. -/
def ufs_RenameItem (ufs : UFS) (fl : Flash) (item : ufs_Item_Type) (strName : List Nat) :
    ItemResult :=
  if item.ufs = false ∨ item.err ≠ UFS_ERROR_NONE then
    { ufs := ufs, fl := fl, item := item, ret := UFS_NOT_OK }
  else if ufs_RenameItem_conflict ufs fl (ufs_ParseNameFile strName (fun _ => 0)) then
    { ufs := ufs, fl := fl, item := item.withErr UFS_ERROR_EXISTED, ret := UFS_NOT_OK }
  else
    { ufs := ufs
      fl := (ufs_UpdateItemInfo ufs fl
        (item.withInfo (ufs_ParseNameFile (ufs_ParseNameFile_string strName) item.info))).1
      item := (ufs_UpdateItemInfo ufs fl
        (item.withInfo (ufs_ParseNameFile (ufs_ParseNameFile_string strName) item.info))).2.1
      ret := UFS_OK }

/-! ## `ufs_CheckExistence`, `ufs_FindFreeSlot`, `ufs_ParsePath`, `ufs_Mount` -/

/-- The handle after the statements that `ufs_CheckExistence` executes on a
match (lines 1172..1177); the status is taken from the parsed extension before
the record is copied. -/
def ufs_CheckExistence_found (item : ufs_Item_Type) (data_sector : Buf) (slot : Nat × Nat) :
    ufs_Item_Type :=
  ((((item.withLocation slot.1 slot.2).withStatus
    (if info_extention item.info 0 = 0x00 then UFS_FOLDER_EXIST else UFS_FILE_EXIST)).withErr
    UFS_ERROR_NONE).withUfs true).withInfo
    (memcpy item.info 0 (bufAt data_sector (slot.2 * sizeof_ItemInfo)) sizeof_ItemInfo)

/-- Function `ufs_CheckExistence`: the handle and the status. -/
def ufs_CheckExistence (ufs : UFS) (fl : Flash) (name : List Nat) (item : ufs_Item_Type) :
    ufs_Item_Type × Nat :=
  match (scanSlots ufs).find? (fun slot =>
      itemMatches ufs (ufs_ParseNameFile name item.info) (readItemSector ufs fl slot.1) slot.2) with
  | some slot =>
    (ufs_CheckExistence_found
      ((item.withInfo (ufs_ParseNameFile name item.info)).withErr UFS_ERROR_NONE)
      (readItemSector ufs fl slot.1) slot, UFS_OK)
  | none =>
    ((((item.withInfo (ufs_ParseNameFile name item.info)).withLocation 0xFFFF 0xFFFF).withStatus
      UFS_ITEM_FREE).withErr UFS_ERROR_NOT_EXISTED, UFS_NOT_OK)

/-- Function `ufs_FindFreeSlot`: the first slot, in the order of `itemSlots`,
whose decoded first byte is `UFS_ITEM_FREE`; `none` stands for `UFS_NOT_OK`. -/
def ufs_FindFreeSlot (ufs : UFS) (fl : Flash) : Option (Nat × Nat) :=
  (itemSlots ufs).find? (fun slot =>
    readItemSector ufs fl slot.1 (slot.2 * sizeof_ItemInfo) == UFS_ITEM_FREE)

/-- Function `ufs_ParsePath`: the path is copied into a buffer of 255 bytes whose
last byte is set to NUL, and cut at each `/` by `strtok`; `none` stands for
`UFS_NOT_OK`, returned when there are more than `max_parts` parts: the nodes
built so far are freed and `*head` keeps their address.  A part fills the 200
bytes of a list node only from 200 characters on, which the 255-byte copy
allows; the model keeps such a part whole. -/
def ufs_ParsePath (path : List Nat) (max_parts : Nat) : Option (List (List Nat)) :=
  if (((path.take 254).splitOn 0x2F).filter (fun token => !token.isEmpty)).length > max_parts
  then none
  else some (((path.take 254).splitOn 0x2F).filter (fun token => !token.isEmpty))

/-- State of the loop of `ufs_Mount`. -/
structure MountState where
  ufs : UFS
  fl : Flash
  item : ufs_Item_Type

/-- The handle that `ufs_Mount` builds for a directory to create (lines
2239..2246): location, size 0, parent, no error, folder status, then
`strncpy(head, part, MAX_NAME_LENGTH)` from the part as `ufs_CheckExistence`
left it. -/
def ufs_Mount_newFolder (ufs : UFS) (item : ufs_Item_Type) (slot : Nat × Nat) (part : List Nat) :
    ufs_Item_Type :=
  (((item.withLocation slot.1 slot.2).withInfo
    (strncpy (set_info_parent (set_info_size item.info 0) ufs.path_id) 0
      (ufs_ParseNameFile_string part) MAX_NAME_LENGTH)).withErr UFS_ERROR_NONE).withStatus
    UFS_FOLDER_EXIST

/-- The statement of `ufs_Mount` that enters the directory of the handle
(line 2263): `path.id = sector_id * (Ssec / 32) + position`, a `uint16_t`. -/
def ufs_Mount_enter (ufs : UFS) (item : ufs_Item_Type) : UFS :=
  ufs.withPathId (u16 (item.location.sector_id *
    (ufs.conf.api.u16numberByteOfSector / sizeof_ItemInfo) + item.location.position))

/-- The `while (current != NULL)` loop of `ufs_Mount` over the parts left;
`backup` is the path id to restore on failure. -/
def ufs_Mount_loop (backup : Nat) : List (List Nat) → MountState → MountState × Nat
  | [], st => (st, UFS_OK)
  | part :: rest, st =>
    if (ufs_CheckExistence st.ufs st.fl part st.item).2 = UFS_OK then
      ufs_Mount_loop backup rest
        { ufs := ufs_Mount_enter st.ufs (ufs_CheckExistence st.ufs st.fl part st.item).1
          fl := st.fl
          item := (ufs_CheckExistence st.ufs st.fl part st.item).1 }
    else
      match ufs_FindFreeSlot st.ufs st.fl with
      | none =>
        ({ ufs := st.ufs.withPathId backup, fl := st.fl
           item := (ufs_CheckExistence st.ufs st.fl part st.item).1 }, UFS_NOT_OK)
      | some slot =>
        if (ufs_UpdateItemInfo st.ufs st.fl (ufs_Mount_newFolder st.ufs
            (ufs_CheckExistence st.ufs st.fl part st.item).1 slot part)).2.2 ≠ UFS_OK then
          ({ ufs := st.ufs.withPathId backup, fl := st.fl
             item := (ufs_UpdateItemInfo st.ufs st.fl (ufs_Mount_newFolder st.ufs
               (ufs_CheckExistence st.ufs st.fl part st.item).1 slot part)).2.1 }, UFS_NOT_OK)
        else
          ufs_Mount_loop backup rest
            { ufs := ufs_Mount_enter st.ufs (ufs_UpdateItemInfo st.ufs st.fl
                (ufs_Mount_newFolder st.ufs (ufs_CheckExistence st.ufs st.fl part st.item).1
                  slot part)).2.1
              fl := (ufs_UpdateItemInfo st.ufs st.fl (ufs_Mount_newFolder st.ufs
                (ufs_CheckExistence st.ufs st.fl part st.item).1 slot part)).1
              item := (ufs_UpdateItemInfo st.ufs st.fl (ufs_Mount_newFolder st.ufs
                (ufs_CheckExistence st.ufs st.fl part st.item).1 slot part)).2.1 }

/-- The zeroed handle of `ufs_Mount` (`memset` of the local `item`). -/
def ufs_Mount_item : ufs_Item_Type :=
  { location := { sector_id := 0, position := 0 }, clusters_value := fun _ => 0
    clusters_length := 0, info := fun _ => 0, status := 0, err := 0, ufs := false
    EncodeEnable := 0 }

/-- Function `ufs_Mount`: the `UFS` object, the flash and the status.  The
result is `none` for a path of more than `MAX_PATH_PARTS` components:
`ufs_ParsePath` then frees the list of parts and leaves `path_list` pointing to
the freed nodes, and `ufs_Mount` passes the same list to `ufs_FreePathList` once
more before it returns, which has no defined result. -/
def ufs_Mount (ufs : UFS) (fl : Flash) (path : List Nat) : Option (UFS × Flash × Nat) :=
  match ufs_ParsePath path MAX_PATH_PARTS with
  | none => none
  | some parts =>
    some ((ufs_Mount_loop ufs.path_id parts
        { ufs := ufs.withPathId 0, fl := fl, item := ufs_Mount_item }).1.ufs,
      (ufs_Mount_loop ufs.path_id parts
        { ufs := ufs.withPathId 0, fl := fl, item := ufs_Mount_item }).1.fl,
      (ufs_Mount_loop ufs.path_id parts
        { ufs := ufs.withPathId 0, fl := fl, item := ufs_Mount_item }).2)

/-! ## `ufs_WriteAppendFile` -/

/-- The element `clusters.value[i]` for an `int` index `i`: an index below 0
reads the 16-bit word `below` that the heap holds in front of the array. -/
def clusterAt (file : ufs_Item_Type) (below : Nat) (i : Int) : Nat :=
  if i < 0 then below else file.clusters_value i.toNat

/-- The `uint32_t` variable `cluster_offset`,
`ClusterDataZoneFirstSector + clusters.value[cluster_index] * NSC + sector_offset`. -/
def appendOffset (ufs : UFS) (file : ufs_Item_Type) (cluster_index sector_offset : Nat) : Nat :=
  u32 (ufs.ClusterDataZoneFirstSector +
    file.clusters_value cluster_index * ufs.NumberSectorOfCluster + sector_offset)

/-- The statements that write the sector buffer and, when the checksum is
enabled, read it back and compare the checksums (written three times in
`ufs_WriteAppendFile`): the flash, the buffer afterwards, and whether the
checksums differ. -/
def writeVerify (ufs : UFS) (fl : Flash) (sector : Nat) (data_sector : Buf) (sumEnable : Nat) :
    Flash × Buf × Bool :=
  (WriteSector fl sector data_sector ufs.conf.api.u16numberByteOfSector,
    (if sumEnable = CHECKSUM_ENABLE then
      ReadSector (WriteSector fl sector data_sector ufs.conf.api.u16numberByteOfSector) sector
        data_sector ufs.conf.api.u16numberByteOfSector
     else data_sector),
    (sumEnable == CHECKSUM_ENABLE &&
      ufs_CheckSum data_sector ufs.conf.api.u16numberByteOfSector !=
        ufs_CheckSum
          (ReadSector (WriteSector fl sector data_sector ufs.conf.api.u16numberByteOfSector) sector
            data_sector ufs.conf.api.u16numberByteOfSector)
          ufs.conf.api.u16numberByteOfSector))

/-- State of the loop of `ufs_WriteAppendFile` that fills the last cluster.
`cluster_offset` stands for both `cluster_offset` and `cluster_offset_old`, which
are equal after every iteration; `failed` tells that a read-back differed. -/
structure AppendState where
  fl : Flash
  data_sector : Buf
  bytes_written : Nat
  cluster_offset : Nat
  failed : Bool

/-- The `if (cluster_offset != cluster_offset_old)` block of the loop (lines
1709..1740) for the byte `countByte` of the cluster. -/
def ufs_WriteAppendFile_turn (ufs : UFS) (file : ufs_Item_Type) (sumEnable cluster_index : Nat)
    (countByte : Nat) (st : AppendState) : AppendState :=
  if appendOffset ufs file cluster_index (u16 (countByte / ufs.conf.api.u16numberByteOfSector))
      ≠ st.cluster_offset then
    if (writeVerify ufs st.fl (u16 st.cluster_offset) st.data_sector sumEnable).2.2 then
      { fl := (writeVerify ufs st.fl (u16 st.cluster_offset) st.data_sector sumEnable).1
        data_sector := (writeVerify ufs st.fl (u16 st.cluster_offset) st.data_sector sumEnable).2.1
        bytes_written := st.bytes_written
        cluster_offset := st.cluster_offset
        failed := true }
    else
      { fl := (writeVerify ufs st.fl (u16 st.cluster_offset) st.data_sector sumEnable).1
        data_sector := ReadSector
          (writeVerify ufs st.fl (u16 st.cluster_offset) st.data_sector sumEnable).1
          (u16 (appendOffset ufs file cluster_index
            (u16 (countByte / ufs.conf.api.u16numberByteOfSector))))
          (writeVerify ufs st.fl (u16 st.cluster_offset) st.data_sector sumEnable).2.1
          ufs.conf.api.u16numberByteOfSector
        bytes_written := st.bytes_written
        cluster_offset := appendOffset ufs file cluster_index
          (u16 (countByte / ufs.conf.api.u16numberByteOfSector))
        failed := false }
  else st

/-- The two statements of the loop that store one data byte (lines 1743..1749). -/
def ufs_WriteAppendFile_store (ufs : UFS) (file : ufs_Item_Type) (data : Buf) (countByte : Nat)
    (st : AppendState) : AppendState :=
  { fl := st.fl
    data_sector := setByte st.data_sector (countByte % ufs.conf.api.u16numberByteOfSector)
      (payloadCodec ufs file (data st.bytes_written))
    bytes_written := u32 (st.bytes_written + 1)
    cluster_offset := st.cluster_offset
    failed := false }

/-- The loop `for (countByte = offset_within_cluster; countByte < cluster_size &&
bytes_written < length; countByte++)`; the first argument bounds the iterations left. -/
def ufs_WriteAppendFile_lastCluster (ufs : UFS) (file : ufs_Item_Type) (data : Buf)
    (length sumEnable cluster_index : Nat) : Nat → Nat → AppendState → AppendState
  | 0, _, st => st
  | n + 1, countByte, st =>
    if countByte < u32 (clusterBytes ufs) ∧ st.bytes_written < length then
      if (ufs_WriteAppendFile_turn ufs file sumEnable cluster_index countByte st).failed then
        ufs_WriteAppendFile_turn ufs file sumEnable cluster_index countByte st
      else ufs_WriteAppendFile_lastCluster ufs file data length sumEnable cluster_index n (countByte + 1)
        (ufs_WriteAppendFile_store ufs file data countByte
          (ufs_WriteAppendFile_turn ufs file sumEnable cluster_index countByte st))
    else st

/-- The four statements executed when a read-back differs (written three times
in `ufs_WriteAppendFile`). -/
def ufs_WriteAppendFile_fail (ufs : UFS) (fl : Flash) (file : ufs_Item_Type)
    (cluster_index bytes_written : Nat) : ItemResult :=
  { ufs := (ufs_CleanClusters ufs fl (fun i => file.clusters_value (cluster_index + i))
      (u16i ((file.clusters_length : Int) - (cluster_index : Int)))).ufs
    fl := ufs_SetClusterMap
      (ufs_CleanClusters ufs fl (fun i => file.clusters_value (cluster_index + i))
        (u16i ((file.clusters_length : Int) - (cluster_index : Int)))).ufs
      (ufs_CleanClusters ufs fl (fun i => file.clusters_value (cluster_index + i))
        (u16i ((file.clusters_length : Int) - (cluster_index : Int)))).fl
      (file.clusters_value cluster_index) UFS_CLUSTER_BAD
    item := (file.withInfo
      (set_info_size file.info (u32 (info_size file.info + bytes_written)))).withErr
      UFS_ERROR_SUM_SECTOR_FAIL
    ret := UFS_NOT_OK }

/-- The end of `ufs_WriteAppendFile` on success: the size is stored in the record
and the record persisted. -/
def ufs_WriteAppendFile_commit (ufs : UFS) (fl : Flash) (file : ufs_Item_Type) (new_size : Nat) :
    ItemResult :=
  { ufs := ufs
    fl := (ufs_UpdateItemInfo ufs fl (file.withInfo (set_info_size file.info new_size))).1
    item := (ufs_UpdateItemInfo ufs fl (file.withInfo (set_info_size file.info new_size))).2.1
    ret := UFS_OK }

/-- The sector loop of the last part of `ufs_WriteAppendFile` for cluster
`cluster_index`; its body is the body of the sector loop of `ufs_WriteFile`, the
loop ends when `bytes_written >= length`.  Outcome 0, 1, 2 as in
`ufs_WriteFile_sectors`. -/
def ufs_WriteAppendFile_sectors (ufs : UFS) (file : ufs_Item_Type) (data : Buf)
    (length sumEnable cluster_index : Nat) : Nat → Nat → WriteState → WriteState × Nat
  | 0, _, st => (st, 0)
  | n + 1, sector_in_cluster, st =>
    if ufs_WriteFile_mismatch ufs file data length sumEnable cluster_index sector_in_cluster st
    then (ufs_WriteFile_sector ufs file data length sumEnable cluster_index sector_in_cluster st, 2)
    else if (ufs_WriteFile_sector ufs file data length sumEnable cluster_index sector_in_cluster
        st).bytes_written ≥ length
    then (ufs_WriteFile_sector ufs file data length sumEnable cluster_index sector_in_cluster st, 1)
    else ufs_WriteAppendFile_sectors ufs file data length sumEnable cluster_index n
      (sector_in_cluster + 1)
      (ufs_WriteFile_sector ufs file data length sumEnable cluster_index sector_in_cluster st)

/-- The cluster loop of the last part of `ufs_WriteAppendFile`; the first
argument is the fuel.  Result: `none` when the fuel runs out, else the state, an
outcome (0: all written or loop ended, 2: a read-back differed, 3: the vector
entry is `UFS_CLUSTER_END` or `UFS_CLUSTER_BAD`) and the cluster index reached. -/
def ufs_WriteAppendFile_clusters (ufs : UFS) (file : ufs_Item_Type) (data : Buf)
    (length sumEnable : Nat) : Nat → Nat → WriteState → Option (WriteState × Nat × Nat)
  | 0, cluster_index, st =>
    if cluster_index < file.clusters_length then none else some (st, 0, cluster_index)
  | n + 1, cluster_index, st =>
    if cluster_index < file.clusters_length then
      if file.clusters_value cluster_index = UFS_CLUSTER_END ∨
          file.clusters_value cluster_index = UFS_CLUSTER_BAD
      then some (st, 3, cluster_index)
      else if (ufs_WriteAppendFile_sectors ufs file data length sumEnable cluster_index
          ufs.NumberSectorOfCluster 0 st).2 = 2
      then some ((ufs_WriteAppendFile_sectors ufs file data length sumEnable cluster_index
          ufs.NumberSectorOfCluster 0 st).1, 2, cluster_index)
      else if (ufs_WriteAppendFile_sectors ufs file data length sumEnable cluster_index
          ufs.NumberSectorOfCluster 0 st).1.bytes_written ≥ length
      then some ((ufs_WriteAppendFile_sectors ufs file data length sumEnable cluster_index
          ufs.NumberSectorOfCluster 0 st).1, 0, cluster_index)
      else ufs_WriteAppendFile_clusters ufs file data length sumEnable n (u16 (cluster_index + 1))
        (ufs_WriteAppendFile_sectors ufs file data length sumEnable cluster_index
          ufs.NumberSectorOfCluster 0 st).1
    else some (st, 0, cluster_index)

/-- The last part of `ufs_WriteAppendFile` (lines 1797..1889): the remaining
data goes to the clusters from index `current_cluster_count - 1` on. -/
def ufs_WriteAppendFile_rest (ufs : UFS) (fl : Flash) (file : ufs_Item_Type) (data : Buf)
    (length sumEnable current_cluster_count new_cluster_count new_size : Nat)
    (data_sector : Buf) (bytes_written : Nat) : Option ItemResult :=
  match ufs_WriteAppendFile_clusters ufs file data length sumEnable (file.clusters_length + 1)
      (u16i ((current_cluster_count : Int) - 1))
      { fl := fl, bytes_written := bytes_written, sector_buffer := data_sector } with
  | none => none
  | some (st, outcome, cluster_index) =>
    if outcome = 2 then
      some (ufs_WriteAppendFile_fail ufs st.fl file cluster_index st.bytes_written)
    else if outcome = 3 then
      some { ufs := (ufs_CleanClusters ufs st.fl (fun i => file.clusters_value (cluster_index + i))
               (u16i ((new_cluster_count : Int) - (current_cluster_count : Int) + 1))).ufs
             fl := (ufs_CleanClusters ufs st.fl (fun i => file.clusters_value (cluster_index + i))
               (u16i ((new_cluster_count : Int) - (current_cluster_count : Int) + 1))).fl
             item := file
             ret := UFS_NOT_OK }
    else some (ufs_WriteAppendFile_commit ufs st.fl file new_size)

/-- The state of the loop that fills the last cluster, at its start (lines
1695..1701): the sector holding the end of the file is read. -/
def ufs_WriteAppendFile_start (ufs : UFS) (fl : Flash) (file : ufs_Item_Type)
    (cluster_index offset_within_cluster : Nat) : AppendState :=
  { fl := fl
    data_sector := ReadSector fl
      (u16 (appendOffset ufs file cluster_index
        (u16 (offset_within_cluster / ufs.conf.api.u16numberByteOfSector))))
      (fun _ => 0) ufs.conf.api.u16numberByteOfSector
    bytes_written := 0
    cluster_offset := appendOffset ufs file cluster_index
      (u16 (offset_within_cluster / ufs.conf.api.u16numberByteOfSector))
    failed := false }

/-- The part of `ufs_WriteAppendFile` after the allocation (lines 1752..1889);
`st` is the state in which the loop that fills the last cluster ended. -/
def ufs_WriteAppendFile_tail (ufs : UFS) (file : ufs_Item_Type) (data : Buf)
    (length sumEnable current_cluster_count new_cluster_count new_size cluster_index : Nat)
    (st : AppendState) : Option ItemResult :=
  if st.failed then
    some (ufs_WriteAppendFile_fail ufs st.fl file cluster_index st.bytes_written)
  else if (writeVerify ufs st.fl (u16 st.cluster_offset) st.data_sector sumEnable).2.2 then
    some (ufs_WriteAppendFile_fail ufs
      (writeVerify ufs st.fl (u16 st.cluster_offset) st.data_sector sumEnable).1 file cluster_index
      st.bytes_written)
  else if st.bytes_written = length then
    some (ufs_WriteAppendFile_commit ufs
      (writeVerify ufs st.fl (u16 st.cluster_offset) st.data_sector sumEnable).1 file new_size)
  else
    ufs_WriteAppendFile_rest ufs
      (writeVerify ufs st.fl (u16 st.cluster_offset) st.data_sector sumEnable).1 file data length
      sumEnable current_cluster_count new_cluster_count new_size
      (writeVerify ufs st.fl (u16 st.cluster_offset) st.data_sector sumEnable).2.1 st.bytes_written

/-- The part of `ufs_WriteAppendFile` from line 1689 on, once the vector is long
enough: the last cluster is filled when the file does not end on a cluster
boundary, then the remaining clusters. -/
def ufs_WriteAppendFile_body (ufs : UFS) (fl : Flash) (file : ufs_Item_Type) (data : Buf)
    (length sumEnable current_cluster_count new_cluster_count new_size : Nat) :
    Option ItemResult :=
  if info_size file.info % u32 (clusterBytes ufs) > 0 then
    ufs_WriteAppendFile_tail ufs file data length sumEnable current_cluster_count
      new_cluster_count new_size (u16 (info_size file.info / u32 (clusterBytes ufs)))
      (ufs_WriteAppendFile_lastCluster ufs file data length sumEnable
        (u16 (info_size file.info / u32 (clusterBytes ufs)))
        (u32 (clusterBytes ufs) - info_size file.info % u32 (clusterBytes ufs))
        (info_size file.info % u32 (clusterBytes ufs))
        (ufs_WriteAppendFile_start ufs fl file (u16 (info_size file.info / u32 (clusterBytes ufs)))
          (info_size file.info % u32 (clusterBytes ufs))))
  else
    ufs_WriteAppendFile_rest ufs fl file data length sumEnable current_cluster_count
      new_cluster_count new_size (fun _ => 0) 0

/-- The cluster vector after `ufs_OrderClusters` has filled the part that starts
at `&clusters.value[current_cluster_count - 1]`. -/
def ufs_WriteAppendFile_vector (file : ufs_Item_Type) (current_cluster_count : Nat)
    (clusters : Nat → Nat) : Nat → Nat :=
  fun i => if (i : Int) ≥ (current_cluster_count : Int) - 1
    then clusters ((i : Int) - ((current_cluster_count : Int) - 1)).toNat
    else file.clusters_value i

/-- The block of `ufs_WriteAppendFile` that extends the cluster vector (lines
1654..1686), and what follows; `none` when a loop runs out of fuel. -/
def ufs_WriteAppendFile_grow (fuel : Nat) (ufs : UFS) (fl : Flash) (file : ufs_Item_Type)
    (below : Nat) (data : Buf) (length sumEnable current_cluster_count new_cluster_count
      new_size : Nat) : Option ItemResult :=
  match ufs_OrderClusters fuel ufs fl
      (fun i => clusterAt file below ((current_cluster_count : Int) - 1 + (i : Int)))
      (u16i ((new_cluster_count : Int) - (current_cluster_count : Int) + 1)) with
  | none => none
  | some r =>
    if r.ret ≠ UFS_OK then
      some { ufs := r.ufs, fl := r.fl
             item := (file.withClusters
               (ufs_WriteAppendFile_vector file current_cluster_count r.clusters)
               file.clusters_length).withErr UFS_ERROR_FULL_MEM
             ret := UFS_NOT_OK }
    else
      ufs_WriteAppendFile_body r.ufs
        (ufs_SetClusterMap r.ufs r.fl
          (clusterAt (file.withClusters
            (ufs_WriteAppendFile_vector file current_cluster_count r.clusters)
            file.clusters_length) below ((current_cluster_count : Int) - 2))
          (clusterAt (file.withClusters
            (ufs_WriteAppendFile_vector file current_cluster_count r.clusters)
            file.clusters_length) below ((current_cluster_count : Int) - 1)))
        (file.withClusters (ufs_WriteAppendFile_vector file current_cluster_count r.clusters)
          new_cluster_count)
        data length sumEnable current_cluster_count new_cluster_count new_size

/-- Function `ufs_WriteAppendFile`; `below` is the 16-bit word in front of the
cluster array (see `clusterAt`); `none` when a loop runs out of fuel. -/
def ufs_WriteAppendFile (fuel : Nat) (ufs : UFS) (fl : Flash) (file : ufs_Item_Type) (below : Nat)
    (data : Buf) (length sumEnable : Nat) : Option ItemResult :=
  if file.ufs = false ∨ file.err ≠ UFS_ERROR_NONE then
    some { ufs := ufs, fl := fl, item := file, ret := UFS_NOT_OK }
  else if file.status ≠ UFS_FILE_EXIST then
    some { ufs := ufs, fl := fl, item := file.withErr UFS_ERROR_ITEM_NOT_FILE, ret := UFS_NOT_OK }
  else if u16 (numberClusters ufs (u32 (info_size file.info + length))) >
      u16 (numberClusters ufs (info_size file.info)) then
    ufs_WriteAppendFile_grow fuel ufs fl file below data length sumEnable
      (u16 (numberClusters ufs (info_size file.info)))
      (u16 (numberClusters ufs (u32 (info_size file.info + length))))
      (u32 (info_size file.info + length))
  else
    ufs_WriteAppendFile_body ufs fl file data length sumEnable
      (u16 (numberClusters ufs (info_size file.info)))
      (u16 (numberClusters ufs (u32 (info_size file.info + length))))
      (u32 (info_size file.info + length))

/-- The name `b.txt`. -/
def nameBtxt : List Nat := [0x62, 0x2E, 0x74, 0x78, 0x74]

/-- The name `x.txt`. -/
def nameXtxt : List Nat := [0x78, 0x2E, 0x74, 0x78, 0x74]

/-- The path `/a`. -/
def pathA : List Nat := [0x2F, 0x61]

/-- The path `/`. -/
def pathRoot : List Nat := [0x2F]

/-- The path `/a/b/c`. -/
def pathABC : List Nat := [0x2F, 0x61, 0x2F, 0x62, 0x2F, 0x63]

/-- The path `/a/b`. -/
def pathAB : List Nat := [0x2F, 0x61, 0x2F, 0x62]

/-- The path of one component of 17 letters, sixteen `a` and a `q`. -/
def pathLong : List Nat := [0x2F] ++ List.replicate 16 0x61 ++ [0x71]

/-- The file `test.txt` of the freshly formatted small device renamed to `b.txt`. -/
def renamedFile : Option ItemResult :=
  demoCreated.map fun o => ufs_RenameItem o.ufs o.fl o.item nameBtxt

/-- The freshly formatted small device after `ufs_Mount("/a")` (one component,
so the call has a result). -/
def folderA : UFS × Flash × Nat :=
  (ufs_Mount demoMount.ufs demoMount.fl pathA).getD (demoMount.ufs, demoMount.fl, UFS_NOT_OK)

/-- The file `x.txt` created in the folder `/a`. -/
def fileInA : Option ItemResult := ufs_OpenItem 64 folderA.1 folderA.2.1 nameXtxt blankItem

/-- The file `test.txt` created in the root folder after `ufs_Mount("/")`, on the
device that holds `/a/x.txt`. -/
def fileAtRoot : Option ItemResult :=
  fileInA.bind fun r =>
    (ufs_Mount r.ufs r.fl pathRoot).bind fun m => ufs_OpenItem 64 m.1 m.2.1 nameTest blankItem

/-- The file `test.txt` of the root folder renamed to `x.txt`. -/
def renamedAtRoot : Option ItemResult :=
  fileAtRoot.map fun o => ufs_RenameItem o.ufs o.fl o.item nameXtxt

/-- The freshly formatted small device after `ufs_Mount("/a/b/c")` (three
components, so the call has a result). -/
def mountedABC : UFS × Flash × Nat :=
  (ufs_Mount demoMount.ufs demoMount.fl pathABC).getD (demoMount.ufs, demoMount.fl, UFS_NOT_OK)

/-- The device of `mountedABC` after `ufs_Mount("/a/b")`. -/
def mountedAB : UFS × Flash × Nat :=
  (ufs_Mount mountedABC.1 mountedABC.2.1 pathAB).getD (mountedABC.1, mountedABC.2.1, UFS_NOT_OK)

/-- The freshly formatted small device after `ufs_Mount` of `pathLong` (one
component, so the call has a result). -/
def mountedLong : UFS × Flash × Nat :=
  (ufs_Mount demoMount.ufs demoMount.fl pathLong).getD (demoMount.ufs, demoMount.fl, UFS_NOT_OK)

/-- The empty file `test.txt` just created on the small device, to which 8 bytes
of `demoData` are appended without checksum; the word in front of the cluster
array is 0. -/
def appendToEmpty : Option ItemResult :=
  demoCreated.bind fun o =>
    ufs_WriteAppendFile 64 o.ufs o.fl o.item 0 demoData 8 CHECKSUM_DISABLE

/-- The file `test.txt` opened again with a zeroed handle on the device that
`appendToEmpty` left (`ufs_CloseItem` on the first handle changes neither the
`UFS` object nor the flash). -/
def appendReopened : Option ItemResult :=
  appendToEmpty.bind fun r => ufs_OpenItem 64 r.ufs r.fl nameTest blankItem

/-- The file `test.txt` holding 10 bytes, to which the next 8 bytes of `demoData`
are appended with the checksum enabled, opened again with a zeroed handle. -/
def appendToTen : Option ItemResult :=
  (tenByteFile.bind fun o =>
    ufs_WriteAppendFile 64 o.ufs o.fl o.item 0 (bufAt demoData 10) 8 CHECKSUM_ENABLE).bind
    fun r => ufs_OpenItem 64 r.ufs r.fl nameTest blankItem

/-! ## The content that a write leaves in the data zone -/

/-- The sector of the data zone that holds the sector number `t` of a file:
`t / NSC` is the index in the cluster vector, `t % NSC` the sector in the cluster. -/
def fileSector (ufs : UFS) (file : ufs_Item_Type) (t : Nat) : Nat :=
  dataSector ufs file (t / ufs.NumberSectorOfCluster) (t % ufs.NumberSectorOfCluster)

/-- The byte that the byte loop of `ufs_WriteFile` puts in the sector buffer for
the position `q` of the file: the data byte through `payloadCodec`, or the
padding `UFS_BYTE_VALUE_AFTER_ERASE` from `length` on. -/
def storedByte (ufs : UFS) (file : ufs_Item_Type) (data : Buf) (length q : Nat) : Nat :=
  if q < length then payloadCodec ufs file (data q) else UFS_BYTE_VALUE_AFTER_ERASE

/-- Invariant of the loops of `ufs_WriteFile` over a chain of `K` data clusters:
the sectors of the file below number `m` hold the bytes of `storedByte`, the
other sectors of the chain are in the erased state. -/
def writtenUpTo (ufs : UFS) (file : ufs_Item_Type) (data : Buf) (length K m : Nat) (fl : Flash) :
    Prop :=
  (∀ t j, t < m → j < ufs.conf.api.u16numberByteOfSector →
      fl (fileSector ufs file t) j =
        storedByte ufs file data length (t * ufs.conf.api.u16numberByteOfSector + j)) ∧
    ∀ t j, m ≤ t → t < K * ufs.NumberSectorOfCluster → j < ufs.conf.api.u16numberByteOfSector →
      fl (fileSector ufs file t) j = UFS_BYTE_VALUE_AFTER_ERASE

/-- Two `UFS` objects with the same zones, cluster size, device id and
configuration: they differ at most in `UsedSize`, `latest_cluster` and `path_id`. -/
def sameGeometry (a b : UFS) : Prop :=
  a.ItemZoneFirstSector = b.ItemZoneFirstSector ∧
    a.ClusterMappingZoneFirstSector = b.ClusterMappingZoneFirstSector ∧
    a.ClusterDataZoneFirstSector = b.ClusterDataZoneFirstSector ∧
    a.NumberSectorOfCluster = b.NumberSectorOfCluster ∧
    a.DeviceId = b.DeviceId ∧ a.conf = b.conf

/-- The result of `bootOpened` (which does not run out of fuel): `boot.bin`
created on the freshly formatted small device, whose `DeviceId[0]` is `0x12`. -/
def bootFile : ItemResult :=
  bootOpened.getD { ufs := demoMount.ufs, fl := demoMount.fl, item := blankItem, ret := UFS_NOT_OK }

/-- A data buffer whose bytes are all `0xAA`. -/
def dataAA : Buf := fun _ => 0xAA

/-- The allocation that `ufs_WriteFile` makes when 8 bytes are written to
`boot.bin` of `bootFile`. -/
def bootAllocCall : Option ClusterResult :=
  ufs_OrderClusters 64
    (ufs_CleanClusters bootFile.ufs bootFile.fl bootFile.item.clusters_value
      bootFile.item.clusters_length).ufs
    (ufs_CleanClusters bootFile.ufs bootFile.fl bootFile.item.clusters_value
      bootFile.item.clusters_length).fl
    bootFile.item.clusters_value (u16 (numberClusters bootFile.ufs 8))

/-- The result of `bootAllocCall` (which does not run out of fuel). -/
def bootAlloc : ClusterResult :=
  bootAllocCall.getD { ufs := bootFile.ufs, fl := bootFile.fl, clusters := fun _ => 0,
                       ret := UFS_NOT_OK }

/-- The small device after 8 bytes of `demoData` have been written to `test.txt`
without checksum and the file deleted with `ufs_DeleteItem`. -/
def usedThenDeleted : Option DeleteResult :=
  (demoCreated.bind fun o => ufs_WriteFile 64 o.ufs o.fl o.item demoData 8 CHECKSUM_DISABLE).map
    fun r => ufs_DeleteItem r.ufs r.fl r.item

/-- The flash of `usedThenDeleted` mounted again with `newUFS` (a restart of the
device), and `boot.bin` created on it. -/
def bootOnUsed : Option ItemResult :=
  usedThenDeleted.bind fun r =>
    ufs_OpenItem 64 (newUFS demoCfg (blankUfs demoCfg) r.fl demoUid).ufs
      (newUFS demoCfg (blankUfs demoCfg) r.fl demoUid).fl nameBoot blankItem

/-- Eight bytes `0xAA` written without checksum to `boot.bin` of `bootOnUsed`. -/
def bootOnUsedWritten : Option ItemResult :=
  bootOnUsed.bind fun r => ufs_WriteFile 64 r.ufs r.fl r.item dataAA 8 CHECKSUM_DISABLE

/-! ## LiteLink: constants and types (`llnet_types.h`, `llnet.c`)

Memory allocation is taken to succeed.  A pointer to an allocated block is
modelled by the bytes of the block, a NULL pointer by `none`.  The `name`
members, which no function reads, are left out. -/

/-- Status OK. -/
def LL_OK : Nat := 0x00
/-- Status error. -/
def LL_NOT_OK : Nat := 0x01
/-- Lock value: unlocked. -/
def LL_UNLOCKED : Nat := 0x00
/-- Lock bit of the core. -/
def LL_CORE_LOCKED : Nat := 0x01
/-- Lock bit of the inbound path. -/
def LL_INBOUND_LOCKED : Nat := 0x02
/-- State: nothing awaited. -/
def DONT_WAIT_ANYTHING : Nat := 0x00
/-- State: segments wait to be sent. -/
def WAITING_FOR_SENDING : Nat := 0x01
/-- State: a pong has arrived. -/
def PONG_RECEIVED : Nat := 0x02
/-- Value of `sizeof(LiteLink_Header)`. -/
def LITELINK_HEADER_SIZE : Nat := 12
/-- Broadcast address. -/
def LITELINK_BROADCAST_ADDR : Nat := 0x3FF
/-- Flag of a ping. -/
def LITELINK_PIN : Nat := 0x04
/-- Flag of a pong. -/
def LITELINK_PON : Nat := 0x08
/-- Flag of a data segment. -/
def LITELINK_PSH : Nat := 0x10

/-- Value of `sizeof(LiteLink_Segment)`: 12 bytes of header and 255 of data,
rounded up to the alignment of the 32-bit control word. -/
def sizeof_LiteLink_Segment : Nat := 268

/-- Structure `LiteLink_Object`. -/
structure LiteLink_Object where
  data : Option (List Nat)
  length : Nat

/-- Structure `LiteLink_ObjList`. -/
structure LiteLink_ObjList where
  objects : Nat → LiteLink_Object
  count : Nat
  capacity : Nat

/-- Structure `LiteLink_Fifo`. -/
structure LiteLink_Fifo where
  objects : Nat → LiteLink_Object
  count : Nat
  capacity : Nat
  head : Nat
  tail : Nat
  lock : Nat

/-- Structure `LiteLink_Service`; `local_value` and `partner_value` are the
`value` members of `local` and `partner`, `onMessage` tells whether a callback is
registered. -/
structure LiteLink_Service where
  buff : Option LiteLink_ObjList
  seq : Nat
  local_value : Nat
  partner_value : Nat
  wlan : Nat
  onMessage : Bool
  data_size : Nat
  state : Nat

/-- The object list `services` of a `LiteLink`, whose objects are copies of
`LiteLink_Service` structures. -/
structure LiteLink_ServiceList where
  objects : Nat → Option LiteLink_Service
  count : Nat
  capacity : Nat

/-- Structure `LiteLink`; `outbound_event` tells whether a callback is registered. -/
structure LiteLink where
  segments : LiteLink_Fifo
  services : LiteLink_ServiceList
  outbound_event : Bool
  data_size : Nat
  lock : Nat
  local_address : Nat
  wlan_address : Nat

/-- A call of a callback: `onMessage(src, data, length)` of the service at `port`,
or `outbound_event(data, length)`; `data` holds the `length` bytes passed. -/
inductive LiteLink_Event where
  | message (port src : Nat) (data : List Nat) (length : Nat)
  | outbound (data : List Nat) (length : Nat)
  deriving DecidableEq

/-- A list of bytes read as a buffer (0 beyond its end). -/
def listBuf (l : List Nat) : Buf := fun i => l.getD i 0

/-! ### Bit-fields (allocated from the least significant bit, as the ARM GCC
target does) -/

/-- Member `psr.port` of a `LiteLink_Address` of value `v`. -/
def addr_port (v : Nat) : Nat := v % 64
/-- Member `psr.addr` of a `LiteLink_Address` of value `v`. -/
def addr_addr (v : Nat) : Nat := v / 64 % 1024
/-- Assignment `psr.port = x` on a `LiteLink_Address` of value `v`. -/
def set_addr_port (v x : Nat) : Nat := v / 64 % 1024 * 64 + x % 64
/-- Assignment `psr.addr = x` on a `LiteLink_Address` of value `v`. -/
def set_addr_addr (v x : Nat) : Nat := x % 1024 * 64 + v % 64

/-- Member `psr.len` of a `LiteLink_Offset` of value `v`. -/
def offset_len (v : Nat) : Nat := v % 256
/-- Member `psr.id` of a `LiteLink_Offset` of value `v`. -/
def offset_id (v : Nat) : Nat := v / 256 % 256
/-- Assignment `psr.len = x` on a `LiteLink_Offset` of value `v`. -/
def set_offset_len (v x : Nat) : Nat := v / 256 % 256 * 256 + x % 256
/-- Assignment `psr.id = x` on a `LiteLink_Offset` of value `v`. -/
def set_offset_id (v x : Nat) : Nat := x % 256 * 256 + v % 256

/-- Member `psr.len` (13 bits) of a `LiteLink_ctlFrame` of value `v`. -/
def ctl_len (v : Nat) : Nat := v % 8192
/-- Member `psr.flags` (8 bits) of a `LiteLink_ctlFrame` of value `v`. -/
def ctl_flags (v : Nat) : Nat := v / 8192 % 256
/-- Member `psr.type` (1 bit) of a `LiteLink_ctlFrame` of value `v`. -/
def ctl_type (v : Nat) : Nat := v / 2097152 % 2
/-- Member `psr.wlan` (10 bits) of a `LiteLink_ctlFrame` of value `v`. -/
def ctl_wlan (v : Nat) : Nat := v / 4194304 % 1024
/-- Assignment `psr.len = x` on a `LiteLink_ctlFrame` of value `v`. -/
def set_ctl_len (v x : Nat) : Nat := v / 8192 % 524288 * 8192 + x % 8192
/-- Assignment `psr.flags = x` on a `LiteLink_ctlFrame` of value `v`. -/
def set_ctl_flags (v x : Nat) : Nat := v / 2097152 % 2048 * 2097152 + x % 256 * 8192 + v % 8192
/-- Assignment `psr.wlan = x` on a `LiteLink_ctlFrame` of value `v`. -/
def set_ctl_wlan (v x : Nat) : Nat := x % 1024 * 4194304 + v % 4194304

/-! ### A `LiteLink_Segment` in memory

A segment is the buffer of its bytes: `crc` at 0, `seq` at 1, `des` at 2, `src`
at 4, `offset` at 6, `ctl` at 8, `data` from 12. -/

/-- Member `header.crc` of a segment. -/
def seg_crc (s : Buf) : Nat := s 0
/-- Member `header.seq.value` of a segment. -/
def seg_seq (s : Buf) : Nat := s 1
/-- Member `header.des.value` of a segment. -/
def seg_des (s : Buf) : Nat := rd16 s 2
/-- Member `header.src.value` of a segment. -/
def seg_src (s : Buf) : Nat := rd16 s 4
/-- Member `header.offset.value` of a segment. -/
def seg_offset (s : Buf) : Nat := rd16 s 6
/-- Member `header.ctl.value` of a segment. -/
def seg_ctl (s : Buf) : Nat := rd32 s 8
/-- Member `data` of a segment. -/
def seg_data (s : Buf) : Buf := bufAt s 12
/-- Assignment to `header.des.value`. -/
def set_seg_des (s : Buf) (v : Nat) : Buf := wr16 s 2 v
/-- Assignment to `header.src.value`. -/
def set_seg_src (s : Buf) (v : Nat) : Buf := wr16 s 4 v
/-- Assignment to `header.offset.value`. -/
def set_seg_offset (s : Buf) (v : Nat) : Buf := wr16 s 6 v
/-- Assignment to `header.ctl.value`. -/
def set_seg_ctl (s : Buf) (v : Nat) : Buf := wr32 s 8 v

/-- Function `swap8bit`. -/
def swap8bit (n : Nat) : Nat := u8 (((n &&& 0x0F) <<< 4) ||| ((n &&& 0xF0) >>> 4))

/-- Function `swap16bit` on the little-endian target. -/
def swap16bit (n : Nat) : Nat := u16 (((n &&& 0xff) <<< 8) ||| ((n &&& 0xff00) >>> 8))

/-- Function `swap32bit` on the little-endian target. -/
def swap32bit (n : Nat) : Nat :=
  u32 (((n &&& 0x000000FF) <<< 24) ||| ((n &&& 0x0000FF00) <<< 8) |||
    ((n &&& 0x00FF0000) >>> 8) ||| ((n &&& 0xFF000000) >>> 24))

/-! ### Object lists and the FIFO (`llnet_helper.c`) -/

/-- Function `LiteLink_newObjList`. -/
def LiteLink_newObjList (initialCapacity : Nat) : LiteLink_ObjList :=
  { objects := fun _ => { data := none, length := 0 }, count := 0, capacity := initialCapacity }

/-- Function `LiteLink_AddObject`; it does not compare `index` with the capacity. -/
def LiteLink_AddObject (obj_list : LiteLink_ObjList) (data : Buf) (length index : Nat) :
    LiteLink_ObjList × Nat :=
  if (obj_list.objects index).data = none then
    ({ objects := fun i =>
         if i = index then { data := some (bufList data length), length := length }
         else obj_list.objects i
       count := u16 (obj_list.count + 1)
       capacity := obj_list.capacity }, LL_OK)
  else (obj_list, LL_NOT_OK)

/-- Function `LiteLink_GetObjectPtr`. -/
def LiteLink_GetObjectPtr (obj_list : LiteLink_ObjList) (index : Nat) : Option (List Nat) :=
  if index ≥ obj_list.capacity ∨ (obj_list.objects index).data = none then none
  else (obj_list.objects index).data

/-- Function `LiteLink_GetObjectLength`. -/
def LiteLink_GetObjectLength (obj_list : LiteLink_ObjList) (index : Nat) : Nat :=
  if index ≥ obj_list.capacity ∨ (obj_list.objects index).data = none then 0
  else (obj_list.objects index).length

/-- The bytes that `LiteLink_MergeObjects` copies from object `i`. -/
def mergedPart (obj_list : LiteLink_ObjList) (i : Nat) : List Nat :=
  match (obj_list.objects i).data with
  | none => []
  | some d => (List.range (obj_list.objects i).length).map (listBuf d)

/-- The variable `total_length` of `LiteLink_MergeObjects` after its first loop. -/
def mergedLength (obj_list : LiteLink_ObjList) : Nat :=
  (List.range obj_list.capacity).foldl
    (fun total_length i =>
      if (obj_list.objects i).data ≠ none then u16 (total_length + (obj_list.objects i).length)
      else total_length) 0

/-- Function `LiteLink_MergeObjects`. -/
def LiteLink_MergeObjects (obj_list : LiteLink_ObjList) : LiteLink_ObjList × Nat :=
  if obj_list.count = 0 then (obj_list, LL_NOT_OK)
  else
    ({ objects := fun i =>
         if i = 0 then
           { data := some ((List.range obj_list.capacity).flatMap (mergedPart obj_list))
             length := mergedLength obj_list }
         else if i < obj_list.capacity ∧ (obj_list.objects i).data ≠ none then
           { data := none, length := 0 }
         else obj_list.objects i
       count := 1
       capacity := obj_list.capacity }, LL_OK)

/-- Function `LiteLink_newFifo`. -/
def LiteLink_newFifo (capacity : Nat) : LiteLink_Fifo :=
  { objects := fun _ => { data := none, length := 0 }, count := 0, capacity := capacity
    head := 0, tail := 0, lock := LL_UNLOCKED }

/-- Function `LiteLink_FifoEnqueue`, the allocation of `length` bytes succeeding:
the FIFO and the status. -/
def LiteLink_FifoEnqueue (fifo : LiteLink_Fifo) (data : Buf) (length : Nat) :
    LiteLink_Fifo × Nat :=
  if fifo.count = fifo.capacity ∨ fifo.lock &&& LL_CORE_LOCKED = LL_CORE_LOCKED then
    (fifo, LL_NOT_OK)
  else
    ({ objects := fun i =>
         if i = fifo.tail then { data := some (bufList data length), length := length }
         else fifo.objects i
       count := u16 (fifo.count + 1)
       capacity := fifo.capacity
       head := fifo.head
       tail := u16 ((fifo.tail + 1) % fifo.capacity)
       lock := (fifo.lock ||| LL_CORE_LOCKED) &&& 0xFE }, LL_OK)

/-- Function `LiteLink_FifoDequeue`: the FIFO, the buffer `data`, `*length` and
the status. -/
def LiteLink_FifoDequeue (fifo : LiteLink_Fifo) (data : Buf) (length : Nat) :
    LiteLink_Fifo × Buf × Nat × Nat :=
  if fifo.count = 0 ∨ fifo.lock &&& LL_CORE_LOCKED = LL_CORE_LOCKED then
    (fifo, data, length, LL_NOT_OK)
  else
    ({ objects := fun i => if i = fifo.head then { data := none, length := 0 } else fifo.objects i
       count := u16 (fifo.count + 65535)
       capacity := fifo.capacity
       head := u16 ((fifo.head + 1) % fifo.capacity)
       tail := fifo.tail
       lock := (fifo.lock ||| LL_CORE_LOCKED) &&& 0xFE },
      memcpy data 0 (listBuf (((fifo.objects fifo.head).data).getD []))
        (fifo.objects fifo.head).length,
      (fifo.objects fifo.head).length, LL_OK)

/-! ### `newLiteLink`, `LiteLink_uListen` -/

/-- The service that `LiteLink_uListen` builds on its stack (lines 153..163). -/
def LiteLink_uListen_service (llnet : LiteLink) (port : Nat) : LiteLink_Service :=
  { buff := none, seq := 0x00
    local_value := set_addr_port (set_addr_addr 0 llnet.local_address) port
    partner_value := 0x00, wlan := llnet.wlan_address, onMessage := false
    data_size := llnet.data_size, state := DONT_WAIT_ANYTHING }

/-- Function `LiteLink_uListen` for a port of type `uint8_t`: the instance and
whether the function returns a service (the one stored at index `port`) rather
than NULL.  The two bit-field members of `local` are both assigned, so the value
does not depend on what the stack held. -/
def LiteLink_uListen (llnet : LiteLink) (port : Nat) : LiteLink × Bool :=
  if port ≥ 0x3F then (llnet, false)
  else if (llnet.services.objects port).isNone then
    ({ llnet with
       services :=
         { objects := fun i =>
             if i = port then some (LiteLink_uListen_service llnet port)
             else llnet.services.objects i
           count := u16 (llnet.services.count + 1)
           capacity := llnet.services.capacity } }, true)
  else (llnet, false)

/-- Function `newLiteLink`; `none` stands for NULL. -/
def newLiteLink (wlan_address local_address segment_size : Nat) (outbound_event : Bool) :
    Option LiteLink :=
  if segment_size ≤ LITELINK_HEADER_SIZE then none
  else
    some (LiteLink_uListen
      { segments := LiteLink_newFifo 0xFF
        services := { objects := fun _ => none, count := 0, capacity := 0x3F }
        outbound_event := outbound_event
        data_size := u8 (segment_size - LITELINK_HEADER_SIZE)
        lock := LL_UNLOCKED
        local_address := local_address &&& LITELINK_BROADCAST_ADDR
        wlan_address := wlan_address &&& LITELINK_BROADCAST_ADDR } 0).1

/-- Function `LiteLink_onMessage` for the service at `port`, with a callback
that is not NULL. -/
def LiteLink_onMessage (llnet : LiteLink) (port : Nat) : LiteLink :=
  { llnet with
    services :=
      { llnet.services with
        objects := fun i =>
          if i = port then (llnet.services.objects port).map fun s => { s with onMessage := true }
          else llnet.services.objects i } }

/-! ### `LiteLink_ParserSegment`, `LiteLink_ParserData` -/

/-- A statement `field.value = swap16bit(field.value)` on the 16-bit field at `off`. -/
def swapField16 (b : Buf) (off : Nat) : Buf := wr16 b off (swap16bit (rd16 b off))

/-- The statement `ctl.value = swap32bit(ctl.value)` on the 32-bit field at `off`. -/
def swapField32 (b : Buf) (off : Nat) : Buf := wr32 b off (swap32bit (rd32 b off))

/-- The two `memcpy` of `LiteLink_ParserSegment` (lines 206..207). -/
def LiteLink_ParserSegment_copy (segment buffer : Buf) : Buf :=
  memcpy (memcpy buffer 0 segment LITELINK_HEADER_SIZE) LITELINK_HEADER_SIZE (seg_data segment)
    (offset_len (seg_offset segment))

/-- The header updates of `LiteLink_ParserSegment` (lines 211..215); `rnd` is the
value that `rand()` returns. -/
def LiteLink_ParserSegment_swap (rnd : Nat) (buffer : Buf) : Buf :=
  swapField16 (swapField32 (swapField16 (swapField16 (setByte buffer 1 (u8 rnd)) 2) 4) 8) 6

/-- Function `LiteLink_ParserSegment`: the buffer and `*length`. -/
def LiteLink_ParserSegment (rnd : Nat) (segment buffer : Buf) : Buf × Nat :=
  (setByte (LiteLink_ParserSegment_swap rnd (LiteLink_ParserSegment_copy segment buffer)) 0
    (LiteLink_CalCrc8 0xFF
      (bufAt (LiteLink_ParserSegment_swap rnd (LiteLink_ParserSegment_copy segment buffer)) 1)
      (u16 (offset_len (seg_offset segment) + LITELINK_HEADER_SIZE - 1))),
    u16 (offset_len (seg_offset segment) + LITELINK_HEADER_SIZE))

/-- The local `_seg` of `LiteLink_ParserData` after the two `memcpy` (lines
247..248); `stack` is what the local held before. -/
def LiteLink_ParserData_copy (stack data : Buf) (length : Nat) : Buf :=
  memcpy (memcpy stack 0 data LITELINK_HEADER_SIZE) LITELINK_HEADER_SIZE
    (bufAt data LITELINK_HEADER_SIZE) (length - LITELINK_HEADER_SIZE)

/-- The CRC that `LiteLink_ParserData` computes over the received bytes (line 253). -/
def LiteLink_ParserData_crc (stack data : Buf) (length : Nat) : Nat :=
  LiteLink_CalCrc8 0xFF (bufAt data 1)
    (u16 (offset_len (swap16bit (seg_offset (LiteLink_ParserData_copy stack data length))) +
      LITELINK_HEADER_SIZE - 1))

/-- The header updates of `LiteLink_ParserData` (lines 260..264). -/
def LiteLink_ParserData_swap (seg : Buf) : Buf :=
  swapField16 (swapField32 (swapField16 (swapField16 (setByte seg 1 (swap8bit (seg 1))) 2) 4) 8) 6

/-- Function `LiteLink_ParserData` for a `uint8_t` length.  With a length below
12 the second `memcpy` is asked for `length - 12` bytes in unsigned arithmetic,
more than 4 billion, for an array of 255: that case is `none`. -/
def LiteLink_ParserData (stack data : Buf) (length : Nat) : Option Buf :=
  if length < LITELINK_HEADER_SIZE then none
  else if seg_crc (LiteLink_ParserData_copy stack data length) ≠
      LiteLink_ParserData_crc stack data length then
    some (memset (LiteLink_ParserData_copy stack data length) 0x00 LITELINK_HEADER_SIZE)
  else some (LiteLink_ParserData_swap (LiteLink_ParserData_copy stack data length))

/-! ### `LiteLink_InboundMessage` -/

/-- The segment of `LiteLink_InboundMessage` after the two broadcast tests
(lines 282..290). -/
def LiteLink_InboundMessage_rewrite (llnet : LiteLink) (seg : Buf) : Buf :=
  (fun s : Buf =>
    if ctl_wlan (seg_ctl s) = LITELINK_BROADCAST_ADDR
    then set_seg_ctl s (set_ctl_wlan (seg_ctl s) llnet.wlan_address) else s)
  (if addr_addr (seg_des seg) = LITELINK_BROADCAST_ADDR
   then set_seg_des seg (set_addr_addr (seg_des seg) llnet.local_address) else seg)

/-- The part of `LiteLink_InboundMessage` after `LiteLink_ParserData` (lines
282..299); `counterror` is the global of that name. -/
def LiteLink_InboundMessage_filter (llnet : LiteLink) (counterror : Nat) (seg : Buf)
    (length : Nat) : LiteLink × Nat :=
  if addr_addr (seg_des (LiteLink_InboundMessage_rewrite llnet seg)) ≠ llnet.local_address ∨
      ctl_wlan (seg_ctl (LiteLink_InboundMessage_rewrite llnet seg)) ≠ llnet.wlan_address then
    ({ llnet with lock := llnet.lock ||| LL_INBOUND_LOCKED }, u16 (counterror + 1))
  else
    ({ llnet with
       segments :=
         (LiteLink_FifoEnqueue llnet.segments (LiteLink_InboundMessage_rewrite llnet seg) length).1
       lock := (llnet.lock ||| LL_INBOUND_LOCKED) &&& 0xFD }, counterror)

/-- Function `LiteLink_InboundMessage` for a `uint16_t` length, which
`LiteLink_ParserData` receives as a `uint8_t`: the instance and the global
`counterror`; `stack` is what the local `_seg` held before. -/
def LiteLink_InboundMessage (llnet : LiteLink) (counterror : Nat) (stack data : Buf)
    (length : Nat) : Option (LiteLink × Nat) :=
  (LiteLink_ParserData stack data (u8 length)).map fun seg =>
    LiteLink_InboundMessage_filter llnet counterror seg length

/-! ### `LiteLink_SendPacket` -/

/-- Assignment `header.des.psr.addr = x` on a segment. -/
def assign_des_addr (s : Buf) (x : Nat) : Buf := set_seg_des s (set_addr_addr (seg_des s) x)
/-- Assignment `header.des.psr.port = x` on a segment. -/
def assign_des_port (s : Buf) (x : Nat) : Buf := set_seg_des s (set_addr_port (seg_des s) x)
/-- Assignment `header.src.psr.addr = x` on a segment. -/
def assign_src_addr (s : Buf) (x : Nat) : Buf := set_seg_src s (set_addr_addr (seg_src s) x)
/-- Assignment `header.src.psr.port = x` on a segment. -/
def assign_src_port (s : Buf) (x : Nat) : Buf := set_seg_src s (set_addr_port (seg_src s) x)
/-- Assignment `header.offset.psr.id = x` on a segment. -/
def assign_offset_id (s : Buf) (x : Nat) : Buf := set_seg_offset s (set_offset_id (seg_offset s) x)
/-- Assignment `header.offset.psr.len = x` on a segment. -/
def assign_offset_len (s : Buf) (x : Nat) : Buf :=
  set_seg_offset s (set_offset_len (seg_offset s) x)
/-- Assignment `header.ctl.psr.flags = x` on a segment. -/
def assign_ctl_flags (s : Buf) (x : Nat) : Buf := set_seg_ctl s (set_ctl_flags (seg_ctl s) x)
/-- Assignment `header.ctl.psr.len = x` on a segment. -/
def assign_ctl_len (s : Buf) (x : Nat) : Buf := set_seg_ctl s (set_ctl_len (seg_ctl s) x)
/-- Assignment `header.ctl.psr.wlan = x` on a segment. -/
def assign_ctl_wlan (s : Buf) (x : Nat) : Buf := set_seg_ctl s (set_ctl_wlan (seg_ctl s) x)

/-- The ten header assignments and the `memcpy` that `LiteLink_SendPacket` makes
for the segment `id` carrying `len` bytes from `&data[id * data_size]` (lines
333..344 and 356..367). -/
def LiteLink_SendPacket_segment (llnet : LiteLink) (service : LiteLink_Service)
    (address port : Nat) (data : Buf) (length id len : Nat) (segment : Buf) : Buf :=
  memcpy
    (assign_ctl_wlan
      (assign_ctl_len
        (assign_ctl_flags
          (assign_offset_len
            (assign_offset_id
              (assign_des_port
                (assign_des_addr
                  (set_seg_src (setByte (setByte segment 0 0x00) 1 0x00) service.local_value)
                  address) port) id) len) LITELINK_PSH) (length &&& 0x3FFF)) llnet.wlan_address)
    LITELINK_HEADER_SIZE (bufAt data (id * llnet.data_size)) len

/-- The loop `for (countSeg = 0; countSeg < nbSeg; countSeg++)` of
`LiteLink_SendPacket`; the first argument counts the iterations left.  Result:
the FIFO, the local `segment` and whether an enqueue failed. -/
def LiteLink_SendPacket_loop (llnet : LiteLink) (service : LiteLink_Service)
    (address port : Nat) (data : Buf) (length : Nat) :
    Nat → Nat → LiteLink_Fifo → Buf → LiteLink_Fifo × Buf × Bool
  | 0, _, fifo, segment => (fifo, segment, false)
  | n + 1, countSeg, fifo, segment =>
    if (LiteLink_FifoEnqueue fifo
        (LiteLink_SendPacket_segment llnet service address port data length countSeg
          llnet.data_size segment) sizeof_LiteLink_Segment).2 = LL_NOT_OK
    then (fifo, LiteLink_SendPacket_segment llnet service address port data length countSeg
      llnet.data_size segment, true)
    else LiteLink_SendPacket_loop llnet service address port data length n (countSeg + 1)
      (LiteLink_FifoEnqueue fifo
        (LiteLink_SendPacket_segment llnet service address port data length countSeg
          llnet.data_size segment) sizeof_LiteLink_Segment).1
      (LiteLink_SendPacket_segment llnet service address port data length countSeg
        llnet.data_size segment)

/-- The instance with the service at `sport` replaced. -/
def LiteLink.withService (llnet : LiteLink) (sport : Nat) (service : LiteLink_Service) :
    LiteLink :=
  { llnet with
    services :=
      { llnet.services with
        objects := fun i => if i = sport then some service else llnet.services.objects i } }

/-- The instance with another FIFO and lock. -/
def LiteLink.withSegments (llnet : LiteLink) (fifo : LiteLink_Fifo) (lock : Nat) : LiteLink :=
  { llnet with segments := fifo, lock := lock }

/-- The part of `LiteLink_SendPacket` after the first loop (lines 354..377);
`r` is the result of the loop. -/
def LiteLink_SendPacket_last (llnet : LiteLink) (sport : Nat) (service : LiteLink_Service)
    (address port : Nat) (data : Buf) (length : Nat) (r : LiteLink_Fifo × Buf × Bool) :
    LiteLink × Nat :=
  if r.2.2 then ((llnet.withService sport service).withSegments r.1 (llnet.lock &&& 0xFE), LL_NOT_OK)
  else if u8 (length % llnet.data_size) ≠ 0 then
    if (LiteLink_FifoEnqueue r.1
        (LiteLink_SendPacket_segment llnet service address port data length
          (u8 (length / llnet.data_size)) (u8 (length % llnet.data_size)) r.2.1)
        sizeof_LiteLink_Segment).2 = LL_NOT_OK
    then ((llnet.withService sport service).withSegments r.1 (llnet.lock &&& 0xFE), LL_NOT_OK)
    else
      ((llnet.withService sport { service with state := WAITING_FOR_SENDING }).withSegments
        (LiteLink_FifoEnqueue r.1
          (LiteLink_SendPacket_segment llnet service address port data length
            (u8 (length / llnet.data_size)) (u8 (length % llnet.data_size)) r.2.1)
          sizeof_LiteLink_Segment).1 (llnet.lock &&& 0xFE), LL_OK)
  else
    ((llnet.withService sport { service with state := WAITING_FOR_SENDING }).withSegments r.1
      (llnet.lock &&& 0xFE), LL_OK)

/-- Function `LiteLink_SendPacket` up to its wait loop, for the service stored at
`sport`; `none` when there is no such service (a NULL pointer), `stack` is what
the local `segment` held before.  The status is `LL_OK` when every segment has
been enqueued; the loop that follows waits for another task to reset `state`, and
returns `LL_NOT_OK` when that does not happen within 1000 delays. -/
def LiteLink_SendPacket (llnet : LiteLink) (sport : Nat) (stack : Buf) (address port : Nat)
    (data : Buf) (length : Nat) : Option (LiteLink × Nat) :=
  (llnet.services.objects sport).map fun service =>
    if llnet.lock ≠ LL_UNLOCKED then (llnet, LL_NOT_OK)
    else
      LiteLink_SendPacket_last { llnet with lock := llnet.lock ||| LL_CORE_LOCKED } sport
        { service with
          partner_value := set_addr_port (set_addr_addr service.partner_value address) port }
        address port data length
        (LiteLink_SendPacket_loop { llnet with lock := llnet.lock ||| LL_CORE_LOCKED }
          { service with
            partner_value := set_addr_port (set_addr_addr service.partner_value address) port }
          address port data length (u8 (length / llnet.data_size)) 0 llnet.segments stack)

/-! ### `LiteLink_Process` -/

/-- The statements of `LiteLink_Process` for a `PSH` segment whose total length
exceeds the length of its payload (lines 485..506): the service and the calls made. -/
def LiteLink_Process_merge (service : LiteLink_Service) (port : Nat) (segment : Buf) :
    Option (LiteLink_Service × List LiteLink_Event) :=
  match (if offset_id (seg_offset segment) = 0 then some (LiteLink_newObjList 0xFF)
         else service.buff) with
  | none => none
  | some buff =>
    if offset_id (seg_offset segment) ≥ buff.capacity then none
    else
      some
        ({ service with
           buff := some (LiteLink_MergeObjects (LiteLink_AddObject buff (seg_data segment)
             (offset_len (seg_offset segment)) (offset_id (seg_offset segment))).1).1 },
          if LiteLink_GetObjectLength (LiteLink_MergeObjects (LiteLink_AddObject buff
                (seg_data segment) (offset_len (seg_offset segment))
                (offset_id (seg_offset segment))).1).1 0 ≥ ctl_len (seg_ctl segment) ∧
              service.onMessage = true then
            [LiteLink_Event.message port (seg_src segment)
              ((LiteLink_GetObjectPtr (LiteLink_MergeObjects (LiteLink_AddObject buff
                (seg_data segment) (offset_len (seg_offset segment))
                (offset_id (seg_offset segment))).1).1 0).getD [])
              (LiteLink_GetObjectLength (LiteLink_MergeObjects (LiteLink_AddObject buff
                (seg_data segment) (offset_len (seg_offset segment))
                (offset_id (seg_offset segment))).1).1 0)]
          else [])

/-- The `PSH` block of `LiteLink_Process` (lines 480..517). -/
def LiteLink_Process_push (service : LiteLink_Service) (port : Nat) (segment : Buf) :
    Option (LiteLink_Service × List LiteLink_Event) :=
  if ctl_flags (seg_ctl segment) &&& LITELINK_PSH = LITELINK_PSH then
    if ctl_len (seg_ctl segment) > offset_len (seg_offset segment) then
      LiteLink_Process_merge service port segment
    else
      some (service,
        if service.onMessage = true then
          [LiteLink_Event.message port (seg_src segment)
            (bufList (seg_data segment) (ctl_len (seg_ctl segment))) (ctl_len (seg_ctl segment))]
        else [])
  else some (service, [])

/-- The segment `_seg` that `LiteLink_Process` builds to answer a `PIN` segment
(lines 523..533); `stack` is what the local held before. -/
def LiteLink_Process_pong (llnet : LiteLink) (segment stack : Buf) : Buf :=
  assign_ctl_wlan
    (assign_ctl_len
      (assign_ctl_flags
        (assign_offset_len
          (assign_offset_id
            (assign_des_port
              (assign_des_addr
                (assign_src_port
                  (assign_src_addr (setByte (setByte stack 0 0x00) 1 0x00) llnet.local_address)
                  0x00)
                (addr_addr (seg_src segment))) 0x00) 0x00) 0x00) LITELINK_PON) 0x00)
    llnet.wlan_address

/-- The call `outbound_event(buffer, length)` if a callback is registered; the
callback receives the length as a `uint8_t`. -/
def outboundCall (llnet : LiteLink) (r : Buf × Nat) : List LiteLink_Event :=
  if llnet.outbound_event = true then [LiteLink_Event.outbound (bufList r.1 (u8 r.2)) (u8 r.2)]
  else []

/-- The `PIN` and `PON` blocks of `LiteLink_Process` (lines 519..552).  The
frame is built in the 255-byte local `data_segment`, which the 12 bytes written
for the answer fit. -/
def LiteLink_Process_ping (llnet : LiteLink) (rnd : Nat) (stack : Buf)
    (service : LiteLink_Service) (segment : Buf) : LiteLink_Service × List LiteLink_Event :=
  ((fun s : LiteLink_Service =>
      if ctl_flags (seg_ctl segment) &&& LITELINK_PON = LITELINK_PON
      then { s with state := PONG_RECEIVED } else s)
    (if ctl_flags (seg_ctl segment) &&& LITELINK_PIN = LITELINK_PIN ∧
        ¬ addr_addr (seg_des (LiteLink_Process_pong llnet segment stack)) ≠ llnet.local_address
     then { service with state := PONG_RECEIVED } else service),
    if ctl_flags (seg_ctl segment) &&& LITELINK_PIN = LITELINK_PIN ∧
        addr_addr (seg_des (LiteLink_Process_pong llnet segment stack)) ≠ llnet.local_address
    then outboundCall llnet
      (LiteLink_ParserSegment rnd (LiteLink_Process_pong llnet segment stack) stack)
    else [])

/-- The branch of `LiteLink_Process` for a segment addressed to the instance
(lines 477..553); `llnet` already holds the FIFO after the dequeue. -/
def LiteLink_Process_inbound (llnet : LiteLink) (rnd : Nat) (stack segment : Buf) :
    Option (LiteLink × List LiteLink_Event) :=
  match if addr_port (seg_des segment) ≥ llnet.services.capacity then none
        else llnet.services.objects (addr_port (seg_des segment)) with
  | none => none
  | some service =>
    match LiteLink_Process_push { service with state := DONT_WAIT_ANYTHING }
        (addr_port (seg_des segment)) segment with
    | none => none
    | some r =>
      some (llnet.withService (addr_port (seg_des segment))
          (LiteLink_Process_ping llnet rnd stack r.1 segment).1,
        r.2 ++ (LiteLink_Process_ping llnet rnd stack r.1 segment).2)

/-- The branch of `LiteLink_Process` for a segment addressed elsewhere (lines
557..564).  The frame is built in the 255-byte local `data_segment`: a payload
of more than 243 bytes overruns it, which is `none`. -/
def LiteLink_Process_outbound (llnet : LiteLink) (rnd : Nat) (stack segment : Buf) :
    Option (LiteLink × List LiteLink_Event) :=
  match if addr_port (seg_src segment) ≥ llnet.services.capacity then none
        else llnet.services.objects (addr_port (seg_src segment)) with
  | none => none
  | some service =>
    if offset_len (seg_offset segment) + LITELINK_HEADER_SIZE > 0xFF then none
    else
      some (llnet.withService (addr_port (seg_src segment))
          { service with state := DONT_WAIT_ANYTHING },
        outboundCall llnet (LiteLink_ParserSegment rnd segment stack))

/-- Function `LiteLink_Process` for an instance that is not NULL: the instance
and the callbacks called, in order; `none` when a NULL service is written to or
an array overrun.  `rnd` is the value of `rand()`, `stack` what the locals held
before. -/
def LiteLink_Process (llnet : LiteLink) (rnd : Nat) (stack : Buf) :
    Option (LiteLink × List LiteLink_Event) :=
  if llnet.lock &&& LL_CORE_LOCKED = LL_CORE_LOCKED then some (llnet, [])
  else if (LiteLink_FifoDequeue llnet.segments stack 0).2.2.2 = LL_OK then
    if addr_addr (seg_des (LiteLink_FifoDequeue llnet.segments stack 0).2.1) = llnet.local_address
    then LiteLink_Process_inbound
      { llnet with segments := (LiteLink_FifoDequeue llnet.segments stack 0).1 } rnd stack
      (LiteLink_FifoDequeue llnet.segments stack 0).2.1
    else LiteLink_Process_outbound
      { llnet with segments := (LiteLink_FifoDequeue llnet.segments stack 0).1 } rnd stack
      (LiteLink_FifoDequeue llnet.segments stack 0).2.1
  else some ({ llnet with segments := (LiteLink_FifoDequeue llnet.segments stack 0).1 }, [])

/-! ### Sequences of FIFO calls -/

/-- A call of the FIFO interface: `LiteLink_FifoEnqueue(fifo, data, length)` or
`LiteLink_FifoDequeue(fifo, data, &length)`. -/
inductive FifoOp where
  | enqueue (data : Buf) (length : Nat)
  | dequeue

/-- What a FIFO call gives back: the status, and for a dequeue the bytes put in
the output buffer and their number. -/
structure FifoResult where
  ret : Nat
  bytes : List Nat
  length : Nat
  deriving DecidableEq

/-- One call on the FIFO of `llnet_helper.c`; the length of an enqueue is passed
as a `uint16_t`. -/
def fifoStep (fifo : LiteLink_Fifo) : FifoOp → LiteLink_Fifo × FifoResult
  | FifoOp.enqueue data length =>
    ((LiteLink_FifoEnqueue fifo data (u16 length)).1,
      { ret := (LiteLink_FifoEnqueue fifo data (u16 length)).2, bytes := [], length := 0 })
  | FifoOp.dequeue =>
    ((LiteLink_FifoDequeue fifo (fun _ => 0) 0).1,
      { ret := (LiteLink_FifoDequeue fifo (fun _ => 0) 0).2.2.2
        bytes := if (LiteLink_FifoDequeue fifo (fun _ => 0) 0).2.2.2 = LL_OK
          then bufList (LiteLink_FifoDequeue fifo (fun _ => 0) 0).2.1
            (LiteLink_FifoDequeue fifo (fun _ => 0) 0).2.2.1
          else []
        length := (LiteLink_FifoDequeue fifo (fun _ => 0) 0).2.2.1 })

/-- A sequence of calls on the FIFO of `llnet_helper.c`: the FIFO afterwards and
what each call gave back. -/
def fifoRun : LiteLink_Fifo → List FifoOp → LiteLink_Fifo × List FifoResult
  | fifo, [] => (fifo, [])
  | fifo, op :: ops =>
    ((fifoRun (fifoStep fifo op).1 ops).1, (fifoStep fifo op).2 :: (fifoRun (fifoStep fifo op).1 ops).2)

/-- One call on a queue of capacity `C` as the specification words it: the
elements are kept in the order of arrival, an enqueue on `C` elements fails and
changes nothing, a dequeue on no element fails, a dequeue returns the oldest
element and its length. -/
def queueStep (C : Nat) (q : List (List Nat)) : FifoOp → List (List Nat) × FifoResult
  | FifoOp.enqueue data length =>
    if q.length = C then (q, { ret := LL_NOT_OK, bytes := [], length := 0 })
    else (q ++ [bufList data (u16 length)], { ret := LL_OK, bytes := [], length := 0 })
  | FifoOp.dequeue =>
    match q with
    | [] => (q, { ret := LL_NOT_OK, bytes := [], length := 0 })
    | b :: rest => (rest, { ret := LL_OK, bytes := b, length := b.length })

/-- A sequence of calls on the queue of the specification. -/
def queueRun (C : Nat) : List (List Nat) → List FifoOp → List (List Nat) × List FifoResult
  | q, [] => (q, [])
  | q, op :: ops =>
    ((queueRun C (queueStep C q op).1 ops).1,
      (queueStep C q op).2 :: (queueRun C (queueStep C q op).1 ops).2)

/-- The FIFO `fifo` of capacity `C` holds the elements of `q`, oldest first, from
`head` on, and is not locked. -/
def fifoHolds (C : Nat) (fifo : LiteLink_Fifo) (q : List (List Nat)) : Prop :=
  fifo.capacity = C ∧ fifo.lock &&& LL_CORE_LOCKED = 0 ∧ fifo.count = q.length ∧ q.length ≤ C ∧
    (0 < C → fifo.head < C) ∧ fifo.tail = (fifo.head + fifo.count) % C ∧
    ∀ k b, q.get? k = some b →
      fifo.objects ((fifo.head + k) % C) = { data := some b, length := b.length }

/-! ### LiteLink fixtures -/

/-- A buffer of zero bytes. -/
def zeroBuf : Buf := fun _ => 0

/-- The instance that `newLiteLink(wlan, addr, seg, name, callback)` returns,
after `LiteLink_uListen` on `port` and `LiteLink_onMessage` with a callback on
the service, as `mainApp.c` does with (1, 10, 62) and port 55. -/
def listeningNode (wlan addr seg port : Nat) : Option LiteLink :=
  (newLiteLink wlan addr seg true).map fun l =>
    LiteLink_onMessage (LiteLink_uListen l port).1 port

/-- The sender of the scenarios: address 10 on wlan 1 with payload capacity `d`,
after `LiteLink_SendPacket` of the first `len` bytes of `demoData` from its
service at port 55 to port 54 of address 20. -/
def sentPacket (d len : Nat) : Option (LiteLink × Nat) :=
  (listeningNode 1 10 (d + 12) 55).bind fun s =>
    LiteLink_SendPacket s 55 zeroBuf 20 54 demoData len

/-- The first `n` bytes of the element at `index` of the pending FIFO. -/
def pendingBytes (llnet : LiteLink) (index n : Nat) : List Nat :=
  (((llnet.segments.objects index).data).getD []).take n

/-- One segment through the link: `LiteLink_Process` on the sender passes one
frame to `outbound_event`, the receiver takes the frame with
`LiteLink_InboundMessage` and handles it with `LiteLink_Process`.  The state is
the sender, the receiver and the calls made on the receiver so far. -/
def relayOne (st : LiteLink × LiteLink × List LiteLink_Event) :
    Option (LiteLink × LiteLink × List LiteLink_Event) :=
  match LiteLink_Process st.1 0x5A zeroBuf with
  | some (s, [LiteLink_Event.outbound frame len]) =>
    match LiteLink_InboundMessage st.2.1 0 zeroBuf (listBuf frame) len with
    | some (r, _) =>
      match LiteLink_Process r 0x5A zeroBuf with
      | some (r2, ev) => some (s, r2, st.2.2 ++ ev)
      | none => none
    | none => none
  | _ => none

/-- The first `n` segments of the sender through the link, one at a time. -/
def relay : Nat → LiteLink × LiteLink × List LiteLink_Event →
    Option (LiteLink × LiteLink × List LiteLink_Event)
  | 0, st => some st
  | n + 1, st => (relayOne st).bind (relay n)

/-- What a call says: for `onMessage` the port, the source, the length, the
number of bytes passed and whether they are the first bytes of `data`. -/
def callSummary (data : Buf) : LiteLink_Event → List Nat
  | LiteLink_Event.message port src d length =>
    [port, src, length, d.length, if d = bufList data length then 1 else 0]
  | LiteLink_Event.outbound d length => [0xFFFF, 0, length, d.length, 0]

/-- The calls made on the receiver (address 20 on wlan 1, service with a
callback at port 54) while the first `n` segments of `sentPacket d len` go
through the link. -/
def deliveredCalls (d len n : Nat) : Option (List (List Nat)) :=
  match sentPacket d len, listeningNode 1 20 (d + 12) 54 with
  | some (s, _), some r => (relay n (s, r, [])).map fun st => st.2.2.map (callSummary demoData)
  | _, _ => none

/-- The calls of `deliveredCalls` without the comparison of the bytes: port,
source, length and number of bytes passed. -/
def deliveredLengths (d len n : Nat) : Option (List (List Nat)) :=
  match sentPacket d len, listeningNode 1 20 (d + 12) 54 with
  | some (s, _), some r =>
    (relay n (s, r, [])).map fun st => st.2.2.map fun e =>
      match e with
      | LiteLink_Event.message port src data length => [port, src, length, data.length]
      | LiteLink_Event.outbound data length => [0xFFFF, 0, length, data.length]
  | _, _ => none

/-- The header members of a stored segment, as the list `des.addr`, `des.port`,
`src.addr`, `src.port`, `offset.id`, `offset.len`, `ctl.flags`, `ctl.len`,
`ctl.wlan`. -/
def headerFields (segment : List Nat) : List Nat :=
  [addr_addr (seg_des (listBuf segment)), addr_port (seg_des (listBuf segment)),
    addr_addr (seg_src (listBuf segment)), addr_port (seg_src (listBuf segment)),
    offset_id (seg_offset (listBuf segment)), offset_len (seg_offset (listBuf segment)),
    ctl_flags (seg_ctl (listBuf segment)), ctl_len (seg_ctl (listBuf segment)),
    ctl_wlan (seg_ctl (listBuf segment))]

/-- The payloads of the first `n` elements of the pending FIFO, one after the
other, each as long as its `offset.len` says. -/
def pendingPayloads (llnet : LiteLink) (n : Nat) : List Nat :=
  (List.range n).flatMap fun k =>
    ((pendingBytes llnet k sizeof_LiteLink_Segment).drop LITELINK_HEADER_SIZE).take
      (offset_len (seg_offset (listBuf (pendingBytes llnet k LITELINK_HEADER_SIZE))))

/-! ### Frames on the wire -/

/-- The CRC test as the specification words it: byte 0 of the frame is the CRC
computed over bytes 1 .. 11 + payload_len, where payload_len is byte 7. -/
abbrev frameCrcValid (data : Buf) : Prop :=
  data 0 = LiteLink_CalCrc8 0xFF (bufAt data 1) (data 7 + 11)

/-- An instance with nothing in it, the default where an `Option` is opened. -/
def emptyLiteLink : LiteLink :=
  { segments := LiteLink_newFifo 0, services := { objects := fun _ => none, count := 0, capacity := 0 }
    outbound_event := false, data_size := 0, lock := LL_UNLOCKED, local_address := 0
    wlan_address := 0 }

/-- The frame that the sender of `sentPacket d len` passes to `outbound_event`
for its first segment, `rand()` returning 0x5A. -/
def sentFrame (d len : Nat) : List Nat :=
  match sentPacket d len with
  | some (s, _) =>
    match LiteLink_Process s 0x5A zeroBuf with
    | some (_, [LiteLink_Event.outbound frame _]) => frame
    | _ => []
  | none => []

/-- The receiver of the scenarios: address 20 on wlan 1, segment size 62, a
service with a callback at port 54. -/
def demoReceiver : LiteLink := (listeningNode 1 20 62 54).getD emptyLiteLink

/-- An instance made with wlan address 0 and local address 0
(`newLiteLink(0, 0, 62, ...)`), a service with a callback at port 54. -/
def zeroNode : LiteLink := (listeningNode 0 0 62 54).getD emptyLiteLink

/-- The number of elements in the pending FIFO and the global `counterror` after
`LiteLink_InboundMessage(llnet, frame, length of frame)`, `counterror` being 0
before; `none` when the call has no defined result. -/
def inboundOutcome (llnet : LiteLink) (frame : List Nat) : Option (Nat × Nat) :=
  (LiteLink_InboundMessage llnet 0 zeroBuf (listBuf frame) frame.length).map fun r =>
    (r.1.segments.count, r.2)

/-- The bytes of the first segment that `sentPacket d len` enqueues. -/
def sentSegmentBytes (d len : Nat) : List Nat :=
  match sentPacket d len with
  | some (s, _) => pendingBytes s 0 sizeof_LiteLink_Segment
  | none => []

/-- The first segment that `sentPacket d len` enqueues, in memory. -/
def sentSegment (d len : Nat) : Buf := listBuf (sentSegmentBytes d len)

/-- The first segment of `sentPacket d len` as `LiteLink_ParserSegment`
serializes it (`rand()` returning 0x5A) into a buffer that is large enough. -/
def serializedSegment (d len : Nat) : List Nat :=
  bufList (LiteLink_ParserSegment 0x5A (sentSegment d len) zeroBuf).1
    (LiteLink_ParserSegment 0x5A (sentSegment d len) zeroBuf).2

/-- The control word as the specification lays it out: type at bit 31, wlan at
bits 30..21, flags at bits 20..13, total length at bits 12..0. -/
def specCtlWord (t w f l : Nat) : Nat := (t <<< 31) ||| (w <<< 21) ||| (f <<< 13) ||| l

/-- The four bytes of the big-endian encoding of a 32-bit word. -/
def bigEndian32 (w : Nat) : List Nat :=
  [w / 16777216 % 256, w / 65536 % 256, w / 256 % 256, w % 256]

/-- A configuration that asks for more than the device holds: 39 items on 60
sectors of 16 bytes, erase blocks of one sector. -/
def crampedCfg : ufs_Cfg_Type :=
  { api := { u16numberByteOfSector := 16, u16numberSectorOfBlock := 1,
             u32numberSectorOfDevice := 60 }
    u8NumberEncodeFileExtension := 0
    u8NumberFileMaxOfDevice := 39
    pExtensionEncodeFileList := [] }

/-- A record whose first 22 bytes hold 0xEE and whose other bytes are zero. -/
def staleRecord : Buf := fun i => if i < 22 then 0xEE else 0

/-- A frame of 256 bytes: the header of a `PSH` segment from 10:55 to 20:54 on
wlan 1 with a payload of 244 bytes (total length 244), the first 244 bytes of
`demoData` as payload, and in byte 0 the CRC of bytes 1..255. -/
def oversizeFrame : List Nat :=
  [96, 90, 5, 54, 2, 183, 0, 244, 0, 66, 0, 244] ++ bufList demoData 244

/-- The header that `LiteLink_SendPacket` builds in memory for a 5-byte packet
from 10:55 to 20:54 on wlan 1: `des` 0x0536, `src` 0x02B7, `offset` 0x0005 and
`ctl` 0x00420005, little-endian. -/
def pushHeader : List Nat := [0, 0, 54, 5, 183, 2, 5, 0, 5, 0, 66, 0]

/-! ## Fixtures for the used size, the item slots and the cluster limit -/

/-- A device whose item zone is a single sector: 64-byte sectors, 2 sectors per
block, 64 sectors, 1 item.  Formatting it gives `ItemZoneFirstSector = 1`,
`ClusterMappingZoneFirstSector = 2`, `ClusterDataZoneFirstSector = 16` and
`NumberSectorOfCluster = 3`; the item sector has two slots, the first of which
holds the root folder. -/
def singleCfg : ufs_Cfg_Type :=
  { api := { u16numberByteOfSector := 64, u16numberSectorOfBlock := 2,
             u32numberSectorOfDevice := 64 }
    u8NumberEncodeFileExtension := 0
    u8NumberFileMaxOfDevice := 1
    pExtensionEncodeFileList := [] }

/-- The single-sector device after `newUFS` on an erased flash (which formats it). -/
def singleMount : NewResult := newUFS singleCfg (blankUfs singleCfg) erasedFlash demoUid

/-- The file `test.txt` created on the single-sector device; it is empty. -/
def singleCreated : Option ItemResult :=
  ufs_OpenItem 64 singleMount.ufs singleMount.fl nameTest blankItem

/-- The file `test.txt` of the single-sector device after 64 bytes of `demoData`,
exactly one sector, have been written to it without checksum. -/
def sectorFile : Option ItemResult :=
  singleCreated.bind fun o => ufs_WriteFile 64 o.ufs o.fl o.item demoData 64 CHECKSUM_DISABLE

/-- A device of 115 sectors: 64-byte sectors, 2 sectors per block, 4 items.
Formatting it gives `ClusterMappingZoneFirstSector = 4`,
`ClusterDataZoneFirstSector = 16` and `NumberSectorOfCluster = 3`, hence
`(115 - 16) / 3 = 33` clusters, one more than the 32 slots of a map sector. -/
def edgeCfg : ufs_Cfg_Type :=
  { api := { u16numberByteOfSector := 64, u16numberSectorOfBlock := 2,
             u32numberSectorOfDevice := 115 }
    u8NumberEncodeFileExtension := 0
    u8NumberFileMaxOfDevice := 4
    pExtensionEncodeFileList := [] }

/-- The 115-sector device after `newUFS` on an erased flash (which formats it). -/
def edgeMount : NewResult := newUFS edgeCfg (blankUfs edgeCfg) erasedFlash demoUid

/-- The file `test.txt` created on the fresh 115-sector device. -/
def edgeCreated : Option ItemResult :=
  ufs_OpenItem 64 edgeMount.ufs edgeMount.fl nameTest blankItem

/-- The file of `edgeCreated` after 10 bytes of `demoData` have been written to it. -/
def edgeWritten : Option ItemResult :=
  edgeCreated.bind fun o => ufs_WriteFile 64 o.ufs o.fl o.item demoData 10 CHECKSUM_DISABLE

/-- The file of `edgeWritten` after the same 10 bytes have been written once more. -/
def edgeRewritten : Option ItemResult :=
  edgeWritten.bind fun o => ufs_WriteFile 64 o.ufs o.fl o.item demoData 10 CHECKSUM_DISABLE

/-- The first byte of every item slot of the small device on the flash `fl`,
decoded, sector by sector. -/
def slotHeads (ufs : UFS) (fl : Flash) : List (List Nat) :=
  (List.range 3).map fun sector =>
    (List.range 2).map fun segment => readItemSector ufs fl sector (segment * sizeof_ItemInfo)

/-- One frame through the receiving side: `LiteLink_InboundMessage` takes the
frame, then `LiteLink_Process` handles what the FIFO holds.  The state is the
instance and the calls made so far. -/
def receiveFrame (st : LiteLink × List LiteLink_Event) (frame : List Nat) :
    Option (LiteLink × List LiteLink_Event) :=
  match LiteLink_InboundMessage st.1 0 zeroBuf (listBuf frame) frame.length with
  | some (r, _) => (LiteLink_Process r 0x5A zeroBuf).map fun p => (p.1, st.2 ++ p.2)
  | none => none

/-- A sequence of frames through the receiving side, one at a time. -/
def receiveFrames : List (List Nat) → LiteLink × List LiteLink_Event →
    Option (LiteLink × List LiteLink_Event)
  | [], st => some st
  | frame :: rest, st => (receiveFrame st frame).bind (receiveFrames rest)

/-- The first `n` frames that an instance passes to `outbound_event`, one for
each call of `LiteLink_Process`, `rand()` returning 0x5A. -/
def framesSent : Nat → LiteLink → Option (List (List Nat))
  | 0, _ => some []
  | n + 1, s =>
    match LiteLink_Process s 0x5A zeroBuf with
    | some (s2, [LiteLink_Event.outbound frame _]) => (framesSent n s2).map fun l => frame :: l
    | _ => none

/-- The frame of fragment 0 of a 3-byte packet sent with a payload capacity of 2
from 10:55 to 20:54 on wlan 1: two payload bytes, total length 3. -/
def fragmentZero : List Nat := [54, 90, 5, 54, 2, 183, 0, 2, 0, 66, 0, 3, 1, 8]

/-- The frame of fragment 1, the last, of the same packet: one payload byte. -/
def fragmentOne : List Nat := [224, 90, 5, 54, 2, 183, 1, 1, 0, 66, 0, 3, 15]

/-- The reassembly buffer of the service at `port`: whether it exists, its
`count` and the length of its object 0. -/
def reassemblyState (llnet : LiteLink) (port : Nat) : Option (Nat × Nat) :=
  ((llnet.services.objects port).bind fun s => s.buff).map fun b => (b.count, (b.objects 0).length)

/-- A frame with a valid CRC that carries 5 bytes from 10:55 to port 54 of
address 21 on wlan 1. -/
def foreignFrame : List Nat := [144, 90, 5, 118, 2, 183, 0, 5, 0, 66, 0, 5, 1, 8, 15, 22, 29]

/-- A frame with a valid CRC that carries 5 bytes from 10:55 to port 53 of
address 20 on wlan 1. -/
def port53Frame : List Nat := [201, 90, 5, 53, 2, 183, 0, 5, 0, 66, 0, 5, 1, 8, 15, 22, 29]

/-- The same frame for port 63 of address 20. -/
def port63Frame : List Nat := [170, 90, 5, 63, 2, 183, 0, 5, 0, 66, 0, 5, 1, 8, 15, 22, 29]

/-- A segment in memory with a payload of 244 bytes: the header of a `PSH`
segment from 10:55 to 20:54 on wlan 1 (`offset.len` 244, total length 244)
followed by the first bytes of `demoData`. -/
def longSegment : Buf :=
  fun i => if i < 12 then [0, 0, 54, 5, 183, 2, 244, 0, 244, 0, 66, 0].getD i 0 else demoData (i - 12)

/-! ## The FIFO of `buffer.c` -/

def BUFF_OK : Nat := 0x00
def BUFF_NOT_OK : Nat := 0x01

/-- Structure `Fifo` of `buffer.h`: the member `size` and the linked list `objs`,
first node first.  A node is the list of the bytes of its object, `obj->length`
being the length of that list. -/
structure Fifo where
  size : Nat
  objs : List (List Nat)

/-- Function `newFifo`, the allocation succeeding. -/
def newFifo (size : Nat) : Fifo := { size := size, objs := [] }

/-- The loop of `Fifo_CountData` over the nodes left, `countNode` being a
`uint16_t`: when the counter reaches `fifo->size` it is set to 0 and the loop
left. -/
def Fifo_CountData_loop (size : Nat) : List (List Nat) → Nat → Nat
  | [], countNode => countNode
  | _ :: objs, countNode =>
    if u16 (countNode + 1) ≥ size then 0
    else Fifo_CountData_loop size objs (u16 (countNode + 1))

/-- Function `Fifo_CountData`. -/
def Fifo_CountData (fifo : Fifo) : Nat := Fifo_CountData_loop fifo.size fifo.objs 0

/-- Function `Fifo_AddData` for a `uint16_t` length, the allocations succeeding:
the FIFO and the status.  `data = none` stands for a NULL pointer.  The new node
is linked after the last one. -/
def Fifo_AddData (fifo : Fifo) (data : Option Buf) (length : Nat) : Fifo × Nat :=
  match data with
  | none => (fifo, BUFF_NOT_OK)
  | some d =>
    if fifo.size ≤ Fifo_CountData fifo then (fifo, BUFF_NOT_OK)
    else ({ size := fifo.size, objs := fifo.objs ++ [bufList d length] }, BUFF_OK)

/-- Function `Fifo_GetData` for pointers that are not NULL: the FIFO, the buffer
`data`, `*length` and the status. -/
def Fifo_GetData (fifo : Fifo) (data : Buf) (length : Nat) : Fifo × Buf × Nat × Nat :=
  match fifo.objs with
  | obj :: rest =>
    ({ size := fifo.size, objs := rest }, memcpy data 0 (listBuf obj) obj.length, obj.length,
      BUFF_OK)
  | [] => (fifo, data, length, BUFF_NOT_OK)

/-- A sequence of `Fifo_AddData` calls, one for each element of the list: the
FIFO afterwards and the status of each call. -/
def Fifo_AddData_run : Fifo → List (List Nat) → Fifo × List Nat
  | fifo, [] => (fifo, [])
  | fifo, e :: rest =>
    ((Fifo_AddData_run (Fifo_AddData fifo (some (listBuf e)) e.length).1 rest).1,
      (Fifo_AddData fifo (some (listBuf e)) e.length).2 ::
        (Fifo_AddData_run (Fifo_AddData fifo (some (listBuf e)) e.length).1 rest).2)

/-- The one-byte elements `[1]`, `[2]`, ..., `[n]`. -/
def commands (n : Nat) : List (List Nat) := (List.range n).map fun k => [k + 1]

/-! ## The cursor of the free cluster search, as the specification words it -/

/-- One step forward of a cursor modulo `N`: `x + 1`, and 0 when `x + 1` reaches
`N`.  For `x < N` this is `(x + 1) mod N`; a value at or beyond `N` goes to 0. -/
def cursorStep (N x : Nat) : Nat := if x + 1 < N then x + 1 else 0

/-- The number of positions of a map sector that the free cluster search
visits: `min(Ssec / 2, (Ndev - DataFirst) / NSC)`. -/
def searchPositions (ufs : UFS) : Nat := min (halfSector ufs) (clusterLimit ufs)

/-- The number of map sectors that the search of `ufs_OpenItem` visits: the
sectors of the map zone whose first slot number does not exceed
`(Ndev - DataFirst) / NSC`. -/
def searchSectors (ufs : UFS) : Nat :=
  min ((ufs.ClusterDataZoneFirstSector : Int) - (ufs.ClusterMappingZoneFirstSector : Int)).toNat
    (clusterLimit ufs / halfSector ufs + 1)

/-- The slot `position` of map sector `sector` reads `UFS_CLUSTER_FREE` on the flash. -/
def mapSlotFree (ufs : UFS) (fl : Flash) (sector position : Nat) : Prop :=
  rd16 (fl (u16 (ufs.ClusterMappingZoneFirstSector + sector))) (position * 2) = UFS_CLUSTER_FREE

/-- The cursor `next` is reached from the cursor `cur` by moving forward to the
first free slot: its sector is `e + 1` steps forward of the sector of `cur`
modulo `searchSectors`, its position `d + 1` steps forward of the position of
`cur` modulo `searchPositions`; the slot reached is free on the flash `fl`, the
`d` positions passed in that sector are not, and no position that can be reached
from the position of `cur` is free in any of the `e` sectors passed. -/
def cursorAdvanced (ufs : UFS) (fl : Flash) (cur next : ufs_Location_Type) : Prop :=
  ∃ e d,
    next.sector_id = Nat.iterate (cursorStep (searchSectors ufs)) (e + 1) cur.sector_id ∧
    next.position = Nat.iterate (cursorStep (searchPositions ufs)) (d + 1) cur.position ∧
    mapSlotFree ufs fl next.sector_id next.position ∧
    (∀ i, i < d → ¬ mapSlotFree ufs fl next.sector_id
      (Nat.iterate (cursorStep (searchPositions ufs)) (i + 1) cur.position)) ∧
    (∀ j, j < e → ∀ i, ¬ mapSlotFree ufs fl
      (Nat.iterate (cursorStep (searchSectors ufs)) (j + 1) cur.sector_id)
      (Nat.iterate (cursorStep (searchPositions ufs)) (i + 1) cur.position))

/-- The cramped configuration with 65536 sectors more: 39 items on 65596
sectors of 16 bytes.  `ufs_FastFormat` keeps the number of sectors in a
`uint16_t`, where it is 60. -/
def wideCfg : ufs_Cfg_Type :=
  { api := { u16numberByteOfSector := 16, u16numberSectorOfBlock := 1,
             u32numberSectorOfDevice := 65596 }
    u8NumberEncodeFileExtension := 0
    u8NumberFileMaxOfDevice := 39
    pExtensionEncodeFileList := [] }

/-! # Theorems -/

/-! ## C3: the item-zone codec -/

/-- Applying the codec twice gives the byte back, for every byte other than `0xAA`. -/
theorem codecByte_codecByte (b : Nat) (hne : b ≠ 0xAA) : codecByte (codecByte b) = b := by
  unfold codecByte BYTE_CODEC_DEFAULT
  by_cases h0 : b = 0
  · subst h0; simp
  · have h1 : b ^^^ 0xAA ≠ 0 := by
      intro h
      apply hne
      have := congrArg (fun x => x ^^^ 0xAA) h
      simpa [Nat.xor_assoc] using this
    simp [h0, h1, Nat.xor_assoc]

set_option maxRecDepth 100000 in
/-- C3 (defect of the code): the item-zone codec is not a round trip at byte
`0xAA`, which is encoded as `0x00` and decoded as `0x00`.  On the small device
the record of `test.txt` with size 170 (`0xAA`), stored by `ufs_UpdateItemInfo`,
is decoded by the item-zone scan with size 0. -/
theorem item_codec_loses_0xAA :
    codecByte 0xAA = 0x00 ∧ codecByte (codecByte 0xAA) ≠ 0xAA ∧ size170ReadBack = some 0 := by
  decide!

/-! ## C1: a write of length 0 -/

/-- For length 0 the cluster count `(0 + cluster_size - 1) / cluster_size + 1` is 1. -/
theorem numberClusters_zero (ufs : UFS) : numberClusters ufs 0 = 1 := by
  have h : u32 (clusterBytes ufs) < 4294967296 := by unfold u32; omega
  unfold numberClusters
  generalize u32 (clusterBytes ufs) = cs at h
  unfold u32
  rcases Nat.eq_zero_or_pos cs with h0 | hpos
  · subst h0; simp
  · have : (0 + cs + 4294967295) % 4294967296 = cs - 1 := by omega
    rw [this, Nat.div_eq_of_lt (by omega)]

/-- A vector of fewer than two entries makes `ufs_OrderClusters` return `UFS_NOT_OK` at once. -/
theorem ufs_OrderClusters_short (fuel : Nat) (ufs : UFS) (fl : Flash) (clusters : Nat → Nat)
    (length : Nat) (h : length < 2) :
    ufs_OrderClusters fuel ufs fl clusters length =
      some { ufs := ufs, fl := fl, clusters := clusters, ret := UFS_NOT_OK } := by
  unfold ufs_OrderClusters
  rw [if_pos h]

/-- C1 (defect of the code): `ufs_WriteFile` with length 0 never returns
`UFS_OK`: for every state, handle and data it returns `UFS_NOT_OK`, and on an
open file handle (back pointer set, no error, status `UFS_FILE_EXIST`) the
error it leaves is `UFS_ERROR_FULL_MEM`, whatever the number of free clusters. -/
theorem ufs_WriteFile_zero_length (fuel : Nat) (ufs : UFS) (fl : Flash) (file : ufs_Item_Type)
    (data : Buf) (sumEnable : Nat) :
    ∃ r, ufs_WriteFile fuel ufs fl file data 0 sumEnable = some r ∧ r.ret = UFS_NOT_OK ∧
      (file.ufs = true → file.err = UFS_ERROR_NONE → file.status = UFS_FILE_EXIST →
        r.item.err = UFS_ERROR_FULL_MEM) := by
  unfold ufs_WriteFile
  by_cases h1 : file.ufs = false ∨ file.err ≠ UFS_ERROR_NONE
  · rw [if_pos h1]
    refine ⟨_, rfl, rfl, ?_⟩
    intro a b _
    rcases h1 with h1 | h1
    · rw [a] at h1; exact absurd h1 (by decide)
    · exact absurd b h1
  · rw [if_neg h1]
    by_cases h2 : file.status ≠ UFS_FILE_EXIST
    · rw [if_pos h2]
      exact ⟨_, rfl, rfl, fun _ _ c => absurd c h2⟩
    · rw [if_neg h2, numberClusters_zero]
      unfold ufs_WriteFile_alloc
      rw [ufs_OrderClusters_short _ _ _ _ _ (by decide)]
      refine ⟨_, rfl, rfl, ?_⟩
      intro _ _ _
      rfl

/-! ## C7, C2, C9, C10: the allocator hands out a cluster twice -/

set_option maxRecDepth 100000 in
/-- C7 (defect of the code): on the small device whose only free cluster is
cluster 5, `ufs_OrderClusters` asked for a vector of length 3 (two clusters)
returns `UFS_OK` and stores cluster 5 twice, although a single map slot among
the 16 addressable clusters is `UFS_CLUSTER_FREE`. -/
theorem ufs_OrderClusters_repeats_cluster :
    ((List.range 16).filter fun c => mapSlot demoMount.ufs oneFreeFlash c == UFS_CLUSTER_FREE) = [5] ∧
    (ufs_OrderClusters 64 demoMount.ufs oneFreeFlash (fun _ => 0) 3).map
      (fun r => (r.ret, r.clusters 0, r.clusters 1, r.clusters 2)) =
      some (UFS_OK, 5, 5, UFS_CLUSTER_END) := by
  decide!

set_option maxRecDepth 100000 in
/-- C2 (defect of the code): on the small device with no free cluster, writing
193 bytes (two clusters) to `test.txt`, which owns cluster 1, returns `UFS_OK`
with the chain `[1, 1, END]`; the map slot of `chain[0]` then holds
`UFS_CLUSTER_END`, not `chain[1]`. -/
theorem ufs_WriteFile_chain_broken :
    fullDeviceWrite.map (fun r => (r.ret, r.item.clusters_length, r.item.clusters_value 0,
      r.item.clusters_value 1, r.item.clusters_value 2, mapSlot r.ufs r.fl (r.item.clusters_value 0))) =
      some (UFS_OK, 3, 1, 1, UFS_CLUSTER_END, UFS_CLUSTER_END) := by
  decide!

set_option maxRecDepth 100000 in
/-- C9 (defect of the code): the same write with the checksum enabled, the
first byte read back differing in one bit from the byte written, returns
`UFS_NOT_OK` with `UFS_ERROR_SUM_SECTOR_FAIL` while writing `chain[0]`; the
chain is `[1, 1, END]`, and the map slot of the later cluster `chain[1]` holds
`UFS_CLUSTER_BAD`, not `UFS_CLUSTER_FREE`. -/
theorem ufs_WriteFile_retires_later_cluster :
    staleBitWrite.map (fun r => (r.ret, r.item.err, r.item.clusters_value 0, r.item.clusters_value 1,
      r.item.clusters_value 2, mapSlot r.ufs r.fl (r.item.clusters_value 1))) =
      some (UFS_NOT_OK, UFS_ERROR_SUM_SECTOR_FAIL, 1, 1, UFS_CLUSTER_END, UFS_CLUSTER_BAD) := by
  decide!

set_option maxRecDepth 100000 in
/-- C10 (defect of the code): on the device left by the failed write, where the
map slot of the first cluster of `test.txt` is `UFS_CLUSTER_BAD`, opening the
file with a zeroed handle returns `UFS_OK` with no error, and `ufs_DeleteItem` on
that handle returns `UFS_OK`, yet the first byte of the item record, read and
decoded from the flash at the location the handle had, is still `t` (0x74), not
0x00. -/
theorem ufs_DeleteItem_keeps_record :
    reopenedAfterFailure.map (fun o => (o.ret, o.item.err, o.item.status, o.item.location.sector_id,
      o.item.location.position)) = some (UFS_OK, UFS_ERROR_NONE, UFS_FILE_EXIST, 2, 1) ∧
    deletedAfterFailure.map (fun r => (r.ret, readItemSector r.ufs r.fl 2 (1 * sizeof_ItemInfo))) =
      some (UFS_OK, 0x74) := by
  decide!

/-! ## C5: when `newUFS` formats -/

theorem sum_fold_u8 (data : Buf) (len : Nat) :
    (List.range len).foldl (fun checksum i => u8 (checksum + data i)) 0 =
      ((List.range len).map data).sum % 256 := by
  induction len with
  | zero => rfl
  | succ k ih =>
    rw [List.range_succ, List.foldl_append, ih, List.map_append, List.sum_append]
    simp only [List.foldl_cons, List.foldl_nil, List.map_cons, List.map_nil, List.sum_cons,
      List.sum_nil, u8]
    omega

theorem ufs_CheckSum_eq (data : Buf) (len : Nat) :
    ufs_CheckSum data len = ((List.range len).map data).sum % 256 ^^^ 0xAA := by
  unfold ufs_CheckSum BYTE_CODEC_DEFAULT
  rw [sum_fold_u8]

theorem ufs_CheckSum_congr (a b : Buf) (len : Nat) (h : ∀ i, i < len → a i = b i) :
    ufs_CheckSum a len = ufs_CheckSum b len := by
  rw [ufs_CheckSum_eq, ufs_CheckSum_eq]
  congr 2
  congr 1
  apply List.map_congr_left
  intro i hi
  exact h i (List.mem_range.mp hi)

theorem ufs_BytesCmp_three (a b : Buf) :
    (ufs_BytesCmp a b 3 = UFS_OK) ↔ (a 0 = b 0 ∧ a 1 = b 1 ∧ a 2 = b 2) := by
  unfold ufs_BytesCmp UFS_OK UFS_NOT_OK
  simp [List.range_succ]

theorem ufs_BytesCmp_two (a b : Buf) :
    (ufs_BytesCmp a b 2 = UFS_OK) ↔ (a 0 = b 0 ∧ a 1 = b 1) := by
  unfold ufs_BytesCmp UFS_OK UFS_NOT_OK
  simp [List.range_succ]

theorem bootSectorValid_iff (data : Buf) (n : Nat) :
    bootSectorValid data n = true ↔
      ((data 0 = 0x55 ∧ data 1 = 0x46 ∧ data 2 = 0x53) ∧
       (data (n - 3) = 0x0D ∧ data (n - 3 + 1) = 0x0A) ∧
       data (n - 1) = ufs_CheckSum data (n - 1)) := by
  unfold bootSectorValid
  have h3 := ufs_BytesCmp_three data (fun i => [0x55, 0x46, 0x53].getD i 0)
  have h2 := ufs_BytesCmp_two (bufAt data (n - 3)) (fun i => [0x0D, 0x0A].getD i 0)
  simp only [List.getD_cons_zero, List.getD_cons_succ, bufAt, Nat.add_zero] at h3 h2
  simp only [Bool.not_eq_true', Bool.or_eq_false_iff, bne_eq_false_iff_eq]
  rw [eq_comm (a := UFS_OK), eq_comm (a := UFS_OK), h3, h2, and_assoc]

/-! ### Sector hooks -/

theorem ReadSector_lt (fl : Flash) (s : Nat) (buf : Buf) (len i : Nat) (h : i < len) :
    ReadSector fl s buf len i = fl s i := by
  unfold ReadSector; rw [if_pos h]

theorem WriteSector_other (fl : Flash) (sector : Nat) (buf : Buf) (len s i : Nat) (h : s ≠ sector) :
    WriteSector fl sector buf len s i = fl s i := by
  unfold WriteSector; rw [if_neg (fun hh => h hh.1)]

theorem WriteSector_same (fl : Flash) (sector : Nat) (buf : Buf) (len i : Nat) (h : i < len) :
    WriteSector fl sector buf len sector i = fl sector i &&& buf i := by
  unfold WriteSector; rw [if_pos ⟨rfl, h⟩]

theorem EraseSector_other (fl : Flash) (sector s i : Nat) (h : s ≠ sector) :
    EraseSector fl sector s i = fl s i := by
  unfold EraseSector; rw [if_neg h]

theorem EraseSector_same (fl : Flash) (sector i : Nat) :
    EraseSector fl sector sector i = 0xFF := by
  unfold EraseSector; rw [if_pos rfl]

theorem and_255 (b : Nat) (h : b < 256) : 0xFF &&& b = b := by
  have := Nat.and_pow_two_sub_one_eq_mod b 8
  rw [Nat.and_comm]
  simpa [Nat.mod_eq_of_lt h] using this

theorem newUFS_formatted (pUfsCfg : ufs_Cfg_Type) (ufs0 : UFS) (fl : Flash) (uid : Buf) :
    (newUFS pUfsCfg ufs0 fl uid).formatted =
      !bootSectorValid (ReadSector fl BOOT_SECTOR_ID (fun _ => 0) pUfsCfg.api.u16numberByteOfSector)
        pUfsCfg.api.u16numberByteOfSector := by
  unfold newUFS
  split <;> simp_all

/-! ### The loops of `ufs_FastFormat` -/

theorem ufs_FastFormat_items_spec (ufs : UFS) (n : Nat) (fl0 : Flash) (buf0 : Buf)
    (hbuf : ∀ i, 1 ≤ i → i < n → buf0 i = 0) (k : Nat) :
    (∀ i, 1 ≤ i → i < n →
      ((List.range k).foldl (ufs_FastFormat_itemStep ufs n) (fl0, buf0)).2 i = 0) ∧
    (∀ s, s < k → ∀ i, 1 ≤ i → i < n →
      ((List.range k).foldl (ufs_FastFormat_itemStep ufs n) (fl0, buf0)).1
        (u16 (ufs.ItemZoneFirstSector + s)) i = 0) ∧
    (∀ t, (∀ s, s < k → t ≠ u16 (ufs.ItemZoneFirstSector + s)) →
      ((List.range k).foldl (ufs_FastFormat_itemStep ufs n) (fl0, buf0)).1 t = fl0 t) := by
  induction k with
  | zero =>
    refine ⟨fun i h1 h2 => hbuf i h1 h2, fun s hs => absurd hs (Nat.not_lt_zero s), fun t _ => rfl⟩
  | succ k ih =>
    obtain ⟨ih1, ih2, ih3⟩ := ih
    rw [List.range_succ, List.foldl_append]
    simp only [List.foldl_cons, List.foldl_nil]
    generalize (List.range k).foldl (ufs_FastFormat_itemStep ufs n) (fl0, buf0) = st at ih1 ih2 ih3
    have hb : ∀ i, 1 ≤ i → i < n →
        (if k = 0 then setByte st.2 0 (0x2F ^^^ BYTE_CODEC_DEFAULT) else st.2) i = 0 := by
      intro i h1 h2
      by_cases hk : k = 0
      · rw [if_pos hk]; unfold setByte; rw [if_neg (by omega)]; exact ih1 i h1 h2
      · rw [if_neg hk]; exact ih1 i h1 h2
    refine ⟨?_, ?_, ?_⟩
    · intro i h1 h2
      exact hb i h1 h2
    · intro s hs i h1 h2
      show WriteSector st.1 (u16 (ufs.ItemZoneFirstSector + k)) _ n
        (u16 (ufs.ItemZoneFirstSector + s)) i = 0
      by_cases he : u16 (ufs.ItemZoneFirstSector + s) = u16 (ufs.ItemZoneFirstSector + k)
      · rw [he, WriteSector_same _ _ _ _ _ h2, hb i h1 h2, Nat.and_zero]
      · rw [WriteSector_other _ _ _ _ _ _ he]
        have : s < k := by
          rcases Nat.lt_succ_iff_lt_or_eq.mp hs with h | h
          · exact h
          · exact absurd (by rw [h]) he
        exact ih2 s this i h1 h2
    · intro t ht
      show WriteSector st.1 (u16 (ufs.ItemZoneFirstSector + k)) _ n t = fl0 t
      funext i
      rw [WriteSector_other _ _ _ _ _ _ (ht k (Nat.lt_succ_self k))]
      exact congrFun (ih3 t (fun s hs => ht s (Nat.lt_succ_of_lt hs))) i

theorem ufs_FastFormat_map_frame (ufs : UFS) (n : Nat) (fl0 : Flash) (buf0 : Buf) (k : Nat) (t : Nat)
    (ht : ∀ s, s < k → t ≠ u16 (ufs.ClusterMappingZoneFirstSector + s)) :
    ((List.range k).foldl (ufs_FastFormat_mapStep ufs n) (fl0, buf0)).1 t = fl0 t := by
  induction k with
  | zero => rfl
  | succ k ih =>
    rw [List.range_succ, List.foldl_append]
    simp only [List.foldl_cons, List.foldl_nil]
    have ih' := ih (fun s hs => ht s (Nat.lt_succ_of_lt hs))
    generalize (List.range k).foldl (ufs_FastFormat_mapStep ufs n) (fl0, buf0) = st at ih'
    show WriteSector st.1 (u16 (ufs.ClusterMappingZoneFirstSector + k)) _ n t = fl0 t
    funext i
    rw [WriteSector_other _ _ _ _ _ _ (ht k (Nat.lt_succ_self k))]
    exact congrFun ih' i

theorem u16_lt (x : Nat) : u16 x < 65536 := by unfold u16; omega

theorem u16_of_lt (x : Nat) (h : x < 65536) : u16 x = x := by unfold u16; omega

/-- After `ufs_FastFormat`, every byte of every item-zone sector other than the
first byte of the sector is zero, whatever the flash held before. -/
theorem ufs_FastFormat_item_zone (ufs : UFS) (fl : Flash) (uid : Buf) (s i : Nat)
    (hs : s < (ufs_FastFormat ufs fl uid).1.ClusterMappingZoneFirstSector -
      (ufs_FastFormat ufs fl uid).1.ItemZoneFirstSector)
    (h1 : 1 ≤ i) (h2 : i < u16 ufs.conf.api.u16numberByteOfSector) :
    (ufs_FastFormat ufs fl uid).2 (u16 ((ufs_FastFormat ufs fl uid).1.ItemZoneFirstSector + s)) i = 0 := by
  have hItem : (ufs_FastFormat ufs fl uid).1.ItemZoneFirstSector = 1 := rfl
  have hMap : (ufs_FastFormat ufs fl uid).1.ClusterMappingZoneFirstSector =
      format_ClusterMappingZoneFirstSector ufs.conf := rfl
  rw [hItem, hMap] at hs
  rw [hItem]
  have hCM : format_ClusterMappingZoneFirstSector ufs.conf < 65536 := u16_lt _
  have hData : format_ClusterDataZoneFirstSector ufs.conf < 65536 := u16_lt _
  show ufs_FastFormat_flash (ufs_FastFormat_geometry ufs uid) fl (u16 (1 + s)) i = 0
  unfold ufs_FastFormat_flash ufs_FastFormat_map
  rw [ufs_FastFormat_map_frame]
  · unfold ufs_FastFormat_itemsWritten ufs_FastFormat_items
    have key := (ufs_FastFormat_items_spec (ufs_FastFormat_geometry ufs uid)
      (u16 (ufs_FastFormat_geometry ufs uid).conf.api.u16numberByteOfSector)
      (ufs_FastFormat_bootWritten (ufs_FastFormat_geometry ufs uid) fl)
      (memset (ufs_FastFormat_boot (ufs_FastFormat_geometry ufs uid)
          (u16 (ufs_FastFormat_geometry ufs uid).conf.api.u16numberByteOfSector)) 0x00
        (u16 (ufs_FastFormat_geometry ufs uid).conf.api.u16numberByteOfSector))
      (by intro j _ hj; unfold memset; rw [if_pos hj])
      ((ufs_FastFormat_geometry ufs uid).ClusterMappingZoneFirstSector -
        (ufs_FastFormat_geometry ufs uid).ItemZoneFirstSector)).2.1
    exact key s hs i h1 h2
  · intro c hc
    have hc' : c < format_ClusterDataZoneFirstSector ufs.conf -
        format_ClusterMappingZoneFirstSector ufs.conf := hc
    show u16 (1 + s) ≠ u16 (format_ClusterMappingZoneFirstSector ufs.conf + c)
    rw [u16_of_lt _ (by omega), u16_of_lt _ (by omega)]
    omega

theorem newUFS_of_formatted (pUfsCfg : ufs_Cfg_Type) (ufs0 : UFS) (fl : Flash) (uid : Buf)
    (h : (newUFS pUfsCfg ufs0 fl uid).formatted = true) :
    (newUFS pUfsCfg ufs0 fl uid).ufs = (ufs_FastFormat { ufs0 with conf := pUfsCfg } fl uid).1 ∧
    (newUFS pUfsCfg ufs0 fl uid).fl = (ufs_FastFormat { ufs0 with conf := pUfsCfg } fl uid).2 := by
  rw [newUFS_formatted] at h
  unfold newUFS
  rw [if_pos h]
  exact ⟨rfl, rfl⟩

/-! ### The scan of `ufs_OpenItem` when no record matches -/

theorem ufs_OpenItem_note_item (st : ScanState) (data_sector : Buf) (countSector countSegment : Nat) :
    (ufs_OpenItem_note st data_sector countSector countSegment).item = st.item := by
  unfold ufs_OpenItem_note
  split <;> rfl

theorem ufs_OpenItem_segments_nomatch (ufs : UFS) (fl : Flash) (data_sector : Buf) (countSector : Nat)
    (n : Nat) : ∀ (countSegment : Nat) (st : ScanState),
    (∀ g, countSegment ≤ g → g < countSegment + n →
      itemMatches ufs st.item.info data_sector g = false) →
    (ufs_OpenItem_segments ufs fl data_sector countSector n countSegment st).item = st.item := by
  induction n with
  | zero => intro _ _ _; rfl
  | succ k ih =>
    intro countSegment st h
    unfold ufs_OpenItem_segments
    rw [if_neg (by rw [h countSegment (Nat.le_refl _) (by omega)]; decide)]
    rw [ih (countSegment + 1) _ (by
      intro g hg1 hg2
      rw [ufs_OpenItem_note_item]
      exact h g (by omega) (by omega))]
    exact ufs_OpenItem_note_item _ _ _ _

theorem ufs_OpenItem_sectors_nomatch (ufs : UFS) (fl : Flash) (n : Nat) :
    ∀ (countSector : Nat) (st : ScanState), st.item.location.sector_id = 0xFFFF →
    (∀ s, countSector ≤ s → s < countSector + n →
      ∀ g, g < u16 (ufs.conf.api.u16numberByteOfSector / sizeof_ItemInfo) →
        itemMatches ufs st.item.info (readItemSector ufs fl s) g = false) →
    (ufs_OpenItem_sectors ufs fl n countSector st).item = st.item := by
  induction n with
  | zero => intro _ _ _ _; rfl
  | succ k ih =>
    intro countSector st hloc h
    have hseg := ufs_OpenItem_segments_nomatch ufs fl (readItemSector ufs fl countSector) countSector
      (u16 (ufs.conf.api.u16numberByteOfSector / sizeof_ItemInfo)) 0 st
      (fun g _ hg => h countSector (Nat.le_refl _) (by omega) g (by omega))
    unfold ufs_OpenItem_sectors
    rw [if_neg (by rw [hseg, hloc]; decide)]
    rw [ih (countSector + 1) _ (by rw [hseg]; exact hloc) (by
      intro s hs1 hs2 g hg
      rw [hseg]
      exact h s (by omega) (by omega) g hg)]
    exact hseg

theorem itemMatches_length_ne (ufs : UFS) (info data_sector : Buf) (g : Nat)
    (h : info_length info ≠ data_sector (g * sizeof_ItemInfo + MAX_NAME_LENGTH + 3)) :
    itemMatches ufs info data_sector g = false := by
  unfold itemMatches
  have : (info_length info == data_sector (g * sizeof_ItemInfo + MAX_NAME_LENGTH + 3)) = false := by
    simpa using h
  rw [this, Bool.and_false]

theorem readItemSector_lt (ufs : UFS) (fl : Flash) (s i : Nat)
    (h : i < ufs.conf.api.u16numberByteOfSector) :
    readItemSector ufs fl s i = codecByte (fl (u16 (ufs.ItemZoneFirstSector + s)) i) := by
  unfold readItemSector codecSector
  rw [if_pos h, ReadSector_lt _ _ _ _ _ h]

/-- After `ufs_FastFormat` no item record matches a name of positive length:
the scan of `ufs_OpenItem` ends without a location. -/
theorem ufs_OpenItem_scan_after_format (ufs : UFS) (fl : Flash) (uid : Buf) (name_file : List Nat)
    (item : ufs_Item_Type) (h16 : ufs.conf.api.u16numberByteOfSector < 65536)
    (hlen : info_length (ufs_ParseNameFile name_file item.info) ≠ 0) :
    (ufs_OpenItem_scan (ufs_FastFormat ufs fl uid).1 (ufs_FastFormat ufs fl uid).2 name_file
      item).item.location.sector_id = 0xFFFF := by
  have hconf : (ufs_FastFormat ufs fl uid).1.conf = ufs.conf := rfl
  unfold ufs_OpenItem_scan
  rw [ufs_OpenItem_sectors_nomatch]
  · rfl
  · rfl
  · intro s _ hs g hg
    rw [hconf, u16_of_lt _ (by
      have := Nat.div_le_self ufs.conf.api.u16numberByteOfSector sizeof_ItemInfo
      omega)] at hg
    have hg' : g * 32 + 32 ≤ ufs.conf.api.u16numberByteOfSector := by
      unfold sizeof_ItemInfo at hg
      omega
    apply itemMatches_length_ne
    have hs' : s < (ufs_FastFormat ufs fl uid).1.ClusterMappingZoneFirstSector -
        (ufs_FastFormat ufs fl uid).1.ItemZoneFirstSector := by
      omega
    rw [readItemSector_lt _ _ _ _ (by rw [hconf]; unfold sizeof_ItemInfo MAX_NAME_LENGTH; omega),
      ufs_FastFormat_item_zone ufs fl uid s _ hs' (by unfold sizeof_ItemInfo MAX_NAME_LENGTH; omega)
        (by rw [u16_of_lt _ h16]; unfold sizeof_ItemInfo MAX_NAME_LENGTH; omega)]
    exact hlen

theorem bootSectorValid_flash (fl : Flash) (n : Nat) (h3 : 3 ≤ n) :
    bootSectorValid (ReadSector fl BOOT_SECTOR_ID (fun _ => 0) n) n = true ↔
      ((fl 0 0 = 0x55 ∧ fl 0 1 = 0x46 ∧ fl 0 2 = 0x53) ∧
       (fl 0 (n - 3) = 0x0D ∧ fl 0 (n - 2) = 0x0A) ∧
       fl 0 (n - 1) = ((List.range (n - 1)).map (fl 0)).sum % 256 ^^^ 0xAA) := by
  rw [bootSectorValid_iff]
  have e : n - 3 + 1 = n - 2 := by omega
  rw [e, ReadSector_lt _ _ _ _ _ (by omega : 0 < n), ReadSector_lt _ _ _ _ _ (by omega : 1 < n),
    ReadSector_lt _ _ _ _ _ (by omega : 2 < n), ReadSector_lt _ _ _ _ _ (by omega : n - 3 < n),
    ReadSector_lt _ _ _ _ _ (by omega : n - 2 < n), ReadSector_lt _ _ _ _ _ (by omega : n - 1 < n),
    ufs_CheckSum_congr (ReadSector fl BOOT_SECTOR_ID (fun _ => 0) n) (fl 0) (n - 1)
      (fun i hi => ReadSector_lt _ _ _ _ _ (by omega : i < n)),
    ufs_CheckSum_eq]
  rfl

/-- C5: `newUFS` calls `ufs_FastFormat` exactly when the boot sector is
invalid, that is when its first three bytes differ from `UFS`, or the bytes at
`Ssec - 3`, `Ssec - 2` differ from `\r`, `\n`, or the last byte differs from
the sum of the bytes `0 .. Ssec - 2` modulo 256 XOR `0xAA`.  For every flash
content: if the boot sector is invalid in that sense, the `UFS` object and the
flash that `newUFS` returns are those that `ufs_FastFormat` produces from the
flash; if it is valid, the flash is returned unchanged and the object is the one
loaded from the boot sector; `formatted` records which of the two happened.  In
particular, if the boot sector of `fl` is valid and `fl'` has the same boot
sector but for its last byte, `newUFS` on `fl'` returns the formatted state, and
afterwards the scan of `ufs_OpenItem` finds no item for any name that parses to
a positive length, whatever items the flash held. -/
theorem newUFS_formats_iff_boot_invalid (pUfsCfg : ufs_Cfg_Type) (ufs0 : UFS) (fl : Flash) (uid : Buf)
    (h3 : 3 ≤ pUfsCfg.api.u16numberByteOfSector)
    (h16 : pUfsCfg.api.u16numberByteOfSector < 65536) :
    ((¬ (fl 0 0 = 0x55 ∧ fl 0 1 = 0x46 ∧ fl 0 2 = 0x53) ∨
       ¬ (fl 0 (pUfsCfg.api.u16numberByteOfSector - 3) = 0x0D ∧
          fl 0 (pUfsCfg.api.u16numberByteOfSector - 2) = 0x0A) ∨
       fl 0 (pUfsCfg.api.u16numberByteOfSector - 1) ≠
         ((List.range (pUfsCfg.api.u16numberByteOfSector - 1)).map (fl 0)).sum % 256 ^^^ 0xAA) →
      (newUFS pUfsCfg ufs0 fl uid).ufs = (ufs_FastFormat { ufs0 with conf := pUfsCfg } fl uid).1 ∧
      (newUFS pUfsCfg ufs0 fl uid).fl = (ufs_FastFormat { ufs0 with conf := pUfsCfg } fl uid).2 ∧
      (newUFS pUfsCfg ufs0 fl uid).formatted = true) ∧
    (¬ (¬ (fl 0 0 = 0x55 ∧ fl 0 1 = 0x46 ∧ fl 0 2 = 0x53) ∨
       ¬ (fl 0 (pUfsCfg.api.u16numberByteOfSector - 3) = 0x0D ∧
          fl 0 (pUfsCfg.api.u16numberByteOfSector - 2) = 0x0A) ∨
       fl 0 (pUfsCfg.api.u16numberByteOfSector - 1) ≠
         ((List.range (pUfsCfg.api.u16numberByteOfSector - 1)).map (fl 0)).sum % 256 ^^^ 0xAA) →
      (newUFS pUfsCfg ufs0 fl uid).fl = fl ∧
      (newUFS pUfsCfg ufs0 fl uid).ufs =
        (ufs_GetUsedSize
          (newUFS_load { ufs0 with conf := pUfsCfg }
            (ReadSector fl BOOT_SECTOR_ID (fun _ => 0) pUfsCfg.api.u16numberByteOfSector))
          fl).1.withPathId 0x00 ∧
      (newUFS pUfsCfg ufs0 fl uid).formatted = false) ∧
    ((newUFS pUfsCfg ufs0 fl uid).formatted = true ↔
      (¬ (fl 0 0 = 0x55 ∧ fl 0 1 = 0x46 ∧ fl 0 2 = 0x53) ∨
       ¬ (fl 0 (pUfsCfg.api.u16numberByteOfSector - 3) = 0x0D ∧
          fl 0 (pUfsCfg.api.u16numberByteOfSector - 2) = 0x0A) ∨
       fl 0 (pUfsCfg.api.u16numberByteOfSector - 1) ≠
         ((List.range (pUfsCfg.api.u16numberByteOfSector - 1)).map (fl 0)).sum % 256 ^^^ 0xAA)) ∧
    (∀ fl' : Flash,
      ((fl 0 0 = 0x55 ∧ fl 0 1 = 0x46 ∧ fl 0 2 = 0x53) ∧
       (fl 0 (pUfsCfg.api.u16numberByteOfSector - 3) = 0x0D ∧
        fl 0 (pUfsCfg.api.u16numberByteOfSector - 2) = 0x0A) ∧
       fl 0 (pUfsCfg.api.u16numberByteOfSector - 1) =
         ((List.range (pUfsCfg.api.u16numberByteOfSector - 1)).map (fl 0)).sum % 256 ^^^ 0xAA) →
      (∀ i, i < pUfsCfg.api.u16numberByteOfSector - 1 → fl' 0 i = fl 0 i) →
      fl' 0 (pUfsCfg.api.u16numberByteOfSector - 1) ≠ fl 0 (pUfsCfg.api.u16numberByteOfSector - 1) →
      (newUFS pUfsCfg ufs0 fl' uid).ufs = (ufs_FastFormat { ufs0 with conf := pUfsCfg } fl' uid).1 ∧
      (newUFS pUfsCfg ufs0 fl' uid).fl = (ufs_FastFormat { ufs0 with conf := pUfsCfg } fl' uid).2 ∧
      (newUFS pUfsCfg ufs0 fl' uid).formatted = true ∧
      ∀ (name_file : List Nat) (item : ufs_Item_Type),
        info_length (ufs_ParseNameFile name_file item.info) ≠ 0 →
        (ufs_OpenItem_scan (newUFS pUfsCfg ufs0 fl' uid).ufs (newUFS pUfsCfg ufs0 fl' uid).fl
          name_file item).item.location.sector_id = 0xFFFF) := by
  have iff1 : ∀ f : Flash, (newUFS pUfsCfg ufs0 f uid).formatted = true ↔
      (¬ (f 0 0 = 0x55 ∧ f 0 1 = 0x46 ∧ f 0 2 = 0x53) ∨
       ¬ (f 0 (pUfsCfg.api.u16numberByteOfSector - 3) = 0x0D ∧
          f 0 (pUfsCfg.api.u16numberByteOfSector - 2) = 0x0A) ∨
       f 0 (pUfsCfg.api.u16numberByteOfSector - 1) ≠
         ((List.range (pUfsCfg.api.u16numberByteOfSector - 1)).map (f 0)).sum % 256 ^^^ 0xAA) := by
    intro f
    rw [newUFS_formatted, Bool.not_eq_true', ← Bool.not_eq_true, bootSectorValid_flash f _ h3]
    tauto
  have hfmt : ∀ f : Flash, (newUFS pUfsCfg ufs0 f uid).formatted = true →
      (newUFS pUfsCfg ufs0 f uid).ufs = (ufs_FastFormat { ufs0 with conf := pUfsCfg } f uid).1 ∧
      (newUFS pUfsCfg ufs0 f uid).fl = (ufs_FastFormat { ufs0 with conf := pUfsCfg } f uid).2 :=
    fun f hf => newUFS_of_formatted pUfsCfg ufs0 f uid hf
  have hkeep : ∀ f : Flash, ¬ (newUFS pUfsCfg ufs0 f uid).formatted = true →
      (newUFS pUfsCfg ufs0 f uid).fl = f ∧
      (newUFS pUfsCfg ufs0 f uid).ufs =
        (ufs_GetUsedSize
          (newUFS_load { ufs0 with conf := pUfsCfg }
            (ReadSector f BOOT_SECTOR_ID (fun _ => 0) pUfsCfg.api.u16numberByteOfSector))
          f).1.withPathId 0x00 ∧
      (newUFS pUfsCfg ufs0 f uid).formatted = false := by
    intro f hf
    have hb : (newUFS pUfsCfg ufs0 f uid).formatted = false := by
      cases hc : (newUFS pUfsCfg ufs0 f uid).formatted
      · rfl
      · exact absurd hc hf
    have hv := hb
    rw [newUFS_formatted] at hv
    refine ⟨?_, ?_, hb⟩
    · unfold newUFS
      rw [if_neg (by rw [hv]; decide)]
    · unfold newUFS
      rw [if_neg (by rw [hv]; decide)]
  refine ⟨?_, ?_, iff1 fl, ?_⟩
  · intro hinv
    have hf := (iff1 fl).2 hinv
    exact ⟨(hfmt fl hf).1, (hfmt fl hf).2, hf⟩
  · intro hval
    exact hkeep fl (fun hf => hval ((iff1 fl).1 hf))
  intro fl' hvalid hsame hlast
  have hsum : ((List.range (pUfsCfg.api.u16numberByteOfSector - 1)).map (fl' 0)).sum =
      ((List.range (pUfsCfg.api.u16numberByteOfSector - 1)).map (fl 0)).sum := by
    congr 1
    apply List.map_congr_left
    intro i hi
    exact hsame i (List.mem_range.mp hi)
  have hf : (newUFS pUfsCfg ufs0 fl' uid).formatted = true := by
    rw [iff1 fl']
    right; right
    rw [hsum]
    intro h
    apply hlast
    rw [h]
    exact hvalid.2.2.symm
  obtain ⟨e1, e2⟩ := hfmt fl' hf
  refine ⟨e1, e2, hf, ?_⟩
  intro name_file item hlen
  rw [e1, e2]
  exact ufs_OpenItem_scan_after_format _ _ _ _ _ h16 hlen

set_option maxRecDepth 100000 in
/-- Witness of `newUFS_formats_iff_boot_invalid`: on the small device holding
`test.txt`, the boot sector is valid, `newUFS` returns the flash as it is and the
scan of `ufs_OpenItem` finds the file; after bit 0 of the last boot byte is
inverted, `newUFS` returns the state that `ufs_FastFormat` produces and the scan
no longer finds the file. -/
theorem newUFS_formats_iff_boot_invalid_witness :
    (3 ≤ demoCfg.api.u16numberByteOfSector ∧ demoCfg.api.u16numberByteOfSector < 65536) ∧
    (newUFS demoCfg (blankUfs demoCfg) demoFileFlash demoUid).fl = demoFileFlash ∧
    (newUFS demoCfg (blankUfs demoCfg) demoFileFlash demoUid).formatted = false ∧
    (ufs_OpenItem_scan demoMount.ufs demoFileFlash nameTest blankItem).item.location.sector_id = 2 ∧
    (newUFS demoCfg (blankUfs demoCfg) (corruptLastByte demoFileFlash) demoUid).fl =
      (ufs_FastFormat { blankUfs demoCfg with conf := demoCfg } (corruptLastByte demoFileFlash)
        demoUid).2 ∧
    (newUFS demoCfg (blankUfs demoCfg) (corruptLastByte demoFileFlash) demoUid).formatted = true ∧
    (ufs_OpenItem_scan (newUFS demoCfg (blankUfs demoCfg) (corruptLastByte demoFileFlash) demoUid).ufs
      (newUFS demoCfg (blankUfs demoCfg) (corruptLastByte demoFileFlash) demoUid).fl
      nameTest blankItem).item.location.sector_id = 0xFFFF :=
  have hvalid : (newUFS demoCfg (blankUfs demoCfg) demoFileFlash demoUid).formatted = false := by
    decide!
  have hall := newUFS_formats_iff_boot_invalid demoCfg (blankUfs demoCfg) demoFileFlash demoUid
    (by decide) (by decide)
  have hkeep := hall.2.1 (fun hinv => by
    have ht := hall.2.2.1.2 hinv
    rw [hvalid] at ht
    exact absurd ht (by decide))
  have h := hall.2.2.2 (corruptLastByte demoFileFlash)
    ⟨⟨by decide!, by decide!, by decide!⟩, ⟨by decide!, by decide!⟩, by decide!⟩
    (by
      intro i hi
      have hi' : i < 63 := hi
      unfold corruptLastByte
      rw [if_neg (by omega)])
    (by decide!)
  ⟨⟨by decide, by decide⟩, hkeep.1, hvalid, by decide!, h.2.1, h.2.2.1,
    h.2.2.2 nameTest blankItem (by decide!)⟩

/-! ## C4: the boot sector round trip -/

/-! ### The boot sector written by `ufs_FastFormat` -/

theorem and_255_eq_mod (x : Nat) : x &&& 0xFF = x % 256 :=
  Nat.and_pow_two_sub_one_eq_mod x 8

theorem and_255_lt (x : Nat) : x &&& 0xFF < 256 := by
  rw [and_255_eq_mod]; omega

/-- The two bytes stored for a 16-bit field give the field back. -/
theorem boot_field_roundtrip (x : Nat) (h : x < 65536) :
    u16 ((((x >>> 8) &&& 0xFF) <<< 8) ||| (x &&& 0xFF)) = x := by
  rw [and_255_eq_mod, and_255_eq_mod, Nat.shiftRight_eq_div_pow, Nat.shiftLeft_eq,
    Nat.mul_comm, ← Nat.mul_add_lt_is_or (by omega : x % 256 < 2 ^ 8)]
  unfold u16
  omega

theorem ufs_CheckSum_lt (data : Buf) (len : Nat) : ufs_CheckSum data len < 256 := by
  rw [ufs_CheckSum_eq]
  exact Nat.xor_lt_two_pow (n := 8) (by omega) (by decide)

theorem boot_low (ufs : UFS) (n i : Nat) (hn : 23 ≤ n) (hi : i < 20) :
    ufs_FastFormat_boot ufs n i = ufs_FastFormat_bootHead ufs n i := by
  unfold ufs_FastFormat_boot ufs_FastFormat_bootMarked setByte
  rw [if_neg (by omega), if_neg (by omega), if_neg (by omega)]

theorem boot_marked_low (ufs : UFS) (n i : Nat) (hn : 23 ≤ n) (hi : i < 20) :
    ufs_FastFormat_bootMarked ufs n i = ufs_FastFormat_bootHead ufs n i := by
  unfold ufs_FastFormat_bootMarked setByte
  rw [if_neg (by omega), if_neg (by omega)]

theorem boot_cr (ufs : UFS) (n : Nat) (hn : 23 ≤ n) : ufs_FastFormat_boot ufs n (n - 3) = 0x0D := by
  unfold ufs_FastFormat_boot ufs_FastFormat_bootMarked setByte
  rw [if_neg (by omega), if_neg (by omega), if_pos rfl]

theorem boot_lf (ufs : UFS) (n : Nat) (hn : 23 ≤ n) : ufs_FastFormat_boot ufs n (n - 2) = 0x0A := by
  unfold ufs_FastFormat_boot ufs_FastFormat_bootMarked setByte
  rw [if_neg (by omega), if_pos rfl]

theorem boot_sum (ufs : UFS) (n : Nat) :
    ufs_FastFormat_boot ufs n (n - 1) = ufs_CheckSum (ufs_FastFormat_boot ufs n) (n - 1) := by
  have : ufs_CheckSum (ufs_FastFormat_boot ufs n) (n - 1) =
      ufs_CheckSum (ufs_FastFormat_bootMarked ufs n) (n - 1) := by
    apply ufs_CheckSum_congr
    intro i hi
    unfold ufs_FastFormat_boot setByte
    rw [if_neg (by omega)]
  rw [this]
  unfold ufs_FastFormat_boot setByte
  rw [if_pos rfl]

theorem setByte_lt (b : Buf) (i v : Nat) (hb : ∀ j, b j < 256) (hv : v < 256) :
    ∀ j, setByte b i v j < 256 := by
  intro j
  unfold setByte
  split
  · exact hv
  · exact hb j

theorem bootHead_lt (ufs : UFS) (n i : Nat) (hid : ∀ j, j < 8 → ufs.DeviceId j < 256) :
    ufs_FastFormat_bootHead ufs n i < 256 := by
  have h0 : ∀ j, memset (fun _ => 0) 0x00 n j < 256 := by
    intro j; unfold memset; split
    · decide
    · show (0 : Nat) < 256
      decide
  have h1 := setByte_lt _ 0 0x55 h0 (by decide)
  have h2 := setByte_lt _ 1 0x46 h1 (by decide)
  have h3 := setByte_lt _ 2 0x53 h2 (by decide)
  have h4 := setByte_lt _ 4 ((ufs.ItemZoneFirstSector >>> 8) &&& 0xFF) h3 (and_255_lt _)
  have h5 := setByte_lt _ 5 (ufs.ItemZoneFirstSector &&& 0xFF) h4 (and_255_lt _)
  have h6 := setByte_lt _ 6 ((ufs.ClusterMappingZoneFirstSector >>> 8) &&& 0xFF) h5 (and_255_lt _)
  have h7 := setByte_lt _ 7 (ufs.ClusterMappingZoneFirstSector &&& 0xFF) h6 (and_255_lt _)
  have h8 := setByte_lt _ 8 ((ufs.ClusterDataZoneFirstSector >>> 8) &&& 0xFF) h7 (and_255_lt _)
  have h9 := setByte_lt _ 9 (ufs.ClusterDataZoneFirstSector &&& 0xFF) h8 (and_255_lt _)
  have h10 := setByte_lt _ 10 ((ufs.NumberSectorOfCluster >>> 8) &&& 0xFF) h9 (and_255_lt _)
  have h11 := setByte_lt _ 11 (ufs.NumberSectorOfCluster &&& 0xFF) h10 (and_255_lt _)
  unfold ufs_FastFormat_bootHead memcpy
  split
  · exact hid _ (by omega)
  · exact h11 i

theorem boot_lt (ufs : UFS) (n i : Nat) (hid : ∀ j, j < 8 → ufs.DeviceId j < 256) :
    ufs_FastFormat_boot ufs n i < 256 := by
  unfold ufs_FastFormat_boot ufs_FastFormat_bootMarked setByte
  split
  · exact ufs_CheckSum_lt _ _
  · split
    · omega
    · split
      · omega
      · exact bootHead_lt ufs n i hid

theorem format_CM_eq (conf : ufs_Cfg_Type) (hmax : conf.u8NumberFileMaxOfDevice < 256) :
    2 ≤ format_ClusterMappingZoneFirstSector conf := by
  unfold format_ClusterMappingZoneFirstSector sizeof_ItemInfo
  have h := Nat.div_le_self (32 * conf.u8NumberFileMaxOfDevice) (u16 conf.api.u16numberByteOfSector)
  generalize (32 * conf.u8NumberFileMaxOfDevice) / (u16 conf.api.u16numberByteOfSector) = q at h
  rw [u16_of_lt _ (by omega)]
  omega

/-- After `ufs_FastFormat` on a device whose blocks hold at least one sector,
the boot sector holds exactly the buffer the function built. -/
theorem ufs_FastFormat_boot_sector (ufs : UFS) (fl : Flash) (uid : Buf) (i : Nat)
    (hb1 : 1 ≤ ufs.conf.api.u16numberSectorOfBlock)
    (hmax : ufs.conf.u8NumberFileMaxOfDevice < 256)
    (huid : ∀ j, j < 8 → uid j < 256)
    (hi : i < u16 ufs.conf.api.u16numberByteOfSector) :
    (ufs_FastFormat ufs fl uid).2 0 i =
      ufs_FastFormat_boot (ufs_FastFormat_geometry ufs uid) (u16 ufs.conf.api.u16numberByteOfSector) i := by
  have hCM2 := format_CM_eq ufs.conf hmax
  have hCM : format_ClusterMappingZoneFirstSector ufs.conf < 65536 := u16_lt _
  have hData : format_ClusterDataZoneFirstSector ufs.conf < 65536 := u16_lt _
  show ufs_FastFormat_flash (ufs_FastFormat_geometry ufs uid) fl 0 i = _
  unfold ufs_FastFormat_flash ufs_FastFormat_map
  rw [ufs_FastFormat_map_frame]
  · unfold ufs_FastFormat_itemsWritten ufs_FastFormat_items
    rw [(ufs_FastFormat_items_spec (ufs_FastFormat_geometry ufs uid) _ _ _
      (by intro j _ hj; unfold memset; rw [if_pos hj]) _).2.2 0]
    · unfold ufs_FastFormat_bootWritten BOOT_SECTOR_ID
      have hconf : (ufs_FastFormat_geometry ufs uid).conf = ufs.conf := rfl
      rw [hconf, WriteSector_same _ _ _ _ _ hi]
      have he : EraseBlock ufs.conf.api (EraseBlock ufs.conf.api fl 0) (0 + 1) 0 i = 0xFF := by
        unfold EraseBlock
        rw [if_neg (by omega), if_pos (by omega)]
      rw [he]
      apply and_255
      apply boot_lt
      intro j hj
      show memcpy ufs.DeviceId 0 uid 8 j < 256
      unfold memcpy
      rw [if_pos (by omega)]
      exact huid _ (by omega)
    · intro s hs
      have hs' : s < format_ClusterMappingZoneFirstSector ufs.conf - 1 := hs
      show 0 ≠ u16 (1 + s)
      rw [u16_of_lt _ (by omega)]
      omega
  · intro c hc
    have hc' : c < format_ClusterDataZoneFirstSector ufs.conf -
        format_ClusterMappingZoneFirstSector ufs.conf := hc
    show 0 ≠ u16 (format_ClusterMappingZoneFirstSector ufs.conf + c)
    rw [u16_of_lt _ (by omega)]
    omega

theorem bootHead_id (ufs : UFS) (n j : Nat) (hj : j < 8) :
    ufs_FastFormat_bootHead ufs n (12 + j) = ufs.DeviceId j := by
  unfold ufs_FastFormat_bootHead memcpy
  rw [if_pos (by omega)]
  congr 1
  omega

theorem bootHead_at (ufs : UFS) (n : Nat) :
    ufs_FastFormat_bootHead ufs n 0 = 0x55 ∧ ufs_FastFormat_bootHead ufs n 1 = 0x46 ∧
    ufs_FastFormat_bootHead ufs n 2 = 0x53 ∧
    ufs_FastFormat_bootHead ufs n 4 = (ufs.ItemZoneFirstSector >>> 8) &&& 0xFF ∧
    ufs_FastFormat_bootHead ufs n 5 = ufs.ItemZoneFirstSector &&& 0xFF ∧
    ufs_FastFormat_bootHead ufs n 6 = (ufs.ClusterMappingZoneFirstSector >>> 8) &&& 0xFF ∧
    ufs_FastFormat_bootHead ufs n 7 = ufs.ClusterMappingZoneFirstSector &&& 0xFF ∧
    ufs_FastFormat_bootHead ufs n 8 = (ufs.ClusterDataZoneFirstSector >>> 8) &&& 0xFF ∧
    ufs_FastFormat_bootHead ufs n 9 = ufs.ClusterDataZoneFirstSector &&& 0xFF ∧
    ufs_FastFormat_bootHead ufs n 10 = (ufs.NumberSectorOfCluster >>> 8) &&& 0xFF ∧
    ufs_FastFormat_bootHead ufs n 11 = ufs.NumberSectorOfCluster &&& 0xFF := by
  refine ⟨?_, ?_, ?_, ?_, ?_, ?_, ?_, ?_, ?_, ?_, ?_⟩
  all_goals simp [ufs_FastFormat_bootHead, memcpy, setByte]

theorem format_NSC_lt (conf : ufs_Cfg_Type) (hb16 : conf.api.u16numberSectorOfBlock < 65536) :
    format_NumberSectorOfCluster conf < 65536 := by
  unfold format_NumberSectorOfCluster
  split
  · exact hb16
  · exact u16_lt _

/-- C4 (amended): for every geometry whose sector holds at least 23 bytes and
whose erase block holds at least one sector (all fields within their C types,
device id bytes within a byte), and whatever the flash held, the boot sector
left by `ufs_FastFormat` passes the validation of `newUFS`, and `newUFS` on that
flash does not format and reads back the `ItemZoneFirstSector`,
`ClusterMappingZoneFirstSector`, `ClusterDataZoneFirstSector`,
`NumberSectorOfCluster` and eight `DeviceId` bytes that `ufs_FastFormat` computed. -/
theorem boot_round_trip (ufs ufs1 : UFS) (fl : Flash) (uid uid1 : Buf)
    (hn : 23 ≤ ufs.conf.api.u16numberByteOfSector)
    (h16 : ufs.conf.api.u16numberByteOfSector < 65536)
    (hb1 : 1 ≤ ufs.conf.api.u16numberSectorOfBlock)
    (hb16 : ufs.conf.api.u16numberSectorOfBlock < 65536)
    (hmax : ufs.conf.u8NumberFileMaxOfDevice < 256)
    (huid : ∀ j, j < 8 → uid j < 256) :
    bootSectorValid
      (ReadSector (ufs_FastFormat ufs fl uid).2 BOOT_SECTOR_ID (fun _ => 0)
        ufs.conf.api.u16numberByteOfSector) ufs.conf.api.u16numberByteOfSector = true ∧
    (newUFS ufs.conf ufs1 (ufs_FastFormat ufs fl uid).2 uid1).formatted = false ∧
    (newUFS ufs.conf ufs1 (ufs_FastFormat ufs fl uid).2 uid1).ufs.ItemZoneFirstSector =
      (ufs_FastFormat ufs fl uid).1.ItemZoneFirstSector ∧
    (newUFS ufs.conf ufs1 (ufs_FastFormat ufs fl uid).2 uid1).ufs.ClusterMappingZoneFirstSector =
      (ufs_FastFormat ufs fl uid).1.ClusterMappingZoneFirstSector ∧
    (newUFS ufs.conf ufs1 (ufs_FastFormat ufs fl uid).2 uid1).ufs.ClusterDataZoneFirstSector =
      (ufs_FastFormat ufs fl uid).1.ClusterDataZoneFirstSector ∧
    (newUFS ufs.conf ufs1 (ufs_FastFormat ufs fl uid).2 uid1).ufs.NumberSectorOfCluster =
      (ufs_FastFormat ufs fl uid).1.NumberSectorOfCluster ∧
    ∀ j, j < 8 →
      (newUFS ufs.conf ufs1 (ufs_FastFormat ufs fl uid).2 uid1).ufs.DeviceId j =
        (ufs_FastFormat ufs fl uid).1.DeviceId j := by
  have hu : u16 ufs.conf.api.u16numberByteOfSector = ufs.conf.api.u16numberByteOfSector :=
    u16_of_lt _ h16
  -- the bytes of sector 0 after the format
  have hfl : ∀ i, i < ufs.conf.api.u16numberByteOfSector →
      (ufs_FastFormat ufs fl uid).2 0 i =
        ufs_FastFormat_boot (ufs_FastFormat_geometry ufs uid) ufs.conf.api.u16numberByteOfSector i := by
    intro i hi
    have := ufs_FastFormat_boot_sector ufs fl uid i hb1 hmax huid (by rw [hu]; exact hi)
    rw [hu] at this
    exact this
  have hrd : ∀ i, i < ufs.conf.api.u16numberByteOfSector →
      ReadSector (ufs_FastFormat ufs fl uid).2 BOOT_SECTOR_ID (fun _ => 0)
        ufs.conf.api.u16numberByteOfSector i =
        ufs_FastFormat_boot (ufs_FastFormat_geometry ufs uid) ufs.conf.api.u16numberByteOfSector i := by
    intro i hi
    rw [ReadSector_lt _ _ _ _ _ hi]
    exact hfl i hi
  have hlow : ∀ i, i < 20 →
      ReadSector (ufs_FastFormat ufs fl uid).2 BOOT_SECTOR_ID (fun _ => 0)
        ufs.conf.api.u16numberByteOfSector i =
        ufs_FastFormat_bootHead (ufs_FastFormat_geometry ufs uid)
          ufs.conf.api.u16numberByteOfSector i := by
    intro i hi
    rw [hrd i (by omega), boot_low _ _ _ hn hi]
  obtain ⟨a0, a1, a2, a4, a5, a6, a7, a8, a9, a10, a11⟩ :=
    bootHead_at (ufs_FastFormat_geometry ufs uid) ufs.conf.api.u16numberByteOfSector
  have hvalid : bootSectorValid
      (ReadSector (ufs_FastFormat ufs fl uid).2 BOOT_SECTOR_ID (fun _ => 0)
        ufs.conf.api.u16numberByteOfSector) ufs.conf.api.u16numberByteOfSector = true := by
    rw [bootSectorValid_iff]
    have e : ufs.conf.api.u16numberByteOfSector - 3 + 1 = ufs.conf.api.u16numberByteOfSector - 2 := by
      omega
    rw [e, hlow 0 (by omega), hlow 1 (by omega), hlow 2 (by omega), hrd _ (by omega),
      hrd _ (by omega), hrd _ (by omega), boot_cr _ _ hn, boot_lf _ _ hn,
      ufs_CheckSum_congr _ (ufs_FastFormat_boot (ufs_FastFormat_geometry ufs uid)
        ufs.conf.api.u16numberByteOfSector) _ (fun i hi => hrd i (by omega))]
    exact ⟨⟨a0, a1, a2⟩, ⟨rfl, rfl⟩, boot_sum _ _⟩
  have hnf : (newUFS ufs.conf ufs1 (ufs_FastFormat ufs fl uid).2 uid1).formatted = false := by
    rw [newUFS_formatted, hvalid]; rfl
  have hCM : format_ClusterMappingZoneFirstSector ufs.conf < 65536 := u16_lt _
  have hData : format_ClusterDataZoneFirstSector ufs.conf < 65536 := u16_lt _
  have hNSC := format_NSC_lt ufs.conf hb16
  refine ⟨hvalid, hnf, ?_, ?_, ?_, ?_, ?_⟩
  all_goals
    unfold newUFS
    rw [if_neg (by rw [hvalid]; decide)]
  · show u16 ((_ <<< 8) ||| _) = _
    rw [hlow 4 (by omega), hlow 5 (by omega), a4, a5]
    exact boot_field_roundtrip _ (show (0x01 : Nat) < 65536 by decide)
  · show u16 ((_ <<< 8) ||| _) = _
    rw [hlow 6 (by omega), hlow 7 (by omega), a6, a7]
    exact boot_field_roundtrip _ hCM
  · show u16 ((_ <<< 8) ||| _) = _
    rw [hlow 8 (by omega), hlow 9 (by omega), a8, a9]
    exact boot_field_roundtrip _ hData
  · show u16 ((_ <<< 8) ||| _) = _
    rw [hlow 10 (by omega), hlow 11 (by omega), a10, a11]
    exact boot_field_roundtrip _ hNSC
  · intro j hj
    show memcpy _ 0 (bufAt _ 12) 8 j = _
    unfold memcpy bufAt
    rw [if_pos (by omega), Nat.sub_zero, hlow (12 + j) (by omega), bootHead_id _ _ _ hj]
    rfl

set_option maxRecDepth 100000 in
/-- C4, as stated, fails on a geometry with 20-byte sectors: the end markers and
the checksum are stored at bytes 17..19, over the last three device id bytes, so
`newUFS` accepts the boot sector that `ufs_FastFormat` wrote but reads back
`DeviceId[5] = 0x0D`, while `ufs_FastFormat` computed `DeviceId[5] = 0x17`. -/
theorem boot_round_trip_fails_on_20_byte_sectors :
    (newUFS tinyCfg (blankUfs tinyCfg) tinyFormat.2 demoUid).formatted = false ∧
    (newUFS tinyCfg (blankUfs tinyCfg) tinyFormat.2 demoUid).ufs.DeviceId 5 = 0x0D ∧
    tinyFormat.1.DeviceId 5 = 0x17 := by
  decide!

/-- Witness of `boot_round_trip`: the configuration of `ufs_conf.c` (4096-byte
sectors, 16 sectors per block, 4096 sectors, 20 items) formatted from an erased flash. -/
theorem boot_round_trip_witness :
    (23 ≤ (blankUfs Ufs_Cfg).conf.api.u16numberByteOfSector ∧
      1 ≤ (blankUfs Ufs_Cfg).conf.api.u16numberSectorOfBlock) ∧
    (newUFS (blankUfs Ufs_Cfg).conf (blankUfs Ufs_Cfg) (ufs_FastFormat (blankUfs Ufs_Cfg) erasedFlash demoUid).2
        demoUid).formatted = false ∧
    (newUFS (blankUfs Ufs_Cfg).conf (blankUfs Ufs_Cfg) (ufs_FastFormat (blankUfs Ufs_Cfg) erasedFlash demoUid).2
        demoUid).ufs.ClusterDataZoneFirstSector =
      (ufs_FastFormat (blankUfs Ufs_Cfg) erasedFlash demoUid).1.ClusterDataZoneFirstSector ∧
    ∀ j, j < 8 →
      (newUFS (blankUfs Ufs_Cfg).conf (blankUfs Ufs_Cfg) (ufs_FastFormat (blankUfs Ufs_Cfg) erasedFlash demoUid).2
        demoUid).ufs.DeviceId j =
        (ufs_FastFormat (blankUfs Ufs_Cfg) erasedFlash demoUid).1.DeviceId j :=
  have h := boot_round_trip (blankUfs Ufs_Cfg) (blankUfs Ufs_Cfg) erasedFlash demoUid demoUid
    (show (23 : Nat) ≤ 4096 by omega) (show (4096 : Nat) < 65536 by omega)
    (show (1 : Nat) ≤ 16 by omega) (show (16 : Nat) < 65536 by omega)
    (show (20 : Nat) < 256 by omega)
    (by intro j hj; unfold demoUid; omega)
  ⟨⟨show (23 : Nat) ≤ 4096 by omega, show (1 : Nat) ≤ 16 by omega⟩, h.2.1, h.2.2.2.2.1, h.2.2.2.2.2.2⟩

/-! ## C6: `ufs_CleanClusters` frees the chain -/

theorem halfSector_pos (ufs : UFS) (hS : 2 ≤ ufs.conf.api.u16numberByteOfSector) :
    1 ≤ halfSector ufs := by
  unfold halfSector
  omega

theorem slot_offset_lt (ufs : UFS) (hS : 2 ≤ ufs.conf.api.u16numberByteOfSector) (c : Nat) :
    c % halfSector ufs * 2 + 1 < ufs.conf.api.u16numberByteOfSector := by
  have h := Nat.mod_lt c (halfSector_pos ufs hS)
  generalize c % halfSector ufs = p at h
  unfold halfSector at h
  omega

theorem mapSector_le (ufs : UFS) (c : Nat) (hc : c < 65536) :
    c / halfSector ufs ≤ 65535 / halfSector ufs :=
  Nat.div_le_div_right (by omega)

theorem mapSector_eq (ufs : UFS)
    (hwrap : ufs.ClusterMappingZoneFirstSector + 65535 / halfSector ufs < 65536)
    (x : Nat) (hx : x ≤ 65535 / halfSector ufs) :
    u16 (ufs.ClusterMappingZoneFirstSector + x) = ufs.ClusterMappingZoneFirstSector + x :=
  u16_of_lt _ (by omega)

theorem i16_toNat (x : Nat) (h : x < 32768) : (i16 x).toNat = x := by
  unfold i16
  rw [Nat.mod_eq_of_lt (by omega), if_pos h]
  exact Int.toNat_ofNat x

theorem freeUnlessBad_congr (a b : Buf) (p i : Nat) (h0 : a (p * 2) = b (p * 2))
    (h1 : a (p * 2 + 1) = b (p * 2 + 1)) (hi : a i = b i) :
    freeUnlessBad a p i = freeUnlessBad b p i := by
  unfold freeUnlessBad rd16
  rw [h0, h1]
  by_cases h : b (p * 2) + 256 * b (p * 2 + 1) ≠ UFS_CLUSTER_BAD
  · rw [if_pos h, if_pos h]
    unfold wr16
    show (if i = p * 2 then _ else if i = p * 2 + 1 then _ else a i) =
      (if i = p * 2 then _ else if i = p * 2 + 1 then _ else b i)
    rw [hi]
  · rw [if_neg h, if_neg h]
    exact hi

theorem freeUnlessBad_lt (b : Buf) (p i : Nat) (h : b i < 256) : freeUnlessBad b p i < 256 := by
  unfold freeUnlessBad
  by_cases hc : rd16 b (p * 2) ≠ UFS_CLUSTER_BAD
  · rw [if_pos hc]
    unfold wr16
    show (if i = p * 2 then _ else if i = p * 2 + 1 then _ else b i) < 256
    split
    · omega
    · split
      · omega
      · exact h
  · rw [if_neg hc]
    exact h

theorem rd16_freeUnlessBad_same (b : Buf) (p : Nat) :
    rd16 (freeUnlessBad b p) (p * 2) =
      if rd16 b (p * 2) = UFS_CLUSTER_BAD then UFS_CLUSTER_BAD else UFS_CLUSTER_FREE := by
  unfold freeUnlessBad
  by_cases hc : rd16 b (p * 2) = UFS_CLUSTER_BAD
  · rw [if_neg (fun h => h hc), if_pos hc]
    exact hc
  · rw [if_pos hc, if_neg hc]
    unfold rd16 wr16 UFS_CLUSTER_FREE
    show (if p * 2 = p * 2 then _ else _) + 256 * (if p * 2 + 1 = p * 2 then _ else
      if p * 2 + 1 = p * 2 + 1 then _ else _) = _
    rw [if_pos rfl, if_neg (by omega), if_pos rfl]

theorem rd16_freeUnlessBad_other (b : Buf) (p q : Nat) (h : q ≠ p) :
    rd16 (freeUnlessBad b p) (q * 2) = rd16 b (q * 2) := by
  unfold freeUnlessBad
  by_cases hc : rd16 b (p * 2) ≠ UFS_CLUSTER_BAD
  · rw [if_pos hc]
    unfold rd16 wr16
    show (if q * 2 = p * 2 then _ else if q * 2 = p * 2 + 1 then _ else _) +
      256 * (if q * 2 + 1 = p * 2 then _ else if q * 2 + 1 = p * 2 + 1 then _ else _) = _
    rw [if_neg (by omega), if_neg (by omega), if_neg (by omega), if_neg (by omega)]
  · rw [if_neg hc]

theorem freeSlot_same (ufs : UFS) (fl : Flash) (cluster i : Nat) :
    freeSlot ufs fl cluster (u16 (ufs.ClusterMappingZoneFirstSector + cluster / halfSector ufs)) i =
      freeUnlessBad (fl (u16 (ufs.ClusterMappingZoneFirstSector + cluster / halfSector ufs)))
        (cluster % halfSector ufs) i := by
  unfold freeSlot
  rw [if_pos rfl]

theorem freeSlot_other (ufs : UFS) (fl : Flash) (cluster s i : Nat)
    (h : s ≠ u16 (ufs.ClusterMappingZoneFirstSector + cluster / halfSector ufs)) :
    freeSlot ufs fl cluster s i = fl s i := by
  unfold freeSlot
  rw [if_neg h]

theorem freeSlot_lt (ufs : UFS) (fl : Flash) (cluster : Nat) (h : ∀ s i, fl s i < 256) :
    ∀ s i, freeSlot ufs fl cluster s i < 256 := by
  intro s i
  unfold freeSlot
  split
  · exact freeUnlessBad_lt _ _ _ (h s i)
  · exact h s i

theorem freeChain_lt (ufs : UFS) (clusters : Nat → Nat) :
    ∀ (k : Nat) (fl : Flash), (∀ s i, fl s i < 256) → ∀ s i, freeChain ufs clusters k fl s i < 256 := by
  intro k
  induction k with
  | zero => intro fl h; exact h
  | succ k ih =>
    intro fl h
    exact ih _ (freeSlot_lt ufs fl (clusters k) h)

theorem cleanView_same (ufs : UFS) (st : CleanState) (i : Nat) :
    cleanView ufs st (u16 (ufs.ClusterMappingZoneFirstSector + st.idSector)) i = st.data_sector i := by
  unfold cleanView
  rw [if_pos rfl]

theorem cleanView_other (ufs : UFS) (st : CleanState) (s i : Nat)
    (h : s ≠ u16 (ufs.ClusterMappingZoneFirstSector + st.idSector)) :
    cleanView ufs st s i = st.fl s i := by
  unfold cleanView
  rw [if_neg h]

theorem readMapSector_lt (ufs : UFS) (fl : Flash) (idSector : Nat) (buf : Buf) (i : Nat)
    (h : i < ufs.conf.api.u16numberByteOfSector) :
    readMapSector ufs fl idSector buf i = fl (u16 (ufs.ClusterMappingZoneFirstSector + idSector)) i := by
  unfold readMapSector
  exact ReadSector_lt _ _ _ _ _ h

theorem flushMapSector_same (ufs : UFS) (fl : Flash) (idSector : Nat) (buf : Buf) (i : Nat)
    (h : i < ufs.conf.api.u16numberByteOfSector) (hb : buf i < 256) :
    flushMapSector ufs fl idSector buf (u16 (ufs.ClusterMappingZoneFirstSector + idSector)) i =
      buf i := by
  unfold flushMapSector
  rw [WriteSector_same _ _ _ _ _ h, EraseSector_same]
  exact and_255 _ hb

theorem flushMapSector_other (ufs : UFS) (fl : Flash) (idSector : Nat) (buf : Buf) (s i : Nat)
    (h : s ≠ u16 (ufs.ClusterMappingZoneFirstSector + idSector)) :
    flushMapSector ufs fl idSector buf s i = fl s i := by
  unfold flushMapSector
  rw [WriteSector_other _ _ _ _ _ _ h, EraseSector_other _ _ _ _ h]

/-- One iteration of the loop of `ufs_CleanClusters` does, on the map as seen
through the sector buffer, what `freeSlot` does on the flash. -/
theorem ufs_CleanClusters_step_refines (ufs : UFS) (cluster : Nat) (st : CleanState) (G : Flash)
    (hwrap : ufs.ClusterMappingZoneFirstSector + 65535 / halfSector ufs < 65536)
    (hc : cluster < 65536) (hid : st.idSector ≤ 65535 / halfSector ufs)
    (hG : ∀ s i, G s i < 256)
    (hinv : ∀ s i, i < ufs.conf.api.u16numberByteOfSector → cleanView ufs st s i = G s i)
    (hoff : cluster % halfSector ufs * 2 + 1 < ufs.conf.api.u16numberByteOfSector) :
    (ufs_CleanClusters_step ufs cluster st).idSector ≤ 65535 / halfSector ufs ∧
    ∀ s i, i < ufs.conf.api.u16numberByteOfSector →
      cleanView ufs (ufs_CleanClusters_step ufs cluster st) s i = freeSlot ufs G cluster s i := by
  have hnew := mapSector_le ufs cluster hc
  have eold := mapSector_eq ufs hwrap _ hid
  have enew := mapSector_eq ufs hwrap _ hnew
  have hds : ∀ j, j < ufs.conf.api.u16numberByteOfSector →
      st.data_sector j = G (u16 (ufs.ClusterMappingZoneFirstSector + st.idSector)) j := by
    intro j hj
    rw [← hinv _ j hj, cleanView_same]
  have hfl : ∀ s j, j < ufs.conf.api.u16numberByteOfSector →
      s ≠ u16 (ufs.ClusterMappingZoneFirstSector + st.idSector) → st.fl s j = G s j := by
    intro s j hj hs
    rw [← hinv s j hj, cleanView_other _ _ _ _ hs]
  unfold ufs_CleanClusters_step
  by_cases hch : st.idSector ≠ cluster / halfSector ufs
  · rw [if_pos hch]
    refine ⟨hnew, ?_⟩
    have hsec : u16 (ufs.ClusterMappingZoneFirstSector + cluster / halfSector ufs) ≠
        u16 (ufs.ClusterMappingZoneFirstSector + st.idSector) := by
      rw [eold, enew]
      omega
    have hbuf : ∀ j, j < ufs.conf.api.u16numberByteOfSector →
        readMapSector ufs (flushMapSector ufs st.fl st.idSector st.data_sector)
          (cluster / halfSector ufs) st.data_sector j =
          G (u16 (ufs.ClusterMappingZoneFirstSector + cluster / halfSector ufs)) j := by
      intro j hj
      rw [readMapSector_lt _ _ _ _ _ hj, flushMapSector_other _ _ _ _ _ _ hsec]
      exact hfl _ j hj hsec
    intro s i hi
    by_cases hs : s = u16 (ufs.ClusterMappingZoneFirstSector + cluster / halfSector ufs)
    · rw [hs, freeSlot_same]
      unfold cleanView
      show (if _ = u16 (ufs.ClusterMappingZoneFirstSector + cluster / halfSector ufs) then
        freeUnlessBad _ (cluster % halfSector ufs) i else _) = _
      rw [if_pos rfl]
      exact freeUnlessBad_congr _ _ _ _ (hbuf _ (by omega)) (hbuf _ hoff) (hbuf i hi)
    · rw [freeSlot_other _ _ _ _ _ hs]
      unfold cleanView
      show (if s = u16 (ufs.ClusterMappingZoneFirstSector + cluster / halfSector ufs) then _
        else flushMapSector ufs st.fl st.idSector st.data_sector s i) = _
      rw [if_neg hs]
      by_cases hso : s = u16 (ufs.ClusterMappingZoneFirstSector + st.idSector)
      · rw [hso, flushMapSector_same _ _ _ _ _ hi (by rw [hds i hi]; exact hG _ _)]
        exact hds i hi
      · rw [flushMapSector_other _ _ _ _ _ _ hso]
        exact hfl s i hi hso
  · rw [if_neg hch]
    refine ⟨hnew, ?_⟩
    have heq : st.idSector = cluster / halfSector ufs := by
      by_contra h
      exact hch h
    intro s i hi
    by_cases hs : s = u16 (ufs.ClusterMappingZoneFirstSector + cluster / halfSector ufs)
    · rw [hs, freeSlot_same]
      unfold cleanView
      show (if _ = u16 (ufs.ClusterMappingZoneFirstSector + cluster / halfSector ufs) then
        freeUnlessBad st.data_sector (cluster % halfSector ufs) i else _) = _
      rw [if_pos rfl, ← heq]
      exact freeUnlessBad_congr _ _ _ _ (hds _ (by omega)) (hds _ hoff) (hds i hi)
    · rw [freeSlot_other _ _ _ _ _ hs]
      unfold cleanView
      show (if s = u16 (ufs.ClusterMappingZoneFirstSector + cluster / halfSector ufs) then _
        else st.fl s i) = _
      rw [if_neg hs]
      exact hfl s i hi (by rw [heq]; exact hs)

/-- The loop of `ufs_CleanClusters` does, on the map as seen through the sector
buffer, what `freeChain` does on the flash. -/
theorem ufs_CleanClusters_loop_refines (ufs : UFS) (clusters : Nat → Nat)
    (hS : 2 ≤ ufs.conf.api.u16numberByteOfSector)
    (hwrap : ufs.ClusterMappingZoneFirstSector + 65535 / halfSector ufs < 65536) :
    ∀ (k : Nat) (st : CleanState) (G : Flash),
      (∀ i, i < k → clusters i < 65536) → st.idSector ≤ 65535 / halfSector ufs →
      (∀ s i, G s i < 256) →
      (∀ s i, i < ufs.conf.api.u16numberByteOfSector → cleanView ufs st s i = G s i) →
      ∀ s i, i < ufs.conf.api.u16numberByteOfSector →
        cleanView ufs (ufs_CleanClusters_loop ufs clusters k st) s i =
          freeChain ufs clusters k G s i := by
  intro k
  induction k with
  | zero => intro st G _ _ _ hinv; exact hinv
  | succ k ih =>
    intro st G hch hid hG hinv
    obtain ⟨hid', hinv'⟩ := ufs_CleanClusters_step_refines ufs (clusters k) st G hwrap
      (hch k (Nat.lt_succ_self k)) hid hG hinv (slot_offset_lt ufs hS _)
    exact ih _ _ (fun i hi => hch i (Nat.lt_succ_of_lt hi)) hid'
      (freeSlot_lt ufs G _ hG) hinv'

theorem mapSlot_congr (ufs : UFS) (A B : Flash) (c : Nat)
    (hS : 2 ≤ ufs.conf.api.u16numberByteOfSector)
    (h : ∀ s i, i < ufs.conf.api.u16numberByteOfSector → A s i = B s i) :
    mapSlot ufs A c = mapSlot ufs B c := by
  have hoff := slot_offset_lt ufs hS c
  unfold mapSlot rd16
  rw [h _ _ (by omega), h _ _ hoff]

theorem mapSlot_freeSlot (ufs : UFS) (G : Flash) (c d : Nat)
    (hwrap : ufs.ClusterMappingZoneFirstSector + 65535 / halfSector ufs < 65536)
    (hc : c < 65536) (hd : d < 65536) :
    mapSlot ufs (freeSlot ufs G c) d =
      if d = c then (if mapSlot ufs G d = UFS_CLUSTER_BAD then UFS_CLUSTER_BAD else UFS_CLUSTER_FREE)
      else mapSlot ufs G d := by
  have ec := mapSector_eq ufs hwrap _ (mapSector_le ufs c hc)
  have ed := mapSector_eq ufs hwrap _ (mapSector_le ufs d hd)
  by_cases hdc : d = c
  · rw [if_pos hdc, hdc]
    unfold mapSlot
    have : freeSlot ufs G c (u16 (ufs.ClusterMappingZoneFirstSector + c / halfSector ufs)) =
        freeUnlessBad (G (u16 (ufs.ClusterMappingZoneFirstSector + c / halfSector ufs)))
          (c % halfSector ufs) := funext (fun i => freeSlot_same ufs G c i)
    rw [this, rd16_freeUnlessBad_same]
  · rw [if_neg hdc]
    unfold mapSlot
    by_cases hsec : d / halfSector ufs = c / halfSector ufs
    · have hp : d % halfSector ufs ≠ c % halfSector ufs := by
        intro hm
        apply hdc
        rw [← Nat.div_add_mod d (halfSector ufs), ← Nat.div_add_mod c (halfSector ufs), hsec, hm]
      rw [hsec]
      have : freeSlot ufs G c (u16 (ufs.ClusterMappingZoneFirstSector + c / halfSector ufs)) =
          freeUnlessBad (G (u16 (ufs.ClusterMappingZoneFirstSector + c / halfSector ufs)))
            (c % halfSector ufs) := funext (fun i => freeSlot_same ufs G c i)
      rw [this, rd16_freeUnlessBad_other _ _ _ hp]
    · have hne : u16 (ufs.ClusterMappingZoneFirstSector + d / halfSector ufs) ≠
          u16 (ufs.ClusterMappingZoneFirstSector + c / halfSector ufs) := by
        rw [ec, ed]
        omega
      have : freeSlot ufs G c (u16 (ufs.ClusterMappingZoneFirstSector + d / halfSector ufs)) =
          G (u16 (ufs.ClusterMappingZoneFirstSector + d / halfSector ufs)) :=
        funext (fun i => freeSlot_other ufs G c _ i hne)
      rw [this]

theorem mapSlot_freeChain (ufs : UFS) (clusters : Nat → Nat) (d : Nat)
    (hwrap : ufs.ClusterMappingZoneFirstSector + 65535 / halfSector ufs < 65536)
    (hd : d < 65536) :
    ∀ (k : Nat) (G : Flash), (∀ i, i < k → clusters i < 65536) →
      ((∃ i, i < k ∧ clusters i = d) →
        mapSlot ufs (freeChain ufs clusters k G) d =
          if mapSlot ufs G d = UFS_CLUSTER_BAD then UFS_CLUSTER_BAD else UFS_CLUSTER_FREE) ∧
      ((∀ i, i < k → clusters i ≠ d) →
        mapSlot ufs (freeChain ufs clusters k G) d = mapSlot ufs G d) := by
  intro k
  induction k with
  | zero =>
    intro G _
    exact ⟨fun ⟨i, hi, _⟩ => absurd hi (Nat.not_lt_zero i), fun _ => rfl⟩
  | succ k ih =>
    intro G hch
    obtain ⟨ih1, ih2⟩ := ih (freeSlot ufs G (clusters k)) (fun i hi => hch i (Nat.lt_succ_of_lt hi))
    have hstep := mapSlot_freeSlot ufs G (clusters k) d hwrap (hch k (Nat.lt_succ_self k)) hd
    show (_ → mapSlot ufs (freeChain ufs clusters k (freeSlot ufs G (clusters k))) d = _) ∧
      (_ → mapSlot ufs (freeChain ufs clusters k (freeSlot ufs G (clusters k))) d = _)
    constructor
    · intro hex
      by_cases hin : ∃ i, i < k ∧ clusters i = d
      · rw [ih1 hin, hstep]
        by_cases hdk : d = clusters k
        · rw [if_pos hdk]
          by_cases hb : mapSlot ufs G d = UFS_CLUSTER_BAD
          · rw [if_pos hb, if_pos rfl]
          · rw [if_neg hb, if_neg (by unfold UFS_CLUSTER_FREE UFS_CLUSTER_BAD; decide)]
        · rw [if_neg hdk]
      · have hall : ∀ i, i < k → clusters i ≠ d := fun i hi he => hin ⟨i, hi, he⟩
        rw [ih2 hall, hstep]
        obtain ⟨i, hi, he⟩ := hex
        have : i = k := by
          rcases Nat.lt_succ_iff_lt_or_eq.mp hi with h | h
          · exact absurd he (hall i h)
          · exact h
        rw [if_pos (by rw [← he, this])]
    · intro hall
      rw [ih2 (fun i hi => hall i (Nat.lt_succ_of_lt hi)), hstep,
        if_neg (fun h => hall k (Nat.lt_succ_self k) h.symm)]

/-- The flash left by `ufs_CleanClusters` holds, in every map slot, what
`freeChain` leaves there. -/
theorem ufs_CleanClusters_refines (ufs : UFS) (fl : Flash) (clusters : Nat → Nat) (length : Nat)
    (hlen : 2 ≤ length) (hmax : length ≤ 32768)
    (hS : 2 ≤ ufs.conf.api.u16numberByteOfSector)
    (hwrap : ufs.ClusterMappingZoneFirstSector + 65535 / halfSector ufs < 65536)
    (hchain : ∀ i, i < length - 1 → clusters i < 65536)
    (hbytes : ∀ s i, fl s i < 256) (d : Nat) :
    (ufs_CleanClusters ufs fl clusters length).ret = UFS_OK ∧
    mapSlot ufs (ufs_CleanClusters ufs fl clusters length).fl d =
      mapSlot ufs (freeChain ufs clusters (length - 1) fl) d := by
  unfold ufs_CleanClusters
  rw [if_neg (by omega), i16_toNat _ (by omega)]
  refine ⟨rfl, ?_⟩
  apply mapSlot_congr _ _ _ _ hS
  have hstart : ∀ s i, i < ufs.conf.api.u16numberByteOfSector →
      cleanView ufs (ufs_CleanClusters_start ufs fl clusters length) s i = fl s i := by
    intro s i hi
    unfold cleanView ufs_CleanClusters_start
    show (if s = u16 (ufs.ClusterMappingZoneFirstSector + clusters (length - 2) / halfSector ufs)
      then readMapSector ufs fl (clusters (length - 2) / halfSector ufs) (fun _ => 0) i
      else fl s i) = fl s i
    split
    · rename_i hs
      rw [readMapSector_lt _ _ _ _ _ hi, hs]
    · rfl
  have hloop := ufs_CleanClusters_loop_refines ufs clusters hS hwrap (length - 1)
    (ufs_CleanClusters_start ufs fl clusters length) fl hchain
    (mapSector_le ufs _ (hchain (length - 2) (by omega))) hbytes hstart
  intro s i hi
  rw [← hloop s i hi]
  generalize ufs_CleanClusters_loop ufs clusters (length - 1)
    (ufs_CleanClusters_start ufs fl clusters length) = st at hloop
  unfold ufs_CleanClusters_finish
  show flushMapSector ufs st.fl st.idSector st.data_sector s i = cleanView ufs st s i
  by_cases hs : s = u16 (ufs.ClusterMappingZoneFirstSector + st.idSector)
  · rw [hs, cleanView_same, flushMapSector_same _ _ _ _ _ hi]
    rw [← cleanView_same ufs st i, hloop _ i hi]
    exact freeChain_lt ufs clusters _ fl hbytes _ _
  · rw [cleanView_other _ _ _ _ hs, flushMapSector_other _ _ _ _ _ _ hs]

/-- What `ufs_CleanClusters` does on the vectors that its loop counter covers
(supporting C6): for every cluster map and every chain vector of length `n`
with `2 ≤ n ≤ 32768` (sectors of at least 2 bytes, a map zone whose sector
numbers stay within 16 bits, vector entries within 16 bits, flash bytes within a
byte), `ufs_CleanClusters` returns `UFS_OK`, afterwards each slot
`map[chain[i]]`, `i < n - 1`, holds `UFS_CLUSTER_BAD` if it held it before and
`UFS_CLUSTER_FREE` otherwise, and every slot whose index is not among
`chain[0 .. n - 2]` is unchanged; with `n < 2` the call returns `UFS_NOT_OK` and
changes neither the flash nor the `UFS` object. -/
theorem ufs_CleanClusters_frees_chain (ufs : UFS) (fl : Flash) (clusters : Nat → Nat) (length : Nat)
    (hlen : 2 ≤ length) (hmax : length ≤ 32768)
    (hS : 2 ≤ ufs.conf.api.u16numberByteOfSector)
    (hwrap : ufs.ClusterMappingZoneFirstSector + 65535 / halfSector ufs < 65536)
    (hchain : ∀ i, i < length - 1 → clusters i < 65536)
    (hbytes : ∀ s i, fl s i < 256) :
    (ufs_CleanClusters ufs fl clusters length).ret = UFS_OK ∧
    (∀ i, i < length - 1 →
      mapSlot ufs (ufs_CleanClusters ufs fl clusters length).fl (clusters i) =
        if mapSlot ufs fl (clusters i) = UFS_CLUSTER_BAD then UFS_CLUSTER_BAD
        else UFS_CLUSTER_FREE) ∧
    (∀ c, c < 65536 → (∀ i, i < length - 1 → clusters i ≠ c) →
      mapSlot ufs (ufs_CleanClusters ufs fl clusters length).fl c = mapSlot ufs fl c) ∧
    (∀ n, n < 2 →
      (ufs_CleanClusters ufs fl clusters n).ret = UFS_NOT_OK ∧
      (ufs_CleanClusters ufs fl clusters n).fl = fl ∧
      (ufs_CleanClusters ufs fl clusters n).ufs = ufs) := by
  refine ⟨(ufs_CleanClusters_refines ufs fl clusters length hlen hmax hS hwrap hchain hbytes 0).1,
    ?_, ?_, ?_⟩
  · intro i hi
    rw [(ufs_CleanClusters_refines ufs fl clusters length hlen hmax hS hwrap hchain hbytes _).2]
    exact (mapSlot_freeChain ufs clusters (clusters i) hwrap (hchain i hi) (length - 1) fl
      hchain).1 ⟨i, hi, rfl⟩
  · intro c hc hnot
    rw [(ufs_CleanClusters_refines ufs fl clusters length hlen hmax hS hwrap hchain hbytes _).2]
    exact (mapSlot_freeChain ufs clusters c hwrap hc (length - 1) fl hchain).2 hnot
  · intro n hn
    unfold ufs_CleanClusters
    rw [if_pos hn]
    exact ⟨rfl, rfl, rfl⟩

set_option maxRecDepth 100000 in
/-- C6 (defect of the code): for a chain vector of 32769 entries, a length that
the `uint16_t` parameter admits, the loop counter of `ufs_CleanClusters`, an
`int16_t` initialised with `length - 1 = 32768`, reads `-32768`, so the loop
body never runs.  On the large device whose
map slots all read `UFS_CLUSTER_END`, the call returns `UFS_OK` and the slot of
`chain[0]`, which did not hold `UFS_CLUSTER_BAD`, still reads `UFS_CLUSTER_END`
instead of `UFS_CLUSTER_FREE`. -/
theorem ufs_CleanClusters_long_chain_not_freed :
    (ufs_CleanClusters largeUfs largeFullFlash longChain 32769).ret = UFS_OK ∧
    mapSlot largeUfs largeFullFlash (longChain 0) = UFS_CLUSTER_END ∧
    mapSlot largeUfs (ufs_CleanClusters largeUfs largeFullFlash longChain 32769).fl (longChain 0) =
      UFS_CLUSTER_END ∧
    UFS_CLUSTER_END ≠ UFS_CLUSTER_BAD ∧ UFS_CLUSTER_END ≠ UFS_CLUSTER_FREE := by
  decide!

set_option maxRecDepth 100000 in
/-- Witness of `ufs_CleanClusters_frees_chain`: on the large device, the chain
3, 200, 4 (two map sectors) is cleaned; the slots of clusters 3 and 200, which
read `UFS_CLUSTER_END`, read `UFS_CLUSTER_FREE` afterwards, the slot of cluster
4, which read `UFS_CLUSTER_BAD`, still does, and the slot of cluster 5 is
unchanged. -/
theorem ufs_CleanClusters_frees_chain_witness :
    (2 ≤ (4 : Nat) ∧ (4 : Nat) ≤ 32768) ∧
    (ufs_CleanClusters largeUfs largeBadFlash crossChain 4).ret = UFS_OK ∧
    mapSlot largeUfs (ufs_CleanClusters largeUfs largeBadFlash crossChain 4).fl 3 =
      UFS_CLUSTER_FREE ∧
    mapSlot largeUfs (ufs_CleanClusters largeUfs largeBadFlash crossChain 4).fl 200 =
      UFS_CLUSTER_FREE ∧
    mapSlot largeUfs (ufs_CleanClusters largeUfs largeBadFlash crossChain 4).fl 4 =
      UFS_CLUSTER_BAD ∧
    mapSlot largeUfs (ufs_CleanClusters largeUfs largeBadFlash crossChain 4).fl 5 =
      UFS_CLUSTER_END :=
  have h := ufs_CleanClusters_frees_chain largeUfs largeBadFlash crossChain 4
    (by omega) (by omega) (by decide!) (by decide!)
    (by
      intro i hi
      have hc : i = 0 ∨ i = 1 ∨ i = 2 := by omega
      rcases hc with rfl | rfl | rfl <;> decide)
    (by
      intro s i
      unfold largeBadFlash largeFullFlash
      split
      · omega
      · split <;> omega)
  ⟨⟨by omega, by omega⟩, h.1, (h.2.1 0 (by omega)).trans (by decide!),
    (h.2.1 1 (by omega)).trans (by decide!), (h.2.1 2 (by omega)).trans (by decide!),
    (h.2.2.1 5 (by omega)
      (by
        intro i hi
        have hc : i = 0 ∨ i = 1 ∨ i = 2 := by omega
        rcases hc with rfl | rfl | rfl <;> decide)).trans (by decide!)⟩

/-! ## C8: two successive creations do not receive the same first cluster -/

theorem wrapLimit_cases (ufs : UFS) (y : Nat) : wrapLimit ufs y = 0 ∨ wrapLimit ufs y = y := by
  unfold wrapLimit
  split
  · left; rfl
  · right; rfl

theorem wrapHalf_cases (ufs : UFS) (y : Nat) :
    wrapHalf ufs y = 0 ∨ (wrapHalf ufs y = y ∧ y < halfSector ufs) := by
  unfold wrapHalf
  split
  · left; rfl
  · right
    rename_i h
    exact ⟨rfl, by omega⟩

theorem wrapZone_cases (ufs : UFS) (y : Nat) :
    wrapZone ufs y = 0 ∨
      (wrapZone ufs y = y ∧ ufs.ClusterMappingZoneFirstSector + y < ufs.ClusterDataZoneFirstSector) := by
  unfold wrapZone
  split
  · left; rfl
  · right
    rename_i h
    exact ⟨rfl, by omega⟩

theorem wrapSector_cases (strict : Bool) (ufs : UFS) (y : Nat) :
    wrapSector strict ufs y = 0 ∨ wrapSector strict ufs y = y := by
  unfold wrapSector
  by_cases h : (if strict then y * halfSector ufs > clusterLimit ufs
      else y * halfSector ufs ≥ clusterLimit ufs)
  · left; rw [if_pos h]
  · right; rw [if_neg h]

theorem nextSegment_offset_lt (ufs : UFS) (hS : 2 ≤ ufs.conf.api.u16numberByteOfSector) (x : Nat) :
    nextSegment ufs x * 2 + 1 < ufs.conf.api.u16numberByteOfSector := by
  unfold nextSegment
  rcases wrapLimit_cases ufs (wrapHalf ufs (u16 (x + 1))) with h | h
  · rw [h]; omega
  · rw [h]
    rcases wrapHalf_cases ufs (u16 (x + 1)) with h2 | ⟨h2, h3⟩
    · rw [h2]; omega
    · rw [h2]
      unfold halfSector at h3
      omega

theorem nextSegment_lt (ufs : UFS) (x : Nat) : nextSegment ufs x < 65536 := by
  have hu := u16_lt (x + 1)
  unfold nextSegment
  rcases wrapLimit_cases ufs (wrapHalf ufs (u16 (x + 1))) with h | h
  · rw [h]; omega
  · rw [h]
    rcases wrapHalf_cases ufs (u16 (x + 1)) with h2 | ⟨h2, _⟩
    · rw [h2]; omega
    · rw [h2]; exact hu

theorem nextSector_lt (strict : Bool) (ufs : UFS) (x : Nat) : nextSector strict ufs x < 65536 := by
  have hu := u16_lt (x + 1)
  unfold nextSector
  rcases wrapSector_cases strict ufs (wrapZone ufs (u16 (x + 1))) with h | h
  · rw [h]; omega
  · rw [h]
    rcases wrapZone_cases ufs (u16 (x + 1)) with h2 | ⟨h2, _⟩
    · rw [h2]; omega
    · rw [h2]; exact hu

theorem nextSector_zone (strict : Bool) (ufs : UFS) (x : Nat) :
    nextSector strict ufs x = 0 ∨
      ufs.ClusterMappingZoneFirstSector + nextSector strict ufs x < ufs.ClusterDataZoneFirstSector := by
  unfold nextSector
  rcases wrapSector_cases strict ufs (wrapZone ufs (u16 (x + 1))) with h | h
  · left; exact h
  · rw [h]
    rcases wrapZone_cases ufs (u16 (x + 1)) with h2 | ⟨h2, h3⟩
    · left; exact h2
    · right; rw [h2]; exact h3

theorem searchSegment_found (ufs : UFS) (data_sector : Buf) :
    ∀ (fuel countSegment seg : Nat),
      searchSegment ufs data_sector fuel countSegment = some (some seg) →
      rd16 data_sector (seg * 2) = UFS_CLUSTER_FREE ∧
      ∃ k y, seg = nextSegment ufs y ∧ y = Nat.iterate (nextSegment ufs) k countSegment := by
  intro fuel
  induction fuel with
  | zero => intro _ _ h; exact absurd h (by unfold searchSegment; simp)
  | succ n ih =>
    intro countSegment seg h
    unfold searchSegment at h
    by_cases hf : rd16 data_sector (nextSegment ufs countSegment * 2) = UFS_CLUSTER_FREE
    · rw [if_pos hf] at h
      have hs : nextSegment ufs countSegment = seg := Option.some.inj (Option.some.inj h)
      rw [← hs]
      exact ⟨hf, 0, countSegment, rfl, rfl⟩
    · rw [if_neg hf] at h
      by_cases hc : nextSegment ufs countSegment ≠ ufs.latest_cluster.position
      · rw [if_pos hc] at h
        obtain ⟨h1, k, y, hy1, hy2⟩ := ih _ _ h
        exact ⟨h1, k + 1, y, hy1, by rw [hy2]; rfl⟩
      · rw [if_neg hc] at h
        exact absurd (Option.some.inj h) (by simp)

theorem searchSector_found (strict : Bool) (ufs : UFS) (fl : Flash) (segFuel : Nat) :
    ∀ (fuel countSector : Nat) (data_sector : Buf) (r : SearchResult) (seg : Nat),
      searchSector strict ufs fl segFuel fuel countSector data_sector = some r →
      r.found = some seg →
      (∃ buf, r.data_sector = readMapSector ufs fl r.countSector buf) ∧
      rd16 r.data_sector (seg * 2) = UFS_CLUSTER_FREE ∧
      (∃ j x, r.countSector = nextSector strict ufs x ∧
        x = Nat.iterate (nextSector strict ufs) j countSector) ∧
      (∃ k y, seg = nextSegment ufs y ∧
        y = Nat.iterate (nextSegment ufs) k ufs.latest_cluster.position) := by
  intro fuel
  induction fuel with
  | zero => intro _ _ _ _ h; exact absurd h (by unfold searchSector; simp)
  | succ n ih =>
    intro countSector data_sector r seg h hfound
    unfold searchSector at h
    split at h
    · exact absurd h (by simp)
    · rename_i cseg hseg
      have hr := Option.some.inj h
      rw [← hr] at hfound ⊢
      have hcs : cseg = seg := Option.some.inj hfound
      obtain ⟨h1, h2⟩ := searchSegment_found ufs _ _ _ _ hseg
      rw [hcs] at h1 h2
      exact ⟨⟨data_sector, rfl⟩, h1, ⟨0, countSector, rfl, rfl⟩, h2⟩
    · by_cases hc : nextSector strict ufs countSector ≠ ufs.latest_cluster.sector_id
      · rw [if_pos hc] at h
        obtain ⟨h1, h2, ⟨j, x, hx1, hx2⟩, h4⟩ := ih _ _ r seg h hfound
        exact ⟨h1, h2, ⟨j + 1, x, hx1, by rw [hx2]; rfl⟩, h4⟩
      · rw [if_neg hc] at h
        have hr := Option.some.inj h
        rw [← hr] at hfound
        exact absurd hfound (by simp)

theorem rd16_wr16_same (b : Buf) (off v : Nat) (hv : v < 65536) : rd16 (wr16 b off v) off = v := by
  unfold rd16 wr16
  show (if off = off then _ else _) + 256 * (if off + 1 = off then _ else
    if off + 1 = off + 1 then _ else _) = v
  rw [if_pos rfl, if_neg (by omega), if_pos rfl]
  omega

theorem rd16_wr16_other (b : Buf) (off other v : Nat) (h : other + 1 < off ∨ off + 1 < other) :
    rd16 (wr16 b other v) off = rd16 b off := by
  unfold rd16 wr16
  show (if off = other then _ else if off = other + 1 then _ else _) +
    256 * (if off + 1 = other then _ else if off + 1 = other + 1 then _ else _) = _
  rw [if_neg (by omega), if_neg (by omega), if_neg (by omega), if_neg (by omega)]

theorem ufs_OpenItem_encode_info (ufs : UFS) (item : ufs_Item_Type) :
    (ufs_OpenItem_encode ufs item).info = item.info := by
  unfold ufs_OpenItem_encode
  generalize List.range ufs.conf.u8NumberEncodeFileExtension = l
  induction l generalizing item with
  | nil => rfl
  | cons a t ih =>
    rw [List.foldl_cons, ih]
    split <;> rfl

theorem ufs_GetListCluster_info (ufs : UFS) (fl : Flash) (item : ufs_Item_Type) :
    (ufs_GetListCluster ufs fl item).1.info = item.info := by
  unfold ufs_GetListCluster ufs_GetListCluster_done
  split <;> rfl

theorem ufs_OpenItem_finish_info (ufs : UFS) (fl : Flash) (item : ufs_Item_Type) :
    (ufs_OpenItem_finish ufs fl item).item.info = item.info :=
  ufs_OpenItem_encode_info ufs item

/-- The handle record after a creation: the first cluster is the slot that the
search found. -/
theorem ufs_OpenItem_assigned_first (ufs : UFS) (info : Buf) (countSector countSegment v : Nat)
    (hs : countSector < 65536) (hp : countSegment < 65536) :
    info_first_sector_id (set_info_parent (ufs_OpenItem_assigned ufs info countSector countSegment) v)
      = countSector ∧
    info_first_position (set_info_parent (ufs_OpenItem_assigned ufs info countSector countSegment) v)
      = countSegment ∧
    info_first_sector_id (ufs_OpenItem_assigned ufs info countSector countSegment) = countSector := by
  unfold ufs_OpenItem_assigned info_first_sector_id info_first_position set_info_parent
    set_info_first_position set_info_first_sector_id
  refine ⟨?_, ?_, ?_⟩
  · rw [rd16_wr16_other _ _ _ _ (by omega), rd16_wr16_other _ _ _ _ (by omega),
      rd16_wr16_same _ _ _ hs]
  · rw [rd16_wr16_other _ _ _ _ (by omega), rd16_wr16_same _ _ _ hp]
  · rw [rd16_wr16_other _ _ _ _ (by omega), rd16_wr16_same _ _ _ hs]

/-- A call of `ufs_OpenItem` that finds no record of the name, for a name with
an extension, and returns `UFS_OK` has run the free cluster search with success
and stored the new file. -/
theorem ufs_OpenItem_created (fuel : Nat) (ufs : UFS) (fl : Flash) (name_file : List Nat)
    (item : ufs_Item_Type) (r : ItemResult)
    (h : ufs_OpenItem fuel ufs fl name_file item = some r) (hok : r.ret = UFS_OK)
    (hnew : (ufs_OpenItem_scan ufs fl name_file item).item.location.sector_id = 0xFFFF)
    (hfile : info_extention (ufs_OpenItem_scan ufs fl name_file item).item.info 0 ≠ 0x00) :
    ∃ sr seg,
      searchSector true ufs fl fuel fuel ufs.latest_cluster.sector_id (fun _ => 0) = some sr ∧
      sr.found = some seg ∧
      (ufs_OpenItem_scan ufs fl name_file item).slotItem.sector_id ≠ 0xFFFF ∧
      r.ufs = (ufs.withLatest sr.countSector seg).withUsedSize
        (ufs.UsedSize + (clusterBytes ufs : Int)) ∧
      r.fl = ufs_OpenItem_stored ufs fl (ufs_OpenItem_scan ufs fl name_file item).item.info
        (ufs_OpenItem_scan ufs fl name_file item).slotItem sr seg ∧
      r.item.info = set_info_parent
        (ufs_OpenItem_assigned ufs (ufs_OpenItem_scan ufs fl name_file item).item.info
          sr.countSector seg) ufs.path_id := by
  unfold ufs_OpenItem ufs_OpenItem_act at h
  generalize ufs_OpenItem_scan ufs fl name_file item = st at h hnew hfile ⊢
  have hbad : UFS_NOT_OK ≠ UFS_OK := by unfold UFS_NOT_OK UFS_OK; decide
  by_cases hslot : st.slotItem.sector_id ≠ 0xFFFF
  · rw [if_pos ⟨hnew, hslot⟩, if_pos hfile] at h
    unfold ufs_OpenItem_newFile at h
    split at h
    · exact absurd h (by simp)
    · rename_i sr hsr
      split at h
      · rename_i seg hseg
        have hr := Option.some.inj h
        unfold ufs_OpenItem_create at hr
        by_cases hfirst : info_first_sector_id
            (ufs_OpenItem_assigned ufs st.item.info sr.countSector seg) ≠ 0xFFFF
        · rw [if_pos hfirst] at hr
          refine ⟨sr, seg, hsr, hseg, hslot, ?_, ?_, ?_⟩
          · rw [← hr]; rfl
          · rw [← hr]; rfl
          · rw [← hr, ufs_OpenItem_finish_info, ufs_GetListCluster_info]
            rfl
        · rw [if_neg hfirst] at hr
          rw [← hr] at hok
          exact absurd hok hbad
      · have hr := Option.some.inj h
        rw [← hr] at hok
        exact absurd hok hbad
  · rw [if_neg (fun hh => hslot hh.2)] at h
    have hs : st.slotItem.sector_id = 0xFFFF := by
      by_contra hh
      exact hslot hh
    rw [if_pos ⟨hnew, hs⟩] at h
    have hr := Option.some.inj h
    rw [← hr] at hok
    exact absurd hok hbad

theorem ufs_OpenItem_note_slot (st : ScanState) (data_sector : Buf) (countSector countSegment : Nat) :
    (ufs_OpenItem_note st data_sector countSector countSegment).slotItem.sector_id =
        st.slotItem.sector_id ∨
      (ufs_OpenItem_note st data_sector countSector countSegment).slotItem.sector_id = countSector := by
  unfold ufs_OpenItem_note
  split
  · right; rfl
  · left; rfl

theorem ufs_OpenItem_segments_slot (ufs : UFS) (fl : Flash) (data_sector : Buf) (countSector : Nat)
    (n : Nat) : ∀ (countSegment : Nat) (st : ScanState),
    (ufs_OpenItem_segments ufs fl data_sector countSector n countSegment st).slotItem.sector_id =
        st.slotItem.sector_id ∨
      (ufs_OpenItem_segments ufs fl data_sector countSector n countSegment st).slotItem.sector_id =
        countSector := by
  induction n with
  | zero => intro _ _; left; rfl
  | succ k ih =>
    intro countSegment st
    unfold ufs_OpenItem_segments
    split
    · left; rfl
    · rcases ih (countSegment + 1) (ufs_OpenItem_note st data_sector countSector countSegment)
        with h | h
      · rcases ufs_OpenItem_note_slot st data_sector countSector countSegment with h2 | h2
        · left; rw [h, h2]
        · right; rw [h, h2]
      · right; exact h

theorem ufs_OpenItem_sectors_slot (ufs : UFS) (fl : Flash) (n : Nat) :
    ∀ (countSector : Nat) (st : ScanState),
    (ufs_OpenItem_sectors ufs fl n countSector st).slotItem.sector_id = st.slotItem.sector_id ∨
      (countSector ≤ (ufs_OpenItem_sectors ufs fl n countSector st).slotItem.sector_id ∧
        (ufs_OpenItem_sectors ufs fl n countSector st).slotItem.sector_id < countSector + n) := by
  induction n with
  | zero => intro _ _; left; rfl
  | succ k ih =>
    intro countSector st
    have hseg := ufs_OpenItem_segments_slot ufs fl (readItemSector ufs fl countSector) countSector
      (u16 (ufs.conf.api.u16numberByteOfSector / sizeof_ItemInfo)) 0 st
    unfold ufs_OpenItem_sectors
    split
    · rcases hseg with h | h
      · left; exact h
      · right; omega
    · rcases ih (countSector + 1) (ufs_OpenItem_segments ufs fl (readItemSector ufs fl countSector)
          countSector (u16 (ufs.conf.api.u16numberByteOfSector / sizeof_ItemInfo)) 0 st) with h | h
      · rcases hseg with h2 | h2
        · left; rw [h, h2]
        · right; rw [h, h2]; omega
      · right; omega

/-- The free item slot noted by the scan of `ufs_OpenItem`, if any, lies in the
item zone. -/
theorem ufs_OpenItem_scan_slot (ufs : UFS) (fl : Flash) (name_file : List Nat) (item : ufs_Item_Type)
    (h : (ufs_OpenItem_scan ufs fl name_file item).slotItem.sector_id ≠ 0xFFFF) :
    ufs.ItemZoneFirstSector + (ufs_OpenItem_scan ufs fl name_file item).slotItem.sector_id <
      ufs.ClusterMappingZoneFirstSector := by
  unfold ufs_OpenItem_scan at h ⊢
  rcases ufs_OpenItem_sectors_slot ufs fl
    ((ufs.ClusterMappingZoneFirstSector : Int) - (ufs.ItemZoneFirstSector : Int)).toNat 0
    { item := ((((item.withLocation 0xFFFF item.location.position).withStatus UFS_ITEM_FREE).withUfs
        false).withInfo (ufs_ParseNameFile name_file item.info))
      slotItem := { sector_id := 0xFFFF, position := 0xFFFF } } with h1 | h1
  · exact absurd h1 h
  · omega

/-- After a creation the map slot that the search found reads `UFS_CLUSTER_END`
on the flash. -/
theorem ufs_OpenItem_stored_slot (ufs : UFS) (fl : Flash) (info : Buf) (slotItem : ufs_Location_Type)
    (sr : SearchResult) (seg : Nat)
    (hoff : seg * 2 + 1 < ufs.conf.api.u16numberByteOfSector)
    (hcs : sr.countSector < 65536) (hseg : seg < 65536)
    (hne : u16 (ufs.ClusterMappingZoneFirstSector + sr.countSector) ≠
      u16 (ufs.ItemZoneFirstSector + slotItem.sector_id)) :
    rd16 (ufs_OpenItem_stored ufs fl info slotItem sr seg
      (u16 (ufs.ClusterMappingZoneFirstSector + sr.countSector))) (seg * 2) = UFS_CLUSTER_END := by
  have hbyte : ∀ i, i < ufs.conf.api.u16numberByteOfSector →
      wr16 sr.data_sector (seg * 2) UFS_CLUSTER_END i < 256 →
      ufs_OpenItem_stored ufs fl info slotItem sr seg
        (u16 (ufs.ClusterMappingZoneFirstSector + sr.countSector)) i =
        wr16 sr.data_sector (seg * 2) UFS_CLUSTER_END i := by
    intro i hi hb
    unfold ufs_OpenItem_stored writeItemRecord
    rw [WriteSector_other _ _ _ _ _ _ hne, EraseSector_other _ _ _ _ hne,
      (ufs_OpenItem_assigned_first ufs info sr.countSector seg 0 hcs hseg).2.2,
      flushMapSector_same _ _ _ _ _ hi hb]
  have h0 : wr16 sr.data_sector (seg * 2) UFS_CLUSTER_END (seg * 2) = 0xFD := by
    unfold wr16 UFS_CLUSTER_END
    show (if seg * 2 = seg * 2 then _ else _) = _
    rw [if_pos rfl]
  have h1 : wr16 sr.data_sector (seg * 2) UFS_CLUSTER_END (seg * 2 + 1) = 0xFF := by
    unfold wr16 UFS_CLUSTER_END
    show (if seg * 2 + 1 = seg * 2 then _ else if seg * 2 + 1 = seg * 2 + 1 then _ else _) = _
    rw [if_neg (by omega), if_pos rfl]
  unfold rd16
  rw [hbyte _ (by omega) (by rw [h0]; decide), hbyte _ hoff (by rw [h1]; decide), h0, h1]
  rfl

theorem rd16_readMapSector (ufs : UFS) (fl : Flash) (idSector : Nat) (buf : Buf) (off : Nat)
    (h : off + 1 < ufs.conf.api.u16numberByteOfSector) :
    rd16 (readMapSector ufs fl idSector buf) off =
      rd16 (fl (u16 (ufs.ClusterMappingZoneFirstSector + idSector))) off := by
  unfold rd16
  rw [readMapSector_lt _ _ _ _ _ (by omega), readMapSector_lt _ _ _ _ _ h]

theorem cursorStep_iterate (N x : Nat) (hx : x < N) :
    ∀ n, Nat.iterate (cursorStep N) n x = (x + n) % N := by
  intro n
  induction n with
  | zero => exact (Nat.mod_eq_of_lt hx).symm
  | succ k ih =>
    rw [Function.iterate_succ_apply', ih]
    have hlt : (x + k) % N < N := Nat.mod_lt _ (by omega)
    unfold cursorStep
    by_cases h : (x + k) % N + 1 < N
    · rw [if_pos h, show x + (k + 1) = x + k + 1 by omega, Nat.add_mod (x + k) 1 N]
      by_cases h1 : N = 1
      · omega
      · rw [Nat.mod_eq_of_lt (show 1 < N by omega), Nat.mod_eq_of_lt h]
    · rw [if_neg h]
      have he : (x + k) % N = N - 1 := by omega
      have hd := Nat.div_add_mod (x + k) N
      rw [he] at hd
      rw [show x + (k + 1) = N * ((x + k) / N + 1) by
        rw [Nat.mul_add, Nat.mul_one]; omega]
      exact (Nat.mul_mod_right _ _).symm

theorem nextSegment_eq (ufs : UFS) (hS16 : ufs.conf.api.u16numberByteOfSector < 65536) (y : Nat)
    (hy : y < 65536) : nextSegment ufs y = cursorStep (searchPositions ufs) y := by
  have hh : halfSector ufs < 32768 := by unfold halfSector; omega
  unfold nextSegment wrapLimit wrapHalf cursorStep searchPositions u16
  generalize halfSector ufs = h at hh ⊢
  generalize clusterLimit ufs = l
  have hmin : y + 1 < min h l ↔ (y + 1 < h ∧ y + 1 < l) := by omega
  by_cases h1 : y + 1 < 65536
  · rw [Nat.mod_eq_of_lt h1]
    by_cases h2 : y + 1 ≥ h
    · rw [if_pos h2, if_neg (fun hc => absurd (hmin.1 hc).1 (by omega))]
      by_cases h3 : 0 ≥ l
      · rw [if_pos h3]
      · rw [if_neg h3]
    · rw [if_neg h2]
      by_cases h3 : y + 1 ≥ l
      · rw [if_pos h3, if_neg (fun hc => absurd (hmin.1 hc).2 (by omega))]
      · rw [if_neg h3, if_pos (hmin.2 ⟨by omega, by omega⟩)]
  · have e : y + 1 = 65536 := by omega
    rw [e, if_neg (fun hc => absurd (hmin.1 (e ▸ hc)).1 (by omega)), Nat.mod_self]
    by_cases h2 : 0 ≥ h
    · rw [if_pos h2]
      by_cases h3 : 0 ≥ l
      · rw [if_pos h3]
      · rw [if_neg h3]
    · rw [if_neg h2]
      by_cases h3 : 0 ≥ l
      · rw [if_pos h3]
      · rw [if_neg h3]

theorem wrapSector_zero (strict : Bool) (ufs : UFS) : wrapSector strict ufs 0 = 0 := by
  rcases wrapSector_cases strict ufs 0 with h | h <;> exact h

theorem nextSector_eq (ufs : UFS) (hS : 2 ≤ ufs.conf.api.u16numberByteOfSector)
    (hData : ufs.ClusterDataZoneFirstSector < 65536) (x : Nat) (hx : x < 65536) :
    nextSector true ufs x = cursorStep (searchSectors ufs) x := by
  have hh : 1 ≤ halfSector ufs := by unfold halfSector; omega
  have hdiv : ∀ y : Nat, y * halfSector ufs > clusterLimit ufs ↔
      clusterLimit ufs / halfSector ufs + 1 ≤ y := by
    intro y
    constructor
    · intro hgt
      have := (Nat.div_lt_iff_lt_mul hh).2 hgt
      omega
    · intro hle
      exact (Nat.div_lt_iff_lt_mul hh).1 (by omega)
  have hstrict : ∀ y : Nat, wrapSector true ufs y =
      if clusterLimit ufs / halfSector ufs + 1 ≤ y then 0 else y := by
    intro y
    unfold wrapSector
    by_cases hc : y * halfSector ufs > clusterLimit ufs
    · rw [if_pos (by simpa using hc), if_pos ((hdiv y).1 hc)]
    · rw [if_neg (by simpa using hc), if_neg (fun hle => hc ((hdiv y).2 hle))]
  show wrapSector true ufs (wrapZone ufs (u16 (x + 1))) = _
  unfold cursorStep searchSectors wrapZone u16
  generalize clusterLimit ufs / halfSector ufs + 1 = k at hstrict ⊢
  by_cases h1 : x + 1 < 65536
  · rw [Nat.mod_eq_of_lt h1]
    by_cases h2 : ((x + 1 : Nat) : Int) ≥
        (ufs.ClusterDataZoneFirstSector : Int) - (ufs.ClusterMappingZoneFirstSector : Int)
    · rw [if_pos h2, wrapSector_zero, if_neg (by omega)]
    · rw [if_neg h2, hstrict]
      by_cases h3 : k ≤ x + 1
      · rw [if_pos h3, if_neg (by omega)]
      · rw [if_neg h3, if_pos (by omega)]
  · have e : x + 1 = 65536 := by omega
    have hz : ¬ 65536 < min ((ufs.ClusterDataZoneFirstSector : Int) -
        (ufs.ClusterMappingZoneFirstSector : Int)).toNat k := by omega
    rw [e, Nat.mod_self, if_neg hz, ite_self, wrapSector_zero]

theorem iterate_nextSegment_eq (ufs : UFS) (hS16 : ufs.conf.api.u16numberByteOfSector < 65536)
    (y : Nat) (hy : y < 65536) :
    ∀ n, Nat.iterate (nextSegment ufs) n y = Nat.iterate (cursorStep (searchPositions ufs)) n y := by
  intro n
  induction n with
  | zero => rfl
  | succ k ih =>
    have hlt : Nat.iterate (nextSegment ufs) k y < 65536 := by
      cases k with
      | zero => exact hy
      | succ m => rw [Function.iterate_succ_apply']; exact nextSegment_lt _ _
    rw [Function.iterate_succ_apply', Function.iterate_succ_apply', ← ih,
      nextSegment_eq ufs hS16 _ hlt]

theorem iterate_nextSector_eq (ufs : UFS) (hS : 2 ≤ ufs.conf.api.u16numberByteOfSector)
    (hData : ufs.ClusterDataZoneFirstSector < 65536) (x : Nat) (hx : x < 65536) :
    ∀ n, Nat.iterate (nextSector true ufs) n x =
      Nat.iterate (cursorStep (searchSectors ufs)) n x := by
  intro n
  induction n with
  | zero => rfl
  | succ k ih =>
    have hlt : Nat.iterate (nextSector true ufs) k x < 65536 := by
      cases k with
      | zero => exact hx
      | succ m => rw [Function.iterate_succ_apply']; exact nextSector_lt _ _ _
    rw [Function.iterate_succ_apply', Function.iterate_succ_apply', ← ih,
      nextSector_eq ufs hS hData _ hlt]

theorem searchSegment_first (ufs : UFS) (data_sector : Buf) :
    ∀ (fuel countSegment seg : Nat),
      searchSegment ufs data_sector fuel countSegment = some (some seg) →
      ∃ d, seg = Nat.iterate (nextSegment ufs) (d + 1) countSegment ∧
        rd16 data_sector (seg * 2) = UFS_CLUSTER_FREE ∧
        ∀ i, i < d →
          rd16 data_sector (Nat.iterate (nextSegment ufs) (i + 1) countSegment * 2) ≠
            UFS_CLUSTER_FREE := by
  intro fuel
  induction fuel with
  | zero => intro _ _ h; exact absurd h (by unfold searchSegment; simp)
  | succ n ih =>
    intro countSegment seg h
    unfold searchSegment at h
    by_cases hf : rd16 data_sector (nextSegment ufs countSegment * 2) = UFS_CLUSTER_FREE
    · rw [if_pos hf] at h
      have hs : nextSegment ufs countSegment = seg := Option.some.inj (Option.some.inj h)
      rw [← hs]
      exact ⟨0, rfl, hf, fun i hi => absurd hi (by omega)⟩
    · rw [if_neg hf] at h
      by_cases hc : nextSegment ufs countSegment ≠ ufs.latest_cluster.position
      · rw [if_pos hc] at h
        obtain ⟨d, h1, h2, h3⟩ := ih _ _ h
        refine ⟨d + 1, h1, h2, ?_⟩
        intro i hi
        cases i with
        | zero => exact hf
        | succ m => exact h3 m (by omega)
      · rw [if_neg hc] at h
        exact absurd (Option.some.inj h) (by simp)

theorem searchSegment_none (ufs : UFS) (data_sector : Buf) :
    ∀ (fuel countSegment : Nat),
      searchSegment ufs data_sector fuel countSegment = some none →
      ∃ d, Nat.iterate (nextSegment ufs) (d + 1) countSegment = ufs.latest_cluster.position ∧
        ∀ i, i ≤ d →
          rd16 data_sector (Nat.iterate (nextSegment ufs) (i + 1) countSegment * 2) ≠
            UFS_CLUSTER_FREE := by
  intro fuel
  induction fuel with
  | zero => intro _ h; exact absurd h (by unfold searchSegment; simp)
  | succ n ih =>
    intro countSegment h
    unfold searchSegment at h
    by_cases hf : rd16 data_sector (nextSegment ufs countSegment * 2) = UFS_CLUSTER_FREE
    · rw [if_pos hf] at h
      exact absurd (Option.some.inj h) (by simp)
    · rw [if_neg hf] at h
      by_cases hc : nextSegment ufs countSegment ≠ ufs.latest_cluster.position
      · rw [if_pos hc] at h
        obtain ⟨d, h1, h2⟩ := ih _ h
        refine ⟨d + 1, h1, ?_⟩
        intro i hi
        cases i with
        | zero => exact hf
        | succ m => exact h2 m (by omega)
      · rw [if_neg hc] at h
        refine ⟨0, by_contra (fun hne => hc hne), ?_⟩
        intro i hi
        have : i = 0 := by omega
        subst this
        exact hf

/-- A property that holds along one full turn of a step function from `x` back
to `x` holds at every iterate. -/
theorem iterate_turn {f : Nat → Nat} {x d : Nat} (P : Nat → Prop)
    (hback : Nat.iterate f (d + 1) x = x) (h : ∀ i, i ≤ d → P (Nat.iterate f (i + 1) x)) :
    ∀ i, P (Nat.iterate f (i + 1) x) := by
  intro i
  induction i using Nat.strong_induction_on with
  | _ i ih =>
    by_cases hi : i ≤ d
    · exact h i hi
    · have e : i + 1 = (i - (d + 1) + 1) + (d + 1) := by omega
      rw [e, Function.iterate_add_apply, hback]
      exact ih (i - (d + 1)) (by omega)

theorem searchSector_first (ufs : UFS) (fl : Flash) (segFuel : Nat)
    (hS : 2 ≤ ufs.conf.api.u16numberByteOfSector) :
    ∀ (fuel countSector : Nat) (data_sector : Buf) (r : SearchResult) (seg : Nat),
      searchSector true ufs fl segFuel fuel countSector data_sector = some r →
      r.found = some seg →
      ∃ e d,
        r.countSector = Nat.iterate (nextSector true ufs) (e + 1) countSector ∧
        seg = Nat.iterate (nextSegment ufs) (d + 1) ufs.latest_cluster.position ∧
        mapSlotFree ufs fl r.countSector seg ∧
        (∀ i, i < d → ¬ mapSlotFree ufs fl r.countSector
          (Nat.iterate (nextSegment ufs) (i + 1) ufs.latest_cluster.position)) ∧
        (∀ j, j < e → ∀ i, ¬ mapSlotFree ufs fl
          (Nat.iterate (nextSector true ufs) (j + 1) countSector)
          (Nat.iterate (nextSegment ufs) (i + 1) ufs.latest_cluster.position)) := by
  have hrd : ∀ (s : Nat) (buf : Buf) (n p : Nat),
      rd16 (readMapSector ufs fl s buf) (Nat.iterate (nextSegment ufs) (n + 1) p * 2) =
      rd16 (fl (u16 (ufs.ClusterMappingZoneFirstSector + s)))
        (Nat.iterate (nextSegment ufs) (n + 1) p * 2) := by
    intro s buf n p
    rw [Function.iterate_succ_apply']
    exact rd16_readMapSector ufs fl s buf _ (nextSegment_offset_lt ufs hS _)
  intro fuel
  induction fuel with
  | zero => intro _ _ _ _ h; exact absurd h (by unfold searchSector; simp)
  | succ n ih =>
    intro countSector data_sector r seg h hfound
    unfold searchSector at h
    split at h
    · exact absurd h (by simp)
    · rename_i cseg hseg
      have hr := Option.some.inj h
      rw [← hr] at hfound ⊢
      have hcs : cseg = seg := Option.some.inj hfound
      obtain ⟨d, h1, h2, h3⟩ := searchSegment_first ufs _ _ _ _ hseg
      rw [hcs] at h1 h2
      refine ⟨0, d, rfl, h1, ?_, ?_, fun j hj => absurd hj (by omega)⟩
      · show rd16 _ _ = _
        rw [h1] at h2 ⊢
        rw [← hrd _ data_sector]
        exact h2
      · intro i hi hfree
        apply h3 i hi
        rw [hrd]
        exact hfree
    · rename_i hseg
      by_cases hc : nextSector true ufs countSector ≠ ufs.latest_cluster.sector_id
      · rw [if_pos hc] at h
        obtain ⟨e, d, g1, g2, g3, g4, g5⟩ := ih _ _ r seg h hfound
        obtain ⟨d0, hback, hno⟩ := searchSegment_none ufs _ _ _ hseg
        refine ⟨e + 1, d, g1, g2, g3, g4, ?_⟩
        intro j hj
        cases j with
        | zero =>
          refine iterate_turn (fun p => ¬ mapSlotFree ufs fl
            (Nat.iterate (nextSector true ufs) (0 + 1) countSector) p) hback ?_
          intro i hi hfree
          apply hno i hi
          rw [hrd]
          exact hfree
        | succ m => exact g5 m (by omega)
      · rw [if_neg hc] at h
        have hr := Option.some.inj h
        rw [← hr] at hfound
        exact absurd hfound (by simp)

theorem searchSector_advanced (ufs : UFS) (fl : Flash) (segFuel fuel : Nat) (data_sector : Buf)
    (sr : SearchResult) (seg : Nat)
    (hS : 2 ≤ ufs.conf.api.u16numberByteOfSector)
    (hS16 : ufs.conf.api.u16numberByteOfSector < 65536)
    (hData : ufs.ClusterDataZoneFirstSector < 65536)
    (hs0 : ufs.latest_cluster.sector_id < 65536) (hp0 : ufs.latest_cluster.position < 65536)
    (h : searchSector true ufs fl segFuel fuel ufs.latest_cluster.sector_id data_sector = some sr)
    (hfound : sr.found = some seg) :
    cursorAdvanced ufs fl ufs.latest_cluster { sector_id := sr.countSector, position := seg } := by
  obtain ⟨e, d, g1, g2, g3, g4, g5⟩ :=
    searchSector_first ufs fl segFuel hS fuel _ data_sector sr seg h hfound
  have cs := iterate_nextSector_eq ufs hS hData _ hs0
  have cp := iterate_nextSegment_eq ufs hS16 _ hp0
  refine ⟨e, d, ?_, ?_, g3, ?_, ?_⟩
  · show sr.countSector = _
    rw [← cs]; exact g1
  · show seg = _
    rw [← cp]; exact g2
  · intro i hi
    show ¬ mapSlotFree ufs fl sr.countSector _
    rw [← cp]; exact g4 i hi
  · intro j hj i
    rw [← cs, ← cp]; exact g5 j hj i

/-- Every call of `ufs_OpenItem` either leaves the cursor `latest_cluster` where
it was or moves it forward to the first free slot of the search. -/
theorem ufs_OpenItem_cursor_advanced (fuel : Nat) (ufs : UFS) (fl : Flash) (name_file : List Nat)
    (item : ufs_Item_Type) (r : ItemResult)
    (hS : 2 ≤ ufs.conf.api.u16numberByteOfSector)
    (hS16 : ufs.conf.api.u16numberByteOfSector < 65536)
    (hData : ufs.ClusterDataZoneFirstSector < 65536)
    (hs0 : ufs.latest_cluster.sector_id < 65536) (hp0 : ufs.latest_cluster.position < 65536)
    (h : ufs_OpenItem fuel ufs fl name_file item = some r) :
    r.ufs.latest_cluster = ufs.latest_cluster ∨
      cursorAdvanced ufs fl ufs.latest_cluster r.ufs.latest_cluster := by
  unfold ufs_OpenItem ufs_OpenItem_act at h
  generalize ufs_OpenItem_scan ufs fl name_file item = st at h
  split at h
  · split at h
    · unfold ufs_OpenItem_newFile at h
      split at h
      · exact absurd h (by simp)
      · rename_i sr hsr
        split at h
        · rename_i seg hseg
          right
          have hadv := searchSector_advanced ufs fl fuel fuel _ sr seg hS hS16 hData hs0 hp0 hsr hseg
          have hl : r.ufs.latest_cluster = { sector_id := sr.countSector, position := seg } := by
            rw [← Option.some.inj h]
            unfold ufs_OpenItem_create
            split <;> rfl
          rw [hl]
          exact hadv
        · left
          rw [← Option.some.inj h]
    · left
      rw [← Option.some.inj h]
      rfl
  · split at h
    · left
      rw [← Option.some.inj h]
    · left
      rw [← Option.some.inj h]
      rfl

/-- C8: if two successive calls of `ufs_OpenItem` (the second on the state left
by the first) each return `UFS_OK` after having found no record of their name,
for names with an extension, so that each creates a file, then the first cluster
(`first_cluster.sector_id`, `first_cluster.position`) stored in the second handle
differs from the one stored in the first.  After each of the two calls the
cursor `latest_cluster` is the first cluster just assigned, and it has moved
forward from the previous cursor to the first free slot (`cursorAdvanced`): the
sector by one or more steps of `+1` modulo the number of map sectors searched,
the position by one or more steps of `+1` modulo the number of positions
searched, the slot reached being free before the call, the positions passed in
its sector and every position of the sectors passed not being free.  Any call of
`ufs_OpenItem` leaves the cursor unchanged or moves it in that way.  The geometry
is any with sectors of 2 to 65535 bytes and zone starts within 16 bits, the
cursor members are `uint16_t` values, the flash content is arbitrary. -/
theorem ufs_OpenItem_fresh_first_cluster (fuel1 fuel2 : Nat) (ufs : UFS) (fl : Flash)
    (name1 name2 : List Nat) (item1 item2 : ufs_Item_Type) (r1 r2 : ItemResult)
    (hS : 2 ≤ ufs.conf.api.u16numberByteOfSector)
    (hS16 : ufs.conf.api.u16numberByteOfSector < 65536)
    (hMap : ufs.ClusterMappingZoneFirstSector < 65536)
    (hData : ufs.ClusterDataZoneFirstSector < 65536)
    (hs0 : ufs.latest_cluster.sector_id < 65536) (hp0 : ufs.latest_cluster.position < 65536)
    (h1 : ufs_OpenItem fuel1 ufs fl name1 item1 = some r1) (hok1 : r1.ret = UFS_OK)
    (hnew1 : (ufs_OpenItem_scan ufs fl name1 item1).item.location.sector_id = 0xFFFF)
    (hfile1 : info_extention (ufs_OpenItem_scan ufs fl name1 item1).item.info 0 ≠ 0x00)
    (h2 : ufs_OpenItem fuel2 r1.ufs r1.fl name2 item2 = some r2) (hok2 : r2.ret = UFS_OK)
    (hnew2 : (ufs_OpenItem_scan r1.ufs r1.fl name2 item2).item.location.sector_id = 0xFFFF)
    (hfile2 : info_extention (ufs_OpenItem_scan r1.ufs r1.fl name2 item2).item.info 0 ≠ 0x00) :
    ¬ (info_first_sector_id r2.item.info = info_first_sector_id r1.item.info ∧
       info_first_position r2.item.info = info_first_position r1.item.info) ∧
    (r1.ufs.latest_cluster.sector_id = info_first_sector_id r1.item.info ∧
     r1.ufs.latest_cluster.position = info_first_position r1.item.info ∧
     cursorAdvanced ufs fl ufs.latest_cluster r1.ufs.latest_cluster) ∧
    (r2.ufs.latest_cluster.sector_id = info_first_sector_id r2.item.info ∧
     r2.ufs.latest_cluster.position = info_first_position r2.item.info ∧
     cursorAdvanced r1.ufs r1.fl r1.ufs.latest_cluster r2.ufs.latest_cluster) ∧
    (∀ (fuel : Nat) (name_file : List Nat) (item : ufs_Item_Type) (r : ItemResult),
      ufs_OpenItem fuel ufs fl name_file item = some r →
      r.ufs.latest_cluster = ufs.latest_cluster ∨
        cursorAdvanced ufs fl ufs.latest_cluster r.ufs.latest_cluster) := by
  obtain ⟨sr1, seg1, hsr1, hf1, hslot1, hu1, hfl1, hinfo1⟩ :=
    ufs_OpenItem_created fuel1 ufs fl name1 item1 r1 h1 hok1 hnew1 hfile1
  obtain ⟨sr2, seg2, hsr2, hf2, hslot2, hu2, hfl2, hinfo2⟩ :=
    ufs_OpenItem_created fuel2 r1.ufs r1.fl name2 item2 r2 h2 hok2 hnew2 hfile2
  obtain ⟨_, _, ⟨j1, x1, hx1, hx1i⟩, ⟨k1, y1, hy1, hy1i⟩⟩ :=
    searchSector_found true ufs fl fuel1 fuel1 _ _ sr1 seg1 hsr1 hf1
  obtain ⟨⟨buf2, hb2⟩, hfree2, ⟨j2, x2, hx2, hx2i⟩, ⟨k2, y2, hy2, hy2i⟩⟩ :=
    searchSector_found true r1.ufs r1.fl fuel2 fuel2 _ _ sr2 seg2 hsr2 hf2
  have hcs1 : sr1.countSector < 65536 := by rw [hx1]; exact nextSector_lt _ _ _
  have hcs2 : sr2.countSector < 65536 := by rw [hx2]; exact nextSector_lt _ _ _
  have hsg1 : seg1 < 65536 := by rw [hy1]; exact nextSegment_lt _ _
  have hsg2 : seg2 < 65536 := by rw [hy2]; exact nextSegment_lt _ _
  have hoff1 : seg1 * 2 + 1 < ufs.conf.api.u16numberByteOfSector := by
    rw [hy1]; exact nextSegment_offset_lt ufs hS _
  have hzone1 : sr1.countSector = 0 ∨
      ufs.ClusterMappingZoneFirstSector + sr1.countSector < ufs.ClusterDataZoneFirstSector := by
    rw [hx1]; exact nextSector_zone _ _ _
  obtain ⟨a1, b1, _⟩ := ufs_OpenItem_assigned_first ufs
    (ufs_OpenItem_scan ufs fl name1 item1).item.info sr1.countSector seg1 ufs.path_id hcs1 hsg1
  obtain ⟨a2, b2, _⟩ := ufs_OpenItem_assigned_first r1.ufs
    (ufs_OpenItem_scan r1.ufs r1.fl name2 item2).item.info sr2.countSector seg2 r1.ufs.path_id
    hcs2 hsg2
  rw [← hinfo1] at a1 b1
  rw [← hinfo2] at a2 b2
  have hl1 : r1.ufs.latest_cluster = { sector_id := sr1.countSector, position := seg1 } := by
    rw [hu1]; rfl
  have hl2 : r2.ufs.latest_cluster = { sector_id := sr2.countSector, position := seg2 } := by
    rw [hu2]; rfl
  have hconf : r1.ufs.conf = ufs.conf := by rw [hu1]; rfl
  have hmapeq : r1.ufs.ClusterMappingZoneFirstSector = ufs.ClusterMappingZoneFirstSector := by
    rw [hu1]; rfl
  have hdataeq : r1.ufs.ClusterDataZoneFirstSector = ufs.ClusterDataZoneFirstSector := by
    rw [hu1]; rfl
  have hadv1 := searchSector_advanced ufs fl fuel1 fuel1 _ sr1 seg1 hS hS16 hData hs0 hp0 hsr1 hf1
  have hadv2 := searchSector_advanced r1.ufs r1.fl fuel2 fuel2 _ sr2 seg2 (by rw [hconf]; exact hS)
    (by rw [hconf]; exact hS16) (by rw [hdataeq]; exact hData) (by rw [hl1]; exact hcs1)
    (by rw [hl1]; exact hsg1) hsr2 hf2
  refine ⟨?_, ⟨?_, ?_, ?_⟩, ⟨?_, ?_, ?_⟩,
    fun fuel name_file item r h =>
      ufs_OpenItem_cursor_advanced fuel ufs fl name_file item r hS hS16 hData hs0 hp0 h⟩
  · rintro ⟨e1, e2⟩
    rw [a1, a2] at e1
    rw [b1, b2] at e2
    have hslotlt := ufs_OpenItem_scan_slot ufs fl name1 item1 hslot1
    have hne : u16 (ufs.ClusterMappingZoneFirstSector + sr1.countSector) ≠
        u16 (ufs.ItemZoneFirstSector + (ufs_OpenItem_scan ufs fl name1 item1).slotItem.sector_id) := by
      rw [u16_of_lt _ (by omega), u16_of_lt _ (by omega)]
      omega
    have hend := ufs_OpenItem_stored_slot ufs fl (ufs_OpenItem_scan ufs fl name1 item1).item.info
      (ufs_OpenItem_scan ufs fl name1 item1).slotItem sr1 seg1 hoff1 hcs1 hsg1 hne
    rw [← hfl1] at hend
    rw [hb2, rd16_readMapSector _ _ _ _ _ (by rw [hconf, e2]; exact hoff1), hmapeq, e1, e2,
      hend] at hfree2
    exact absurd hfree2 (by unfold UFS_CLUSTER_END UFS_CLUSTER_FREE; decide)
  · rw [a1, hl1]
  · rw [b1, hl1]
  · rw [hl1]; exact hadv1
  · rw [a2, hl2]
  · rw [b2, hl2]
  · rw [hl2]; exact hadv2

theorem eq_some_getD {α : Type} (x : Option α) (d : α) (h : x.isSome = true) :
    x = some (x.getD d) := by
  cases x with
  | none => exact absurd h (by simp)
  | some v => rfl

set_option maxRecDepth 100000 in
/-- Witness of `ufs_OpenItem_fresh_first_cluster`: on the freshly formatted small
device (one map sector searched, 16 positions), `test.txt` then `log.bin` are
created; the first receives the cluster at map sector 0, position 1, the second
the cluster at map sector 0, position 2, and the cursor advances from (0, 0) to
(0, 1) and then to (0, 2). -/
theorem ufs_OpenItem_fresh_first_cluster_witness :
    (demoFirst.ret = UFS_OK ∧ demoSecond.ret = UFS_OK) ∧
    (info_first_sector_id demoFirst.item.info = 0 ∧ info_first_position demoFirst.item.info = 1) ∧
    (info_first_sector_id demoSecond.item.info = 0 ∧ info_first_position demoSecond.item.info = 2) ∧
    ¬ (info_first_sector_id demoSecond.item.info = info_first_sector_id demoFirst.item.info ∧
       info_first_position demoSecond.item.info = info_first_position demoFirst.item.info) ∧
    demoSecond.ufs.latest_cluster.position = info_first_position demoSecond.item.info ∧
    (searchSectors demoMount.ufs, searchPositions demoMount.ufs) = (1, 16) ∧
    (demoMount.ufs.latest_cluster.sector_id, demoMount.ufs.latest_cluster.position) = (0, 0) ∧
    cursorAdvanced demoMount.ufs demoMount.fl demoMount.ufs.latest_cluster
      demoFirst.ufs.latest_cluster ∧
    cursorAdvanced demoFirst.ufs demoFirst.fl demoFirst.ufs.latest_cluster
      demoSecond.ufs.latest_cluster :=
  have hok1 : demoFirst.ret = UFS_OK := by decide!
  have hok2 : demoSecond.ret = UFS_OK := by decide!
  have h := ufs_OpenItem_fresh_first_cluster 64 64 demoMount.ufs demoMount.fl nameTest nameLog
    blankItem blankItem demoFirst demoSecond (by decide!) (by decide!) (by decide!) (by decide!)
    (by decide!) (by decide!)
    (eq_some_getD demoCreated _ (by decide!)) hok1 (by decide!) (by decide!)
    (eq_some_getD demoSecondCall _ (by decide!)) hok2 (by decide!) (by decide!)
  ⟨⟨hok1, hok2⟩, by decide!, by decide!, h.1, h.2.2.1.2.1, by decide!, by decide!,
    h.2.1.2.2, h.2.2.1.2.2⟩

/-! ## C20: the CRC of LiteLink -/

set_option maxRecDepth 100000 in
theorem CRC8_J1850_TABLE_bitSerial :
    ∀ i, i < 256 → CRC8_J1850_TABLE.getD i 0 = crc8ShiftByte i 0 := by
  decide!

theorem crc8ShiftBit_lt (crc : Nat) : crc8ShiftBit crc < 256 := by
  unfold crc8ShiftBit
  split <;> omega

theorem crc8ShiftByte_lt (crc b : Nat) : crc8ShiftByte crc b < 256 := by
  unfold crc8ShiftByte
  exact crc8ShiftBit_lt _

theorem xor_lt_256 (a b : Nat) (ha : a < 256) (hb : b < 256) : a ^^^ b < 256 :=
  Nat.xor_lt_two_pow (n := 8) ha hb

theorem crc8_table_step (crc b : Nat) (hc : crc < 256) (hb : b < 256) :
    CRC8_J1850_TABLE.getD (crc ^^^ b) 0 = crc8ShiftByte crc b := by
  rw [CRC8_J1850_TABLE_bitSerial _ (xor_lt_256 _ _ hc hb)]
  unfold crc8ShiftByte
  rw [Nat.xor_zero]

/-- The table-driven loop of `LiteLink_CalCrc8` and the bit-serial register agree
step by step on the bytes `u8DataPtr[idx & 0xFF]`. -/
theorem LiteLink_CalCrc8_fold (u8DataPtr : Buf) (hb : ∀ i, i < 256 → u8DataPtr i < 256)
    (init : Nat) (hi : init < 256) (length : Nat) :
    (List.range length).foldl
        (fun crc idx => CRC8_J1850_TABLE.getD (crc ^^^ u8DataPtr (idx &&& 0xFF)) 0) init =
      ((List.range length).map (fun idx => u8DataPtr (idx % 256))).foldl crc8ShiftByte init ∧
    (List.range length).foldl
        (fun crc idx => CRC8_J1850_TABLE.getD (crc ^^^ u8DataPtr (idx &&& 0xFF)) 0) init < 256 := by
  induction length with
  | zero => exact ⟨rfl, hi⟩
  | succ n ih =>
    obtain ⟨ih1, ih2⟩ := ih
    rw [List.range_succ, List.foldl_append, List.map_append, List.foldl_append]
    simp only [List.foldl_cons, List.foldl_nil, List.map_cons, List.map_nil]
    have hm : n &&& 0xFF = n % 256 := Nat.and_pow_two_sub_one_eq_mod n 8
    rw [hm, crc8_table_step _ _ ih2 (hb _ (Nat.mod_lt _ (by decide))), ih1]
    exact ⟨rfl, crc8ShiftByte_lt _ _⟩

/-- For every length, `LiteLink_CalCrc8(0xFF, data, length)` is the bit-serial SAE
J1850 CRC-8 of the sequence `data[idx mod 256]`, `idx < length`; for a length of
at most 256 this is the sequence `data[0 .. length - 1]` itself. -/
theorem LiteLink_CalCrc8_bitSerial (u8DataPtr : Buf) (hb : ∀ i, i < 256 → u8DataPtr i < 256)
    (length : Nat) :
    LiteLink_CalCrc8 0xFF u8DataPtr length =
      crc8_J1850_bitSerial ((List.range length).map (fun idx => u8DataPtr (idx % 256))) ∧
    (length ≤ 256 →
      LiteLink_CalCrc8 0xFF u8DataPtr length =
        crc8_J1850_bitSerial ((List.range length).map u8DataPtr)) := by
  have h := (LiteLink_CalCrc8_fold u8DataPtr hb 0xFF (by decide) length).1
  have e1 : LiteLink_CalCrc8 0xFF u8DataPtr length =
      crc8_J1850_bitSerial ((List.range length).map (fun idx => u8DataPtr (idx % 256))) := by
    unfold LiteLink_CalCrc8 crc8_J1850_bitSerial
    rw [h]
  refine ⟨e1, fun hl => ?_⟩
  rw [e1]
  congr 1
  apply List.map_congr_left
  intro i hi
  rw [Nat.mod_eq_of_lt (by have := List.mem_range.mp hi; omega)]

theorem crc8_fold_lt (data : List Nat) : ∀ init, init < 256 →
    data.foldl crc8ShiftByte init < 256 := by
  induction data with
  | nil => intro init h; exact h
  | cons a t ih => intro init _; exact ih _ (crc8ShiftByte_lt _ _)

set_option maxRecDepth 100000 in
theorem crc8ShiftByte_last_byte :
    ∀ s, s < 256 → crc8ShiftByte s 0 ^^^ 0xFF ≠ crc8ShiftByte s 1 ^^^ 0xFF := by
  decide!

theorem crcLongFrame_lt (i : Nat) : crcLongFrame i < 256 := by
  unfold crcLongFrame
  split <;> omega

theorem range_257 : List.range 257 = List.range 256 ++ [256] := List.range_succ 256

theorem crcLongFrame_all : (List.range 257).map crcLongFrame =
    (List.range 256).map crcLongFrame ++ [crcLongFrame 256] := by
  rw [range_257, List.map_append]
  rfl

theorem crcLongFrame_read : (List.range 257).map (fun idx => crcLongFrame (idx % 256)) =
    (List.range 256).map crcLongFrame ++ [crcLongFrame 0] := by
  have hpre : (List.range 256).map (fun idx => crcLongFrame (idx % 256)) =
      (List.range 256).map crcLongFrame := by
    apply List.map_congr_left
    intro i hi
    rw [Nat.mod_eq_of_lt (List.mem_range.mp hi)]
  rw [range_257, List.map_append, hpre]
  rfl

theorem LiteLink_CalCrc8_long_frame :
    LiteLink_CalCrc8 0xFF crcLongFrame 257 =
      crc8_J1850_bitSerial ((List.range 256).map crcLongFrame ++ [crcLongFrame 0]) := by
  rw [(LiteLink_CalCrc8_bitSerial crcLongFrame (fun i _ => crcLongFrame_lt i) 257).1,
    crcLongFrame_read]

theorem crc8_last_byte_differs (P : List Nat) :
    crc8_J1850_bitSerial (P ++ [crcLongFrame 0]) ≠
      crc8_J1850_bitSerial (P ++ [crcLongFrame 256]) := by
  unfold crc8_J1850_bitSerial
  rw [List.foldl_append, List.foldl_append]
  simp only [List.foldl_cons, List.foldl_nil]
  have h0 : crcLongFrame 0 = 0 := rfl
  have h256 : crcLongFrame 256 = 1 := rfl
  rw [h0, h256]
  have hs := crc8_fold_lt P 0xFF (by decide)
  generalize P.foldl crc8ShiftByte 0xFF = s at hs
  exact crc8ShiftByte_last_byte s hs

/-- C20 (defect of the code): `LiteLink_CalCrc8` takes the byte at step `idx`
from `u8DataPtr[idx & 0xFF]`, so from byte 256 on it reads the start of the data
again.  For the frame of 257 bytes that is zero but for its last byte
(`data[256] = 1`), the function returns the CRC of the 256 first bytes followed
by `data[0]`, which differs from the bit-serial SAE J1850 CRC-8 of the frame. -/
theorem LiteLink_CalCrc8_wraps_at_256 :
    LiteLink_CalCrc8 0xFF crcLongFrame 257 =
      crc8_J1850_bitSerial ((List.range 256).map crcLongFrame ++ [crcLongFrame 0]) ∧
    LiteLink_CalCrc8 0xFF crcLongFrame 257 ≠
      crc8_J1850_bitSerial ((List.range 257).map crcLongFrame) := by
  refine ⟨LiteLink_CalCrc8_long_frame, ?_⟩
  rw [LiteLink_CalCrc8_long_frame, crcLongFrame_all]
  exact crc8_last_byte_differs _

/-! ## C12: the encode flag of a handle -/

set_option maxRecDepth 100000 in
/-- C12 (defect of the code): `ufs_OpenItem` sets `EncodeEnable` when the
extension is in the configured list but nothing ever clears it.  On the small
device, whose list holds `bin` only, `boot.bin` is opened with a zeroed handle
(flag set, as it should be), and the same handle, still open, is used to open
`test.txt`: the call returns `UFS_OK` and the flag is still `UFS_ENCODE_ENABLE`,
although `txt` equals no entry of the list; the same name opened with a zeroed
handle leaves the flag at 0. -/
theorem ufs_OpenItem_keeps_encode_flag :
    (bootOpened.map fun r => (r.ret, r.item.EncodeEnable)) = some (UFS_OK, UFS_ENCODE_ENABLE) ∧
    (reusedHandle.map fun r =>
        (r.ret, r.item.EncodeEnable, bufList (info_extention r.item.info) 3)) =
      some (UFS_OK, UFS_ENCODE_ENABLE, [0x74, 0x78, 0x74]) ∧
    (demoCfg.pExtensionEncodeFileList.map fun e =>
        ufs_BytesCmp e (fun i => [0x74, 0x78, 0x74].getD i 0) 3) = [UFS_NOT_OK] ∧
    (demoCreated.map fun r => (r.ret, r.item.EncodeEnable)) = some (UFS_OK, 0) := by
  decide!

/-! ## C13: the bound of `ufs_ReadFile` -/

set_option maxRecDepth 100000 in
/-- C13 (defect of the code): `ufs_ReadFile` stops when `bytes_read`, the number
of bytes copied, equals `info.comp.size`, not when `position + bytes_read` does.
On the small device, `test.txt` holds 10 bytes; `ufs_ReadFile(file, 5, buf, 10)`
returns 10: bytes 5..9 of the file followed by the five `0xFF` bytes stored after
the end of the file.  On the empty file just created, `ufs_ReadFile(file, 0,
buf, 5)` returns 5. -/
theorem ufs_ReadFile_reads_past_size :
    (tenByteFile.map fun r => (r.ret, info_size r.item.info)) = some (UFS_OK, 10) ∧
    (tenByteFile.map fun r =>
        ((ufs_ReadFile r.ufs r.fl r.item 5 (fun _ => 0) 10).2.2,
          bufList (ufs_ReadFile r.ufs r.fl r.item 5 (fun _ => 0) 10).2.1 10)) =
      some (10, [36, 43, 50, 57, 64, 0xFF, 0xFF, 0xFF, 0xFF, 0xFF]) ∧
    (demoCreated.map fun r =>
        (info_size r.item.info, (ufs_ReadFile r.ufs r.fl r.item 0 (fun _ => 0) 5).2.2)) =
      some (0, 5) := by
  decide!

/-! ## C18: `ufs_GetListItem` and `ufs_CountItem` -/

set_option maxRecDepth 100000 in
/-- C18 (defect of the code): `ufs_GetListItem` tests `++item_read == length`
after each copy, so with `length = 0` the test never holds.  On the small device
holding `test.txt`, four records are listed under the path id 0 (`ufs_CountItem`
returns 4); `ufs_GetListItem(buf, 0)` copies the four records and returns 4, while
with `length = 2` it copies two and returns 2.  Moreover both functions read the
parent of a record from one byte: the record whose 16-bit parent field is
`0x0100` is listed under the path id 0. -/
theorem ufs_GetListItem_zero_length :
    ufs_CountItem demoMount.ufs demoFileFlash = 4 ∧
    (ufs_GetListItem demoMount.ufs demoFileFlash 0).2 = 4 ∧
    (ufs_GetListItem demoMount.ufs demoFileFlash 0).1.length = 4 ∧
    (ufs_GetListItem demoMount.ufs demoFileFlash 2).2 = 2 ∧
    (ufs_GetListItem demoMount.ufs demoFileFlash 2).1.length = 2 ∧
    demoMount.ufs.path_id = 0 ∧
    info_parent (itemRecord demoMount.ufs foreignParentFlash (0, 1)) = 0x0100 ∧
    itemListed demoMount.ufs foreignParentFlash (0, 1) = true ∧
    ufs_CountItem demoMount.ufs foreignParentFlash = 5 := by
  decide!

/-! ## C15: `ufs_OpenItem` on a full item zone -/

theorem ufs_OpenItem_note_idle (st : ScanState) (data_sector : Buf) (countSector countSegment : Nat)
    (h : data_sector (countSegment * sizeof_ItemInfo) ≠ UFS_ITEM_FREE) :
    ufs_OpenItem_note st data_sector countSector countSegment = st := by
  unfold ufs_OpenItem_note
  rw [if_neg h]

theorem ufs_OpenItem_segments_idle (ufs : UFS) (fl : Flash) (data_sector : Buf) (countSector : Nat)
    (st : ScanState) (n : Nat) : ∀ (countSegment : Nat),
    (∀ g, countSegment ≤ g → g < countSegment + n →
      itemMatches ufs st.item.info data_sector g = false ∧
      data_sector (g * sizeof_ItemInfo) ≠ UFS_ITEM_FREE) →
    ufs_OpenItem_segments ufs fl data_sector countSector n countSegment st = st := by
  induction n with
  | zero => intro _ _; rfl
  | succ k ih =>
    intro countSegment h
    unfold ufs_OpenItem_segments
    rw [if_neg (by rw [(h countSegment (Nat.le_refl _) (by omega)).1]; decide),
      ufs_OpenItem_note_idle _ _ _ _ (h countSegment (Nat.le_refl _) (by omega)).2]
    exact ih (countSegment + 1) (fun g hg1 hg2 => h g (by omega) (by omega))

theorem ufs_OpenItem_sectors_idle (ufs : UFS) (fl : Flash) (st : ScanState)
    (hloc : st.item.location.sector_id = 0xFFFF) (n : Nat) : ∀ (countSector : Nat),
    (∀ s, countSector ≤ s → s < countSector + n →
      ∀ g, g < u16 (ufs.conf.api.u16numberByteOfSector / sizeof_ItemInfo) →
        itemMatches ufs st.item.info (readItemSector ufs fl s) g = false ∧
        readItemSector ufs fl s (g * sizeof_ItemInfo) ≠ UFS_ITEM_FREE) →
    ufs_OpenItem_sectors ufs fl n countSector st = st := by
  induction n with
  | zero => intro _ _; rfl
  | succ k ih =>
    intro countSector h
    have hseg := ufs_OpenItem_segments_idle ufs fl (readItemSector ufs fl countSector) countSector st
      (u16 (ufs.conf.api.u16numberByteOfSector / sizeof_ItemInfo)) 0
      (fun g _ hg => h countSector (Nat.le_refl _) (by omega) g (by omega))
    unfold ufs_OpenItem_sectors
    rw [hseg, if_neg (by rw [hloc]; decide)]
    exact ih (countSector + 1) (fun s hs1 hs2 => h s (by omega) (by omega))

/-- C15: whatever the handle held and for every name, if no slot of the item zone
matches the parsed name under the current path id (the test of the scan of
`ufs_OpenItem`) and no slot has a decoded first byte `0x00`, then `ufs_OpenItem`
returns `UFS_NOT_OK` with `err = UFS_ERROR_FULL_FILE` and leaves the flash and
the `UFS` object as they were. -/
theorem ufs_OpenItem_full_item_zone (fuel : Nat) (ufs : UFS) (fl : Flash) (name_file : List Nat)
    (item : ufs_Item_Type)
    (h : ∀ s, s < ((ufs.ClusterMappingZoneFirstSector : Int) - (ufs.ItemZoneFirstSector : Int)).toNat →
      ∀ g, g < u16 (ufs.conf.api.u16numberByteOfSector / sizeof_ItemInfo) →
        itemMatches ufs (ufs_ParseNameFile name_file item.info) (readItemSector ufs fl s) g = false ∧
        readItemSector ufs fl s (g * sizeof_ItemInfo) ≠ UFS_ITEM_FREE) :
    ∃ r, ufs_OpenItem fuel ufs fl name_file item = some r ∧ r.ret = UFS_NOT_OK ∧
      r.item.err = UFS_ERROR_FULL_FILE ∧ r.fl = fl ∧ r.ufs = ufs := by
  have hscan : ufs_OpenItem_scan ufs fl name_file item =
      { item := ((((item.withLocation 0xFFFF item.location.position).withStatus UFS_ITEM_FREE).withUfs
          false).withInfo (ufs_ParseNameFile name_file item.info))
        slotItem := { sector_id := 0xFFFF, position := 0xFFFF } } := by
    unfold ufs_OpenItem_scan
    exact ufs_OpenItem_sectors_idle ufs fl _ rfl _ 0 (fun s _ hs g hg => h s (by omega) g hg)
  refine ⟨ItemResult.mk ufs fl
    (((((item.withLocation 0xFFFF item.location.position).withStatus UFS_ITEM_FREE).withUfs
      false).withInfo (ufs_ParseNameFile name_file item.info)).withErr UFS_ERROR_FULL_FILE)
    UFS_NOT_OK, ?_, rfl, rfl, rfl, rfl⟩
  unfold ufs_OpenItem ufs_OpenItem_act
  rw [hscan, if_neg (fun hh => hh.2 rfl), if_pos ⟨rfl, rfl⟩]

set_option maxRecDepth 100000 in
/-- Witness of `ufs_OpenItem_full_item_zone`: on the small device whose six item
slots all have a non-zero first byte and none of which is named `test.txt`,
opening `test.txt` fails with `UFS_ERROR_FULL_FILE` and writes nothing. -/
theorem ufs_OpenItem_full_item_zone_witness :
    ∃ r, ufs_OpenItem 64 demoMount.ufs (fullItemZone demoMount.fl) nameTest blankItem = some r ∧
      r.ret = UFS_NOT_OK ∧ r.item.err = UFS_ERROR_FULL_FILE ∧
      r.fl = fullItemZone demoMount.fl ∧ r.ufs = demoMount.ufs :=
  ufs_OpenItem_full_item_zone 64 demoMount.ufs (fullItemZone demoMount.fl) nameTest blankItem
    (by decide!)

/-! ## C16, C17: `ufs_RenameItem` -/

set_option maxRecDepth 100000 in
/-- C16 (defect of the code): the scan of `ufs_RenameItem` compares head,
extension and length but not the parent.  On the small device, `x.txt` exists in
the folder `/a` (parent 1) only, and `test.txt` is in the root folder (parent 0,
the current path id); renaming `test.txt` to `x.txt` returns `UFS_NOT_OK` with
`err = UFS_ERROR_EXISTED`, although no record with parent 0 is named `x.txt`
(`ufs_OpenItem` finds none under the same path id). -/
theorem ufs_RenameItem_ignores_parent :
    (fileInA.map fun r => (r.ret, info_parent r.item.info)) = some (UFS_OK, 1) ∧
    (fileAtRoot.map fun r => (r.ret, r.ufs.path_id, info_parent r.item.info)) =
      some (UFS_OK, 0, 0) ∧
    (fileAtRoot.map fun r =>
        (ufs_OpenItem_scan r.ufs r.fl nameXtxt blankItem).item.location.sector_id) =
      some 0xFFFF ∧
    (renamedAtRoot.map fun r => (r.ret, r.item.err)) = some (UFS_NOT_OK, UFS_ERROR_EXISTED) := by
  decide!

set_option maxRecDepth 100000 in
/-- C17 (defect of the code): `ufs_RenameItem` parses the new name twice, and the
first parse has cut the string at its first dot.  Renaming `test.txt` to `b.txt`
returns `UFS_OK`, and the record then stored at the location of the handle has
head `b`, length 1 and the extension `00 00 00`: the file has become a folder.
Parsing `b.txt` once gives the extension `txt`. -/
theorem ufs_RenameItem_drops_extension :
    (renamedFile.map fun r =>
        (r.ret,
          bufList (itemRecord r.ufs r.fl (r.item.location.sector_id, r.item.location.position))
            20)) =
      some (UFS_OK, [0x62, 0, 0, 0, 0, 0, 0, 0, 0, 0, 0, 0, 0, 0, 0, 0, 0, 0, 0, 1]) ∧
    bufList (ufs_ParseNameFile nameBtxt (fun _ => 0)) 20 =
      [0x62, 0, 0, 0, 0, 0, 0, 0, 0, 0, 0, 0, 0, 0, 0, 0, 0x74, 0x78, 0x74, 1] ∧
    ufs_ParseNameFile_string nameBtxt = [0x62] := by
  decide!

/-! ## C19: `ufs_Mount` -/

set_option maxRecDepth 100000 in
/-- On the freshly formatted small device `ufs_Mount("/a/b/c")` returns `UFS_OK`,
the three folders are stored in the slots of item ids 1, 3 and 5 with parents 0,
1 and 3, empty extension and size 0, the current path id is 5; after
`ufs_Mount("/a/b")` the path id is 3 and `ufs_GetListItem` returns one record,
the one named `c`. -/
theorem ufs_Mount_creates_folder_chain :
    mountedABC.2.2 = UFS_OK ∧ mountedABC.1.path_id = 5 ∧
    ((itemSlots mountedABC.1).map fun slot =>
        bufList (itemRecord mountedABC.1 mountedABC.2.1 slot) 32) =
      [[0x2F, 0, 0, 0, 0, 0, 0, 0, 0, 0, 0, 0, 0, 0, 0, 0, 0, 0, 0, 0, 0, 0, 0, 0, 0, 0, 0, 0, 0, 0, 0, 0],
       [0x61, 0, 0, 0, 0, 0, 0, 0, 0, 0, 0, 0, 0, 0, 0, 0, 0, 0, 0, 1, 0, 0, 0, 0, 0, 0, 0, 0, 0, 0, 0, 0],
       [0x2F, 0, 0, 0, 0, 0, 0, 0, 0, 0, 0, 0, 0, 0, 0, 0, 0, 0, 0, 0, 0, 0, 0, 0, 0, 0, 0, 0, 0, 0, 0, 0],
       [0x62, 0, 0, 0, 0, 0, 0, 0, 0, 0, 0, 0, 0, 0, 0, 0, 0, 0, 0, 1, 0, 0, 0, 0, 1, 0, 0, 0, 0, 0, 0, 0],
       [0x2F, 0, 0, 0, 0, 0, 0, 0, 0, 0, 0, 0, 0, 0, 0, 0, 0, 0, 0, 0, 0, 0, 0, 0, 0, 0, 0, 0, 0, 0, 0, 0],
       [0x63, 0, 0, 0, 0, 0, 0, 0, 0, 0, 0, 0, 0, 0, 0, 0, 0, 0, 0, 1, 0, 0, 0, 0, 3, 0, 0, 0, 0, 0, 0, 0]] ∧
    mountedAB.2.2 = UFS_OK ∧ mountedAB.1.path_id = 3 ∧
    (ufs_GetListItem mountedAB.1 mountedAB.2.1 10).2 = 1 ∧
    ((ufs_GetListItem mountedAB.1 mountedAB.2.1 10).1.map fun b => bufList b 20) =
      [[0x63, 0, 0, 0, 0, 0, 0, 0, 0, 0, 0, 0, 0, 0, 0, 0, 0, 0, 0, 1]] := by
  decide!

set_option maxRecDepth 100000 in
/-- C19 (defect of the code): `ufs_ParseNameFile` copies `strlen(name)` bytes
into the 16 bytes of `head`, so a component of 17 letters runs over into the
extension.  On the freshly formatted small device, `ufs_Mount` of the path whose
only component is sixteen `a` and a `q` returns `UFS_OK`, and the record stored
for it (item id 1) has the extension `q`, which makes it a file, and the length
17; its name is not the component. -/
theorem ufs_Mount_long_component :
    ufs_ParsePath pathLong MAX_PATH_PARTS = some [List.replicate 16 0x61 ++ [0x71]] ∧
    mountedLong.2.2 = UFS_OK ∧ mountedLong.1.path_id = 1 ∧
    bufList (itemRecord mountedLong.1 mountedLong.2.1 (0, 1)) 20 =
      [0x61, 0x61, 0x61, 0x61, 0x61, 0x61, 0x61, 0x61, 0x61, 0x61, 0x61, 0x61, 0x61, 0x61, 0x61,
       0x61, 0x71, 0, 0, 17] := by
  decide!

/-! ## C14: `ufs_WriteAppendFile` -/

set_option maxRecDepth 100000 in
/-- C14 (defect of the code): for a file of size 0 `ufs_WriteAppendFile` computes
`current_cluster_count = 1`, although the file owns the cluster that
`ufs_OpenItem` assigned, so the allocation overwrites `clusters.value[0]` and the
link is written from `clusters.value[-1]`.  On the small device, 8 bytes are
appended to `test.txt` just created (first cluster 1): the call returns `UFS_OK`
and the persisted size is 8, but the bytes are stored in cluster 2 (sector 22)
while the record keeps the first cluster 1, whose map slot still reads
`UFS_CLUSTER_END`; when the file is opened again with a zeroed handle the chain
is cluster 1 alone and `ufs_ReadFile(0, 8)` returns eight `0xFF` bytes, not the
data.  The same append to the file holding 10 bytes reads back the 18 bytes. -/
theorem ufs_WriteAppendFile_empty_file :
    (demoCreated.map fun r => (info_size r.item.info, r.item.clusters_value 0)) = some (0, 1) ∧
    (appendToEmpty.map fun r =>
        (r.ret, info_size r.item.info, info_first_sector_id r.item.info,
          info_first_position r.item.info, r.item.clusters_value 0)) =
      some (UFS_OK, 8, 0, 1, 2) ∧
    (appendToEmpty.map fun r => (bufList (r.fl 22) 8, bufList (r.fl 19) 8, mapSlot r.ufs r.fl 1)) =
      some (bufList demoData 8, [0xFF, 0xFF, 0xFF, 0xFF, 0xFF, 0xFF, 0xFF, 0xFF],
        UFS_CLUSTER_END) ∧
    (appendReopened.map fun r =>
        (r.ret, info_size r.item.info, r.item.clusters_value 0, r.item.clusters_value 1,
          (ufs_ReadFile r.ufs r.fl r.item 0 (fun _ => 0) 8).2.2,
          bufList (ufs_ReadFile r.ufs r.fl r.item 0 (fun _ => 0) 8).2.1 8)) =
      some (UFS_OK, 8, 1, UFS_CLUSTER_END, 8, [0xFF, 0xFF, 0xFF, 0xFF, 0xFF, 0xFF, 0xFF, 0xFF]) ∧
    (appendToTen.map fun r =>
        (r.ret, info_size r.item.info,
          bufList (ufs_ReadFile r.ufs r.fl r.item 0 (fun _ => 0) 18).2.1 18)) =
      some (UFS_OK, 18, bufList demoData 18) := by
  refine ⟨?_, ?_, ?_, ?_, ?_⟩ <;> decide!

/-! ## C11: the payload encoding -/

theorem ufs_WriteFile_fill_range (ufs : UFS) (file : ufs_Item_Type) (data : Buf) (length : Nat)
    (hL : length < 4294967296) :
    ∀ (n : Nat) (buf : Buf) (bw : Nat), bw ≤ length →
      ((List.range n).foldl (ufs_WriteFile_fillStep ufs file data length) (buf, bw)).2 =
          min (bw + n) length ∧
        ∀ j, ((List.range n).foldl (ufs_WriteFile_fillStep ufs file data length) (buf, bw)).1 j =
          if j < n then storedByte ufs file data length (bw + j) else buf j := by
  intro n
  induction n with
  | zero =>
    intro buf bw h
    refine ⟨?_, fun j => ?_⟩
    · show bw = min (bw + 0) length
      omega
    · show buf j = if j < 0 then _ else buf j
      rw [if_neg (Nat.not_lt_zero j)]
  | succ n ih =>
    intro buf bw h
    obtain ⟨h2, h1⟩ := ih buf bw h
    rw [List.range_succ, List.foldl_append]
    show (ufs_WriteFile_fillStep ufs file data length
        ((List.range n).foldl (ufs_WriteFile_fillStep ufs file data length) (buf, bw)) n).2 = _ ∧
      ∀ j, (ufs_WriteFile_fillStep ufs file data length
        ((List.range n).foldl (ufs_WriteFile_fillStep ufs file data length) (buf, bw)) n).1 j = _
    generalize (List.range n).foldl (ufs_WriteFile_fillStep ufs file data length) (buf, bw) = st
      at h1 h2
    unfold ufs_WriteFile_fillStep
    by_cases hw : st.2 < length
    · rw [if_pos hw]
      have hst : st.2 = bw + n := by omega
      refine ⟨?_, fun j => ?_⟩
      · show u32 (st.2 + 1) = _
        unfold u32; omega
      · show setByte st.1 n (payloadCodec ufs file (data st.2)) j = _
        unfold setByte
        by_cases hj : j = n
        · rw [if_pos hj, if_pos (by omega), hj, hst]
          unfold storedByte
          rw [if_pos (by omega)]
        · rw [if_neg hj, h1 j]
          by_cases hjn : j < n
          · rw [if_pos hjn, if_pos (by omega)]
          · rw [if_neg hjn, if_neg (by omega)]
    · rw [if_neg hw]
      refine ⟨?_, fun j => ?_⟩
      · show st.2 = _
        omega
      · show setByte st.1 n UFS_BYTE_VALUE_AFTER_ERASE j = _
        unfold setByte
        by_cases hj : j = n
        · rw [if_pos hj, if_pos (by omega), hj]
          unfold storedByte
          rw [if_neg (by omega)]
        · rw [if_neg hj, h1 j]
          by_cases hjn : j < n
          · rw [if_pos hjn, if_pos (by omega)]
          · rw [if_neg hjn, if_neg (by omega)]

theorem ufs_WriteFile_fill_spec (ufs : UFS) (file : ufs_Item_Type) (data : Buf) (length : Nat)
    (hL : length < 4294967296) (buf : Buf) (bw : Nat) (h : bw ≤ length) :
    (ufs_WriteFile_fill ufs file data length buf bw).2 =
        min (bw + ufs.conf.api.u16numberByteOfSector) length ∧
      ∀ j, j < ufs.conf.api.u16numberByteOfSector →
        (ufs_WriteFile_fill ufs file data length buf bw).1 j =
          storedByte ufs file data length (bw + j) := by
  unfold ufs_WriteFile_fill
  obtain ⟨h2, h1⟩ := ufs_WriteFile_fill_range ufs file data length hL
    ufs.conf.api.u16numberByteOfSector buf bw h
  refine ⟨h2, fun j hj => ?_⟩
  rw [h1 j, if_pos hj]

theorem fileSector_cluster (ufs : UFS) (file : ufs_Item_Type) (ci s : Nat)
    (hs : s < ufs.NumberSectorOfCluster) :
    fileSector ufs file (s + ci * ufs.NumberSectorOfCluster) = dataSector ufs file ci s := by
  unfold fileSector
  rw [Nat.add_mul_div_right _ _ (by omega), Nat.add_mul_mod_self_right, Nat.div_eq_of_lt hs,
    Nat.mod_eq_of_lt hs, Nat.zero_add]

theorem ufs_WriteFile_sector_spec (ufs : UFS) (file : ufs_Item_Type) (data : Buf)
    (length sumEnable : Nat) (hL : length < 4294967296)
    (hb : ∀ q, storedByte ufs file data length q < 256)
    (ci s : Nat) (st : WriteState) (hbw : st.bytes_written ≤ length)
    (her : ∀ j, j < ufs.conf.api.u16numberByteOfSector →
      st.fl (dataSector ufs file ci s) j = UFS_BYTE_VALUE_AFTER_ERASE) :
    (ufs_WriteFile_sector ufs file data length sumEnable ci s st).bytes_written =
        min (st.bytes_written + ufs.conf.api.u16numberByteOfSector) length ∧
      (∀ j, j < ufs.conf.api.u16numberByteOfSector →
        (ufs_WriteFile_sector ufs file data length sumEnable ci s st).fl (dataSector ufs file ci s) j
          = storedByte ufs file data length (st.bytes_written + j)) ∧
      (∀ sec j, sec ≠ dataSector ufs file ci s →
        (ufs_WriteFile_sector ufs file data length sumEnable ci s st).fl sec j = st.fl sec j) ∧
      ufs_WriteFile_mismatch ufs file data length sumEnable ci s st = false := by
  obtain ⟨h2, h1⟩ := ufs_WriteFile_fill_spec ufs file data length hL st.sector_buffer
    st.bytes_written hbw
  have hw : ∀ j, j < ufs.conf.api.u16numberByteOfSector →
      WriteSector st.fl (dataSector ufs file ci s)
        (ufs_WriteFile_fill ufs file data length st.sector_buffer st.bytes_written).1
        ufs.conf.api.u16numberByteOfSector (dataSector ufs file ci s) j =
      (ufs_WriteFile_fill ufs file data length st.sector_buffer st.bytes_written).1 j := by
    intro j hj
    rw [WriteSector_same _ _ _ _ _ hj, her j hj]
    exact and_255 _ (by rw [h1 j hj]; exact hb _)
  refine ⟨h2, fun j hj => ?_, fun sec j hsec => ?_, ?_⟩
  · show WriteSector _ _ _ _ _ _ = _
    rw [hw j hj, h1 j hj]
  · show WriteSector _ _ _ _ _ _ = _
    rw [WriteSector_other _ _ _ _ _ _ hsec]
  · unfold ufs_WriteFile_mismatch
    by_cases hsum : sumEnable = CHECKSUM_ENABLE
    · have hc : ufs_CheckSum
          (ufs_WriteFile_sector ufs file data length sumEnable ci s st).sector_buffer
          ufs.conf.api.u16numberByteOfSector =
          ufs_CheckSum (ufs_WriteFile_fill ufs file data length st.sector_buffer st.bytes_written).1
            ufs.conf.api.u16numberByteOfSector := by
        apply ufs_CheckSum_congr
        intro j hj
        unfold ufs_WriteFile_sector
        show (if sumEnable = CHECKSUM_ENABLE then ReadSector _ _ _ _ else _ : Buf) j = _
        rw [if_pos hsum, ReadSector_lt _ _ _ _ _ hj, hw j hj]
      rw [hc]
      simp
    · have : (sumEnable == CHECKSUM_ENABLE) = false := by simpa using hsum
      rw [this]
      rfl

theorem writtenUpTo_sector (ufs : UFS) (file : ufs_Item_Type) (data : Buf)
    (length sumEnable K : Nat) (hL : length < 4294967296)
    (hb : ∀ q, storedByte ufs file data length q < 256)
    (hdist : ∀ t u, t < K * ufs.NumberSectorOfCluster → u < K * ufs.NumberSectorOfCluster →
      fileSector ufs file t = fileSector ufs file u → t = u)
    (ci s : Nat) (st : WriteState) (hs : s < ufs.NumberSectorOfCluster)
    (ht : s + ci * ufs.NumberSectorOfCluster < K * ufs.NumberSectorOfCluster)
    (hbw : st.bytes_written =
      (s + ci * ufs.NumberSectorOfCluster) * ufs.conf.api.u16numberByteOfSector)
    (hlt : (s + ci * ufs.NumberSectorOfCluster) * ufs.conf.api.u16numberByteOfSector < length)
    (hinv : writtenUpTo ufs file data length K (s + ci * ufs.NumberSectorOfCluster) st.fl) :
    (ufs_WriteFile_sector ufs file data length sumEnable ci s st).bytes_written =
        min ((s + ci * ufs.NumberSectorOfCluster + 1) * ufs.conf.api.u16numberByteOfSector) length ∧
      writtenUpTo ufs file data length K (s + ci * ufs.NumberSectorOfCluster + 1)
        (ufs_WriteFile_sector ufs file data length sumEnable ci s st).fl ∧
      ufs_WriteFile_mismatch ufs file data length sumEnable ci s st = false := by
  have hfs := fileSector_cluster ufs file ci s hs
  obtain ⟨h1, h2, h3, h4⟩ := ufs_WriteFile_sector_spec ufs file data length sumEnable hL hb ci s st
    (by omega) (fun j hj => by rw [← hfs]; exact hinv.2 _ j (Nat.le_refl _) ht hj)
  refine ⟨?_, ⟨fun t j htl hj => ?_, fun t j htl htK hj => ?_⟩, h4⟩
  · rw [h1, hbw, Nat.add_one_mul]
  · by_cases hteq : t = s + ci * ufs.NumberSectorOfCluster
    · rw [hteq, hfs, h2 j hj, hbw]
    · have hne : fileSector ufs file t ≠ dataSector ufs file ci s := by
        rw [← hfs]
        intro heq
        exact hteq (hdist _ _ (by omega) ht heq)
      rw [h3 _ j hne]
      exact hinv.1 t j (by omega) hj
  · have hne : fileSector ufs file t ≠ dataSector ufs file ci s := by
      rw [← hfs]
      intro heq
      have := hdist _ _ htK ht heq
      omega
    rw [h3 _ j hne]
    exact hinv.2 t j (by omega) htK hj

theorem ufs_WriteFile_sectors_spec (ufs : UFS) (file : ufs_Item_Type) (data : Buf)
    (length sumEnable K ci : Nat) (hL : length < 4294967296)
    (hb : ∀ q, storedByte ufs file data length q < 256)
    (hdist : ∀ t u, t < K * ufs.NumberSectorOfCluster → u < K * ufs.NumberSectorOfCluster →
      fileSector ufs file t = fileSector ufs file u → t = u)
    (hci : ci < K) :
    ∀ (n s : Nat) (st : WriteState), s + n = ufs.NumberSectorOfCluster →
      st.bytes_written =
        (s + ci * ufs.NumberSectorOfCluster) * ufs.conf.api.u16numberByteOfSector →
      (s + ci * ufs.NumberSectorOfCluster) * ufs.conf.api.u16numberByteOfSector < length →
      writtenUpTo ufs file data length K (s + ci * ufs.NumberSectorOfCluster) st.fl →
      ((ufs_WriteFile_sectors ufs file data length sumEnable ci n s st).2 = 1 ∧
        (ufs_WriteFile_sectors ufs file data length sumEnable ci n s st).1.bytes_written = length ∧
        ∃ m, length ≤ m * ufs.conf.api.u16numberByteOfSector ∧
          writtenUpTo ufs file data length K m
            (ufs_WriteFile_sectors ufs file data length sumEnable ci n s st).1.fl) ∨
      ((ufs_WriteFile_sectors ufs file data length sumEnable ci n s st).2 = 0 ∧
        (ufs_WriteFile_sectors ufs file data length sumEnable ci n s st).1.bytes_written =
          (0 + (ci + 1) * ufs.NumberSectorOfCluster) * ufs.conf.api.u16numberByteOfSector ∧
        (0 + (ci + 1) * ufs.NumberSectorOfCluster) * ufs.conf.api.u16numberByteOfSector < length ∧
        writtenUpTo ufs file data length K (0 + (ci + 1) * ufs.NumberSectorOfCluster)
          (ufs_WriteFile_sectors ufs file data length sumEnable ci n s st).1.fl) := by
  have hK : (ci + 1) * ufs.NumberSectorOfCluster ≤ K * ufs.NumberSectorOfCluster :=
    Nat.mul_le_mul_right _ hci
  rw [Nat.add_one_mul] at hK
  intro n
  induction n with
  | zero =>
    intro s st hs hbw hlt hinv
    have hsN : s + ci * ufs.NumberSectorOfCluster =
        0 + (ci + 1) * ufs.NumberSectorOfCluster := by
      rw [Nat.add_one_mul]; omega
    rw [hsN] at hbw hlt hinv
    exact Or.inr ⟨rfl, hbw, hlt, hinv⟩
  | succ n ih =>
    intro s st hs hbw hlt hinv
    obtain ⟨h1, h2, h3⟩ := writtenUpTo_sector ufs file data length sumEnable K hL hb hdist ci s st
      (by omega) (by omega) hbw hlt hinv
    rw [ufs_WriteFile_sectors, h3, if_neg (by decide)]
    by_cases hend :
        (ufs_WriteFile_sector ufs file data length sumEnable ci s st).bytes_written = length
    · rw [if_pos hend]
      exact Or.inl ⟨rfl, hend, _, by omega, h2⟩
    · rw [if_neg hend]
      have hidx : s + ci * ufs.NumberSectorOfCluster + 1 =
          s + 1 + ci * ufs.NumberSectorOfCluster := by omega
      rw [hidx] at h1 h2
      exact ih (s + 1) _ (by omega) (by omega) (by omega) h2

theorem ufs_WriteFile_clusters_spec (ufs : UFS) (file : ufs_Item_Type) (data : Buf)
    (length sumEnable K : Nat) (hL : length < 4294967296)
    (hb : ∀ q, storedByte ufs file data length q < 256)
    (hdist : ∀ t u, t < K * ufs.NumberSectorOfCluster → u < K * ufs.NumberSectorOfCluster →
      fileSector ufs file t = fileSector ufs file u → t = u)
    (hK : K + 1 < 65536)
    (hcap : length ≤ K * ufs.NumberSectorOfCluster * ufs.conf.api.u16numberByteOfSector) :
    ∀ (fuel ci : Nat) (st : WriteState), K < ci + fuel →
      st.bytes_written =
        (0 + ci * ufs.NumberSectorOfCluster) * ufs.conf.api.u16numberByteOfSector →
      (0 + ci * ufs.NumberSectorOfCluster) * ufs.conf.api.u16numberByteOfSector < length →
      writtenUpTo ufs file data length K (0 + ci * ufs.NumberSectorOfCluster) st.fl →
      ∃ st1 m, ufs_WriteFile_clusters ufs file data length sumEnable (K + 1) fuel ci st =
          some (st1, none) ∧
        st1.bytes_written = length ∧ length ≤ m * ufs.conf.api.u16numberByteOfSector ∧
        writtenUpTo ufs file data length K m st1.fl := by
  intro fuel
  induction fuel with
  | zero =>
    intro ci st hf hbw hlt hinv
    exfalso
    have h1 := Nat.mul_le_mul_right ufs.conf.api.u16numberByteOfSector
      (Nat.mul_le_mul_right ufs.NumberSectorOfCluster (show K ≤ ci by omega))
    rw [Nat.zero_add] at hlt
    omega
  | succ n ih =>
    intro ci st hf hbw hlt hinv
    have hci : ci < K := by
      apply Nat.lt_of_not_le
      intro hle
      have h1 := Nat.mul_le_mul_right ufs.conf.api.u16numberByteOfSector
        (Nat.mul_le_mul_right ufs.NumberSectorOfCluster hle)
      rw [Nat.zero_add] at hlt
      omega
    rw [ufs_WriteFile_clusters, if_pos (show ci < K + 1 by omega)]
    rcases ufs_WriteFile_sectors_spec ufs file data length sumEnable K ci hL hb hdist hci
        ufs.NumberSectorOfCluster 0 st (by omega) hbw hlt hinv with
      ⟨h1, h2, m, h3, h4⟩ | ⟨h1, h2, h3, h4⟩
    · rw [if_neg (by rw [h1]; decide), if_pos h2]
      exact ⟨_, m, rfl, h2, h3, h4⟩
    · rw [if_neg (by rw [h1]; decide), if_neg (by omega), u16_of_lt (ci + 1) (by omega)]
      exact ih (ci + 1) _ (by omega) h2 h3 h4

theorem ufs_WriteFile_data_spec (ufs : UFS) (fl : Flash) (file : ufs_Item_Type) (data : Buf)
    (length sumEnable K : Nat) (hL : length < 4294967296) (hlen : 0 < length)
    (hb : ∀ q, storedByte ufs file data length q < 256)
    (hdist : ∀ t u, t < K * ufs.NumberSectorOfCluster → u < K * ufs.NumberSectorOfCluster →
      fileSector ufs file t = fileSector ufs file u → t = u)
    (hK : K + 1 < 65536)
    (hcap : length ≤ K * ufs.NumberSectorOfCluster * ufs.conf.api.u16numberByteOfSector)
    (hinit : writtenUpTo ufs file data length K 0 fl) :
    ∃ fl1 m, ufs_WriteFile_data ufs fl file data length sumEnable (K + 1) =
        some (ufs_WriteFile_commit ufs fl1 file length) ∧
      length ≤ m * ufs.conf.api.u16numberByteOfSector ∧
      writtenUpTo ufs file data length K m fl1 := by
  obtain ⟨st1, m, h1, _, h3, h4⟩ := ufs_WriteFile_clusters_spec ufs file data length sumEnable K
    hL hb hdist hK hcap (K + 1 + 1) 0 { fl := fl, bytes_written := 0, sector_buffer := fun _ => 0 }
    (by omega) (by rw [Nat.zero_mul, Nat.zero_mul]) (by rw [Nat.zero_mul, Nat.zero_mul]; exact hlen)
    (by rw [Nat.zero_mul]; exact hinit)
  refine ⟨st1.fl, m, ?_, h3, h4⟩
  unfold ufs_WriteFile_data
  rw [h1]

theorem ufs_UpdateItemInfo_other (ufs : UFS) (fl : Flash) (item : ufs_Item_Type) (sec j : Nat)
    (h : sec ≠ u16 (ufs.ItemZoneFirstSector + item.location.sector_id)) :
    (ufs_UpdateItemInfo ufs fl item).1 sec j = fl sec j := by
  unfold ufs_UpdateItemInfo
  by_cases hc : item.err ≠ UFS_ERROR_NONE ∨ item.location.sector_id = 0xFFFF
  · rw [if_pos hc]
  · rw [if_neg hc]
    show writeItemRecord _ _ _ _ _ _ _ _ = _
    unfold writeItemRecord
    rw [WriteSector_other _ _ _ _ _ _ h, EraseSector_other _ _ _ _ h]

theorem payloadCodec_lt (ufs : UFS) (file : ufs_Item_Type) (d : Nat)
    (henc : file.EncodeEnable = UFS_ENCODE_ENABLE) : payloadCodec ufs file d < 256 := by
  unfold payloadCodec
  rw [if_pos henc]
  unfold u8
  omega

theorem payloadCodec_raw (ufs : UFS) (file : ufs_Item_Type) (d : Nat)
    (henc : file.EncodeEnable = UFS_ENCODE_ENABLE) (hd : d < 256) (hid : ufs.DeviceId 0 < 256) :
    payloadCodec ufs file d = d ^^^ (ufs.DeviceId 0 ||| 0xAA) := by
  unfold payloadCodec
  rw [if_pos henc]
  unfold u8
  exact Nat.mod_eq_of_lt (xor_lt_256 _ _ hd (Nat.or_lt_two_pow (n := 8) hid (by decide)))

theorem payloadCodec_twice (ufs : UFS) (file : ufs_Item_Type) (d : Nat)
    (henc : file.EncodeEnable = UFS_ENCODE_ENABLE) (hd : d < 256) (hid : ufs.DeviceId 0 < 256) :
    payloadCodec ufs file (payloadCodec ufs file d) = d := by
  have hk : ufs.DeviceId 0 ||| 0xAA < 256 := Nat.or_lt_two_pow (n := 8) hid (by decide)
  rw [payloadCodec_raw ufs file d henc hd hid,
    payloadCodec_raw ufs file _ henc (xor_lt_256 _ _ hd hk) hid, Nat.xor_assoc, Nat.xor_self,
    Nat.xor_zero]

theorem storedByte_lt (ufs : UFS) (file : ufs_Item_Type) (data : Buf) (length q : Nat)
    (henc : file.EncodeEnable = UFS_ENCODE_ENABLE) : storedByte ufs file data length q < 256 := by
  unfold storedByte
  by_cases h : q < length
  · rw [if_pos h]; exact payloadCodec_lt ufs file _ henc
  · rw [if_neg h]; decide

theorem ufs_ReadFile_bytes_spec (ufs : UFS) (file : ufs_Item_Type) (data : Buf) (length : Nat)
    (ds : Buf) (t : Nat) (hL : length < 4294967296) (hsize : info_size file.info = length)
    (henc : file.EncodeEnable = UFS_ENCODE_ENABLE) (hid : ufs.DeviceId 0 < 256)
    (hd : ∀ p, p < length → data p < 256)
    (hds : ∀ j, j < ufs.conf.api.u16numberByteOfSector →
      ds j = storedByte ufs file data length (t * ufs.conf.api.u16numberByteOfSector + j)) :
    ∀ (n j : Nat) (st : ReadState), j + n = ufs.conf.api.u16numberByteOfSector →
      st.bytes_read = t * ufs.conf.api.u16numberByteOfSector + j →
      t * ufs.conf.api.u16numberByteOfSector + j < length →
      (∀ p, p < t * ufs.conf.api.u16numberByteOfSector + j → st.data p = data p) →
      ((ufs_ReadFile_bytes ufs file ds length n j st).2 = true ∧
        (ufs_ReadFile_bytes ufs file ds length n j st).1.bytes_read = length ∧
        ∀ p, p < length → (ufs_ReadFile_bytes ufs file ds length n j st).1.data p = data p) ∨
      ((ufs_ReadFile_bytes ufs file ds length n j st).2 = false ∧
        (ufs_ReadFile_bytes ufs file ds length n j st).1.bytes_read =
          (t + 1) * ufs.conf.api.u16numberByteOfSector ∧
        (t + 1) * ufs.conf.api.u16numberByteOfSector < length ∧
        ∀ p, p < (t + 1) * ufs.conf.api.u16numberByteOfSector →
          (ufs_ReadFile_bytes ufs file ds length n j st).1.data p = data p) := by
  intro n
  induction n with
  | zero =>
    intro j st hj hbr hlt hpre
    have hS : t * ufs.conf.api.u16numberByteOfSector + j =
        (t + 1) * ufs.conf.api.u16numberByteOfSector := by
      rw [Nat.add_one_mul]; omega
    rw [hS] at hbr hlt hpre
    exact Or.inr ⟨rfl, hbr, hlt, hpre⟩
  | succ n ih =>
    intro j st hj hbr hlt hpre
    have hb1 : (ufs_ReadFile_store ufs file (ds j) st).bytes_read =
        t * ufs.conf.api.u16numberByteOfSector + (j + 1) := by
      show u32 (st.bytes_read + 1) = _
      unfold u32; omega
    have hd1 : ∀ p, p < t * ufs.conf.api.u16numberByteOfSector + (j + 1) →
        (ufs_ReadFile_store ufs file (ds j) st).data p = data p := by
      intro p hp
      show setByte st.data st.bytes_read (payloadCodec ufs file (ds j)) p = _
      unfold setByte
      by_cases hpe : p = st.bytes_read
      · rw [if_pos hpe, hds j (by omega)]
        unfold storedByte
        rw [if_pos hlt, payloadCodec_twice ufs file _ henc (hd _ hlt) hid, hpe, hbr]
      · rw [if_neg hpe]
        exact hpre p (by omega)
    rw [ufs_ReadFile_bytes]
    by_cases hend : t * ufs.conf.api.u16numberByteOfSector + (j + 1) = length
    · rw [if_pos (Or.inl (hb1.trans hend))]
      exact Or.inl ⟨rfl, hb1.trans hend, fun p hp => hd1 p (by omega)⟩
    · rw [if_neg (by rw [hb1, hsize]; omega)]
      exact ih (j + 1) _ (by omega) hb1 (by omega) hd1

theorem ufs_ReadFile_sectors_spec (ufs : UFS) (fl : Flash) (file : ufs_Item_Type) (data : Buf)
    (length ci : Nat) (hL : length < 4294967296) (hsize : info_size file.info = length)
    (henc : file.EncodeEnable = UFS_ENCODE_ENABLE) (hid : ufs.DeviceId 0 < 256)
    (hd : ∀ p, p < length → data p < 256)
    (hfl : ∀ t j, t * ufs.conf.api.u16numberByteOfSector < length →
      j < ufs.conf.api.u16numberByteOfSector →
      fl (fileSector ufs file t) j =
        storedByte ufs file data length (t * ufs.conf.api.u16numberByteOfSector + j)) :
    ∀ (n s : Nat) (st : ReadState), s + n = ufs.NumberSectorOfCluster →
      st.bytes_read =
        (s + ci * ufs.NumberSectorOfCluster) * ufs.conf.api.u16numberByteOfSector →
      (s + ci * ufs.NumberSectorOfCluster) * ufs.conf.api.u16numberByteOfSector < length →
      (∀ p, p < (s + ci * ufs.NumberSectorOfCluster) * ufs.conf.api.u16numberByteOfSector →
        st.data p = data p) →
      ((ufs_ReadFile_sectors ufs fl file length ci n s 0 st).2 = true ∧
        (ufs_ReadFile_sectors ufs fl file length ci n s 0 st).1.bytes_read = length ∧
        ∀ p, p < length → (ufs_ReadFile_sectors ufs fl file length ci n s 0 st).1.data p = data p) ∨
      ((ufs_ReadFile_sectors ufs fl file length ci n s 0 st).2 = false ∧
        (ufs_ReadFile_sectors ufs fl file length ci n s 0 st).1.bytes_read =
          (0 + (ci + 1) * ufs.NumberSectorOfCluster) * ufs.conf.api.u16numberByteOfSector ∧
        (0 + (ci + 1) * ufs.NumberSectorOfCluster) * ufs.conf.api.u16numberByteOfSector < length ∧
        ∀ p, p < (0 + (ci + 1) * ufs.NumberSectorOfCluster) * ufs.conf.api.u16numberByteOfSector →
          (ufs_ReadFile_sectors ufs fl file length ci n s 0 st).1.data p = data p) := by
  intro n
  induction n with
  | zero =>
    intro s st hs hbr hlt hpre
    have hsN : s + ci * ufs.NumberSectorOfCluster =
        0 + (ci + 1) * ufs.NumberSectorOfCluster := by
      rw [Nat.add_one_mul]; omega
    rw [hsN] at hbr hlt hpre
    exact Or.inr ⟨rfl, hbr, hlt, hpre⟩
  | succ n ih =>
    intro s st hs hbr hlt hpre
    have hfs := fileSector_cluster ufs file ci s (show s < ufs.NumberSectorOfCluster by omega)
    have hds : ∀ j, j < ufs.conf.api.u16numberByteOfSector →
        ReadSector fl (dataSector ufs file ci s) (fun _ => 0) ufs.conf.api.u16numberByteOfSector j =
          storedByte ufs file data length
            ((s + ci * ufs.NumberSectorOfCluster) * ufs.conf.api.u16numberByteOfSector + j) := by
      intro j hj
      rw [ReadSector_lt _ _ _ _ _ hj, ← hfs]
      exact hfl _ j hlt hj
    rw [ufs_ReadFile_sectors, Nat.sub_zero]
    rcases ufs_ReadFile_bytes_spec ufs file data length _ _ hL hsize henc hid hd hds
        ufs.conf.api.u16numberByteOfSector 0 st (by omega) (by omega) (by omega)
        (fun p hp => hpre p (by omega)) with ⟨h1, h2, h3⟩ | ⟨h1, h2, h3, h4⟩
    · rw [if_pos h1]
      exact Or.inl ⟨h1, h2, h3⟩
    · rw [if_neg (by rw [h1]; decide)]
      have hidx : s + ci * ufs.NumberSectorOfCluster + 1 =
          s + 1 + ci * ufs.NumberSectorOfCluster := by omega
      rw [hidx] at h2 h3 h4
      exact ih (s + 1) _ (by omega) h2 h3 h4

theorem ufs_ReadFile_clusters_spec (ufs : UFS) (fl : Flash) (file : ufs_Item_Type) (data : Buf)
    (length K : Nat) (hL : length < 4294967296) (hsize : info_size file.info = length)
    (henc : file.EncodeEnable = UFS_ENCODE_ENABLE) (hid : ufs.DeviceId 0 < 256)
    (hd : ∀ p, p < length → data p < 256)
    (hvec : file.clusters_length = K + 1)
    (hcap : length ≤ K * ufs.NumberSectorOfCluster * ufs.conf.api.u16numberByteOfSector)
    (hfl : ∀ t j, t * ufs.conf.api.u16numberByteOfSector < length →
      j < ufs.conf.api.u16numberByteOfSector →
      fl (fileSector ufs file t) j =
        storedByte ufs file data length (t * ufs.conf.api.u16numberByteOfSector + j)) :
    ∀ (fuel ci : Nat) (st : ReadState), K < ci + fuel →
      st.bytes_read =
        (0 + ci * ufs.NumberSectorOfCluster) * ufs.conf.api.u16numberByteOfSector →
      (0 + ci * ufs.NumberSectorOfCluster) * ufs.conf.api.u16numberByteOfSector < length →
      (∀ p, p < (0 + ci * ufs.NumberSectorOfCluster) * ufs.conf.api.u16numberByteOfSector →
        st.data p = data p) →
      (ufs_ReadFile_clusters ufs fl file length fuel ci 0 st).bytes_read = length ∧
        ∀ p, p < length → (ufs_ReadFile_clusters ufs fl file length fuel ci 0 st).data p = data p := by
  intro fuel
  induction fuel with
  | zero =>
    intro ci st hf hbr hlt hpre
    exfalso
    have h1 := Nat.mul_le_mul_right ufs.conf.api.u16numberByteOfSector
      (Nat.mul_le_mul_right ufs.NumberSectorOfCluster (show K ≤ ci by omega))
    rw [Nat.zero_add] at hlt
    omega
  | succ n ih =>
    intro ci st hf hbr hlt hpre
    have hci : ci < K := by
      apply Nat.lt_of_not_le
      intro hle
      have h1 := Nat.mul_le_mul_right ufs.conf.api.u16numberByteOfSector
        (Nat.mul_le_mul_right ufs.NumberSectorOfCluster hle)
      rw [Nat.zero_add] at hlt
      omega
    have hcl : ∀ st : ReadState, ufs_ReadFile_cluster ufs fl file length ci 0 st =
        ufs_ReadFile_sectors ufs fl file length ci ufs.NumberSectorOfCluster 0 0 st := by
      intro st
      unfold ufs_ReadFile_cluster
      rw [Nat.zero_div, Nat.zero_mod]
      rfl
    rw [ufs_ReadFile_clusters, if_pos ⟨by omega, by omega⟩, hcl]
    rcases ufs_ReadFile_sectors_spec ufs fl file data length ci hL hsize henc hid hd hfl
        ufs.NumberSectorOfCluster 0 st (by omega) hbr hlt hpre with ⟨h1, h2, h3⟩ | ⟨h1, h2, h3, h4⟩
    · rw [if_pos h1]
      exact ⟨h2, h3⟩
    · rw [if_neg (by rw [h1]; decide)]
      exact ih (ci + 1) _ (by omega) h2 h3 h4

theorem ufs_ReadFile_spec (ufs : UFS) (fl : Flash) (file : ufs_Item_Type) (data out : Buf)
    (length K : Nat) (hL : length < 4294967296) (hlen : 0 < length)
    (hufs : file.ufs = true) (herr : file.err = UFS_ERROR_NONE)
    (hstatus : file.status = UFS_FILE_EXIST)
    (hsize : info_size file.info = length)
    (henc : file.EncodeEnable = UFS_ENCODE_ENABLE) (hid : ufs.DeviceId 0 < 256)
    (hd : ∀ p, p < length → data p < 256)
    (hvec : file.clusters_length = K + 1)
    (hcap : length ≤ K * ufs.NumberSectorOfCluster * ufs.conf.api.u16numberByteOfSector)
    (hfl : ∀ t j, t * ufs.conf.api.u16numberByteOfSector < length →
      j < ufs.conf.api.u16numberByteOfSector →
      fl (fileSector ufs file t) j =
        storedByte ufs file data length (t * ufs.conf.api.u16numberByteOfSector + j)) :
    (ufs_ReadFile ufs fl file 0 out length).2.2 = length ∧
      ∀ p, p < length → (ufs_ReadFile ufs fl file 0 out length).2.1 p = data p := by
  unfold ufs_ReadFile
  rw [if_neg (by rw [hufs, herr]; simp), if_neg (by rw [hstatus]; simp), Nat.zero_div, Nat.zero_mod]
  exact ufs_ReadFile_clusters_spec ufs fl file data length K hL hsize henc hid hd hvec hcap hfl
    _ 0 _ (by omega) (by rw [Nat.zero_mul, Nat.zero_mul]) (by rw [Nat.zero_mul, Nat.zero_mul]; exact hlen)
    (fun p hp => by rw [Nat.zero_mul, Nat.zero_mul] at hp; omega)

theorem numberClusters_eq (ufs : UFS) (length : Nat) (hcs : 0 < clusterBytes ufs)
    (h : length + clusterBytes ufs < 4294967296) :
    numberClusters ufs length = (length + clusterBytes ufs - 1) / clusterBytes ufs + 1 := by
  unfold numberClusters u32
  generalize clusterBytes ufs = cs at hcs h
  have h1 : cs % 4294967296 = cs := Nat.mod_eq_of_lt (by omega)
  have h2 : (length + cs + 4294967295) % 4294967296 = length + cs - 1 := by omega
  rw [h1, h2]
  have hx : length + cs - 1 + 1 = length + cs := by omega
  generalize length + cs - 1 = x at hx
  have h3 : x / cs ≤ x := Nat.div_le_self _ _
  exact Nat.mod_eq_of_lt (by omega)

theorem numberClusters_cap (ufs : UFS) (length : Nat) (hcs : 0 < clusterBytes ufs)
    (h : length + clusterBytes ufs < 4294967296) :
    numberClusters ufs length - 1 + 1 = numberClusters ufs length ∧
      length ≤ (numberClusters ufs length - 1) * clusterBytes ufs := by
  rw [numberClusters_eq ufs length hcs h]
  generalize clusterBytes ufs = cs at hcs h
  have hx : length + cs - 1 + 1 = length + cs := by omega
  generalize length + cs - 1 = x at hx
  have h1 := Nat.div_add_mod x cs
  have h2 := Nat.mod_lt x hcs
  rw [Nat.mul_comm] at h1
  rw [Nat.add_sub_cancel]
  refine ⟨rfl, ?_⟩
  generalize x / cs * cs = y at h1
  omega

theorem info_size_commit (info : Buf) (length a b : Nat) (hL : length < 4294967296) :
    info_size (set_info_first_position (set_info_first_sector_id (set_info_size info length) a) b)
      = length := by
  unfold info_size set_info_first_position set_info_first_sector_id set_info_size rd32 wr16 wr32
  simp only [show (28 : Nat) + 1 = 29 from rfl, show (28 : Nat) + 2 = 30 from rfl,
    show (28 : Nat) + 3 = 31 from rfl, show (22 : Nat) + 1 = 23 from rfl,
    show (20 : Nat) + 1 = 21 from rfl]
  simp only [show ¬ (28 : Nat) = 22 by decide, show ¬ (28 : Nat) = 23 by decide,
    show ¬ (28 : Nat) = 20 by decide, show ¬ (28 : Nat) = 21 by decide,
    show ¬ (29 : Nat) = 22 by decide, show ¬ (29 : Nat) = 23 by decide,
    show ¬ (29 : Nat) = 20 by decide, show ¬ (29 : Nat) = 21 by decide,
    show ¬ (30 : Nat) = 22 by decide, show ¬ (30 : Nat) = 23 by decide,
    show ¬ (30 : Nat) = 20 by decide, show ¬ (30 : Nat) = 21 by decide,
    show ¬ (31 : Nat) = 22 by decide, show ¬ (31 : Nat) = 23 by decide,
    show ¬ (31 : Nat) = 20 by decide, show ¬ (31 : Nat) = 21 by decide,
    show ¬ (29 : Nat) = 28 by decide, show ¬ (30 : Nat) = 28 by decide,
    show ¬ (30 : Nat) = 29 by decide, show ¬ (31 : Nat) = 28 by decide,
    show ¬ (31 : Nat) = 29 by decide, show ¬ (31 : Nat) = 30 by decide, if_true, if_false]
  omega

theorem sameGeometry_refl (a : UFS) : sameGeometry a a := ⟨rfl, rfl, rfl, rfl, rfl, rfl⟩

theorem sameGeometry_trans {a b c : UFS} (h1 : sameGeometry a b) (h2 : sameGeometry b c) :
    sameGeometry a c :=
  ⟨h1.1.trans h2.1, h1.2.1.trans h2.2.1, h1.2.2.1.trans h2.2.2.1,
    h1.2.2.2.1.trans h2.2.2.2.1, h1.2.2.2.2.1.trans h2.2.2.2.2.1,
    h1.2.2.2.2.2.trans h2.2.2.2.2.2⟩

theorem ufs_CleanClusters_geometry (ufs : UFS) (fl : Flash) (clusters : Nat → Nat) (length : Nat) :
    sameGeometry (ufs_CleanClusters ufs fl clusters length).ufs ufs := by
  unfold ufs_CleanClusters
  by_cases h : length < 2
  · rw [if_pos h]; exact sameGeometry_refl ufs
  · rw [if_neg h]; exact ⟨rfl, rfl, rfl, rfl, rfl, rfl⟩

theorem ufs_OrderClusters_after_geometry (st : OrderState) (count_cluster : Nat)
    (r : SearchResult) : sameGeometry (ufs_OrderClusters_after st count_cluster r).ufs st.ufs := by
  unfold ufs_OrderClusters_after
  cases r.found with
  | none => exact ⟨rfl, rfl, rfl, rfl, rfl, rfl⟩
  | some countSegment => exact ⟨rfl, rfl, rfl, rfl, rfl, rfl⟩

theorem ufs_OrderClusters_alloc_geometry (fuel : Nat) :
    ∀ (n count_cluster : Nat) (st : OrderState) (res : OrderState × Bool),
      ufs_OrderClusters_alloc fuel n count_cluster st = some res →
      sameGeometry res.1.ufs st.ufs := by
  intro n
  induction n with
  | zero =>
    intro count_cluster st res h
    rw [ufs_OrderClusters_alloc] at h
    cases h
    exact sameGeometry_refl _
  | succ n ih =>
    intro count_cluster st res h
    rw [ufs_OrderClusters_alloc] at h
    cases hs : searchSector false st.ufs st.fl fuel fuel st.countSector st.data_sector with
    | none => rw [hs] at h; cases h
    | some r =>
      rw [hs] at h
      by_cases hc : (ufs_OrderClusters_after st count_cluster r).clusters count_cluster = 0xFFFF
      · simp only [hc, if_true] at h
        cases h
        exact ufs_OrderClusters_after_geometry st count_cluster r
      · simp only [hc, if_false] at h
        exact sameGeometry_trans (ih _ _ _ h) (ufs_OrderClusters_after_geometry st count_cluster r)

theorem ufs_OrderClusters_geometry (fuel : Nat) (ufs : UFS) (fl : Flash) (clusters : Nat → Nat)
    (length : Nat) (o : ClusterResult)
    (h : ufs_OrderClusters fuel ufs fl clusters length = some o) : sameGeometry o.ufs ufs := by
  unfold ufs_OrderClusters at h
  by_cases hl : length < 2
  · rw [if_pos hl] at h
    cases h
    exact sameGeometry_refl _
  · rw [if_neg hl] at h
    cases ha : ufs_OrderClusters_alloc fuel (length - 1) 0
        { ufs := ufs, fl := fl, clusters := clusters,
          countSector := ufs.latest_cluster.sector_id, data_sector := fun _ => 0 } with
    | none => rw [ha] at h; cases h
    | some res =>
      have hg := ufs_OrderClusters_alloc_geometry fuel _ _ _ _ ha
      rw [ha] at h
      obtain ⟨st, b⟩ := res
      cases b with
      | true => cases h; exact hg
      | false => cases h; exact hg

theorem fileSector_eq (ufs : UFS) (file : ufs_Item_Type) (K t : Nat)
    (hrange : ∀ i, i < K → ufs.ClusterDataZoneFirstSector +
      file.clusters_value i * ufs.NumberSectorOfCluster + ufs.NumberSectorOfCluster ≤ 65536)
    (ht : t < K * ufs.NumberSectorOfCluster) :
    t / ufs.NumberSectorOfCluster < K ∧ t % ufs.NumberSectorOfCluster < ufs.NumberSectorOfCluster ∧
      fileSector ufs file t = ufs.ClusterDataZoneFirstSector +
        file.clusters_value (t / ufs.NumberSectorOfCluster) * ufs.NumberSectorOfCluster +
        t % ufs.NumberSectorOfCluster := by
  have hN : 0 < ufs.NumberSectorOfCluster := by
    apply Nat.pos_of_ne_zero
    intro h0
    rw [h0, Nat.mul_zero] at ht
    omega
  have h1 : t / ufs.NumberSectorOfCluster < K := (Nat.div_lt_iff_lt_mul hN).2 ht
  have h2 := Nat.mod_lt t hN
  refine ⟨h1, h2, ?_⟩
  unfold fileSector dataSector
  have := hrange _ h1
  exact u16_of_lt _ (by omega)

theorem fileSector_inj (ufs : UFS) (file : ufs_Item_Type) (K : Nat)
    (hcl : ∀ i j, i < K → j < K → file.clusters_value i = file.clusters_value j → i = j)
    (hrange : ∀ i, i < K → ufs.ClusterDataZoneFirstSector +
      file.clusters_value i * ufs.NumberSectorOfCluster + ufs.NumberSectorOfCluster ≤ 65536)
    (t u : Nat) (ht : t < K * ufs.NumberSectorOfCluster) (hu : u < K * ufs.NumberSectorOfCluster)
    (heq : fileSector ufs file t = fileSector ufs file u) : t = u := by
  obtain ⟨h1, h2, h3⟩ := fileSector_eq ufs file K t hrange ht
  obtain ⟨g1, g2, g3⟩ := fileSector_eq ufs file K u hrange hu
  rw [h3, g3] at heq
  have hN : 0 < ufs.NumberSectorOfCluster := by omega
  have e1 : (t % ufs.NumberSectorOfCluster +
      file.clusters_value (t / ufs.NumberSectorOfCluster) * ufs.NumberSectorOfCluster) /
      ufs.NumberSectorOfCluster = file.clusters_value (t / ufs.NumberSectorOfCluster) := by
    rw [Nat.add_mul_div_right _ _ hN, Nat.div_eq_of_lt h2, Nat.zero_add]
  have e2 : (u % ufs.NumberSectorOfCluster +
      file.clusters_value (u / ufs.NumberSectorOfCluster) * ufs.NumberSectorOfCluster) /
      ufs.NumberSectorOfCluster = file.clusters_value (u / ufs.NumberSectorOfCluster) := by
    rw [Nat.add_mul_div_right _ _ hN, Nat.div_eq_of_lt g2, Nat.zero_add]
  have e3 : t % ufs.NumberSectorOfCluster +
      file.clusters_value (t / ufs.NumberSectorOfCluster) * ufs.NumberSectorOfCluster =
      u % ufs.NumberSectorOfCluster +
      file.clusters_value (u / ufs.NumberSectorOfCluster) * ufs.NumberSectorOfCluster := by omega
  have hc : file.clusters_value (t / ufs.NumberSectorOfCluster) =
      file.clusters_value (u / ufs.NumberSectorOfCluster) := by
    rw [← e1, ← e2, e3]
  have hq := hcl _ _ h1 g1 hc
  have hr : t % ufs.NumberSectorOfCluster = u % ufs.NumberSectorOfCluster := by
    rw [hc] at heq; omega
  rw [← Nat.div_add_mod t ufs.NumberSectorOfCluster, ← Nat.div_add_mod u ufs.NumberSectorOfCluster,
    hq, hr]

theorem ufs_WriteFile_data_round_trip (ufs : UFS) (fl : Flash) (file : ufs_Item_Type)
    (data out : Buf) (length sumEnable K : Nat)
    (hufs : file.ufs = true) (herr : file.err = UFS_ERROR_NONE)
    (hstatus : file.status = UFS_FILE_EXIST) (hloc : file.location.sector_id ≠ 0xFFFF)
    (henc : file.EncodeEnable = UFS_ENCODE_ENABLE) (hid : ufs.DeviceId 0 < 256)
    (hd : ∀ p, p < length → data p < 256)
    (hL : length < 4294967296) (hlen : 0 < length) (hK : K + 1 < 65536)
    (hvec : file.clusters_length = K + 1)
    (hcap : length ≤ K * ufs.NumberSectorOfCluster * ufs.conf.api.u16numberByteOfSector)
    (hcl : ∀ i j, i < K → j < K → file.clusters_value i = file.clusters_value j → i = j)
    (hrange : ∀ i, i < K → ufs.ClusterDataZoneFirstSector +
      file.clusters_value i * ufs.NumberSectorOfCluster + ufs.NumberSectorOfCluster ≤ 65536)
    (hitem : ufs.ItemZoneFirstSector + file.location.sector_id < ufs.ClusterDataZoneFirstSector)
    (herased : ∀ i s b, i < K → s < ufs.NumberSectorOfCluster →
      b < ufs.conf.api.u16numberByteOfSector →
      fl (ufs.ClusterDataZoneFirstSector + file.clusters_value i * ufs.NumberSectorOfCluster + s) b
        = UFS_BYTE_VALUE_AFTER_ERASE) :
    ∃ r, ufs_WriteFile_data ufs fl file data length sumEnable (K + 1) = some r ∧
      r.ret = UFS_OK ∧ r.ufs = ufs ∧ r.item.clusters_value = file.clusters_value ∧
      (∀ t j, t * ufs.conf.api.u16numberByteOfSector < length →
        j < ufs.conf.api.u16numberByteOfSector →
        r.fl (fileSector ufs file t) j =
          storedByte ufs file data length (t * ufs.conf.api.u16numberByteOfSector + j)) ∧
      (ufs_ReadFile r.ufs r.fl r.item 0 out length).2.2 = length ∧
      ∀ p, p < length → (ufs_ReadFile r.ufs r.fl r.item 0 out length).2.1 p = data p := by
  have hinit : writtenUpTo ufs file data length K 0 fl := by
    refine ⟨fun t j h _ => absurd h (Nat.not_lt_zero _), fun t j _ htK hj => ?_⟩
    obtain ⟨h1, h2, h3⟩ := fileSector_eq ufs file K t hrange htK
    rw [h3]
    exact herased _ _ _ h1 h2 hj
  obtain ⟨fl1, m, hdata, hm, hinv⟩ := ufs_WriteFile_data_spec ufs fl file data length sumEnable K
    hL hlen (fun q => storedByte_lt ufs file data length q henc)
    (fileSector_inj ufs file K hcl hrange) hK hcap hinit
  have hitemeq : (ufs_WriteFile_commit ufs fl1 file length).item =
      file.withInfo (set_info_first_position
        (set_info_first_sector_id (set_info_size file.info length)
          (file.clusters_value 0 / halfSector ufs))
        (file.clusters_value 0 % halfSector ufs)) := by
    unfold ufs_WriteFile_commit ufs_UpdateItemInfo
    show (if file.err ≠ UFS_ERROR_NONE ∨ file.location.sector_id = 0xFFFF then _ else _ :
      Flash × ufs_Item_Type × Nat).2.1 = _
    rw [if_neg (fun h => h.elim (fun h1 => h1 herr) (fun h2 => hloc h2))]
  have hfinal : ∀ t j, t * ufs.conf.api.u16numberByteOfSector < length →
      j < ufs.conf.api.u16numberByteOfSector →
      (ufs_WriteFile_commit ufs fl1 file length).fl (fileSector ufs file t) j =
        storedByte ufs file data length (t * ufs.conf.api.u16numberByteOfSector + j) := by
    intro t j ht hj
    have htm : t < m := by
      apply Nat.lt_of_not_le
      intro hle
      have := Nat.mul_le_mul_right ufs.conf.api.u16numberByteOfSector hle
      omega
    have htK : t < K * ufs.NumberSectorOfCluster := by
      apply Nat.lt_of_not_le
      intro hle
      have := Nat.mul_le_mul_right ufs.conf.api.u16numberByteOfSector hle
      omega
    obtain ⟨h1, h2, h3⟩ := fileSector_eq ufs file K t hrange htK
    have hr := hrange _ h1
    have hne : fileSector ufs file t ≠
        u16 (ufs.ItemZoneFirstSector + file.location.sector_id) := by
      rw [h3, u16_of_lt _ (by omega)]
      omega
    show (ufs_UpdateItemInfo ufs fl1 (file.withInfo _)).1 _ _ = _
    refine Eq.trans (ufs_UpdateItemInfo_other ufs fl1 _ _ j ?_) (hinv.1 t j htm hj)
    exact hne
  refine ⟨ufs_WriteFile_commit ufs fl1 file length, hdata, rfl, rfl, ?_, hfinal, ?_⟩
  · rw [hitemeq]; rfl
  · show (ufs_ReadFile ufs (ufs_WriteFile_commit ufs fl1 file length).fl
        (ufs_WriteFile_commit ufs fl1 file length).item 0 out length).2.2 = length ∧ _
    rw [hitemeq]
    exact ufs_ReadFile_spec ufs _ _ data out length K hL hlen hufs herr hstatus
      (info_size_commit file.info length _ _ hL) henc hid hd hvec hcap hfinal

theorem fileSector_congr (a b : UFS) (f g : ufs_Item_Type) (t : Nat)
    (h1 : a.ClusterDataZoneFirstSector = b.ClusterDataZoneFirstSector)
    (h2 : a.NumberSectorOfCluster = b.NumberSectorOfCluster)
    (h3 : f.clusters_value = g.clusters_value) : fileSector a f t = fileSector b g t := by
  unfold fileSector dataSector
  rw [h1, h2, h3]

theorem ufs_WriteFile_open (fuel : Nat) (ufs : UFS) (fl : Flash)
    (file : ufs_Item_Type) (data : Buf) (length sumEnable : Nat)
    (hufs : file.ufs = true) (herr : file.err = UFS_ERROR_NONE)
    (hstatus : file.status = UFS_FILE_EXIST) :
    ufs_WriteFile fuel ufs fl file data length sumEnable =
      ufs_WriteFile_alloc fuel (ufs_CleanClusters ufs fl file.clusters_value file.clusters_length)
        file data length sumEnable (numberClusters ufs length) := by
  unfold ufs_WriteFile
  rw [if_neg (fun h => h.elim (fun h1 => by rw [hufs] at h1; cases h1) (fun h2 => h2 herr)),
    if_neg (fun h => h hstatus)]

theorem ufs_WriteFile_alloc_ok (fuel : Nat) (c : CleanResult) (file : ufs_Item_Type) (data : Buf)
    (length sumEnable number_clusters : Nat) (o : ClusterResult)
    (ho : ufs_OrderClusters fuel c.ufs c.fl file.clusters_value (u16 number_clusters) = some o)
    (hret : o.ret = UFS_OK) :
    ufs_WriteFile_alloc fuel c file data length sumEnable number_clusters =
      ufs_WriteFile_data o.ufs o.fl (file.withClusters o.clusters (u16 number_clusters)) data
        length sumEnable number_clusters := by
  unfold ufs_WriteFile_alloc
  rw [ho]
  exact if_neg (fun h => h hret)

/-- C11 (amended): an encoded write stores `d XOR (DeviceId[0] | 0xAA)` when the
sectors it programs are erased.  For an open file handle with encoding enabled,
a device id byte and data bytes below 256 and a length above 0, let `o` be the
successful result of the allocation that `ufs_WriteFile` makes.  If the data
clusters of `o` are pairwise distinct, lie below sector 65536 and after the
sector of the item record, and all their bytes read `0xFF` in the flash that the
allocation leaves, then `ufs_WriteFile` returns `UFS_OK`, every data byte `d` at
position `p` is stored as `d ^^^ (DeviceId[0] ||| 0xAA)` in sector `p / Ssec` of
the file, the bytes after the data in the last sector are `0xFF`, and
`ufs_ReadFile` on the same handle returns `length` and the original bytes. -/
theorem ufs_WriteFile_encoded_round_trip (fuel : Nat) (ufs : UFS) (fl : Flash)
    (file : ufs_Item_Type) (data out : Buf) (length sumEnable : Nat) (o : ClusterResult)
    (hufs : file.ufs = true) (herr : file.err = UFS_ERROR_NONE)
    (hstatus : file.status = UFS_FILE_EXIST) (hloc : file.location.sector_id ≠ 0xFFFF)
    (henc : file.EncodeEnable = UFS_ENCODE_ENABLE) (hid : ufs.DeviceId 0 < 256)
    (hd : ∀ p, p < length → data p < 256)
    (hlen : 0 < length) (hcs : 0 < clusterBytes ufs)
    (hsize : length + clusterBytes ufs < 4294967296)
    (hnc : numberClusters ufs length < 65536)
    (ho : ufs_OrderClusters fuel
      (ufs_CleanClusters ufs fl file.clusters_value file.clusters_length).ufs
      (ufs_CleanClusters ufs fl file.clusters_value file.clusters_length).fl
      file.clusters_value (u16 (numberClusters ufs length)) = some o)
    (hret : o.ret = UFS_OK)
    (hcl : ∀ i, i < numberClusters ufs length - 1 → ∀ j, j < numberClusters ufs length - 1 →
      o.clusters i = o.clusters j → i = j)
    (hrange : ∀ i, i < numberClusters ufs length - 1 → ufs.ClusterDataZoneFirstSector +
      o.clusters i * ufs.NumberSectorOfCluster + ufs.NumberSectorOfCluster ≤ 65536)
    (hitem : ufs.ItemZoneFirstSector + file.location.sector_id < ufs.ClusterDataZoneFirstSector)
    (herased : ∀ i, i < numberClusters ufs length - 1 → ∀ s, s < ufs.NumberSectorOfCluster →
      ∀ b, b < ufs.conf.api.u16numberByteOfSector →
      o.fl (ufs.ClusterDataZoneFirstSector + o.clusters i * ufs.NumberSectorOfCluster + s) b
        = 0xFF) :
    ∃ r, ufs_WriteFile fuel ufs fl file data length sumEnable = some r ∧ r.ret = UFS_OK ∧
      (∀ p, p < length →
        r.fl (fileSector r.ufs r.item (p / ufs.conf.api.u16numberByteOfSector))
          (p % ufs.conf.api.u16numberByteOfSector) = data p ^^^ (ufs.DeviceId 0 ||| 0xAA)) ∧
      (∀ p, length ≤ p →
        p / ufs.conf.api.u16numberByteOfSector = (length - 1) / ufs.conf.api.u16numberByteOfSector →
        r.fl (fileSector r.ufs r.item (p / ufs.conf.api.u16numberByteOfSector))
          (p % ufs.conf.api.u16numberByteOfSector) = 0xFF) ∧
      (ufs_ReadFile r.ufs r.fl r.item 0 out length).2.2 = length ∧
      ∀ p, p < length → (ufs_ReadFile r.ufs r.fl r.item 0 out length).2.1 p = data p := by
  obtain ⟨hI, _, hD, hN, hDev, hconf⟩ := sameGeometry_trans
    (ufs_OrderClusters_geometry _ _ _ _ _ _ ho) (ufs_CleanClusters_geometry ufs fl _ _)
  obtain ⟨hnc1, hcapcs⟩ := numberClusters_cap ufs length hcs hsize
  have hS : 0 < ufs.conf.api.u16numberByteOfSector := by
    apply Nat.pos_of_ne_zero
    intro h0
    unfold clusterBytes at hcs
    rw [h0, Nat.zero_mul] at hcs
    omega
  have hwrite : ufs_WriteFile fuel ufs fl file data length sumEnable =
      ufs_WriteFile_data o.ufs o.fl
        (file.withClusters o.clusters (numberClusters ufs length - 1 + 1)) data length sumEnable
        (numberClusters ufs length - 1 + 1) := by
    rw [ufs_WriteFile_open fuel ufs fl file data length sumEnable hufs herr hstatus,
      ufs_WriteFile_alloc_ok fuel _ file data length sumEnable _ o ho hret, u16_of_lt _ hnc, hnc1]
  generalize numberClusters ufs length - 1 = K at hnc1 hcapcs hcl hrange herased hwrite
  have hcap : length ≤ K * o.ufs.NumberSectorOfCluster * o.ufs.conf.api.u16numberByteOfSector := by
    rw [hN, hconf, Nat.mul_assoc, Nat.mul_comm ufs.NumberSectorOfCluster]
    exact hcapcs
  obtain ⟨r, hr1, hr2, hr3, hr4, hr5, hr6, hr7⟩ := ufs_WriteFile_data_round_trip o.ufs o.fl
    (file.withClusters o.clusters (K + 1)) data out length sumEnable K hufs herr hstatus hloc henc
    (by rw [hDev]; exact hid) hd (by omega) hlen (by omega) rfl hcap
    (fun i j hi hj h => hcl i hi j hj h)
    (by rw [hD, hN]; exact hrange) (by rw [hI, hD]; exact hitem)
    (by rw [hD, hN, hconf]; exact fun i s b hi hs hb => herased i hi s hs b hb)
  rw [hconf] at hr5
  have hfs : ∀ t, fileSector r.ufs r.item t =
      fileSector o.ufs (file.withClusters o.clusters (K + 1)) t :=
    fun t => fileSector_congr _ _ _ _ t (by rw [hr3]) (by rw [hr3]) hr4
  refine ⟨r, hwrite.trans hr1, hr2, fun p hp => ?_, fun p hp hlast => ?_, hr6, hr7⟩
  · have hp1 := Nat.div_add_mod p ufs.conf.api.u16numberByteOfSector
    rw [Nat.mul_comm] at hp1
    rw [hfs, hr5 _ _ (by omega) (Nat.mod_lt _ hS), hp1]
    unfold storedByte
    rw [if_pos hp, payloadCodec_raw o.ufs (file.withClusters o.clusters (K + 1)) (data p) henc
      (hd p hp) (by rw [hDev]; exact hid), hDev]
  · have hp1 := Nat.div_add_mod p ufs.conf.api.u16numberByteOfSector
    have hp2 := Nat.div_add_mod (length - 1) ufs.conf.api.u16numberByteOfSector
    rw [Nat.mul_comm] at hp1 hp2
    rw [hfs, hr5 _ _ (by rw [hlast]; omega) (Nat.mod_lt _ hS), hp1]
    unfold storedByte
    rw [if_neg (by omega)]
    rfl

set_option maxRecDepth 100000 in
/-- Witness of `ufs_WriteFile_encoded_round_trip`, the scenario S2: on the
freshly formatted small device (`DeviceId[0] = 0x12`), `boot.bin` is created
with encoding enabled and eight bytes `0xAA` are written; the allocation returns
the erased cluster 2, the write returns `UFS_OK`, every raw byte is
`0xAA ^^^ (0x12 ||| 0xAA) = 0x10`, the padding is `0xFF` and the read returns
the eight bytes. -/
theorem ufs_WriteFile_encoded_round_trip_witness :
    (bootFile.item.EncodeEnable = UFS_ENCODE_ENABLE ∧ bootFile.ufs.DeviceId 0 = 0x12 ∧
      bootAlloc.ret = UFS_OK ∧ numberClusters bootFile.ufs 8 = 2 ∧ bootAlloc.clusters 0 = 2 ∧
      0xAA ^^^ (bootFile.ufs.DeviceId 0 ||| 0xAA) = 0x10) ∧
    ∃ r, ufs_WriteFile 64 bootFile.ufs bootFile.fl bootFile.item dataAA 8 CHECKSUM_DISABLE = some r ∧
      r.ret = UFS_OK ∧
      (∀ p, p < 8 →
        r.fl (fileSector r.ufs r.item (p / bootFile.ufs.conf.api.u16numberByteOfSector))
          (p % bootFile.ufs.conf.api.u16numberByteOfSector) =
          dataAA p ^^^ (bootFile.ufs.DeviceId 0 ||| 0xAA)) ∧
      (∀ p, 8 ≤ p →
        p / bootFile.ufs.conf.api.u16numberByteOfSector =
          (8 - 1) / bootFile.ufs.conf.api.u16numberByteOfSector →
        r.fl (fileSector r.ufs r.item (p / bootFile.ufs.conf.api.u16numberByteOfSector))
          (p % bootFile.ufs.conf.api.u16numberByteOfSector) = 0xFF) ∧
      (ufs_ReadFile r.ufs r.fl r.item 0 (fun _ => 0) 8).2.2 = 8 ∧
      ∀ p, p < 8 → (ufs_ReadFile r.ufs r.fl r.item 0 (fun _ => 0) 8).2.1 p = dataAA p :=
  ⟨by decide!,
    ufs_WriteFile_encoded_round_trip 64 bootFile.ufs bootFile.fl bootFile.item dataAA (fun _ => 0) 8
      CHECKSUM_DISABLE bootAlloc (by decide!) (by decide!) (by decide!) (by decide!) (by decide!)
      (by decide!) (by decide!) (by decide!) (by decide!) (by decide!) (by decide!)
      (eq_some_getD bootAllocCall _ (by decide!)) (by decide!) (by decide!) (by decide!)
      (by decide!) (by decide!)⟩

set_option maxRecDepth 100000 in
/-- C11, as stated, fails when the cluster written was used before: on the small
device a cluster is three sectors and a block two, so `ufs_OrderClusters` erases
nothing.  `test.txt` receives 8 bytes
and is deleted, the device is mounted again (not formatted), `boot.bin` is
created with encoding enabled (`DeviceId[0] = 0x12`) and eight bytes `0xAA` are
written without checksum.  The write returns `UFS_OK` into cluster 2 (sector 22),
the cluster that held `test.txt`; the raw bytes are `00 00 00 10 10 00 00 10`,
not `10` eight times, and `ufs_ReadFile` on the same handle returns
`BA BA BA AA AA BA BA AA`. -/
theorem ufs_WriteFile_encoded_on_used_cluster :
    (usedThenDeleted.map fun r =>
        ((newUFS demoCfg (blankUfs demoCfg) r.fl demoUid).formatted,
          (newUFS demoCfg (blankUfs demoCfg) r.fl demoUid).ufs.NumberSectorOfCluster,
          demoCfg.api.u16numberSectorOfBlock)) = some (false, 3, 2) ∧
    (bootOnUsed.map fun r => (r.ret, r.item.EncodeEnable, r.ufs.DeviceId 0)) =
      some (UFS_OK, UFS_ENCODE_ENABLE, 0x12) ∧
    (bootOnUsedWritten.map fun r =>
        (r.ret, r.item.clusters_value 0, fileSector r.ufs r.item 0,
          bufList (r.fl (fileSector r.ufs r.item 0)) 8)) =
      some (UFS_OK, 2, 22, [0x00, 0x00, 0x00, 0x10, 0x10, 0x00, 0x00, 0x10]) ∧
    (bootOnUsedWritten.map fun r =>
        ((ufs_ReadFile r.ufs r.fl r.item 0 (fun _ => 0) 8).2.2,
          bufList (ufs_ReadFile r.ufs r.fl r.item 0 (fun _ => 0) 8).2.1 8)) =
      some (8, [0xBA, 0xBA, 0xBA, 0xAA, 0xAA, 0xBA, 0xBA, 0xAA]) := by
  refine ⟨?_, ?_, ?_, ?_⟩ <;> decide!

/-! ## C25: the FIFO keeps the order of arrival -/

theorem bufList_length (b : Buf) (n : Nat) : (bufList b n).length = n := by
  unfold bufList
  rw [List.length_map, List.length_range]

theorem bufList_listBuf (b : List Nat) (out : Buf) :
    bufList (memcpy out 0 (listBuf b) b.length) b.length = b := by
  apply List.ext_getElem
  · exact bufList_length _ _
  · intro i h1 h2
    unfold bufList
    rw [List.getElem_map, List.getElem_range]
    unfold memcpy listBuf
    rw [if_pos ⟨Nat.zero_le _, by omega⟩, Nat.sub_zero]
    exact (List.getD_eq_getElem _ _ h2)

theorem u16_pred (n : Nat) (h : n < 65535) : u16 (n + 1 + 65535) = n := by
  unfold u16
  omega

theorem fifo_index_inj (C head k j : Nat) (hk : k < C) (hj : j < C)
    (h : (head + k) % C = (head + j) % C) : k = j :=
  Nat.ModEq.eq_of_lt_of_lt (Nat.ModEq.add_left_cancel' head h) hk hj

theorem fifo_lock_clear (lock : Nat) : ((lock ||| LL_CORE_LOCKED) &&& 0xFE) &&& LL_CORE_LOCKED = 0 := by
  rw [Nat.and_assoc]
  exact Nat.and_zero _

theorem fifoHolds_new (C : Nat) : fifoHolds C (LiteLink_newFifo C) [] := by
  refine ⟨rfl, Nat.zero_and _, rfl, Nat.zero_le _, fun h => h, ?_, ?_⟩
  · show 0 = (0 + 0) % C
    rw [Nat.add_zero, Nat.zero_mod]
  · intro k b h
    simp at h

theorem LiteLink_FifoEnqueue_full (C : Nat) (fifo : LiteLink_Fifo) (q : List (List Nat))
    (data : Buf) (length : Nat) (h : fifoHolds C fifo q) (hfull : q.length = C) :
    LiteLink_FifoEnqueue fifo data length = (fifo, LL_NOT_OK) := by
  obtain ⟨hcap, _, hcount, _⟩ := h
  unfold LiteLink_FifoEnqueue
  rw [if_pos (Or.inl (by rw [hcount, hcap, hfull]))]

theorem LiteLink_FifoEnqueue_room (C : Nat) (fifo : LiteLink_Fifo) (q : List (List Nat))
    (data : Buf) (length : Nat) (h : fifoHolds C fifo q) (hC : C < 65536)
    (hroom : q.length ≠ C) :
    (LiteLink_FifoEnqueue fifo data length).2 = LL_OK ∧
      fifoHolds C (LiteLink_FifoEnqueue fifo data length).1 (q ++ [bufList data length]) := by
  obtain ⟨hcap, hlock, hcount, hle, hhead, htail, hobj⟩ := h
  have hlt : q.length < C := by omega
  have hcond : ¬ (fifo.count = fifo.capacity ∨
      fifo.lock &&& LL_CORE_LOCKED = LL_CORE_LOCKED) := by
    intro hc
    rcases hc with hc | hc
    · rw [hcount, hcap] at hc; exact hroom hc
    · rw [hlock] at hc; exact absurd hc (by decide)
  unfold LiteLink_FifoEnqueue
  rw [if_neg hcond]
  refine ⟨rfl, hcap, fifo_lock_clear _, ?_, ?_, hhead, ?_, ?_⟩
  · show u16 (fifo.count + 1) = (q ++ [bufList data length]).length
    rw [List.length_append, List.length_singleton, hcount]
    exact u16_of_lt _ (by omega)
  · rw [List.length_append, List.length_singleton]
    omega
  · show u16 ((fifo.tail + 1) % fifo.capacity) = (fifo.head + u16 (fifo.count + 1)) % C
    rw [hcap, htail, Nat.mod_add_mod, u16_of_lt (fifo.count + 1) (by omega), Nat.add_assoc]
    exact u16_of_lt _ (by have := Nat.mod_lt (fifo.head + (fifo.count + 1)) (show 0 < C by omega); omega)
  · intro k b hk
    show (if (fifo.head + k) % C = fifo.tail then _ else _) = _
    by_cases hkl : k < q.length
    · rw [List.get?_eq_getElem?, List.getElem?_append_left hkl] at hk
      rw [if_neg]
      · exact hobj k b (by rw [List.get?_eq_getElem?]; exact hk)
      · rw [htail, hcount]
        intro heq
        have := fifo_index_inj C fifo.head k q.length (by omega) hlt heq
        omega
    · have hklen : k < (q ++ [bufList data length]).length := by
        rw [List.get?_eq_getElem?] at hk
        exact (List.getElem?_eq_some_iff.1 hk).1
      rw [List.length_append, List.length_singleton] at hklen
      have hkeq : k = q.length := by omega
      rw [hkeq, List.get?_eq_getElem?, List.getElem?_append_right (Nat.le_refl _), Nat.sub_self]
        at hk
      have hb : b = bufList data length := by
        simp at hk
        exact hk.symm
      rw [if_pos (by rw [htail, hcount, hkeq]), hb, bufList_length]

theorem LiteLink_FifoDequeue_empty (C : Nat) (fifo : LiteLink_Fifo) (out : Buf) (length : Nat)
    (h : fifoHolds C fifo []) :
    LiteLink_FifoDequeue fifo out length = (fifo, out, length, LL_NOT_OK) := by
  obtain ⟨_, _, hcount, _⟩ := h
  have hc : fifo.count = 0 := hcount
  unfold LiteLink_FifoDequeue
  rw [if_pos (Or.inl hc)]

theorem LiteLink_FifoDequeue_oldest (C : Nat) (fifo : LiteLink_Fifo) (b : List Nat)
    (rest : List (List Nat)) (out : Buf) (length : Nat) (h : fifoHolds C fifo (b :: rest))
    (hC : C < 65536) :
    (LiteLink_FifoDequeue fifo out length).2.2.2 = LL_OK ∧
      (LiteLink_FifoDequeue fifo out length).2.2.1 = b.length ∧
      bufList (LiteLink_FifoDequeue fifo out length).2.1 b.length = b ∧
      fifoHolds C (LiteLink_FifoDequeue fifo out length).1 rest := by
  obtain ⟨hcap, hlock, hcount, hle, hhead, htail, hobj⟩ := h
  rw [List.length_cons] at hcount hle
  have hCpos : 0 < C := by omega
  have hh := hhead hCpos
  have hcond : ¬ (fifo.count = 0 ∨ fifo.lock &&& LL_CORE_LOCKED = LL_CORE_LOCKED) := by
    intro hc
    rcases hc with hc | hc
    · omega
    · rw [hlock] at hc; exact absurd hc (by decide)
  have hfirst : fifo.objects fifo.head = { data := some b, length := b.length } := by
    have := hobj 0 b rfl
    rw [Nat.add_zero, Nat.mod_eq_of_lt hh] at this
    exact this
  unfold LiteLink_FifoDequeue
  rw [if_neg hcond]
  refine ⟨rfl, ?_, ?_, hcap, fifo_lock_clear _, ?_, by omega, fun _ => ?_, ?_, ?_⟩
  · show (fifo.objects fifo.head).length = _
    rw [hfirst]
  · show bufList (memcpy out 0 (listBuf (((fifo.objects fifo.head).data).getD []))
      (fifo.objects fifo.head).length) b.length = b
    rw [hfirst]
    exact bufList_listBuf b out
  · show u16 (fifo.count + 65535) = rest.length
    rw [hcount]
    exact u16_pred _ (by omega)
  · show u16 ((fifo.head + 1) % fifo.capacity) < C
    rw [hcap]
    have := Nat.mod_lt (fifo.head + 1) hCpos
    rw [u16_of_lt _ (by omega)]
    exact this
  · show fifo.tail = (u16 ((fifo.head + 1) % fifo.capacity) + u16 (fifo.count + 65535)) % C
    have hm := Nat.mod_lt (fifo.head + 1) hCpos
    have hc1 : u16 (fifo.count + 65535) = rest.length := by
      rw [hcount]
      exact u16_pred _ (by omega)
    rw [hcap, u16_of_lt _ (by omega), hc1, Nat.mod_add_mod, htail, hcount,
      show fifo.head + 1 + rest.length = fifo.head + (rest.length + 1) by omega]
  · intro k b1 hk
    have hm := Nat.mod_lt (fifo.head + 1) hCpos
    have hklen : k < rest.length := by
      rw [List.get?_eq_getElem?] at hk
      exact (List.getElem?_eq_some_iff.1 hk).1
    show (if (u16 ((fifo.head + 1) % fifo.capacity) + k) % C = fifo.head then _ else _) = _
    rw [hcap, u16_of_lt _ (by omega), Nat.mod_add_mod,
      show fifo.head + 1 + k = fifo.head + (k + 1) by omega]
    rw [if_neg]
    · exact hobj (k + 1) b1 hk
    · intro heq
      have h0 : (fifo.head + (k + 1)) % C = (fifo.head + 0) % C := by
        rw [heq, Nat.add_zero, Nat.mod_eq_of_lt hh]
      have := fifo_index_inj C fifo.head (k + 1) 0 (by omega) hCpos h0
      omega

theorem fifoStep_enqueue (fifo : LiteLink_Fifo) (data : Buf) (length : Nat) :
    fifoStep fifo (FifoOp.enqueue data length) =
      ((LiteLink_FifoEnqueue fifo data (u16 length)).1,
        { ret := (LiteLink_FifoEnqueue fifo data (u16 length)).2, bytes := [], length := 0 }) :=
  rfl

theorem fifoStep_dequeue (fifo : LiteLink_Fifo) :
    fifoStep fifo FifoOp.dequeue =
      ((LiteLink_FifoDequeue fifo (fun _ => 0) 0).1,
        { ret := (LiteLink_FifoDequeue fifo (fun _ => 0) 0).2.2.2
          bytes := if (LiteLink_FifoDequeue fifo (fun _ => 0) 0).2.2.2 = LL_OK
            then bufList (LiteLink_FifoDequeue fifo (fun _ => 0) 0).2.1
              (LiteLink_FifoDequeue fifo (fun _ => 0) 0).2.2.1
            else []
          length := (LiteLink_FifoDequeue fifo (fun _ => 0) 0).2.2.1 }) :=
  rfl

theorem queueStep_enqueue (C : Nat) (q : List (List Nat)) (data : Buf) (length : Nat) :
    queueStep C q (FifoOp.enqueue data length) =
      if q.length = C then (q, { ret := LL_NOT_OK, bytes := [], length := 0 })
      else (q ++ [bufList data (u16 length)], { ret := LL_OK, bytes := [], length := 0 }) :=
  rfl

theorem fifoStep_refines (C : Nat) (fifo : LiteLink_Fifo) (q : List (List Nat)) (op : FifoOp)
    (h : fifoHolds C fifo q) (hC : C < 65536) :
    (fifoStep fifo op).2 = (queueStep C q op).2 ∧
      fifoHolds C (fifoStep fifo op).1 (queueStep C q op).1 := by
  cases op with
  | enqueue data length =>
    rw [fifoStep_enqueue, queueStep_enqueue]
    by_cases hfull : q.length = C
    · rw [LiteLink_FifoEnqueue_full C fifo q data _ h hfull, if_pos hfull]
      exact ⟨rfl, h⟩
    · obtain ⟨h1, h2⟩ := LiteLink_FifoEnqueue_room C fifo q data (u16 length) h hC hfull
      rw [if_neg hfull]
      refine ⟨?_, h2⟩
      show FifoResult.mk _ _ _ = FifoResult.mk _ _ _
      rw [h1]
  | dequeue =>
    rw [fifoStep_dequeue]
    cases q with
    | nil =>
      rw [LiteLink_FifoDequeue_empty C fifo _ _ h]
      exact ⟨rfl, h⟩
    | cons b rest =>
      obtain ⟨h1, h2, h3, h4⟩ := LiteLink_FifoDequeue_oldest C fifo b rest (fun _ => 0) 0 h hC
      refine ⟨?_, h4⟩
      show FifoResult.mk _ _ _ = FifoResult.mk LL_OK b b.length
      rw [h1, h2, if_pos rfl, h3]

theorem fifoRun_refines (C : Nat) (hC : C < 65536) :
    ∀ (ops : List FifoOp) (fifo : LiteLink_Fifo) (q : List (List Nat)), fifoHolds C fifo q →
      (fifoRun fifo ops).2 = (queueRun C q ops).2 ∧
        fifoHolds C (fifoRun fifo ops).1 (queueRun C q ops).1 := by
  intro ops
  induction ops with
  | nil => intro fifo q h; exact ⟨rfl, h⟩
  | cons op ops ih =>
    intro fifo q h
    obtain ⟨h1, h2⟩ := fifoStep_refines C fifo q op h hC
    obtain ⟨h3, h4⟩ := ih _ _ h2
    refine ⟨?_, h4⟩
    show _ :: _ = _ :: _
    rw [h1, h3]

/-- C25: for every capacity `C` (a `uint16_t`) and every sequence of
`LiteLink_FifoEnqueue` and `LiteLink_FifoDequeue` calls on the FIFO that
`LiteLink_newFifo(C)` returns, every call gives back what the same call gives
on a queue that keeps its elements in the order of arrival: an enqueue fails,
and changes nothing, exactly when `C` elements are stored, a dequeue fails
exactly when none is, and a dequeue that succeeds returns the bytes and the
length of the oldest element still stored.  After the calls `count` is the
number of elements stored, which is at most `C`. -/
theorem LiteLink_Fifo_keeps_order (C : Nat) (ops : List FifoOp) :
    (fifoRun (LiteLink_newFifo (u16 C)) ops).2 = (queueRun (u16 C) [] ops).2 ∧
      (fifoRun (LiteLink_newFifo (u16 C)) ops).1.count = (queueRun (u16 C) [] ops).1.length ∧
      (queueRun (u16 C) [] ops).1.length ≤ u16 C := by
  obtain ⟨h1, h2⟩ := fifoRun_refines (u16 C) (u16_lt C) ops _ _ (fifoHolds_new (u16 C))
  exact ⟨h1, h2.2.2.1, h2.2.2.2.1⟩

/-! ## LiteLink: byte order and buffers -/

theorem and_shifted (k a y m : Nat) (ha : a < 2 ^ k) :
    (2 ^ k * y + a) &&& (2 ^ k * m) = 2 ^ k * (y &&& m) := by
  apply Nat.eq_of_testBit_eq
  intro j
  rw [Nat.testBit_and, Nat.testBit_mul_pow_two_add y ha, Nat.testBit_mul_pow_two,
    Nat.testBit_mul_pow_two, Nat.testBit_and]
  by_cases h : j < k
  · rw [if_pos h, decide_eq_false (by omega : ¬ j ≥ k)]
    simp
  · rw [if_neg h, decide_eq_true (by omega : j ≥ k)]
    simp

theorem and_255_of_lt (b : Nat) (hb : b < 256) : b &&& 255 = b := by
  rw [show (255 : Nat) = 2 ^ 8 - 1 by decide, Nat.and_pow_two_sub_one_eq_mod]
  exact Nat.mod_eq_of_lt hb

theorem swap16bit_bytes (a b : Nat) (ha : a < 256) (hb : b < 256) :
    swap16bit (a + 256 * b) = b + 256 * a := by
  have h1 : (a + 256 * b) &&& 0xff = a := by
    rw [show (0xff : Nat) = 2 ^ 8 - 1 by decide, Nat.and_pow_two_sub_one_eq_mod]
    omega
  have h2 : (a + 256 * b) &&& 0xff00 = 256 * b := by
    have := and_shifted 8 a b 255 ha
    rw [and_255_of_lt b hb] at this
    rw [show a + 256 * b = 2 ^ 8 * b + a by omega, show (0xff00 : Nat) = 2 ^ 8 * 255 by decide]
    exact this
  unfold swap16bit
  rw [h1, h2, Nat.shiftLeft_eq, Nat.shiftRight_eq_div_pow,
    show 256 * b / 2 ^ 8 = b by omega, show a * 2 ^ 8 = 2 ^ 8 * a by omega,
    ← Nat.mul_add_lt_is_or (show b < 2 ^ 8 from hb) a]
  unfold u16
  omega

theorem swap32bit_bytes (a b c d : Nat) (ha : a < 256) (hb : b < 256) (hc : c < 256)
    (hd : d < 256) :
    swap32bit (a + 256 * b + 65536 * c + 16777216 * d) =
      d + 256 * c + 65536 * b + 16777216 * a := by
  have h1 : (a + 256 * b + 65536 * c + 16777216 * d) &&& 0x000000FF = a := by
    rw [show (0xFF : Nat) = 2 ^ 8 - 1 by decide, Nat.and_pow_two_sub_one_eq_mod]
    omega
  have h2 : (a + 256 * b + 65536 * c + 16777216 * d) &&& 0x0000FF00 = 256 * b := by
    have := and_shifted 8 a (b + 256 * c + 65536 * d) 255 ha
    rw [show (b + 256 * c + 65536 * d) &&& 255 = b by
      rw [show (255 : Nat) = 2 ^ 8 - 1 by decide, Nat.and_pow_two_sub_one_eq_mod]; omega] at this
    rw [show a + 256 * b + 65536 * c + 16777216 * d = 2 ^ 8 * (b + 256 * c + 65536 * d) + a by
      omega, show (0xFF00 : Nat) = 2 ^ 8 * 255 by decide]
    exact this
  have h3 : (a + 256 * b + 65536 * c + 16777216 * d) &&& 0x00FF0000 = 65536 * c := by
    have := and_shifted 16 (a + 256 * b) (c + 256 * d) 255 (by omega)
    rw [show (c + 256 * d) &&& 255 = c by
      rw [show (255 : Nat) = 2 ^ 8 - 1 by decide, Nat.and_pow_two_sub_one_eq_mod]; omega] at this
    rw [show a + 256 * b + 65536 * c + 16777216 * d = 2 ^ 16 * (c + 256 * d) + (a + 256 * b) by
      omega, show (0xFF0000 : Nat) = 2 ^ 16 * 255 by decide]
    exact this
  have h4 : (a + 256 * b + 65536 * c + 16777216 * d) &&& 0xFF000000 = 16777216 * d := by
    have := and_shifted 24 (a + 256 * b + 65536 * c) d 255 (by omega)
    rw [and_255_of_lt d hd] at this
    rw [show a + 256 * b + 65536 * c + 16777216 * d = 2 ^ 24 * d + (a + 256 * b + 65536 * c) by
      omega, show (0xFF000000 : Nat) = 2 ^ 24 * 255 by decide]
    exact this
  unfold swap32bit
  rw [h1, h2, h3, h4, Nat.shiftLeft_eq, Nat.shiftLeft_eq, Nat.shiftRight_eq_div_pow,
    Nat.shiftRight_eq_div_pow, show 65536 * c / 2 ^ 8 = 256 * c by omega,
    show 16777216 * d / 2 ^ 24 = d by omega, show a * 2 ^ 24 = 2 ^ 24 * a by omega,
    show 256 * b * 2 ^ 8 = 2 ^ 16 * b by omega, show 256 * c = 2 ^ 8 * c by omega,
    Nat.or_assoc, Nat.or_assoc,
    ← Nat.mul_add_lt_is_or (show d < 2 ^ 8 from hd) c,
    ← Nat.mul_add_lt_is_or (show 2 ^ 8 * c + d < 2 ^ 16 by omega) b,
    ← Nat.mul_add_lt_is_or (show 2 ^ 16 * b + (2 ^ 8 * c + d) < 2 ^ 24 by omega) a]
  unfold u32
  omega

theorem listBuf_bufList (b : Buf) (n i : Nat) (h : i < n) : listBuf (bufList b n) i = b i := by
  unfold listBuf
  rw [List.getD_eq_getElem _ _ (by rw [bufList_length]; exact h)]
  unfold bufList
  rw [List.getElem_map, List.getElem_range]

theorem listBuf_lt (l : List Nat) (h : ∀ x ∈ l, x < 256) (i : Nat) : listBuf l i < 256 := by
  unfold listBuf
  by_cases hi : i < l.length
  · rw [List.getD_eq_getElem _ _ hi]
    exact h _ (List.getElem_mem hi)
  · rw [List.getD_eq_default _ _ (by omega)]
    omega

theorem seg_fields_listBuf (b : Buf) (n : Nat) (h : 12 ≤ n) :
    seg_des (listBuf (bufList b n)) = seg_des b ∧ seg_src (listBuf (bufList b n)) = seg_src b ∧
      seg_offset (listBuf (bufList b n)) = seg_offset b ∧
      seg_ctl (listBuf (bufList b n)) = seg_ctl b := by
  have c (i : Nat) (hi : i < 12) := listBuf_bufList b n i (by omega)
  refine ⟨?_, ?_, ?_, ?_⟩
  · show listBuf (bufList b n) 2 + 256 * listBuf (bufList b n) 3 = b 2 + 256 * b 3
    rw [c 2 (by omega), c 3 (by omega)]
  · show listBuf (bufList b n) 4 + 256 * listBuf (bufList b n) 5 = b 4 + 256 * b 5
    rw [c 4 (by omega), c 5 (by omega)]
  · show listBuf (bufList b n) 6 + 256 * listBuf (bufList b n) 7 = b 6 + 256 * b 7
    rw [c 6 (by omega), c 7 (by omega)]
  · show listBuf (bufList b n) 8 + 256 * listBuf (bufList b n) 9 +
      65536 * listBuf (bufList b n) 10 + 16777216 * listBuf (bufList b n) 11 =
      b 8 + 256 * b 9 + 65536 * b 10 + 16777216 * b 11
    rw [c 8 (by omega), c 9 (by omega), c 10 (by omega), c 11 (by omega)]

/-! ## C22: the inbound address filter -/

theorem bytes32_eq (v : Nat) (h : v < 4294967296) :
    v % 256 + 256 * (v / 256 % 256) + 65536 * (v / 65536 % 256) +
      16777216 * (v / 16777216 % 256) = v := by
  omega

theorem seg_ctl_set_seg_ctl (s : Buf) (v : Nat) (hv : v < 4294967296) :
    seg_ctl (set_seg_ctl s v) = v := by
  have := bytes32_eq v hv
  simp only [seg_ctl, set_seg_ctl, rd32, wr32]
  simpa using this

theorem seg_des_set_seg_des (s : Buf) (v : Nat) (hv : v < 65536) :
    seg_des (set_seg_des s v) = v := rd16_wr16_same s 2 v hv

theorem seg_des_set_seg_ctl (s : Buf) (v : Nat) : seg_des (set_seg_ctl s v) = seg_des s := by
  simp [seg_des, set_seg_ctl, rd16, wr32]

theorem seg_ctl_set_seg_des (s : Buf) (v : Nat) : seg_ctl (set_seg_des s v) = seg_ctl s := by
  simp [seg_ctl, set_seg_des, rd32, wr16]

theorem seg_src_set_seg_des (s : Buf) (v : Nat) : seg_src (set_seg_des s v) = seg_src s := by
  simp [seg_src, set_seg_des, rd16, wr16]

theorem seg_src_set_seg_ctl (s : Buf) (v : Nat) : seg_src (set_seg_ctl s v) = seg_src s := by
  simp [seg_src, set_seg_ctl, rd16, wr32]

theorem seg_offset_set_seg_des (s : Buf) (v : Nat) :
    seg_offset (set_seg_des s v) = seg_offset s := by
  simp [seg_offset, set_seg_des, rd16, wr16]

theorem seg_offset_set_seg_ctl (s : Buf) (v : Nat) :
    seg_offset (set_seg_ctl s v) = seg_offset s := by
  simp [seg_offset, set_seg_ctl, rd16, wr32]

theorem set_seg_des_data (s : Buf) (v i : Nat) (h : 12 ≤ i) : set_seg_des s v i = s i := by
  unfold set_seg_des wr16
  rw [if_neg (by omega), if_neg (by omega)]

theorem set_seg_ctl_data (s : Buf) (v i : Nat) (h : 12 ≤ i) : set_seg_ctl s v i = s i := by
  unfold set_seg_ctl wr32
  rw [if_neg (by omega), if_neg (by omega), if_neg (by omega), if_neg (by omega)]
theorem set_addr_addr_lt (v x : Nat) : set_addr_addr v x < 65536 := by
  unfold set_addr_addr; omega

theorem set_ctl_wlan_lt (v x : Nat) : set_ctl_wlan v x < 4294967296 := by
  unfold set_ctl_wlan; omega

theorem LiteLink_InboundMessage_rewrite_eq (llnet : LiteLink) (seg : Buf) :
    LiteLink_InboundMessage_rewrite llnet seg =
      if addr_addr (seg_des seg) = LITELINK_BROADCAST_ADDR then
        if ctl_wlan (seg_ctl seg) = LITELINK_BROADCAST_ADDR then
          set_seg_ctl (set_seg_des seg (set_addr_addr (seg_des seg) llnet.local_address))
            (set_ctl_wlan (seg_ctl seg) llnet.wlan_address)
        else set_seg_des seg (set_addr_addr (seg_des seg) llnet.local_address)
      else
        if ctl_wlan (seg_ctl seg) = LITELINK_BROADCAST_ADDR then
          set_seg_ctl seg (set_ctl_wlan (seg_ctl seg) llnet.wlan_address)
        else seg := by
  unfold LiteLink_InboundMessage_rewrite
  by_cases hA : addr_addr (seg_des seg) = LITELINK_BROADCAST_ADDR
  · rw [if_pos hA, if_pos hA]
    show (if ctl_wlan (seg_ctl (set_seg_des seg _)) = LITELINK_BROADCAST_ADDR then
      set_seg_ctl (set_seg_des seg _) (set_ctl_wlan (seg_ctl (set_seg_des seg _)) _)
      else set_seg_des seg _) = _
    rw [seg_ctl_set_seg_des]
  · rw [if_neg hA, if_neg hA]

/-- What the two broadcast tests of `LiteLink_InboundMessage` do to a segment:
a broadcast destination address becomes the local address, a broadcast wlan the
local wlan, and nothing else changes. -/
theorem LiteLink_InboundMessage_rewrite_fields (llnet : LiteLink) (seg : Buf)
    (hlocal : llnet.local_address < 1024) (hwlan : llnet.wlan_address < 1024) :
    addr_addr (seg_des (LiteLink_InboundMessage_rewrite llnet seg)) =
        (if addr_addr (seg_des seg) = LITELINK_BROADCAST_ADDR then llnet.local_address
         else addr_addr (seg_des seg)) ∧
      ctl_wlan (seg_ctl (LiteLink_InboundMessage_rewrite llnet seg)) =
        (if ctl_wlan (seg_ctl seg) = LITELINK_BROADCAST_ADDR then llnet.wlan_address
         else ctl_wlan (seg_ctl seg)) ∧
      addr_port (seg_des (LiteLink_InboundMessage_rewrite llnet seg)) = addr_port (seg_des seg) ∧
      seg_src (LiteLink_InboundMessage_rewrite llnet seg) = seg_src seg ∧
      seg_offset (LiteLink_InboundMessage_rewrite llnet seg) = seg_offset seg ∧
      ctl_flags (seg_ctl (LiteLink_InboundMessage_rewrite llnet seg)) = ctl_flags (seg_ctl seg) ∧
      ctl_len (seg_ctl (LiteLink_InboundMessage_rewrite llnet seg)) = ctl_len (seg_ctl seg) ∧
      ctl_type (seg_ctl (LiteLink_InboundMessage_rewrite llnet seg)) = ctl_type (seg_ctl seg) ∧
      ∀ i, 12 ≤ i → LiteLink_InboundMessage_rewrite llnet seg i = seg i := by
  have hd := seg_des_set_seg_des seg (set_addr_addr (seg_des seg) llnet.local_address)
    (set_addr_addr_lt _ _)
  have a1 : addr_addr (set_addr_addr (seg_des seg) llnet.local_address) = llnet.local_address := by
    unfold addr_addr set_addr_addr; omega
  have a2 : addr_port (set_addr_addr (seg_des seg) llnet.local_address) =
      addr_port (seg_des seg) := by
    unfold addr_port set_addr_addr; omega
  have c1 : ctl_wlan (set_ctl_wlan (seg_ctl seg) llnet.wlan_address) = llnet.wlan_address := by
    unfold ctl_wlan set_ctl_wlan; omega
  have c2 : ctl_flags (set_ctl_wlan (seg_ctl seg) llnet.wlan_address) =
      ctl_flags (seg_ctl seg) := by
    unfold ctl_flags set_ctl_wlan; omega
  have c3 : ctl_len (set_ctl_wlan (seg_ctl seg) llnet.wlan_address) = ctl_len (seg_ctl seg) := by
    unfold ctl_len set_ctl_wlan; omega
  have c4 : ctl_type (set_ctl_wlan (seg_ctl seg) llnet.wlan_address) =
      ctl_type (seg_ctl seg) := by
    unfold ctl_type set_ctl_wlan; omega
  rw [LiteLink_InboundMessage_rewrite_eq]
  by_cases hA : addr_addr (seg_des seg) = LITELINK_BROADCAST_ADDR
  · by_cases hW : ctl_wlan (seg_ctl seg) = LITELINK_BROADCAST_ADDR
    · rw [if_pos hA, if_pos hW, if_pos hA, if_pos hW, seg_des_set_seg_ctl, hd,
        seg_ctl_set_seg_ctl _ _ (set_ctl_wlan_lt _ _), seg_src_set_seg_ctl, seg_src_set_seg_des,
        seg_offset_set_seg_ctl, seg_offset_set_seg_des]
      refine ⟨a1, c1, a2, rfl, rfl, c2, c3, c4, ?_⟩
      intro i hi
      rw [set_seg_ctl_data _ _ _ hi, set_seg_des_data _ _ _ hi]
    · rw [if_pos hA, if_neg hW, if_pos hA, if_neg hW, hd, seg_ctl_set_seg_des,
        seg_src_set_seg_des, seg_offset_set_seg_des]
      refine ⟨a1, rfl, a2, rfl, rfl, rfl, rfl, rfl, ?_⟩
      intro i hi
      rw [set_seg_des_data _ _ _ hi]
  · by_cases hW : ctl_wlan (seg_ctl seg) = LITELINK_BROADCAST_ADDR
    · rw [if_neg hA, if_pos hW, if_neg hA, if_pos hW, seg_des_set_seg_ctl,
        seg_ctl_set_seg_ctl _ _ (set_ctl_wlan_lt _ _), seg_src_set_seg_ctl,
        seg_offset_set_seg_ctl]
      refine ⟨rfl, c1, rfl, rfl, rfl, c2, c3, c4, ?_⟩
      intro i hi
      rw [set_seg_ctl_data _ _ _ hi]
    · rw [if_neg hA, if_neg hW, if_neg hA, if_neg hW]
      exact ⟨rfl, rfl, rfl, rfl, rfl, rfl, rfl, rfl, fun _ _ => rfl⟩
theorem bytes16_eq (v : Nat) (h : v < 65536) : v % 256 + 256 * (v / 256 % 256) = v := by
  omega

theorem swap16bit_lt (n : Nat) : swap16bit n < 65536 := by
  unfold swap16bit; exact u16_lt _

theorem swap32bit_lt (n : Nat) : swap32bit n < 4294967296 := by
  unfold swap32bit u32; omega

theorem LiteLink_ParserData_swap_fields (b : Buf) :
    seg_des (LiteLink_ParserData_swap b) = swap16bit (rd16 b 2) ∧
      seg_src (LiteLink_ParserData_swap b) = swap16bit (rd16 b 4) ∧
      seg_offset (LiteLink_ParserData_swap b) = swap16bit (rd16 b 6) ∧
      seg_ctl (LiteLink_ParserData_swap b) = swap32bit (rd32 b 8) ∧
      ∀ i, 12 ≤ i → LiteLink_ParserData_swap b i = b i := by
  have h2 := bytes16_eq _ (swap16bit_lt (rd16 b 2))
  have h4 := bytes16_eq _ (swap16bit_lt (rd16 b 4))
  have h6 := bytes16_eq _ (swap16bit_lt (rd16 b 6))
  have h8 := bytes32_eq _ (swap32bit_lt (rd32 b 8))
  refine ⟨?_, ?_, ?_, ?_, ?_⟩
  · simp only [seg_des, LiteLink_ParserData_swap, swapField16, swapField32, wr16, wr32, setByte]
    simpa [rd16] using h2
  · simp only [seg_src, LiteLink_ParserData_swap, swapField16, swapField32, wr16, wr32, setByte]
    simpa [rd16] using h4
  · simp only [seg_offset, LiteLink_ParserData_swap, swapField16, swapField32, wr16, wr32, setByte]
    simpa [rd16] using h6
  · simp only [seg_ctl, LiteLink_ParserData_swap, swapField16, swapField32, wr16, wr32, setByte]
    simpa [rd32, rd16] using h8
  · intro i hi
    unfold LiteLink_ParserData_swap swapField16 swapField32 wr16 wr32 setByte
    simp only []
    iterate 11 rw [if_neg (by omega)]

theorem LiteLink_ParserData_copy_frame (stack data : Buf) (length i : Nat) (hlen : 12 ≤ length)
    (hi : i < length) : LiteLink_ParserData_copy stack data length i = data i := by
  unfold LiteLink_ParserData_copy memcpy bufAt LITELINK_HEADER_SIZE
  by_cases h : 12 ≤ i
  · rw [if_pos ⟨h, by omega⟩]
    congr 1
    omega
  · rw [if_neg (fun hh => h hh.1), if_pos ⟨Nat.zero_le _, by omega⟩, Nat.sub_zero]
theorem LiteLink_ParserData_check (stack data : Buf) (length : Nat) (hlen : 12 ≤ length)
    (h6 : data 6 < 256) (h7 : data 7 < 256) :
    seg_crc (LiteLink_ParserData_copy stack data length) = data 0 ∧
      LiteLink_ParserData_crc stack data length =
        LiteLink_CalCrc8 0xFF (bufAt data 1) (data 7 + 11) := by
  have c (i : Nat) (h : i < 12) := LiteLink_ParserData_copy_frame stack data length i hlen
    (by omega)
  constructor
  · exact c 0 (by omega)
  · unfold LiteLink_ParserData_crc
    have ho : seg_offset (LiteLink_ParserData_copy stack data length) = data 6 + 256 * data 7 := by
      show LiteLink_ParserData_copy stack data length 6 +
        256 * LiteLink_ParserData_copy stack data length 7 = _
      rw [c 6 (by omega), c 7 (by omega)]
    rw [ho, swap16bit_bytes _ _ h6 h7]
    have hl : u16 (offset_len (data 7 + 256 * data 6) + LITELINK_HEADER_SIZE - 1) =
        data 7 + 11 := by
      unfold u16 offset_len LITELINK_HEADER_SIZE
      rw [show (data 7 + 256 * data 6) % 256 = data 7 by omega]
      omega
    rw [hl]

theorem LiteLink_ParserData_valid (stack data : Buf) (length : Nat) (hlen : 12 ≤ length)
    (h6 : data 6 < 256) (h7 : data 7 < 256) (hcrc : frameCrcValid data) :
    LiteLink_ParserData stack data length =
      some (LiteLink_ParserData_swap (LiteLink_ParserData_copy stack data length)) := by
  obtain ⟨h1, h2⟩ := LiteLink_ParserData_check stack data length hlen h6 h7
  unfold LiteLink_ParserData
  rw [if_neg (show ¬ length < LITELINK_HEADER_SIZE by unfold LITELINK_HEADER_SIZE; omega),
    if_neg (by rw [h1, h2]; exact fun h => h hcrc)]

theorem LiteLink_ParserData_invalid (stack data : Buf) (length : Nat) (hlen : 12 ≤ length)
    (h6 : data 6 < 256) (h7 : data 7 < 256) (hcrc : ¬ frameCrcValid data) :
    LiteLink_ParserData stack data length =
      some (memset (LiteLink_ParserData_copy stack data length) 0x00 LITELINK_HEADER_SIZE) := by
  obtain ⟨h1, h2⟩ := LiteLink_ParserData_check stack data length hlen h6 h7
  unfold LiteLink_ParserData
  rw [if_neg (show ¬ length < LITELINK_HEADER_SIZE by unfold LITELINK_HEADER_SIZE; omega),
    if_pos (by rw [h1, h2]; exact hcrc)]

theorem LiteLink_ParserData_wire (stack data : Buf) (length : Nat) (hlen : 12 ≤ length)
    (hdata : ∀ i, data i < 256) :
    seg_des (LiteLink_ParserData_swap (LiteLink_ParserData_copy stack data length)) =
        256 * data 2 + data 3 ∧
      seg_src (LiteLink_ParserData_swap (LiteLink_ParserData_copy stack data length)) =
        256 * data 4 + data 5 ∧
      seg_offset (LiteLink_ParserData_swap (LiteLink_ParserData_copy stack data length)) =
        256 * data 6 + data 7 ∧
      seg_ctl (LiteLink_ParserData_swap (LiteLink_ParserData_copy stack data length)) =
        16777216 * data 8 + 65536 * data 9 + 256 * data 10 + data 11 ∧
      ∀ i, 12 ≤ i → i < length →
        LiteLink_ParserData_swap (LiteLink_ParserData_copy stack data length) i = data i := by
  obtain ⟨e1, e2, e3, e4, e5⟩ :=
    LiteLink_ParserData_swap_fields (LiteLink_ParserData_copy stack data length)
  have c (i : Nat) (h : i < 12) := LiteLink_ParserData_copy_frame stack data length i hlen
    (by omega)
  have r2 : rd16 (LiteLink_ParserData_copy stack data length) 2 = data 2 + 256 * data 3 := by
    show LiteLink_ParserData_copy stack data length 2 +
      256 * LiteLink_ParserData_copy stack data length 3 = _
    rw [c 2 (by omega), c 3 (by omega)]
  have r4 : rd16 (LiteLink_ParserData_copy stack data length) 4 = data 4 + 256 * data 5 := by
    show LiteLink_ParserData_copy stack data length 4 +
      256 * LiteLink_ParserData_copy stack data length 5 = _
    rw [c 4 (by omega), c 5 (by omega)]
  have r6 : rd16 (LiteLink_ParserData_copy stack data length) 6 = data 6 + 256 * data 7 := by
    show LiteLink_ParserData_copy stack data length 6 +
      256 * LiteLink_ParserData_copy stack data length 7 = _
    rw [c 6 (by omega), c 7 (by omega)]
  have r32 : rd32 (LiteLink_ParserData_copy stack data length) 8 =
      data 8 + 256 * data 9 + 65536 * data 10 + 16777216 * data 11 := by
    show LiteLink_ParserData_copy stack data length 8 +
      256 * LiteLink_ParserData_copy stack data length 9 +
      65536 * LiteLink_ParserData_copy stack data length 10 +
      16777216 * LiteLink_ParserData_copy stack data length 11 = _
    rw [c 8 (by omega), c 9 (by omega), c 10 (by omega), c 11 (by omega)]
  rw [e1, e2, e3, e4, r2, r4, r6, r32,
    swap16bit_bytes _ _ (hdata 2) (hdata 3), swap16bit_bytes _ _ (hdata 4) (hdata 5),
    swap16bit_bytes _ _ (hdata 6) (hdata 7),
    swap32bit_bytes _ _ _ _ (hdata 8) (hdata 9) (hdata 10) (hdata 11)]
  refine ⟨by omega, by omega, by omega, by omega, ?_⟩
  intro i h1 h2
  rw [e5 i h1, LiteLink_ParserData_copy_frame stack data length i hlen h2]
theorem LiteLink_InboundMessage_filter_accept (llnet : LiteLink) (counterror : Nat) (seg : Buf)
    (length : Nat)
    (h : addr_addr (seg_des (LiteLink_InboundMessage_rewrite llnet seg)) = llnet.local_address ∧
      ctl_wlan (seg_ctl (LiteLink_InboundMessage_rewrite llnet seg)) = llnet.wlan_address) :
    LiteLink_InboundMessage_filter llnet counterror seg length =
      ({ llnet with
         segments := (LiteLink_FifoEnqueue llnet.segments
           (LiteLink_InboundMessage_rewrite llnet seg) length).1
         lock := (llnet.lock ||| LL_INBOUND_LOCKED) &&& 0xFD }, counterror) := by
  unfold LiteLink_InboundMessage_filter
  rw [if_neg (fun hc => hc.elim (fun h1 => h1 h.1) (fun h2 => h2 h.2))]

theorem LiteLink_InboundMessage_filter_drop (llnet : LiteLink) (counterror : Nat) (seg : Buf)
    (length : Nat)
    (h : ¬ (addr_addr (seg_des (LiteLink_InboundMessage_rewrite llnet seg)) = llnet.local_address ∧
      ctl_wlan (seg_ctl (LiteLink_InboundMessage_rewrite llnet seg)) = llnet.wlan_address)) :
    LiteLink_InboundMessage_filter llnet counterror seg length =
      ({ llnet with lock := llnet.lock ||| LL_INBOUND_LOCKED }, u16 (counterror + 1)) := by
  unfold LiteLink_InboundMessage_filter
  rw [if_pos (by
    by_cases h1 : addr_addr (seg_des (LiteLink_InboundMessage_rewrite llnet seg)) =
      llnet.local_address
    · exact Or.inr (fun h2 => h ⟨h1, h2⟩)
    · exact Or.inl h1)]

theorem u8_of_le (length : Nat) (h : length ≤ 255) : u8 length = length := by
  unfold u8; omega

/-- C22: for every instance with 10-bit local and wlan addresses whose pending
FIFO is unlocked and has room, and every frame of 12 to 255 bytes with a valid
CRC, `LiteLink_InboundMessage` parses the frame into the segment whose `des`,
`src`, `offset` and `ctl` are the big-endian words at bytes 2, 4, 6 and 8, and
enqueues a segment if and only if the destination address of the parsed segment
is the local address or 0x3FF and its wlan is the local wlan or 0x3FF.  The
segment enqueued is the newest element of the FIFO, `length` bytes long, with the
destination address the local address and the wlan the local wlan, and with the
destination port, `src`, `offset`, flags, total length, type and the payload
bytes of the frame unchanged; `counterror` is unchanged.  Otherwise the FIFO is
unchanged and `counterror` is incremented. -/
theorem LiteLink_InboundMessage_address_filter (llnet : LiteLink) (counterror : Nat)
    (stack data : Buf) (length C : Nat) (q : List (List Nat))
    (hlocal : llnet.local_address < 1024) (hwlan : llnet.wlan_address < 1024)
    (hC : C < 65536) (hfifo : fifoHolds C llnet.segments q) (hroom : q.length < C)
    (hlen : 12 ≤ length) (hlen2 : length ≤ 255) (hdata : ∀ i, data i < 256)
    (hcrc : frameCrcValid data) :
    ∃ seg r c,
      LiteLink_ParserData stack data length = some seg ∧
      LiteLink_InboundMessage llnet counterror stack data length = some (r, c) ∧
      seg_des seg = 256 * data 2 + data 3 ∧ seg_src seg = 256 * data 4 + data 5 ∧
      seg_offset seg = 256 * data 6 + data 7 ∧
      seg_ctl seg = 16777216 * data 8 + 65536 * data 9 + 256 * data 10 + data 11 ∧
      ((addr_addr (seg_des seg) = llnet.local_address ∨
            addr_addr (seg_des seg) = LITELINK_BROADCAST_ADDR) ∧
          (ctl_wlan (seg_ctl seg) = llnet.wlan_address ∨
            ctl_wlan (seg_ctl seg) = LITELINK_BROADCAST_ADDR) →
        c = counterror ∧
        ∃ e, fifoHolds C r.segments (q ++ [e]) ∧ e.length = length ∧
          addr_addr (seg_des (listBuf e)) = llnet.local_address ∧
          ctl_wlan (seg_ctl (listBuf e)) = llnet.wlan_address ∧
          addr_port (seg_des (listBuf e)) = addr_port (seg_des seg) ∧
          seg_src (listBuf e) = seg_src seg ∧ seg_offset (listBuf e) = seg_offset seg ∧
          ctl_flags (seg_ctl (listBuf e)) = ctl_flags (seg_ctl seg) ∧
          ctl_len (seg_ctl (listBuf e)) = ctl_len (seg_ctl seg) ∧
          ctl_type (seg_ctl (listBuf e)) = ctl_type (seg_ctl seg) ∧
          ∀ i, 12 ≤ i → i < length → listBuf e i = data i) ∧
      (¬ ((addr_addr (seg_des seg) = llnet.local_address ∨
            addr_addr (seg_des seg) = LITELINK_BROADCAST_ADDR) ∧
          (ctl_wlan (seg_ctl seg) = llnet.wlan_address ∨
            ctl_wlan (seg_ctl seg) = LITELINK_BROADCAST_ADDR)) →
        r.segments = llnet.segments ∧ c = u16 (counterror + 1)) := by
  have hp := LiteLink_ParserData_valid stack data length hlen (hdata 6) (hdata 7) hcrc
  obtain ⟨w1, w2, w3, w4, w5⟩ := LiteLink_ParserData_wire stack data length hlen hdata
  obtain ⟨f1, f2, f3, f4, f5, f6, f7, f8, f9⟩ := LiteLink_InboundMessage_rewrite_fields llnet
    (LiteLink_ParserData_swap (LiteLink_ParserData_copy stack data length)) hlocal hwlan
  have hin : LiteLink_InboundMessage llnet counterror stack data length =
      some (LiteLink_InboundMessage_filter llnet counterror
        (LiteLink_ParserData_swap (LiteLink_ParserData_copy stack data length)) length) := by
    unfold LiteLink_InboundMessage
    rw [u8_of_le length hlen2, hp]
    rfl
  generalize LiteLink_ParserData_swap (LiteLink_ParserData_copy stack data length) = seg at *
  have hiff : (addr_addr (seg_des (LiteLink_InboundMessage_rewrite llnet seg)) =
        llnet.local_address ∧
      ctl_wlan (seg_ctl (LiteLink_InboundMessage_rewrite llnet seg)) = llnet.wlan_address) ↔
      ((addr_addr (seg_des seg) = llnet.local_address ∨
          addr_addr (seg_des seg) = LITELINK_BROADCAST_ADDR) ∧
        (ctl_wlan (seg_ctl seg) = llnet.wlan_address ∨
          ctl_wlan (seg_ctl seg) = LITELINK_BROADCAST_ADDR)) := by
    rw [f1, f2]
    by_cases hA : addr_addr (seg_des seg) = LITELINK_BROADCAST_ADDR
    · by_cases hW : ctl_wlan (seg_ctl seg) = LITELINK_BROADCAST_ADDR
      · rw [if_pos hA, if_pos hW]
        exact ⟨fun _ => ⟨Or.inr hA, Or.inr hW⟩, fun _ => ⟨rfl, rfl⟩⟩
      · rw [if_pos hA, if_neg hW]
        exact ⟨fun h => ⟨Or.inr hA, Or.inl h.2⟩,
          fun h => ⟨rfl, h.2.elim id (fun h2 => absurd h2 hW)⟩⟩
    · by_cases hW : ctl_wlan (seg_ctl seg) = LITELINK_BROADCAST_ADDR
      · rw [if_neg hA, if_pos hW]
        exact ⟨fun h => ⟨Or.inl h.1, Or.inr hW⟩,
          fun h => ⟨h.1.elim id (fun h2 => absurd h2 hA), rfl⟩⟩
      · rw [if_neg hA, if_neg hW]
        exact ⟨fun h => ⟨Or.inl h.1, Or.inl h.2⟩,
          fun h => ⟨h.1.elim id (fun h2 => absurd h2 hA), h.2.elim id (fun h2 => absurd h2 hW)⟩⟩
  refine ⟨seg, (LiteLink_InboundMessage_filter llnet counterror seg length).1,
    (LiteLink_InboundMessage_filter llnet counterror seg length).2, hp, hin, w1, w2, w3, w4, ?_, ?_⟩
  · intro hP
    have hacc := hiff.2 hP
    rw [LiteLink_InboundMessage_filter_accept llnet counterror seg length hacc]
    obtain ⟨_, hq⟩ := LiteLink_FifoEnqueue_room C llnet.segments q
      (LiteLink_InboundMessage_rewrite llnet seg) length hfifo hC (by omega)
    obtain ⟨s1, s2, s3, s4⟩ := seg_fields_listBuf (LiteLink_InboundMessage_rewrite llnet seg)
      length hlen
    refine ⟨rfl, bufList (LiteLink_InboundMessage_rewrite llnet seg) length, hq,
      bufList_length _ _, ?_, ?_, ?_, ?_, ?_, ?_, ?_, ?_, ?_⟩
    · rw [s1]; exact hacc.1
    · rw [s4]; exact hacc.2
    · rw [s1]; exact f3
    · rw [s2]; exact f4
    · rw [s3]; exact f5
    · rw [s4]; exact f6
    · rw [s4]; exact f7
    · rw [s4]; exact f8
    · intro i h1 h2
      rw [listBuf_bufList _ _ _ h2, f9 i h1, w5 i h1 h2]
  · intro hP
    rw [LiteLink_InboundMessage_filter_drop llnet counterror seg length
      (fun h => hP (hiff.1 h))]
    exact ⟨rfl, rfl⟩
set_option maxRecDepth 100000 in
theorem sentFrame_50_5 :
    sentFrame 50 5 = [87, 90, 5, 54, 2, 183, 0, 5, 0, 66, 0, 5, 1, 8, 15, 22, 29] := by
  decide!

set_option maxRecDepth 100000 in
theorem sentFrame_50_16 :
    sentFrame 50 16 =
      [186, 90, 5, 54, 2, 183, 0, 16, 0, 66, 0, 16, 1, 8, 15, 22, 29, 36, 43, 50, 57, 64, 71,
        78, 85, 92, 99, 106] := by
  decide!

set_option maxRecDepth 100000 in
/-- Witness of `LiteLink_InboundMessage_address_filter`: the receiver at
address 20 on wlan 1 takes the 17-byte frame that the sender produces for a
5-byte packet to port 54 of address 20; the frame is enqueued as the only
element of the FIFO, with destination 20:54, source 10:55 (695), offset word 5,
flags `PSH`, total length 5 and wlan 1. -/
theorem LiteLink_InboundMessage_address_filter_witness :
    ∃ r e, LiteLink_InboundMessage demoReceiver 0 zeroBuf (listBuf (sentFrame 50 5)) 17 =
        some (r, 0) ∧
      fifoHolds 255 r.segments [e] ∧ e.length = 17 ∧
      addr_addr (seg_des (listBuf e)) = 20 ∧ ctl_wlan (seg_ctl (listBuf e)) = 1 ∧
      addr_port (seg_des (listBuf e)) = 54 ∧ seg_src (listBuf e) = 695 ∧
      seg_offset (listBuf e) = 5 ∧ ctl_flags (seg_ctl (listBuf e)) = LITELINK_PSH ∧
      ctl_len (seg_ctl (listBuf e)) = 5 ∧
      ∀ i, 12 ≤ i → i < 17 → listBuf e i = listBuf (sentFrame 50 5) i := by
  rw [sentFrame_50_5]
  obtain ⟨seg, r, c, _, hin, w1, w2, w3, w4, hacc, _⟩ :=
    LiteLink_InboundMessage_address_filter demoReceiver 0 zeroBuf
      (listBuf [87, 90, 5, 54, 2, 183, 0, 5, 0, 66, 0, 5, 1, 8, 15, 22, 29]) 17
      255 [] (by decide) (by decide) (by decide) (fifoHolds_new 255) (by decide) (by decide)
      (by decide) (listBuf_lt _ (by decide)) (by decide!)
  have hd : seg_des seg = 1334 := w1.trans (by decide!)
  have hs : seg_src seg = 695 := w2.trans (by decide!)
  have ho : seg_offset seg = 5 := w3.trans (by decide!)
  have hc : seg_ctl seg = 4325381 := w4.trans (by decide!)
  rw [hd, hs, ho, hc] at hacc
  obtain ⟨h0, e, h1, h2, h3, h4, h5, h6, h7, h8, h9, _, h11⟩ :=
    hacc ⟨Or.inl (by decide), Or.inl (by decide)⟩
  rw [h0] at hin
  exact ⟨r, e, hin, h1, h2, h3, h4, h5.trans (by decide), h6, h7, h8.trans (by decide),
    h9.trans (by decide), h11⟩

set_option maxRecDepth 100000 in
/-- C22 (counterexample): a frame of 256 bytes, the serialized form of a segment
with 244 payload bytes, addressed to address 20 on wlan 1, with a valid CRC.
`LiteLink_InboundMessage` hands its length to `LiteLink_ParserData` as a
`uint8_t`, which is 0, and the second `memcpy` there is asked for `0 - 12` bytes
in unsigned arithmetic: the call has no defined result, on the instance with
address 20, wlan 1 and an empty FIFO. -/
theorem LiteLink_InboundMessage_frame_of_256_bytes :
    oversizeFrame.length = 256 ∧
      frameCrcValid (listBuf oversizeFrame) ∧
      (256 * listBuf oversizeFrame 2 + listBuf oversizeFrame 3) / 64 = 20 ∧
      (oversizeFrame.drop 8).take 4 = bigEndian32 (1 * 4194304 + LITELINK_PSH * 8192 + 244) ∧
      listBuf oversizeFrame 7 = 244 ∧
      u8 256 = 0 ∧
      (LiteLink_ParserData zeroBuf (listBuf oversizeFrame) (u8 256)).isNone = true ∧
      (LiteLink_InboundMessage demoReceiver 0 zeroBuf (listBuf oversizeFrame) 256).isNone =
        true := by
  decide!

/-! ## C21: frames with a bad CRC -/

theorem LiteLink_InboundMessage_rewrite_none (llnet : LiteLink) (seg : Buf)
    (hA : addr_addr (seg_des seg) ≠ LITELINK_BROADCAST_ADDR)
    (hW : ctl_wlan (seg_ctl seg) ≠ LITELINK_BROADCAST_ADDR) :
    LiteLink_InboundMessage_rewrite llnet seg = seg := by
  rw [LiteLink_InboundMessage_rewrite_eq, if_neg hA, if_neg hW]

theorem memset_header_fields (b : Buf) :
    seg_des (memset b 0x00 LITELINK_HEADER_SIZE) = 0 ∧
      seg_ctl (memset b 0x00 LITELINK_HEADER_SIZE) = 0 := by
  constructor
  · simp [seg_des, rd16, memset, LITELINK_HEADER_SIZE]
  · simp [seg_ctl, rd32, memset, LITELINK_HEADER_SIZE]

/-- What `LiteLink_InboundMessage` does with a frame of 12 to 255 bytes whose
byte 0 differs from the CRC computed over bytes 1 .. 11 + payload_len:
`LiteLink_ParserData` zeroes the header, and the address test that follows
compares the zero destination address and the zero wlan with those of the
instance.  An instance whose local address or wlan address is not 0 drops the
frame and increments `counterror`; an instance with both 0 passes the segment
with the zeroed header to `LiteLink_FifoEnqueue`. -/
theorem LiteLink_InboundMessage_bad_crc (llnet : LiteLink) (counterror : Nat)
    (stack data : Buf) (length : Nat) (hlen : 12 ≤ length) (hlen2 : length ≤ 255)
    (h6 : data 6 < 256) (h7 : data 7 < 256) (hcrc : ¬ frameCrcValid data) :
    LiteLink_InboundMessage llnet counterror stack data length =
      some (if llnet.local_address = 0 ∧ llnet.wlan_address = 0 then
        ({ llnet with
           segments := (LiteLink_FifoEnqueue llnet.segments
             (memset (LiteLink_ParserData_copy stack data length) 0x00 LITELINK_HEADER_SIZE)
             length).1
           lock := (llnet.lock ||| LL_INBOUND_LOCKED) &&& 0xFD }, counterror)
      else ({ llnet with lock := llnet.lock ||| LL_INBOUND_LOCKED }, u16 (counterror + 1))) := by
  obtain ⟨z1, z2⟩ := memset_header_fields (LiteLink_ParserData_copy stack data length)
  have hr := LiteLink_InboundMessage_rewrite_none llnet
    (memset (LiteLink_ParserData_copy stack data length) 0x00 LITELINK_HEADER_SIZE)
    (by rw [z1]; decide) (by rw [z2]; decide)
  unfold LiteLink_InboundMessage
  rw [u8_of_le length hlen2, LiteLink_ParserData_invalid stack data length hlen h6 h7 hcrc]
  show some (LiteLink_InboundMessage_filter llnet counterror _ length) = _
  by_cases h : llnet.local_address = 0 ∧ llnet.wlan_address = 0
  · rw [if_pos h, LiteLink_InboundMessage_filter_accept llnet counterror _ length
      (by rw [hr, z1, z2]; exact ⟨h.1.symm, h.2.symm⟩), hr]
  · rw [if_neg h, LiteLink_InboundMessage_filter_drop llnet counterror _ length
      (by rw [hr, z1, z2]; exact fun hh => h ⟨hh.1.symm, hh.2.symm⟩)]

set_option maxRecDepth 100000 in
/-- C21 (defect of the code): two frames that `LiteLink_InboundMessage`
enqueues.  The first is the 17-byte frame of a 5-byte packet with byte 0 changed
from 87 to 86, so that it differs from the CRC: the instance made by
`newLiteLink(0, 0, 62, ...)` enqueues it with a zeroed header and leaves
`counterror` at 0, whereas it drops the unchanged frame, which is addressed to
address 20, and the receiver at address 20 on wlan 1 drops the changed one.  The
second is the 28-byte frame of a 16-byte packet with byte 7, the payload length,
changed from 16 to 12: byte 0 is the CRC of bytes 1..23 as well, and the receiver
at address 20 on wlan 1 enqueues the frame. -/
theorem LiteLink_InboundMessage_enqueues_bad_frames :
    sentFrame 50 5 = [87, 90, 5, 54, 2, 183, 0, 5, 0, 66, 0, 5, 1, 8, 15, 22, 29] ∧
      ¬ frameCrcValid (listBuf ((sentFrame 50 5).set 0 86)) ∧
      (zeroNode.local_address, zeroNode.wlan_address) = (0, 0) ∧
      inboundOutcome zeroNode ((sentFrame 50 5).set 0 86) = some (1, 0) ∧
      ((LiteLink_InboundMessage zeroNode 0 zeroBuf (listBuf ((sentFrame 50 5).set 0 86)) 17).map
        fun r => pendingBytes r.1 0 17) =
        some [0, 0, 0, 0, 0, 0, 0, 0, 0, 0, 0, 0, 1, 8, 15, 22, 29] ∧
      inboundOutcome zeroNode (sentFrame 50 5) = some (0, 1) ∧
      inboundOutcome demoReceiver ((sentFrame 50 5).set 0 86) = some (0, 1) ∧
      inboundOutcome demoReceiver (sentFrame 50 5) = some (1, 0) ∧
      (sentFrame 50 16).take 12 = [186, 90, 5, 54, 2, 183, 0, 16, 0, 66, 0, 16] ∧
      frameCrcValid (listBuf (sentFrame 50 16)) ∧
      frameCrcValid (listBuf ((sentFrame 50 16).set 7 12)) ∧
      inboundOutcome demoReceiver ((sentFrame 50 16).set 7 12) = some (1, 0) := by
  rw [sentFrame_50_5, sentFrame_50_16]
  decide!

/-! ## C23, C24: segmentation and reassembly -/

theorem LiteLink_SendPacket_segment_ctl_len (llnet : LiteLink) (service : LiteLink_Service)
    (address port : Nat) (data : Buf) (length id len : Nat) (segment : Buf) :
    ctl_len (seg_ctl (LiteLink_SendPacket_segment llnet service address port data length id len
      segment)) = length % 8192 := by
  have hm : length &&& 0x3FFF = length % 16384 := Nat.and_pow_two_sub_one_eq_mod length 14
  have h1 : ∀ (b : Buf) (src : Buf) (n : Nat),
      seg_ctl (memcpy b LITELINK_HEADER_SIZE src n) = seg_ctl b := by
    intro b src n
    simp [seg_ctl, rd32, memcpy, LITELINK_HEADER_SIZE]
  unfold LiteLink_SendPacket_segment
  rw [h1]
  unfold assign_ctl_wlan
  rw [seg_ctl_set_seg_ctl _ _ (set_ctl_wlan_lt _ _)]
  unfold assign_ctl_len
  rw [seg_ctl_set_seg_ctl _ _ (by unfold set_ctl_len; omega), hm]
  unfold ctl_len set_ctl_wlan set_ctl_len
  omega

set_option maxRecDepth 100000 in
/-- C24 (defect of the code): `LiteLink_SendPacket` of 8192 bytes on an instance
with `data_size` 50 returns `LL_OK` at the end of its enqueue phase and leaves
164 = ceil(8192 / 50) segments in the FIFO.  The segments 0, 1, 162 and 163 have
destination 20:54, source 10:55, `offset.id` 0, 1, 162, 163, `offset.len` 50 (42
on the last), flags `PSH` and wlan 1 as the specification says, but `ctl.len` 0,
whereas `8192 & 0x3FFF` is 8192: the member `len` has 13 bits. -/
theorem LiteLink_SendPacket_total_length_8192 :
    ((sentPacket 50 8192).map fun r =>
        (r.2, r.1.segments.count,
          [0, 1, 162, 163].map fun k => headerFields (pendingBytes r.1 k 12))) =
      some (LL_OK, 164,
        [0, 1, 162, 163].map fun k =>
          [20, 54, 10, 55, k, if k = 163 then 42 else 50, LITELINK_PSH, 0, 1]) ∧
      8192 &&& 0x3FFF = 8192 ∧ (8192 + 50 - 1) / 50 = 164 := by
  decide!

set_option maxRecDepth 100000 in
/-- Scenario S4 on the sending side: `LiteLink_SendPacket` of 257 bytes with
`data_size` 50 enqueues 6 segments with `offset.id` 0..5, `offset.len` 50 (7 on
the last), flags `PSH`, `ctl.len` 257 and wlan 1, whose payloads are the 257
bytes in order. -/
theorem LiteLink_SendPacket_segments_257 :
    ((sentPacket 50 257).map fun r =>
        (r.2, r.1.segments.count,
          (List.range 6).map fun k => headerFields (pendingBytes r.1 k 12),
          decide (pendingPayloads r.1 6 = bufList demoData 257))) =
      some (LL_OK, 6,
        (List.range 6).map fun k =>
          [20, 54, 10, 55, k, if k = 5 then 7 else 50, LITELINK_PSH, 257, 1], true) := by
  decide!

set_option maxRecDepth 100000 in
/-- C23 (defect of the code): a payload of 8192 bytes with `data_size` 50 (164
segments, within 255 * 50) is not delivered once with its bytes.  When the first
two serialized segments have gone, one at a time, through
`LiteLink_InboundMessage` and `LiteLink_Process` on the receiver, the callback of
port 54 has been called twice, each time with source 10:55 (695) and length 0:
the total length in every header is 0, so each segment is taken for a whole
message. -/
theorem LiteLink_round_trip_8192 :
    ((sentPacket 50 8192).map fun r => (r.2, r.1.segments.count)) = some (LL_OK, 164) ∧
      deliveredCalls 50 8192 2 = some [[54, 695, 0, 0, 1], [54, 695, 0, 0, 1]] := by
  decide!

set_option maxRecDepth 100000 in
/-- Payloads of 1, 50, 51 and 101 bytes with `data_size` 50 (1, 1, 2 and 3
segments): the callback of port 54 is called once, with source 10:55 (695), the
length sent and the bytes sent, and for 51 bytes it is not called before the
second segment is processed. -/
theorem LiteLink_round_trip_small :
    deliveredCalls 50 1 1 = some [[54, 695, 1, 1, 1]] ∧
      deliveredCalls 50 50 1 = some [[54, 695, 50, 50, 1]] ∧
      deliveredCalls 50 51 1 = some [] ∧
      deliveredCalls 50 51 2 = some [[54, 695, 51, 51, 1]] ∧
      deliveredCalls 50 101 3 = some [[54, 695, 101, 101, 1]] := by
  decide!

set_option maxRecDepth 100000 in
/-- Scenario S4: a payload of 257 bytes with `data_size` 50 goes through the
link in 6 segments, and the callback of port 54 is called once, with source
10:55 (695) and 257 bytes. -/
theorem LiteLink_round_trip_257 :
    deliveredLengths 50 257 6 = some [[54, 695, 257, 257]] := by
  decide!

/-! ## C26: the wire layout of the header -/

theorem LiteLink_ParserSegment_copy_header (segment buffer : Buf) (i : Nat) (h : i < 12) :
    LiteLink_ParserSegment_copy segment buffer i = segment i := by
  unfold LiteLink_ParserSegment_copy memcpy LITELINK_HEADER_SIZE
  rw [if_neg (by omega), if_pos (by omega), Nat.sub_zero]

theorem LiteLink_ParserSegment_swap_bytes (rnd : Nat) (b : Buf) :
    LiteLink_ParserSegment_swap rnd b 2 = swap16bit (rd16 b 2) % 256 ∧
    LiteLink_ParserSegment_swap rnd b 3 = swap16bit (rd16 b 2) / 256 % 256 ∧
    LiteLink_ParserSegment_swap rnd b 4 = swap16bit (rd16 b 4) % 256 ∧
    LiteLink_ParserSegment_swap rnd b 5 = swap16bit (rd16 b 4) / 256 % 256 ∧
    LiteLink_ParserSegment_swap rnd b 6 = swap16bit (rd16 b 6) % 256 ∧
    LiteLink_ParserSegment_swap rnd b 7 = swap16bit (rd16 b 6) / 256 % 256 ∧
    LiteLink_ParserSegment_swap rnd b 8 = swap32bit (rd32 b 8) % 256 ∧
    LiteLink_ParserSegment_swap rnd b 9 = swap32bit (rd32 b 8) / 256 % 256 ∧
    LiteLink_ParserSegment_swap rnd b 10 = swap32bit (rd32 b 8) / 65536 % 256 ∧
    LiteLink_ParserSegment_swap rnd b 11 = swap32bit (rd32 b 8) / 16777216 % 256 := by
  refine ⟨?_, ?_, ?_, ?_, ?_, ?_, ?_, ?_, ?_, ?_⟩ <;>
    simp [LiteLink_ParserSegment_swap, swapField16, swapField32, wr16, wr32, rd16, rd32, setByte]

theorem LiteLink_ParserSegment_byte (rnd : Nat) (segment buffer : Buf) (i : Nat) (h : i ≠ 0) :
    (LiteLink_ParserSegment rnd segment buffer).1 i =
      LiteLink_ParserSegment_swap rnd (LiteLink_ParserSegment_copy segment buffer) i := by
  unfold LiteLink_ParserSegment
  show setByte _ 0 _ i = _
  unfold setByte
  rw [if_neg h]

theorem be_bytes (a b c d : Nat) (ha : a < 256) (hb : b < 256) (hc : c < 256) (hd : d < 256) :
    (d + 256 * c + 65536 * b + 16777216 * a) % 256 = d ∧
    (d + 256 * c + 65536 * b + 16777216 * a) / 256 % 256 = c ∧
    (d + 256 * c + 65536 * b + 16777216 * a) / 65536 % 256 = b ∧
    (d + 256 * c + 65536 * b + 16777216 * a) / 16777216 % 256 = a := by
  have h1 : (d + 256 * c + 65536 * b + 16777216 * a) / 256 = c + 256 * b + 65536 * a := by omega
  have h2 : (d + 256 * c + 65536 * b + 16777216 * a) / 65536 = b + 256 * a := by omega
  have h3 : (d + 256 * c + 65536 * b + 16777216 * a) / 16777216 = a := by omega
  rw [h1, h2, h3]
  refine ⟨?_, ?_, ?_, ?_⟩ <;> omega

theorem ctl_word_eq (C : Nat) (h : C < 4294967296) :
    C / 4194304 % 1024 * 4194304 + C / 2097152 % 2 * 2097152 + C / 8192 % 256 * 8192 +
      C % 8192 = C := by
  omega

theorem addr_word_eq (D : Nat) (h : D < 65536) : D / 64 % 1024 * 64 + D % 64 = D := by
  omega

theorem be_bytes16 (a b : Nat) (ha : a < 256) (hb : b < 256) :
    (b + 256 * a) % 256 = b ∧ (b + 256 * a) / 256 % 256 = a := by
  constructor <;> omega

/-- C26: for every segment in memory (bytes below 256), whatever `rand()`
returns and whatever the output buffer held, bytes 8..11 of the frame that
`LiteLink_ParserSegment` produces are the big-endian encoding of the word
`(wlan << 22) | (type << 21) | (flags << 13) | len` built from the members of
`header.ctl`, bytes 2..3 are the big-endian encoding of
`(des.addr << 6) | des.port`, bytes 4..5 likewise for `src`, byte 6 is
`offset.id` and byte 7 is `offset.len`. -/
theorem LiteLink_ParserSegment_wire_layout (rnd : Nat) (segment buffer : Buf)
    (hseg : ∀ i, segment i < 256) :
    (LiteLink_ParserSegment rnd segment buffer).1 8 =
        (ctl_wlan (seg_ctl segment) * 4194304 + ctl_type (seg_ctl segment) * 2097152 +
          ctl_flags (seg_ctl segment) * 8192 + ctl_len (seg_ctl segment)) / 16777216 % 256 ∧
      (LiteLink_ParserSegment rnd segment buffer).1 9 =
        (ctl_wlan (seg_ctl segment) * 4194304 + ctl_type (seg_ctl segment) * 2097152 +
          ctl_flags (seg_ctl segment) * 8192 + ctl_len (seg_ctl segment)) / 65536 % 256 ∧
      (LiteLink_ParserSegment rnd segment buffer).1 10 =
        (ctl_wlan (seg_ctl segment) * 4194304 + ctl_type (seg_ctl segment) * 2097152 +
          ctl_flags (seg_ctl segment) * 8192 + ctl_len (seg_ctl segment)) / 256 % 256 ∧
      (LiteLink_ParserSegment rnd segment buffer).1 11 =
        (ctl_wlan (seg_ctl segment) * 4194304 + ctl_type (seg_ctl segment) * 2097152 +
          ctl_flags (seg_ctl segment) * 8192 + ctl_len (seg_ctl segment)) % 256 ∧
      (LiteLink_ParserSegment rnd segment buffer).1 2 =
        (addr_addr (seg_des segment) * 64 + addr_port (seg_des segment)) / 256 % 256 ∧
      (LiteLink_ParserSegment rnd segment buffer).1 3 =
        (addr_addr (seg_des segment) * 64 + addr_port (seg_des segment)) % 256 ∧
      (LiteLink_ParserSegment rnd segment buffer).1 4 =
        (addr_addr (seg_src segment) * 64 + addr_port (seg_src segment)) / 256 % 256 ∧
      (LiteLink_ParserSegment rnd segment buffer).1 5 =
        (addr_addr (seg_src segment) * 64 + addr_port (seg_src segment)) % 256 ∧
      (LiteLink_ParserSegment rnd segment buffer).1 6 = offset_id (seg_offset segment) ∧
      (LiteLink_ParserSegment rnd segment buffer).1 7 = offset_len (seg_offset segment) := by
  obtain ⟨e2, e3, e4, e5, e6, e7, e8, e9, e10, e11⟩ :=
    LiteLink_ParserSegment_swap_bytes rnd (LiteLink_ParserSegment_copy segment buffer)
  have c (i : Nat) (h : i < 12) := LiteLink_ParserSegment_copy_header segment buffer i h
  have hd : rd16 (LiteLink_ParserSegment_copy segment buffer) 2 = segment 2 + 256 * segment 3 := by
    unfold rd16; rw [c 2 (by omega), c 3 (by omega)]
  have hs : rd16 (LiteLink_ParserSegment_copy segment buffer) 4 = segment 4 + 256 * segment 5 := by
    unfold rd16; rw [c 4 (by omega), c 5 (by omega)]
  have ho : rd16 (LiteLink_ParserSegment_copy segment buffer) 6 = segment 6 + 256 * segment 7 := by
    unfold rd16; rw [c 6 (by omega), c 7 (by omega)]
  have hc : rd32 (LiteLink_ParserSegment_copy segment buffer) 8 =
      segment 8 + 256 * segment 9 + 65536 * segment 10 + 16777216 * segment 11 := by
    unfold rd32; rw [c 8 (by omega), c 9 (by omega), c 10 (by omega), c 11 (by omega)]
  rw [hd, swap16bit_bytes _ _ (hseg 2) (hseg 3)] at e2 e3
  rw [hs, swap16bit_bytes _ _ (hseg 4) (hseg 5)] at e4 e5
  rw [ho, swap16bit_bytes _ _ (hseg 6) (hseg 7)] at e6 e7
  rw [hc, swap32bit_bytes _ _ _ _ (hseg 8) (hseg 9) (hseg 10) (hseg 11)] at e8 e9 e10 e11
  have h2 := hseg 2
  have h3 := hseg 3
  have h4 := hseg 4
  have h5 := hseg 5
  have h6 := hseg 6
  have h7 := hseg 7
  have h8 := hseg 8
  have h9 := hseg 9
  have h10 := hseg 10
  have h11 := hseg 11
  obtain ⟨g2, g3⟩ := be_bytes16 (segment 2) (segment 3) h2 h3
  obtain ⟨g4, g5⟩ := be_bytes16 (segment 4) (segment 5) h4 h5
  obtain ⟨g6, g7⟩ := be_bytes16 (segment 6) (segment 7) h6 h7
  obtain ⟨g8, g9, g10, g11⟩ := be_bytes (segment 8) (segment 9) (segment 10) (segment 11)
    h8 h9 h10 h11
  rw [g2] at e2
  rw [g3] at e3
  rw [g4] at e4
  rw [g5] at e5
  rw [g6] at e6
  rw [g7] at e7
  rw [g8] at e8
  rw [g9] at e9
  rw [g10] at e10
  rw [g11] at e11
  rw [LiteLink_ParserSegment_byte _ _ _ 8 (by omega), LiteLink_ParserSegment_byte _ _ _ 9 (by omega),
    LiteLink_ParserSegment_byte _ _ _ 10 (by omega),
    LiteLink_ParserSegment_byte _ _ _ 11 (by omega), LiteLink_ParserSegment_byte _ _ _ 2 (by omega),
    LiteLink_ParserSegment_byte _ _ _ 3 (by omega), LiteLink_ParserSegment_byte _ _ _ 4 (by omega),
    LiteLink_ParserSegment_byte _ _ _ 5 (by omega), LiteLink_ParserSegment_byte _ _ _ 6 (by omega),
    LiteLink_ParserSegment_byte _ _ _ 7 (by omega), e2, e3, e4, e5, e6, e7, e8, e9, e10, e11]
  have hC : seg_ctl segment =
      segment 8 + 256 * segment 9 + 65536 * segment 10 + 16777216 * segment 11 := rfl
  have hD : seg_des segment = segment 2 + 256 * segment 3 := rfl
  have hS : seg_src segment = segment 4 + 256 * segment 5 := rfl
  have hO : seg_offset segment = segment 6 + 256 * segment 7 := rfl
  rw [hC, hD, hS, hO]
  unfold ctl_wlan ctl_type ctl_flags ctl_len addr_addr addr_port offset_id offset_len
  rw [ctl_word_eq _ (by omega), addr_word_eq (segment 2 + 256 * segment 3) (by omega),
    addr_word_eq (segment 4 + 256 * segment 5) (by omega)]
  obtain ⟨k2, k3⟩ := be_bytes16 (segment 3) (segment 2) h3 h2
  obtain ⟨k4, k5⟩ := be_bytes16 (segment 5) (segment 4) h5 h4
  obtain ⟨k6, k7⟩ := be_bytes16 (segment 7) (segment 6) h7 h6
  obtain ⟨k8, k9, k10, k11⟩ := be_bytes (segment 11) (segment 10) (segment 9) (segment 8)
    h11 h10 h9 h8
  exact ⟨k11.symm, k10.symm, k9.symm, k8.symm, k3.symm, k2.symm, k5.symm, k4.symm, k7.symm,
    k6.symm⟩

/-- Witness of `LiteLink_ParserSegment_wire_layout`: the header that
`LiteLink_SendPacket` builds for a 5-byte packet from 10:55 to 20:54 on wlan 1
(flags `PSH`, total length 5, type 0) is serialized with bytes 2..11 equal to
05 36, 02 B7, 00 05 and 00 42 00 05. -/
theorem LiteLink_ParserSegment_wire_layout_witness :
    (LiteLink_ParserSegment 0x5A (listBuf pushHeader) zeroBuf).1 8 = 0x00 ∧
      (LiteLink_ParserSegment 0x5A (listBuf pushHeader) zeroBuf).1 9 = 0x42 ∧
      (LiteLink_ParserSegment 0x5A (listBuf pushHeader) zeroBuf).1 10 = 0x00 ∧
      (LiteLink_ParserSegment 0x5A (listBuf pushHeader) zeroBuf).1 11 = 0x05 ∧
      (LiteLink_ParserSegment 0x5A (listBuf pushHeader) zeroBuf).1 2 = 0x05 ∧
      (LiteLink_ParserSegment 0x5A (listBuf pushHeader) zeroBuf).1 3 = 0x36 ∧
      (LiteLink_ParserSegment 0x5A (listBuf pushHeader) zeroBuf).1 4 = 0x02 ∧
      (LiteLink_ParserSegment 0x5A (listBuf pushHeader) zeroBuf).1 5 = 0xB7 ∧
      (LiteLink_ParserSegment 0x5A (listBuf pushHeader) zeroBuf).1 6 = 0x00 ∧
      (LiteLink_ParserSegment 0x5A (listBuf pushHeader) zeroBuf).1 7 = 0x05 := by
  obtain ⟨h8, h9, h10, h11, h2, h3, h4, h5, h6, h7⟩ :=
    LiteLink_ParserSegment_wire_layout 0x5A (listBuf pushHeader) zeroBuf
      (listBuf_lt _ (by decide))
  exact ⟨h8.trans (by decide), h9.trans (by decide), h10.trans (by decide),
    h11.trans (by decide), h2.trans (by decide), h3.trans (by decide), h4.trans (by decide),
    h5.trans (by decide), h6.trans (by decide), h7.trans (by decide)⟩

set_option maxRecDepth 100000 in
/-- C26 (counterexample): the segment that `LiteLink_SendPacket` builds for a
5-byte packet on wlan 1 has type 0, wlan 1, flags 0x10 and total length 5.
`LiteLink_ParserSegment` gives bytes 8..11 = 00 42 00 05, the big-endian
encoding of `(1 << 22) | (0 << 21) | (0x10 << 13) | 5`; the word
`(0 << 31) | (1 << 21) | (0x10 << 13) | 5` would give 00 22 00 05. -/
theorem LiteLink_ParserSegment_wlan_from_bit_22 :
    (sentSegmentBytes 50 5).take 12 = pushHeader ∧
      headerFields (sentSegmentBytes 50 5) = [20, 54, 10, 55, 0, 5, 0x10, 5, 1] ∧
      ctl_type (seg_ctl (sentSegment 50 5)) = 0 ∧
      ((serializedSegment 50 5).drop 8).take 4 = [0x00, 0x42, 0x00, 0x05] ∧
      bigEndian32 (1 * 4194304 + 0 * 2097152 + 0x10 * 8192 + 5) = [0x00, 0x42, 0x00, 0x05] ∧
      bigEndian32 (specCtlWord 0 1 0x10 5) = [0x00, 0x22, 0x00, 0x05] := by
  decide!

/-! ## C27: the payload capacity of an instance -/

theorem LiteLink_uListen_free (llnet : LiteLink) (port : Nat) (hport : port < 0x3F)
    (hfree : llnet.services.objects port = none) :
    (LiteLink_uListen llnet port).2 = true ∧
      (LiteLink_uListen llnet port).1.data_size = llnet.data_size ∧
      ((LiteLink_uListen llnet port).1.services.objects port).map (fun s => s.data_size) =
        some llnet.data_size ∧
      ∀ other, other ≠ port →
        (LiteLink_uListen llnet port).1.services.objects other = llnet.services.objects other := by
  unfold LiteLink_uListen
  rw [if_neg (by omega), if_pos (by rw [hfree]; rfl)]
  refine ⟨rfl, rfl, ?_, ?_⟩
  · show Option.map _ (if port = port then _ else _) = _
    rw [if_pos rfl]
    rfl
  · intro other h
    show (if other = port then _ else _) = _
    rw [if_neg h]

/-- C27: `newLiteLink` returns NULL for every `segment_size` up to 12.  For
every larger `segment_size` it returns an instance whose `data_size` is
`segment_size - 12` reduced modulo 256 (the member is a `uint8_t`), which is
`segment_size - 12` for every `segment_size` up to 267; the system service
created at port 0 holds the same value, and so does the service that
`LiteLink_uListen` creates on the instance at any other port below 0x3F. -/
theorem newLiteLink_data_size (wlan_address local_address segment_size : Nat)
    (outbound_event : Bool) :
    (segment_size ≤ 12 →
      newLiteLink wlan_address local_address segment_size outbound_event = none) ∧
    (12 < segment_size →
      ∃ llnet, newLiteLink wlan_address local_address segment_size outbound_event = some llnet ∧
        llnet.data_size = (segment_size - 12) % 256 ∧
        (segment_size ≤ 267 → llnet.data_size = segment_size - 12) ∧
        (llnet.services.objects 0).map (fun s => s.data_size) = some ((segment_size - 12) % 256) ∧
        ∀ port, 0 < port → port < 0x3F →
          (LiteLink_uListen llnet port).2 = true ∧
          (LiteLink_uListen llnet port).1.data_size = (segment_size - 12) % 256 ∧
          ((LiteLink_uListen llnet port).1.services.objects port).map (fun s => s.data_size) =
            some ((segment_size - 12) % 256)) := by
  constructor
  · intro h
    unfold newLiteLink
    rw [if_pos (show segment_size ≤ LITELINK_HEADER_SIZE from h)]
  · intro h
    unfold newLiteLink
    rw [if_neg (show ¬ segment_size ≤ LITELINK_HEADER_SIZE by unfold LITELINK_HEADER_SIZE; omega)]
    refine ⟨_, rfl, ?_⟩
    obtain ⟨_, h2, h3, h4⟩ := LiteLink_uListen_free
      { segments := LiteLink_newFifo 0xFF
        services := { objects := fun _ => none, count := 0, capacity := 0x3F }
        outbound_event := outbound_event
        data_size := u8 (segment_size - LITELINK_HEADER_SIZE)
        lock := LL_UNLOCKED
        local_address := local_address &&& LITELINK_BROADCAST_ADDR
        wlan_address := wlan_address &&& LITELINK_BROADCAST_ADDR } 0 (by omega) rfl
    have h2a := h2.trans (show u8 (segment_size - LITELINK_HEADER_SIZE) =
      (segment_size - 12) % 256 from rfl)
    refine ⟨h2a, ?_, h3.trans rfl, ?_⟩
    · intro hle
      rw [h2a]
      omega
    · intro port hp hport
      obtain ⟨k1, k2, k3, _⟩ := LiteLink_uListen_free _ port hport
        ((h4 port (by omega)).trans rfl)
      exact ⟨k1, k2.trans h2a, k3.trans (congrArg some h2a)⟩

/-- Witness of `newLiteLink_data_size`: `newLiteLink(1, 10, 62, ...)`, the call
of `mainApp.c`, returns an instance with `data_size` 50, and the service that
`LiteLink_uListen` creates on it at port 55 holds 50 as well. -/
theorem newLiteLink_data_size_witness :
    ∃ llnet, newLiteLink 1 10 62 true = some llnet ∧ llnet.data_size = 50 ∧
      (LiteLink_uListen llnet 55).2 = true ∧
      ((LiteLink_uListen llnet 55).1.services.objects 55).map (fun s => s.data_size) =
        some 50 := by
  obtain ⟨llnet, h1, _, h3, _, h5⟩ := (newLiteLink_data_size 1 10 62 true).2 (by decide)
  obtain ⟨k1, _, k3⟩ := h5 55 (by decide) (by decide)
  exact ⟨llnet, h1, h3 (by decide), k1, k3⟩

/-- C27 (counterexample): `newLiteLink` accepts `segment_size = 268`, and the
instance it returns has `data_size` 0, not 268 - 12 = 256. -/
theorem newLiteLink_data_size_268 :
    (newLiteLink 1 10 268 true).map (fun llnet => llnet.data_size) = some 0 ∧
      268 - LITELINK_HEADER_SIZE = 256 := by
  decide

/-! ## C28: the zones computed by `ufs_FastFormat` -/

theorem and_FFFFFFF0 (y : Nat) (h : y < 4294967296) : y &&& 0xFFFFFFF0 = y / 16 * 16 := by
  have h1 := and_shifted 4 (y % 16) (y / 16) 0xFFFFFFF (by omega)
  have h2 : y / 16 &&& 0xFFFFFFF = y / 16 := by
    rw [show (0xFFFFFFF : Nat) = 2 ^ 28 - 1 by decide, Nat.and_pow_two_sub_one_eq_mod]
    omega
  rw [h2] at h1
  rw [show 2 ^ 4 * (y / 16) + y % 16 = y by omega,
    show 2 ^ 4 * 0xFFFFFFF = 0xFFFFFFF0 by decide] at h1
  omega

theorem format_Map_floor (conf : ufs_Cfg_Type) (hmax : conf.u8NumberFileMaxOfDevice < 256)
    (hsec : conf.api.u16numberByteOfSector < 65536) :
    format_ClusterMappingZoneFirstSector conf =
      1 + conf.u8NumberFileMaxOfDevice * 32 / conf.api.u16numberByteOfSector + 1 := by
  unfold format_ClusterMappingZoneFirstSector sizeof_ItemInfo
  rw [u16_of_lt _ hsec, Nat.mul_comm 32]
  have h := Nat.div_le_self (conf.u8NumberFileMaxOfDevice * 32) conf.api.u16numberByteOfSector
  generalize conf.u8NumberFileMaxOfDevice * 32 / conf.api.u16numberByteOfSector = q at h
  rw [u16_of_lt _ (by omega)]
  omega
theorem format_nFor_eq (conf : ufs_Cfg_Type)
    (hroom : format_ClusterMappingZoneFirstSector conf < u16 conf.api.u32numberSectorOfDevice) :
    format_numberSectorForClusterMapping conf =
      (u16 conf.api.u32numberSectorOfDevice - (format_ClusterMappingZoneFirstSector conf + 1)) /
        u16 (u16 conf.api.u16numberByteOfSector / 2) + 1 := by
  unfold format_numberSectorForClusterMapping
  have hD : u16 conf.api.u32numberSectorOfDevice < 65536 := u16_lt _
  have h1 : ((u16 conf.api.u32numberSectorOfDevice : Nat) : Int) -
      ((format_ClusterMappingZoneFirstSector conf : Int) + 1) =
      ((u16 conf.api.u32numberSectorOfDevice -
        (format_ClusterMappingZoneFirstSector conf + 1) : Nat) : Int) := by
    omega
  rw [h1, ← Int.ofNat_tdiv]
  have hq := Nat.div_le_self (u16 conf.api.u32numberSectorOfDevice -
    (format_ClusterMappingZoneFirstSector conf + 1)) (u16 (u16 conf.api.u16numberByteOfSector / 2))
  generalize (u16 conf.api.u32numberSectorOfDevice -
    (format_ClusterMappingZoneFirstSector conf + 1)) /
      (u16 (u16 conf.api.u16numberByteOfSector / 2)) = q at hq
  unfold u16i
  omega

/-- The zones of `ufs_FastFormat` for a number of sectors taken as the code
narrows it to a `uint16_t`: the statement of `ufs_FastFormat_zones` with the
condition on `Ndev mod 65536`. -/
theorem ufs_FastFormat_zones_u16 (ufs : UFS) (fl : Flash) (uid : Buf)
    (hmax : ufs.conf.u8NumberFileMaxOfDevice < 256)
    (hsec16 : ufs.conf.api.u16numberByteOfSector < 65536)
    (hroom : 1 + ufs.conf.u8NumberFileMaxOfDevice * 32 / ufs.conf.api.u16numberByteOfSector + 1 <
      u16 ufs.conf.api.u32numberSectorOfDevice) :
    (ufs_FastFormat ufs fl uid).1.ItemZoneFirstSector = 1 ∧
      (ufs_FastFormat ufs fl uid).1.ClusterMappingZoneFirstSector =
        1 + ufs.conf.u8NumberFileMaxOfDevice * 32 / ufs.conf.api.u16numberByteOfSector + 1 ∧
      ufs.conf.api.u16numberSectorOfBlock ≤ (ufs_FastFormat ufs fl uid).1.NumberSectorOfCluster ∧
      (ufs_FastFormat ufs fl uid).1.ClusterDataZoneFirstSector % 16 = 0 ∧
      (ufs_FastFormat ufs fl uid).1.ClusterMappingZoneFirstSector <
        (ufs_FastFormat ufs fl uid).1.ClusterDataZoneFirstSector := by
  have hItem : (ufs_FastFormat ufs fl uid).1.ItemZoneFirstSector = 1 := rfl
  have hMap : (ufs_FastFormat ufs fl uid).1.ClusterMappingZoneFirstSector =
      format_ClusterMappingZoneFirstSector ufs.conf := rfl
  have hNSC : (ufs_FastFormat ufs fl uid).1.NumberSectorOfCluster =
      format_NumberSectorOfCluster ufs.conf := rfl
  have hData : (ufs_FastFormat ufs fl uid).1.ClusterDataZoneFirstSector =
      format_ClusterDataZoneFirstSector ufs.conf := rfl
  have hM := format_Map_floor ufs.conf hmax hsec16
  have hMle : format_ClusterMappingZoneFirstSector ufs.conf ≤ 8162 := by
    rw [hM]
    have := Nat.div_le_self (ufs.conf.u8NumberFileMaxOfDevice * 32)
      ufs.conf.api.u16numberByteOfSector
    omega
  have hM2 := format_CM_eq ufs.conf hmax
  have hF := format_nFor_eq ufs.conf (by rw [hM]; exact hroom)
  have hD : u16 ufs.conf.api.u32numberSectorOfDevice < 65536 := u16_lt _
  have hMaxv : format_numberSectorMaxForClusterMapping ufs.conf =
      u16 ufs.conf.api.u32numberSectorOfDevice / 50 := by
    unfold format_numberSectorMaxForClusterMapping
    exact u16_of_lt _ (by omega)
  have hMax2 : format_numberSectorMaxForClusterMapping ufs.conf ≤ 1310 := by rw [hMaxv]; omega
  have hFle : format_numberSectorForClusterMapping ufs.conf ≤ 65534 := by
    rw [hF]
    have := Nat.div_le_self (u16 ufs.conf.api.u32numberSectorOfDevice -
      (format_ClusterMappingZoneFirstSector ufs.conf + 1))
      (u16 (u16 ufs.conf.api.u16numberByteOfSector / 2))
    omega
  have hx : u16 (format_numberSectorForClusterMapping ufs.conf /
      format_numberSectorMaxForClusterMapping ufs.conf + 1) =
      format_numberSectorForClusterMapping ufs.conf /
        format_numberSectorMaxForClusterMapping ufs.conf + 1 := by
    have := Nat.div_le_self (format_numberSectorForClusterMapping ufs.conf)
      (format_numberSectorMaxForClusterMapping ufs.conf)
    exact u16_of_lt _ (by omega)
  rw [hItem, hMap, hNSC, hData]
  refine ⟨rfl, hM, ?_, ?_, ?_⟩
  · unfold format_NumberSectorOfCluster
    split
    · exact Nat.le_refl _
    · rename_i hc
      by_cases hb : ufs.conf.api.u16numberSectorOfBlock = 0
      · rw [hb]; exact Nat.zero_le _
      · exact Nat.le_of_not_lt (fun hlt => hc ⟨hb, hlt⟩)
  · unfold format_ClusterDataZoneFirstSector
    have hlt := u16_lt (format_ClusterMappingZoneFirstSector ufs.conf +
      (if format_NumberSectorOfCluster ufs.conf ≠ 1
        then format_numberSectorMaxForClusterMapping ufs.conf
        else format_numberSectorForClusterMapping ufs.conf) + 1)
    rw [and_FFFFFFF0 _ (by omega)]
    unfold u16 at *
    omega
  · unfold format_ClusterDataZoneFirstSector
    have hpre : format_ClusterMappingZoneFirstSector ufs.conf +
        (if format_NumberSectorOfCluster ufs.conf ≠ 1
          then format_numberSectorMaxForClusterMapping ufs.conf
          else format_numberSectorForClusterMapping ufs.conf) + 1 ≤ 9473 := by
      by_cases h1 : format_NumberSectorOfCluster ufs.conf ≠ 1
      · rw [if_pos h1]; omega
      · rw [if_neg h1]
        have h1' : format_NumberSectorOfCluster ufs.conf = 1 := by omega
        have hq : format_numberSectorForClusterMapping ufs.conf /
            format_numberSectorMaxForClusterMapping ufs.conf = 0 := by
          unfold format_NumberSectorOfCluster at h1'
          rw [hx] at h1'
          generalize format_numberSectorForClusterMapping ufs.conf /
            format_numberSectorMaxForClusterMapping ufs.conf = q at h1' ⊢
          split at h1' <;> omega
        by_cases hz : format_numberSectorMaxForClusterMapping ufs.conf = 0
        · have hle : format_numberSectorForClusterMapping ufs.conf ≤
              u16 ufs.conf.api.u32numberSectorOfDevice := by
            rw [hF]
            have := Nat.div_le_self (u16 ufs.conf.api.u32numberSectorOfDevice -
              (format_ClusterMappingZoneFirstSector ufs.conf + 1))
              (u16 (u16 ufs.conf.api.u16numberByteOfSector / 2))
            omega
          rw [hMaxv] at hz
          omega
        · have := (Nat.div_eq_zero_iff (Nat.pos_of_ne_zero hz)).1 hq
          omega
    have hge : format_ClusterMappingZoneFirstSector ufs.conf + 1 ≤
        format_ClusterMappingZoneFirstSector ufs.conf +
        (if format_NumberSectorOfCluster ufs.conf ≠ 1
          then format_numberSectorMaxForClusterMapping ufs.conf
          else format_numberSectorForClusterMapping ufs.conf) + 1 := by
      omega
    generalize format_ClusterMappingZoneFirstSector ufs.conf +
        (if format_NumberSectorOfCluster ufs.conf ≠ 1
          then format_numberSectorMaxForClusterMapping ufs.conf
          else format_numberSectorForClusterMapping ufs.conf) + 1 = pre at hpre hge ⊢
    rw [u16_of_lt pre (by omega), and_FFFFFFF0 _ (by omega), u16_of_lt _ (by omega)]
    omega

/-- C28: for every configuration with at most 255 items and a sector size
below 65536 (the ranges of their C types) whose number of sectors is below 65536
and exceeds the first sector number of the cluster map, `ufs_FastFormat` sets
`ItemZoneFirstSector` to 1, `ClusterMappingZoneFirstSector` to
`1 + floor(max_items * 32 / Ssec) + 1`, `NumberSectorOfCluster` to a value that
is at least `Sblk`, and `ClusterDataZoneFirstSector` to a multiple of 16 that is
strictly greater than `ClusterMappingZoneFirstSector`. -/
theorem ufs_FastFormat_zones (ufs : UFS) (fl : Flash) (uid : Buf)
    (hmax : ufs.conf.u8NumberFileMaxOfDevice < 256)
    (hsec16 : ufs.conf.api.u16numberByteOfSector < 65536)
    (hdev16 : ufs.conf.api.u32numberSectorOfDevice < 65536)
    (hroom : 1 + ufs.conf.u8NumberFileMaxOfDevice * 32 / ufs.conf.api.u16numberByteOfSector + 1 <
      ufs.conf.api.u32numberSectorOfDevice) :
    (ufs_FastFormat ufs fl uid).1.ItemZoneFirstSector = 1 ∧
      (ufs_FastFormat ufs fl uid).1.ClusterMappingZoneFirstSector =
        1 + ufs.conf.u8NumberFileMaxOfDevice * 32 / ufs.conf.api.u16numberByteOfSector + 1 ∧
      ufs.conf.api.u16numberSectorOfBlock ≤ (ufs_FastFormat ufs fl uid).1.NumberSectorOfCluster ∧
      (ufs_FastFormat ufs fl uid).1.ClusterDataZoneFirstSector % 16 = 0 ∧
      (ufs_FastFormat ufs fl uid).1.ClusterMappingZoneFirstSector <
        (ufs_FastFormat ufs fl uid).1.ClusterDataZoneFirstSector :=
  ufs_FastFormat_zones_u16 ufs fl uid hmax hsec16 (by rw [u16_of_lt _ hdev16]; exact hroom)

/-- Witness of `ufs_FastFormat_zones`: the configuration of `ufs_conf.c`
(4096-byte sectors, 16 sectors per block, 4096 sectors, 20 items) gives the
zones 1, 2 and 96 with 16 sectors per cluster. -/
theorem ufs_FastFormat_zones_witness :
    (ufs_FastFormat (blankUfs Ufs_Cfg) erasedFlash demoUid).1.ItemZoneFirstSector = 1 ∧
      (ufs_FastFormat (blankUfs Ufs_Cfg) erasedFlash demoUid).1.ClusterMappingZoneFirstSector =
        1 + 20 * 32 / 4096 + 1 ∧
      16 ≤ (ufs_FastFormat (blankUfs Ufs_Cfg) erasedFlash demoUid).1.NumberSectorOfCluster ∧
      (ufs_FastFormat (blankUfs Ufs_Cfg) erasedFlash demoUid).1.ClusterDataZoneFirstSector % 16 =
        0 ∧
      (ufs_FastFormat (blankUfs Ufs_Cfg) erasedFlash demoUid).1.ClusterMappingZoneFirstSector <
        (ufs_FastFormat (blankUfs Ufs_Cfg) erasedFlash demoUid).1.ClusterDataZoneFirstSector :=
  ufs_FastFormat_zones (blankUfs Ufs_Cfg) erasedFlash demoUid (by decide) (by decide) (by decide)
    (by decide)

/-- C28 (counterexample): with the configuration of `ufs_conf.c` (20 items,
4096-byte sectors) `ufs_FastFormat` sets `ClusterMappingZoneFirstSector` to 2,
whereas `1 + ceil(20 * 32 / 4096) + 1` is 3; the other zones are
`ItemZoneFirstSector` 1, `ClusterDataZoneFirstSector` 96 and
`NumberSectorOfCluster` 16.  With 39 items on 60 sectors of 16 bytes in blocks
of one sector, the cluster map would start at sector 80, beyond the device, and
`ClusterDataZoneFirstSector` is 80 as well, not greater.  The same holds with
65596 sectors, which `ufs_FastFormat` counts as 60 in its `uint16_t`. -/
theorem ufs_FastFormat_zones_shipped :
    ((ufs_FastFormat (blankUfs Ufs_Cfg) erasedFlash demoUid).1.ItemZoneFirstSector,
      (ufs_FastFormat (blankUfs Ufs_Cfg) erasedFlash demoUid).1.ClusterMappingZoneFirstSector,
      (ufs_FastFormat (blankUfs Ufs_Cfg) erasedFlash demoUid).1.ClusterDataZoneFirstSector,
      (ufs_FastFormat (blankUfs Ufs_Cfg) erasedFlash demoUid).1.NumberSectorOfCluster) =
        (1, 2, 96, 16) ∧
      1 + (20 * 32 + 4096 - 1) / 4096 + 1 = 3 ∧
      ((ufs_FastFormat (blankUfs crampedCfg) erasedFlash demoUid).1.ItemZoneFirstSector,
        (ufs_FastFormat (blankUfs crampedCfg) erasedFlash demoUid).1.ClusterMappingZoneFirstSector,
        (ufs_FastFormat (blankUfs crampedCfg) erasedFlash demoUid).1.ClusterDataZoneFirstSector,
        (ufs_FastFormat (blankUfs crampedCfg) erasedFlash demoUid).1.NumberSectorOfCluster) =
          (1, 80, 80, 1) ∧
      ((ufs_FastFormat (blankUfs wideCfg) erasedFlash demoUid).1.ClusterMappingZoneFirstSector,
        (ufs_FastFormat (blankUfs wideCfg) erasedFlash demoUid).1.ClusterDataZoneFirstSector) =
          (80, 80) ∧
      80 < wideCfg.api.u32numberSectorOfDevice := by
  decide

/-! ## C29: the cluster map after `ufs_FastFormat` -/

set_option maxRecDepth 100000 in
/-- C29 (defect of the code): after `ufs_FastFormat` on an erased device, slot 0
of the cluster map does not hold `UFS_CLUSTER_END`.  On the small device (map
sectors 4..15, 32 slots each) the first two bytes of sector 4 are 0x55 0x57, the
values `0xFF ^ 0xAA` and `0xFD ^ 0xAA` that the code puts in its buffer, so slot 0
reads 0x5755; the buffer is reused for the following sectors, so slots 32 and 352
(the first slots of sectors 5 and 15) read 0x5755 as well, not `UFS_CLUSTER_FREE`;
the other slots read 0xFFFF.  With the configuration of `ufs_conf.c` (map sectors
2..95, 2048 slots each) slots 0 and 2048 read 0x5755. -/
theorem ufs_FastFormat_root_slot_not_end :
    ((ufs_FastFormat (blankUfs demoCfg) erasedFlash demoUid).1.ClusterMappingZoneFirstSector,
        (ufs_FastFormat (blankUfs demoCfg) erasedFlash demoUid).1.ClusterDataZoneFirstSector) =
        (4, 16) ∧
      ((ufs_FastFormat (blankUfs demoCfg) erasedFlash demoUid).2 4 0,
        (ufs_FastFormat (blankUfs demoCfg) erasedFlash demoUid).2 4 1) = (0x55, 0x57) ∧
      mapSlot (ufs_FastFormat (blankUfs demoCfg) erasedFlash demoUid).1
        (ufs_FastFormat (blankUfs demoCfg) erasedFlash demoUid).2 0 = 0x5755 ∧
      UFS_CLUSTER_END = 0xFFFD ∧
      mapSlot (ufs_FastFormat (blankUfs demoCfg) erasedFlash demoUid).1
        (ufs_FastFormat (blankUfs demoCfg) erasedFlash demoUid).2 32 = 0x5755 ∧
      mapSlot (ufs_FastFormat (blankUfs demoCfg) erasedFlash demoUid).1
        (ufs_FastFormat (blankUfs demoCfg) erasedFlash demoUid).2 352 = 0x5755 ∧
      (∀ c, c < 384 → c % 32 ≠ 0 →
        mapSlot (ufs_FastFormat (blankUfs demoCfg) erasedFlash demoUid).1
          (ufs_FastFormat (blankUfs demoCfg) erasedFlash demoUid).2 c = UFS_CLUSTER_FREE) ∧
      mapSlot (ufs_FastFormat (blankUfs Ufs_Cfg) erasedFlash demoUid).1
        (ufs_FastFormat (blankUfs Ufs_Cfg) erasedFlash demoUid).2 0 = 0x5755 ∧
      mapSlot (ufs_FastFormat (blankUfs Ufs_Cfg) erasedFlash demoUid).1
        (ufs_FastFormat (blankUfs Ufs_Cfg) erasedFlash demoUid).2 2048 = 0x5755 ∧
      mapSlot (ufs_FastFormat (blankUfs Ufs_Cfg) erasedFlash demoUid).1
        (ufs_FastFormat (blankUfs Ufs_Cfg) erasedFlash demoUid).2 1 = UFS_CLUSTER_FREE := by
  refine ⟨?_, ?_, ?_, ?_, ?_, ?_, ?_, ?_, ?_, ?_⟩ <;> decide!

/-! ## C30: `ufs_ParseNameFile` -/

set_option maxRecDepth 100000 in
/-- C30 (defect of the code): `ufs_ParseNameFile` on a record whose first 22
bytes hold 0xEE.  The name `test.txt` gives head `test`, extension `txt` and
length 4, and leaves bytes 20 and 21 alone.  A name of 17 letters (sixteen `a`
and a `q`) gives length 17 and the extension `q`: `strncpy` copies
`strlen(name)` bytes into the 16-byte head.  A name of 21 letters also
overwrites byte 20, the first byte after the name, and gives the length 22, the
distance to the first zero byte in the record.  The name `.txt` gives head `txt`,
length 3 and no extension: `strtok_r` skips the leading dot. -/
theorem ufs_ParseNameFile_overruns_head :
    bufList (ufs_ParseNameFile nameTest staleRecord) 22 =
        [0x74, 0x65, 0x73, 0x74, 0, 0, 0, 0, 0, 0, 0, 0, 0, 0, 0, 0, 0x74, 0x78, 0x74, 4,
          0xEE, 0xEE] ∧
      bufList (ufs_ParseNameFile (List.replicate 16 0x61 ++ [0x71]) staleRecord) 22 =
        List.replicate 16 0x61 ++ [0x71, 0, 0, 17, 0xEE, 0xEE] ∧
      bufList (ufs_ParseNameFile (List.replicate 21 0x61) staleRecord) 22 =
        List.replicate 19 0x61 ++ [22, 0x61, 0xEE] ∧
      bufList (ufs_ParseNameFile [0x2E, 0x74, 0x78, 0x74] staleRecord) 22 =
        [0x74, 0x78, 0x74, 0, 0, 0, 0, 0, 0, 0, 0, 0, 0, 0, 0, 0, 0, 0, 0, 3, 0xEE, 0xEE] := by
  refine ⟨?_, ?_, ?_, ?_⟩ <;> decide!

/-! ## C31: the used size -/

set_option maxRecDepth 100000 in
/-- C31 (defect of the code): on the single-sector device `ufs_GetUsedSize` adds
`(size / Ssec + 1) * Ssec` for every listed record, the root folder included.
Freshly formatted, with no file, it returns 64; with the empty file `test.txt`
it returns 128; once the file holds exactly 64 bytes (one sector) it returns and
caches 192, the root folder counting 64 and the file 128, where the sum of the
file sizes rounded up to whole sectors is 64. -/
theorem ufs_GetUsedSize_counts_a_sector_more :
    (ufs_CountItem singleMount.ufs singleMount.fl,
        (ufs_GetUsedSize singleMount.ufs singleMount.fl).2) = (1, 64) ∧
      singleCreated.map (fun o => (o.ret, info_size o.item.info, ufs_CountItem o.ufs o.fl,
        (ufs_GetUsedSize o.ufs o.fl).2, (ufs_GetUsedSize o.ufs o.fl).1.UsedSize)) =
        some (UFS_OK, 0, 2, 128, 128) ∧
      sectorFile.map (fun o => (o.ret, info_size o.item.info, ufs_CountItem o.ufs o.fl,
        (ufs_GetUsedSize o.ufs o.fl).2, (ufs_GetUsedSize o.ufs o.fl).1.UsedSize)) =
        some (UFS_OK, 64, 2, 192, 192) := by
  refine ⟨?_, ?_, ?_⟩ <;> decide!

/-! ## C32: a bad cluster in the chain of an opened file -/

set_option maxRecDepth 100000 in
/-- C32 (defect of the code): on the device left by the failed write, `test.txt`
exists with size 0 and first cluster 1, and the map slot of cluster 1 holds
`UFS_CLUSTER_BAD`, so the chain reaches a bad slot at its first step:
`ufs_GetListCluster` on the handle returns `UFS_NOT_OK` and sets
`UFS_ERROR_MEM_SECTOR_BAD`.  `ufs_OpenItem` of the file with a zeroed handle
nevertheless returns `UFS_OK` and leaves `err = UFS_ERROR_NONE` on the handle. -/
theorem ufs_OpenItem_hides_bad_cluster :
    reopenedAfterFailure.map (fun o => (info_size o.item.info,
        ufs_GetListCluster_first o.ufs o.item.info,
        mapSlot o.ufs o.fl (ufs_GetListCluster_first o.ufs o.item.info))) =
        some (0, 1, UFS_CLUSTER_BAD) ∧
      reopenedAfterFailure.map (fun o => ((ufs_GetListCluster o.ufs o.fl o.item).2,
        (ufs_GetListCluster o.ufs o.fl o.item).1.err)) =
        some (UFS_NOT_OK, UFS_ERROR_MEM_SECTOR_BAD) ∧
      reopenedAfterFailure.map (fun o => (o.ret, o.item.err, o.item.status)) =
        some (UFS_OK, UFS_ERROR_NONE, UFS_FILE_EXIST) := by
  refine ⟨?_, ?_, ?_⟩ <;> decide!

/-! ## C33: the slot of a new item -/

set_option maxRecDepth 100000 in
/-- C33 (defect of the code): on the freshly formatted small device the slots
at position 1 of the three item sectors are free (item ids 1, 3 and 5).
`ufs_OpenItem` creating `test.txt` stores the record at sector 2, position 1,
the last free slot of the scan; the free slot with the smallest id, sector 0
position 1, is still free afterwards.  The other slots are unchanged. -/
theorem ufs_OpenItem_takes_last_free_slot :
    slotHeads demoMount.ufs demoMount.fl = [[0x2F, 0x00], [0x2F, 0x00], [0x2F, 0x00]] ∧
      demoCreated.map (fun o => (o.ret, o.item.location.sector_id, o.item.location.position,
        slotHeads o.ufs o.fl)) =
        some (UFS_OK, 2, 1, [[0x2F, 0x00], [0x2F, 0x00], [0x2F, 0x74]]) := by
  refine ⟨?_, ?_⟩ <;> decide!

/-! ## C36: the clusters chosen on a device of 33 clusters -/

set_option maxRecDepth 100000 in
/-- C36 (defect of the code): the 115-sector device has `(115 - 16) / 3 = 33`
clusters, numbers 0 to 32.  On the fresh device `ufs_OpenItem` creating
`test.txt` chooses map sector 1, position 1, that is cluster 33, whose data
sectors are 115 to 117.  A first write of 10 bytes takes cluster 2 through
`ufs_OrderClusters`; a second write takes cluster 35, and the data is stored in
sector `16 + 35 * 3 = 121`, beyond the 115 sectors of the device. -/
theorem ufs_OpenItem_cluster_beyond_device :
    (edgeMount.ufs.ClusterMappingZoneFirstSector, edgeMount.ufs.ClusterDataZoneFirstSector,
        edgeMount.ufs.NumberSectorOfCluster, clusterLimit edgeMount.ufs) = (4, 16, 3, 33) ∧
      edgeCreated.map (fun o => (o.ret, o.item.err, info_first_sector_id o.item.info,
        info_first_position o.item.info, o.item.clusters_value 0)) = some (UFS_OK, UFS_ERROR_NONE, 1, 1, 33) ∧
      edgeWritten.map (fun o => (o.ret, o.item.err, o.item.clusters_value 0)) =
        some (UFS_OK, UFS_ERROR_NONE, 2) ∧
      edgeRewritten.map (fun o => (o.ret, o.item.err, o.item.clusters_value 0, o.fl 121 0,
        o.fl 121 9)) = some (UFS_OK, UFS_ERROR_NONE, 35, 1, 64) := by
  refine ⟨?_, ?_, ?_, ?_⟩ <;> decide!

/-! ## C37: the item zone after a format -/

set_option maxRecDepth 100000 in
/-- C37 (defect of the code): the item zone of the small device spans three
sectors.  After `ufs_FastFormat` on an erased flash the first slot of each of
the three item sectors decodes to a record whose first byte is `/`, not only
item 0: the slots at sector 1 position 0 and sector 2 position 0 are not free,
and `ufs_CountItem` counts three items. -/
theorem ufs_FastFormat_root_in_every_item_sector :
    demoMount.formatted = true ∧
      (demoMount.ufs.ItemZoneFirstSector, demoMount.ufs.ClusterMappingZoneFirstSector) = (1, 4) ∧
      slotHeads demoMount.ufs demoMount.fl = [[0x2F, 0x00], [0x2F, 0x00], [0x2F, 0x00]] ∧
      (List.range 3).map (fun sector => bufList (readItemSector demoMount.ufs demoMount.fl sector) 4) =
        [[0x2F, 0, 0, 0], [0x2F, 0, 0, 0], [0x2F, 0, 0, 0]] ∧
      ufs_CountItem demoMount.ufs demoMount.fl = 3 := by
  refine ⟨?_, ?_, ?_, ?_, ?_⟩ <;> decide!

/-! ## C34: the reassembly buffer after a delivery -/

set_option maxRecDepth 100000 in
/-- C34 (defect of the code): a sender with a payload capacity of 2 bytes sends
the 3-byte packet 1, 8, 15 as the frames `fragmentZero` and `fragmentOne`.  The
receiver delivers the packet once after the two frames, and its reassembly
buffer is still there, holding the 3 bytes delivered.  When the last frame
arrives a second time its payload is added to that buffer and `onMessage` is
called again, with the 4 bytes 1, 8, 15, 15.  A frame with segment id 0 after
the delivery starts a new buffer, which then holds the 2 bytes of the frame. -/
theorem LiteLink_Process_delivers_duplicate_fragment :
    (sentPacket 2 3).bind (fun s => framesSent 2 s.1) = some [fragmentZero, fragmentOne] ∧
      (receiveFrames [fragmentZero, fragmentOne] (demoReceiver, [])).map (fun st =>
          (st.2, reassemblyState st.1 54)) =
        some ([LiteLink_Event.message 54 695 [1, 8, 15] 3], some (1, 3)) ∧
      (receiveFrames [fragmentZero, fragmentOne, fragmentOne] (demoReceiver, [])).map
          (fun st => st.2) =
        some [LiteLink_Event.message 54 695 [1, 8, 15] 3,
          LiteLink_Event.message 54 695 [1, 8, 15, 15] 4] ∧
      (receiveFrames [fragmentZero, fragmentOne, fragmentZero] (demoReceiver, [])).map (fun st =>
          (st.2, reassemblyState st.1 54)) =
        some ([LiteLink_Event.message 54 695 [1, 8, 15] 3], some (1, 2)) := by
  refine ⟨?_, ?_, ?_, ?_⟩ <;> decide!

/-! ## C38: the inbound lock after a dropped frame -/

set_option maxRecDepth 100000 in
/-- C38 (defect of the code): the receiver of the scenarios (address 20) is
unlocked, and `LiteLink_SendPacket` of 5 bytes from its service enqueues the
segment (`LL_OK`).  After `LiteLink_InboundMessage` of a frame with a valid CRC
addressed to address 21, which is dropped (`counterror` becomes 1, the FIFO stays
empty), the lock word is `LL_INBOUND_LOCKED`, and the same `LiteLink_SendPacket`
returns `LL_NOT_OK`. -/
theorem LiteLink_InboundMessage_drop_keeps_lock :
    demoReceiver.lock = LL_UNLOCKED ∧
      (LiteLink_SendPacket demoReceiver 54 zeroBuf 10 55 demoData 5).map (fun r => r.2) =
        some LL_OK ∧
      (LiteLink_InboundMessage demoReceiver 0 zeroBuf (listBuf foreignFrame) 17).map (fun r =>
        (r.1.lock, r.1.segments.count, r.2,
          (LiteLink_SendPacket r.1 54 zeroBuf 10 55 demoData 5).map (fun s => s.2))) =
        some (LL_INBOUND_LOCKED, 0, 1, some LL_NOT_OK) := by
  refine ⟨?_, ?_, ?_⟩ <;> decide!

/-! ## C39: a segment for a port without service -/

set_option maxRecDepth 100000 in
/-- C39 (defect of the code): the receiver of the scenarios has services at
ports 0 and 54 only.  A frame with a valid CRC for port 53 of its address is
enqueued by `LiteLink_InboundMessage`; `LiteLink_Process` then gets NULL from
`LiteLink_GetObjectPtr` and writes `service->state` through it, which has no
defined result.  The same holds for a frame for port 63, beyond the 63 entries of
the table.  The frame for port 54 is delivered to the callback of that service. -/
theorem LiteLink_Process_writes_missing_service :
    (LiteLink_InboundMessage demoReceiver 0 zeroBuf (listBuf port53Frame) 17).map (fun r =>
        (r.1.segments.count, (r.1.services.objects 53).isSome,
          (LiteLink_Process r.1 0x5A zeroBuf).isSome)) = some (1, false, false) ∧
      (LiteLink_InboundMessage demoReceiver 0 zeroBuf (listBuf port63Frame) 17).map (fun r =>
        (r.1.segments.count, (LiteLink_Process r.1 0x5A zeroBuf).isSome)) = some (1, false) ∧
      (LiteLink_InboundMessage demoReceiver 0 zeroBuf (listBuf (sentFrame 50 5)) 17).map (fun r =>
        (r.1.segments.count, (LiteLink_Process r.1 0x5A zeroBuf).map (fun p => p.2))) =
        some (1, some [LiteLink_Event.message 54 695 [1, 8, 15, 22, 29] 5]) := by
  rw [sentFrame_50_5]
  refine ⟨?_, ?_, ?_⟩ <;> decide!

/-! ## C35: a frame serialized and parsed again -/

theorem LiteLink_ParserSegment_swap_tail (rnd : Nat) (b : Buf) (i : Nat) (h : 12 ≤ i) :
    LiteLink_ParserSegment_swap rnd b i = b i := by
  unfold LiteLink_ParserSegment_swap swapField16 swapField32 wr16 wr32 setByte
  simp only []
  iterate 11 rw [if_neg (by omega)]

theorem LiteLink_ParserSegment_copy_payload (segment buffer : Buf) (i : Nat)
    (h : i < offset_len (seg_offset segment)) :
    LiteLink_ParserSegment_copy segment buffer (12 + i) = segment (12 + i) := by
  unfold LiteLink_ParserSegment_copy memcpy LITELINK_HEADER_SIZE seg_data bufAt
  rw [if_pos ⟨by omega, by omega⟩]
  congr 1
  omega

theorem LiteLink_ParserSegment_header_bytes (rnd : Nat) (segment buffer : Buf)
    (hseg : ∀ i, i < 12 → segment i < 256) :
    (LiteLink_ParserSegment rnd segment buffer).1 2 = segment 3 ∧
      (LiteLink_ParserSegment rnd segment buffer).1 3 = segment 2 ∧
      (LiteLink_ParserSegment rnd segment buffer).1 4 = segment 5 ∧
      (LiteLink_ParserSegment rnd segment buffer).1 5 = segment 4 ∧
      (LiteLink_ParserSegment rnd segment buffer).1 6 = segment 7 ∧
      (LiteLink_ParserSegment rnd segment buffer).1 7 = segment 6 ∧
      (LiteLink_ParserSegment rnd segment buffer).1 8 = segment 11 ∧
      (LiteLink_ParserSegment rnd segment buffer).1 9 = segment 10 ∧
      (LiteLink_ParserSegment rnd segment buffer).1 10 = segment 9 ∧
      (LiteLink_ParserSegment rnd segment buffer).1 11 = segment 8 := by
  obtain ⟨e2, e3, e4, e5, e6, e7, e8, e9, e10, e11⟩ :=
    LiteLink_ParserSegment_swap_bytes rnd (LiteLink_ParserSegment_copy segment buffer)
  have c (i : Nat) (h : i < 12) := LiteLink_ParserSegment_copy_header segment buffer i h
  have hd : rd16 (LiteLink_ParserSegment_copy segment buffer) 2 = segment 2 + 256 * segment 3 := by
    unfold rd16; rw [c 2 (by omega), c 3 (by omega)]
  have hs : rd16 (LiteLink_ParserSegment_copy segment buffer) 4 = segment 4 + 256 * segment 5 := by
    unfold rd16; rw [c 4 (by omega), c 5 (by omega)]
  have ho : rd16 (LiteLink_ParserSegment_copy segment buffer) 6 = segment 6 + 256 * segment 7 := by
    unfold rd16; rw [c 6 (by omega), c 7 (by omega)]
  have hc : rd32 (LiteLink_ParserSegment_copy segment buffer) 8 =
      segment 8 + 256 * segment 9 + 65536 * segment 10 + 16777216 * segment 11 := by
    unfold rd32; rw [c 8 (by omega), c 9 (by omega), c 10 (by omega), c 11 (by omega)]
  have h2 := hseg 2 (by omega)
  have h3 := hseg 3 (by omega)
  have h4 := hseg 4 (by omega)
  have h5 := hseg 5 (by omega)
  have h6 := hseg 6 (by omega)
  have h7 := hseg 7 (by omega)
  have h8 := hseg 8 (by omega)
  have h9 := hseg 9 (by omega)
  have h10 := hseg 10 (by omega)
  have h11 := hseg 11 (by omega)
  rw [hd, swap16bit_bytes _ _ h2 h3] at e2 e3
  rw [hs, swap16bit_bytes _ _ h4 h5] at e4 e5
  rw [ho, swap16bit_bytes _ _ h6 h7] at e6 e7
  rw [hc, swap32bit_bytes _ _ _ _ h8 h9 h10 h11] at e8 e9 e10 e11
  obtain ⟨g2, g3⟩ := be_bytes16 (segment 2) (segment 3) h2 h3
  obtain ⟨g4, g5⟩ := be_bytes16 (segment 4) (segment 5) h4 h5
  obtain ⟨g6, g7⟩ := be_bytes16 (segment 6) (segment 7) h6 h7
  obtain ⟨g8, g9, g10, g11⟩ := be_bytes (segment 8) (segment 9) (segment 10) (segment 11)
    h8 h9 h10 h11
  refine ⟨?_, ?_, ?_, ?_, ?_, ?_, ?_, ?_, ?_, ?_⟩
  · rw [LiteLink_ParserSegment_byte _ _ _ 2 (by omega), e2, g2]
  · rw [LiteLink_ParserSegment_byte _ _ _ 3 (by omega), e3, g3]
  · rw [LiteLink_ParserSegment_byte _ _ _ 4 (by omega), e4, g4]
  · rw [LiteLink_ParserSegment_byte _ _ _ 5 (by omega), e5, g5]
  · rw [LiteLink_ParserSegment_byte _ _ _ 6 (by omega), e6, g6]
  · rw [LiteLink_ParserSegment_byte _ _ _ 7 (by omega), e7, g7]
  · rw [LiteLink_ParserSegment_byte _ _ _ 8 (by omega), e8, g8]
  · rw [LiteLink_ParserSegment_byte _ _ _ 9 (by omega), e9, g9]
  · rw [LiteLink_ParserSegment_byte _ _ _ 10 (by omega), e10, g10]
  · rw [LiteLink_ParserSegment_byte _ _ _ 11 (by omega), e11, g11]

theorem LiteLink_ParserData_header_words (stack data : Buf) (length : Nat) (hlen : 12 ≤ length)
    (hdata : ∀ i, 2 ≤ i → i < 12 → data i < 256) :
    seg_des (LiteLink_ParserData_swap (LiteLink_ParserData_copy stack data length)) =
        data 3 + 256 * data 2 ∧
      seg_src (LiteLink_ParserData_swap (LiteLink_ParserData_copy stack data length)) =
        data 5 + 256 * data 4 ∧
      seg_offset (LiteLink_ParserData_swap (LiteLink_ParserData_copy stack data length)) =
        data 7 + 256 * data 6 ∧
      seg_ctl (LiteLink_ParserData_swap (LiteLink_ParserData_copy stack data length)) =
        data 11 + 256 * data 10 + 65536 * data 9 + 16777216 * data 8 := by
  obtain ⟨e1, e2, e3, e4, _⟩ :=
    LiteLink_ParserData_swap_fields (LiteLink_ParserData_copy stack data length)
  have c (i : Nat) (h : i < 12) := LiteLink_ParserData_copy_frame stack data length i hlen
    (by omega)
  have r2 : rd16 (LiteLink_ParserData_copy stack data length) 2 = data 2 + 256 * data 3 := by
    unfold rd16; rw [c 2 (by omega), c 3 (by omega)]
  have r4 : rd16 (LiteLink_ParserData_copy stack data length) 4 = data 4 + 256 * data 5 := by
    unfold rd16; rw [c 4 (by omega), c 5 (by omega)]
  have r6 : rd16 (LiteLink_ParserData_copy stack data length) 6 = data 6 + 256 * data 7 := by
    unfold rd16; rw [c 6 (by omega), c 7 (by omega)]
  have r32 : rd32 (LiteLink_ParserData_copy stack data length) 8 =
      data 8 + 256 * data 9 + 65536 * data 10 + 16777216 * data 11 := by
    unfold rd32; rw [c 8 (by omega), c 9 (by omega), c 10 (by omega), c 11 (by omega)]
  rw [e1, e2, e3, e4, r2, r4, r6, r32,
    swap16bit_bytes _ _ (hdata 2 (by omega) (by omega)) (hdata 3 (by omega) (by omega)),
    swap16bit_bytes _ _ (hdata 4 (by omega) (by omega)) (hdata 5 (by omega) (by omega)),
    swap16bit_bytes _ _ (hdata 6 (by omega) (by omega)) (hdata 7 (by omega) (by omega)),
    swap32bit_bytes _ _ _ _ (hdata 8 (by omega) (by omega)) (hdata 9 (by omega) (by omega))
      (hdata 10 (by omega) (by omega)) (hdata 11 (by omega) (by omega))]
  exact ⟨rfl, rfl, rfl, rfl⟩

/-- C35: for every segment in memory whose header bytes are below 256 and whose
payload length `offset.len` is at most 243, whatever `rand()` returns and
whatever the output buffer and the local of the parser held, the frame that
`LiteLink_ParserSegment` produces has `offset.len + 12` bytes and a valid CRC,
and `LiteLink_ParserData` applied to it with that length returns the byte-swapped
copy (the branch taken when the CRC is accepted), a segment whose `des`, `src`,
`offset` and `ctl` words and whose first `offset.len` payload bytes are those of
the original segment. -/
theorem LiteLink_ParserData_ParserSegment (rnd : Nat) (segment buffer stack : Buf)
    (hseg : ∀ i, i < 12 → segment i < 256)
    (hn : offset_len (seg_offset segment) ≤ 243) :
    (LiteLink_ParserSegment rnd segment buffer).2 = offset_len (seg_offset segment) + 12 ∧
      frameCrcValid (LiteLink_ParserSegment rnd segment buffer).1 ∧
      ∃ parsed,
        LiteLink_ParserData stack (LiteLink_ParserSegment rnd segment buffer).1
          (u8 (LiteLink_ParserSegment rnd segment buffer).2) = some parsed ∧
        parsed = LiteLink_ParserData_swap (LiteLink_ParserData_copy stack
          (LiteLink_ParserSegment rnd segment buffer).1
          (u8 (LiteLink_ParserSegment rnd segment buffer).2)) ∧
        seg_des parsed = seg_des segment ∧ seg_src parsed = seg_src segment ∧
        seg_offset parsed = seg_offset segment ∧ seg_ctl parsed = seg_ctl segment ∧
        ∀ i, i < offset_len (seg_offset segment) → seg_data parsed i = seg_data segment i := by
  obtain ⟨f2, f3, f4, f5, f6, f7, f8, f9, f10, f11⟩ :=
    LiteLink_ParserSegment_header_bytes rnd segment buffer hseg
  have hO : seg_offset segment = segment 6 + 256 * segment 7 := rfl
  have h6 := hseg 6 (by omega)
  have h7 := hseg 7 (by omega)
  have hlenS : offset_len (seg_offset segment) = segment 6 := by
    rw [hO]; unfold offset_len; omega
  have hL : (LiteLink_ParserSegment rnd segment buffer).2 = offset_len (seg_offset segment) + 12 := by
    show u16 (offset_len (seg_offset segment) + LITELINK_HEADER_SIZE) = _
    unfold u16 LITELINK_HEADER_SIZE
    omega
  have hu8 : u8 (LiteLink_ParserSegment rnd segment buffer).2 = segment 6 + 12 := by
    rw [hL, hlenS]
    rw [hlenS] at hn
    unfold u8
    omega
  have hbound : ∀ i, 2 ≤ i → i < 12 → (LiteLink_ParserSegment rnd segment buffer).1 i < 256 := by
    intro i h2 h12
    have hcases : i = 2 ∨ i = 3 ∨ i = 4 ∨ i = 5 ∨ i = 6 ∨ i = 7 ∨ i = 8 ∨ i = 9 ∨ i = 10 ∨
        i = 11 := by omega
    rcases hcases with h | h | h | h | h | h | h | h | h | h <;> subst h
    · rw [f2]; exact hseg 3 (by omega)
    · rw [f3]; exact hseg 2 (by omega)
    · rw [f4]; exact hseg 5 (by omega)
    · rw [f5]; exact hseg 4 (by omega)
    · rw [f6]; exact h7
    · rw [f7]; exact h6
    · rw [f8]; exact hseg 11 (by omega)
    · rw [f9]; exact hseg 10 (by omega)
    · rw [f10]; exact hseg 9 (by omega)
    · rw [f11]; exact hseg 8 (by omega)
  have htail : bufAt (LiteLink_ParserSegment rnd segment buffer).1 1 =
      bufAt (LiteLink_ParserSegment_swap rnd (LiteLink_ParserSegment_copy segment buffer)) 1 := by
    funext j
    exact LiteLink_ParserSegment_byte rnd segment buffer (1 + j) (by omega)
  have hcrc : frameCrcValid (LiteLink_ParserSegment rnd segment buffer).1 := by
    show (LiteLink_ParserSegment rnd segment buffer).1 0 =
      LiteLink_CalCrc8 0xFF (bufAt (LiteLink_ParserSegment rnd segment buffer).1 1)
        ((LiteLink_ParserSegment rnd segment buffer).1 7 + 11)
    rw [htail, f7]
    show LiteLink_CalCrc8 0xFF _ (u16 (offset_len (seg_offset segment) + LITELINK_HEADER_SIZE - 1)) = _
    rw [hlenS]
    congr 1
    unfold u16 LITELINK_HEADER_SIZE
    omega
  have hlen12 : 12 ≤ u8 (LiteLink_ParserSegment rnd segment buffer).2 := by
    rw [hu8]; omega
  obtain ⟨w1, w2, w3, w4⟩ := LiteLink_ParserData_header_words stack
    (LiteLink_ParserSegment rnd segment buffer).1
    (u8 (LiteLink_ParserSegment rnd segment buffer).2) hlen12 hbound
  refine ⟨hL, hcrc, _, LiteLink_ParserData_valid stack _ _ hlen12
    (hbound 6 (by omega) (by omega)) (hbound 7 (by omega) (by omega)) hcrc, rfl, ?_, ?_, ?_, ?_, ?_⟩
  · rw [w1, f2, f3]; rfl
  · rw [w2, f4, f5]; rfl
  · rw [w3, f6, f7]; rfl
  · rw [w4, f8, f9, f10, f11]; rfl
  · intro i hi
    show LiteLink_ParserData_swap _ (12 + i) = segment (12 + i)
    rw [(LiteLink_ParserData_swap_fields _).2.2.2.2 (12 + i) (by omega),
      LiteLink_ParserData_copy_frame stack _ _ (12 + i) hlen12 (by rw [hu8]; rw [hlenS] at hi; omega),
      LiteLink_ParserSegment_byte rnd segment buffer (12 + i) (by omega),
      LiteLink_ParserSegment_swap_tail rnd _ (12 + i) (by omega),
      LiteLink_ParserSegment_copy_payload segment buffer i hi]

/-- Witness of `LiteLink_ParserData_ParserSegment`: the segment that
`LiteLink_SendPacket` builds for the 5-byte packet 1, 8, 15, 22, 29 from 10:55 to
20:54 on wlan 1 is serialized into 17 bytes and parsed back with the same header
words and the same five payload bytes. -/
theorem LiteLink_ParserData_ParserSegment_witness :
    (∀ i, i < 12 → listBuf (pushHeader ++ [1, 8, 15, 22, 29]) i < 256) ∧
      offset_len (seg_offset (listBuf (pushHeader ++ [1, 8, 15, 22, 29]))) ≤ 243 ∧
      (LiteLink_ParserSegment 0x5A (listBuf (pushHeader ++ [1, 8, 15, 22, 29])) zeroBuf).2 =
        offset_len (seg_offset (listBuf (pushHeader ++ [1, 8, 15, 22, 29]))) + 12 ∧
      frameCrcValid (LiteLink_ParserSegment 0x5A (listBuf (pushHeader ++ [1, 8, 15, 22, 29]))
        zeroBuf).1 ∧
      ∃ parsed,
        LiteLink_ParserData zeroBuf
          (LiteLink_ParserSegment 0x5A (listBuf (pushHeader ++ [1, 8, 15, 22, 29])) zeroBuf).1
          (u8 (LiteLink_ParserSegment 0x5A (listBuf (pushHeader ++ [1, 8, 15, 22, 29]))
            zeroBuf).2) = some parsed ∧
        parsed = LiteLink_ParserData_swap (LiteLink_ParserData_copy zeroBuf
          (LiteLink_ParserSegment 0x5A (listBuf (pushHeader ++ [1, 8, 15, 22, 29])) zeroBuf).1
          (u8 (LiteLink_ParserSegment 0x5A (listBuf (pushHeader ++ [1, 8, 15, 22, 29]))
            zeroBuf).2)) ∧
        seg_des parsed = seg_des (listBuf (pushHeader ++ [1, 8, 15, 22, 29])) ∧
        seg_src parsed = seg_src (listBuf (pushHeader ++ [1, 8, 15, 22, 29])) ∧
        seg_offset parsed = seg_offset (listBuf (pushHeader ++ [1, 8, 15, 22, 29])) ∧
        seg_ctl parsed = seg_ctl (listBuf (pushHeader ++ [1, 8, 15, 22, 29])) ∧
        ∀ i, i < offset_len (seg_offset (listBuf (pushHeader ++ [1, 8, 15, 22, 29]))) →
          seg_data parsed i = seg_data (listBuf (pushHeader ++ [1, 8, 15, 22, 29])) i :=
  ⟨fun i _ => listBuf_lt _ (by decide) i, by decide,
    LiteLink_ParserData_ParserSegment 0x5A (listBuf (pushHeader ++ [1, 8, 15, 22, 29])) zeroBuf
      zeroBuf (fun i _ => listBuf_lt _ (by decide) i) (by decide)⟩

set_option maxRecDepth 100000 in
/-- C35 (counterexample): a segment with a payload of 244 bytes is serialized by
`LiteLink_ParserSegment` into a frame of 256 bytes; `LiteLink_ParserData` takes
the length as a `uint8_t`, which makes it 0, and a length below 12 has no
defined result. -/
theorem LiteLink_ParserData_payload_244 :
    offset_len (seg_offset longSegment) = 244 ∧
      (LiteLink_ParserSegment 0x5A longSegment zeroBuf).2 = 256 ∧
      u8 (LiteLink_ParserSegment 0x5A longSegment zeroBuf).2 = 0 ∧
      LiteLink_ParserData zeroBuf (LiteLink_ParserSegment 0x5A longSegment zeroBuf).1
        (u8 (LiteLink_ParserSegment 0x5A longSegment zeroBuf).2) = none := by
  refine ⟨by decide!, by decide!, by decide!, ?_⟩
  unfold LiteLink_ParserData
  rw [if_pos (by decide!)]

/-! ## C40: the capacity of the FIFO of `buffer.c` -/

theorem Fifo_CountData_loop_eq (size : Nat) (hsize : size < 65536) (objs : List (List Nat)) :
    ∀ countNode, countNode < size →
      Fifo_CountData_loop size objs countNode =
        if countNode + objs.length < size then countNode + objs.length else 0 := by
  induction objs with
  | nil =>
    intro countNode h
    show countNode = _
    rw [List.length_nil, Nat.add_zero, if_pos h]
  | cons obj rest ih =>
    intro countNode h
    have hu : u16 (countNode + 1) = countNode + 1 := by unfold u16; omega
    show (if u16 (countNode + 1) ≥ size then 0
      else Fifo_CountData_loop size rest (u16 (countNode + 1))) = _
    rw [hu, List.length_cons]
    by_cases hc : countNode + 1 ≥ size
    · rw [if_pos hc, if_neg (by omega)]
    · rw [if_neg hc, ih (countNode + 1) (by omega)]
      by_cases hl : countNode + 1 + rest.length < size
      · rw [if_pos hl, if_pos (by omega)]; omega
      · rw [if_neg hl, if_neg (by omega)]

theorem Fifo_CountData_eq (fifo : Fifo) (h1 : 1 ≤ fifo.size) (hsize : fifo.size < 65536) :
    Fifo_CountData fifo = if fifo.objs.length < fifo.size then fifo.objs.length else 0 := by
  unfold Fifo_CountData
  rw [Fifo_CountData_loop_eq fifo.size hsize fifo.objs 0 (by omega), Nat.zero_add]

theorem Fifo_AddData_accepts (fifo : Fifo) (d : Buf) (length : Nat) (h1 : 1 ≤ fifo.size)
    (hsize : fifo.size < 65536) :
    Fifo_AddData fifo (some d) length =
      ({ size := fifo.size, objs := fifo.objs ++ [bufList d length] }, BUFF_OK) := by
  show (if fifo.size ≤ Fifo_CountData fifo then (fifo, BUFF_NOT_OK) else _) = _
  rw [Fifo_CountData_eq fifo h1 hsize]
  by_cases hl : fifo.objs.length < fifo.size
  · rw [if_pos hl, if_neg (by omega)]
  · rw [if_neg hl, if_neg (by omega)]

set_option maxRecDepth 100000 in
/-- C40 (defect of the code): on the FIFO made by `newFifo(50)`, as `mainApp.c`
makes it, 49 calls of `Fifo_AddData` leave 49 elements and `Fifo_CountData`
returns 49; after the 50th call the FIFO holds 50 elements and `Fifo_CountData`
returns 0; the 51st call, made while the FIFO holds `size` elements, returns
`BUFF_OK` like the 50 before it and the FIFO holds 51 elements.
`Fifo_GetData` then returns the first element added, the byte 1. -/
theorem Fifo_AddData_beyond_size :
    ((Fifo_AddData_run (newFifo 50) (commands 49)).1.objs.length,
        Fifo_CountData (Fifo_AddData_run (newFifo 50) (commands 49)).1) = (49, 49) ∧
      ((Fifo_AddData_run (newFifo 50) (commands 50)).1.objs.length,
        Fifo_CountData (Fifo_AddData_run (newFifo 50) (commands 50)).1) = (50, 0) ∧
      (Fifo_AddData_run (newFifo 50) (commands 51)).2 = List.replicate 51 BUFF_OK ∧
      ((Fifo_AddData_run (newFifo 50) (commands 51)).1.objs.length,
        Fifo_CountData (Fifo_AddData_run (newFifo 50) (commands 51)).1) = (51, 0) ∧
      ((Fifo_GetData (Fifo_AddData_run (newFifo 50) (commands 51)).1 zeroBuf 0).2.2,
        (Fifo_GetData (Fifo_AddData_run (newFifo 50) (commands 51)).1 zeroBuf 0).2.1 0,
        (Fifo_GetData (Fifo_AddData_run (newFifo 50) (commands 51)).1 zeroBuf 0).1.objs.length) =
        ((1, BUFF_OK), 1, 50) := by
  refine ⟨?_, ?_, ?_, ?_, ?_⟩ <;> decide!

end Ufs
